import Mathlib

/-!
# Lightspark rendering context: a shallow embedding

Source: `src/backends/rendering_context.h` and `src/backends/rendering_context.cpp`.

Conventions of the embedding.

* A C++ `float` / `number_t` value is an element of an exact arithmetic carrier.  The
  matrix helpers are written over an arbitrary carrier `α` that only provides the
  operations the code uses (`0`, `1`, `+`, `*`, and for `lsglOrtho` the field operations);
  algebraic laws are assumed only by the theorems that need them.  The chunk geometry of
  `renderpart` is written over `ℚ`.  Rounding, infinities and NaN are not modelled.
* A `uint32_t` value is a natural number; every 32-bit operation that can wrap is
  written with an explicit reduction `u32` (modulo `2 ^ 32`).
* `std::vector` is a `List` whose last element is `back()`.
* Calls on `engineData` are recorded, in order, in an explicit log of `GLCall`s.
* Classes and macros that the two files use but do not define (`MATRIX`,
  `ColorTransformBase`, `CHUNKSIZE`, `CHUNKSIZE_REAL`) are parameters.
-/

namespace Lightspark

/-! ## TransformStack (rendering_context.h:37-65, rendering_context.cpp:56-66) -/

/-- Operations of the classes `MATRIX` and `ColorTransformBase` that the rendering context
calls.  Both classes are declared outside the two source files, so their operations are
parameters of the embedding: `M` is the type of `MATRIX` values, `C` the type of
`ColorTransformBase` values, `α` the type of `float` values. -/
structure MatrixOps (M C α : Type) where
  /-- Source: `MATRIX::multiplyMatrix`, receiver first. -/
  multiplyMatrix : M → M → M
  /-- Source: `ColorTransformBase::multiplyTransform`, receiver first. -/
  multiplyTransform : C → C → C
  /-- Source: `MATRIX::get4DMatrix`: the sixteen floats written to the output array. -/
  get4DMatrix : M → Fin 16 → α
  /-- Source: `MATRIX()`: the default constructed matrix. -/
  identity : M
  /-- Source: `MATRIX::translate(dx, dy)` applied to the receiver. -/
  translate : M → α → α → M
  /-- Source: `MATRIX::scale(sx, sy)` applied to the receiver. -/
  scale : M → α → α → M
  /-- Source: `MATRIX::getTranslateX`. -/
  getTranslateX : M → α
  /-- Source: `MATRIX::getTranslateY`. -/
  getTranslateY : M → α
  /-- Source: `MATRIX::getScaleX`. -/
  getScaleX : M → α
  /-- Source: `MATRIX::getScaleY`. -/
  getScaleY : M → α
  /-- Source: `MATRIX::getRotation`. -/
  getRotation : M → α

/-- The struct `Transform2D`: a matrix, a colour transform and a blend mode
(rendering_context.h:37-50). -/
structure Transform2D (M C B : Type) where
  matrix : M
  colorTransform : C
  blendmode : B
deriving DecidableEq, Repr

/-- The class `TransformStack`: the vector `transforms`, whose last element is the top
(rendering_context.h:52-65). -/
structure TransformStack (M C B : Type) where
  transforms : List (Transform2D M C B)
deriving DecidableEq, Repr

namespace TransformStack

variable {M C B α : Type}

/-- Source: `TransformStack::transform()`: `transforms.back()`; `none` stands for the undefined
behaviour of `back()` on an empty vector. -/
def transform (s : TransformStack M C B) : Option (Transform2D M C B) :=
  s.transforms.getLast?

/-- Source: `TransformStack::frontTransform()`: `transforms.front()`; `none` on an empty vector. -/
def frontTransform (s : TransformStack M C B) : Option (Transform2D M C B) :=
  s.transforms.head?

/-- Source: `TransformStack::push` (rendering_context.cpp:56-66). -/
def push (ops : MatrixOps M C α) (s : TransformStack M C B) (_transform : Transform2D M C B) :
    TransformStack M C B :=
  if !s.transforms.isEmpty then
    match s.transform with
    | some top =>
      let matrix := ops.multiplyMatrix top.matrix _transform.matrix
      let colorTransform := ops.multiplyTransform top.colorTransform _transform.colorTransform
      { transforms := s.transforms ++ [Transform2D.mk matrix colorTransform _transform.blendmode] }
    | none => s -- not reached: `transform()` is defined on a non-empty vector
  else
    { transforms := s.transforms ++ [_transform] }

/-- Source: `TransformStack::pop()`: `transforms.pop_back()`; `none` stands for the undefined
behaviour of `pop_back()` on an empty vector. -/
def pop (s : TransformStack M C B) : Option (TransformStack M C B) :=
  if s.transforms.isEmpty then none else some { transforms := s.transforms.dropLast }

end TransformStack

/-- A concrete instance of the `MATRIX` interface used to evaluate the stack on examples:
matrices and colour transforms are integers and composition is multiplication. -/
def intOps : MatrixOps Int Int Int where
  multiplyMatrix := fun a b => a * b
  multiplyTransform := fun a b => a * b
  get4DMatrix := fun a _ => a
  identity := 1
  translate := fun a _ _ => a
  scale := fun a _ _ => a
  getTranslateX := fun _ => 0
  getTranslateY := fun _ => 0
  getScaleX := fun a => a
  getScaleY := fun a => a
  getRotation := fun _ => 0

/-! ## Matrix emulation (rendering_context.cpp:45-138, 545-550) -/

/-- A `float[16]` array, indexed `0..15`. -/
abbrev Mat4 (α : Type) := Fin 16 → α

/-- The index expression `a + b*4` (or `b*4 + a`) of the multiplication loops, for loop
counters below four. -/
def idx4 (a b : Fin 4) : Fin 16 := ⟨a.val + b.val * 4, by omega⟩

section MatrixDefs

variable {α : Type}

/-- Source: `RenderContext::lsIdentityMatrix` (rendering_context.cpp:47-52). -/
def lsIdentityMatrix [Zero α] [One α] : Mat4 α :=
  ![1, 0, 0, 0,
    0, 1, 0, 0,
    0, 0, 1, 0,
    0, 0, 0, 1]

/-- The innermost loop of `lsglMultMatrixf` (rendering_context.cpp:92-96):
`sum = 0; for k in 0..3: sum += cur[i+k*4]*m[j*4+k]`. -/
def multSum [Zero α] [Add α] [Mul α] (cur m : Mat4 α) (i j : Fin 4) : α :=
  (List.finRange 4).foldl (fun sum k => sum + cur (idx4 i k) * m (idx4 k j)) 0

/-- The loop nest of `lsglMultMatrixf` (rendering_context.cpp:87-99), run on the local
array `tmp` whose initial contents are `tmp0`: for `i`, for `j`, `tmp[i+j*4] = sum`. -/
def multLoops [Zero α] [Add α] [Mul α] (tmp0 cur m : Mat4 α) : Mat4 α :=
  (List.finRange 4).foldl
    (fun tmp i => (List.finRange 4).foldl
      (fun tmp j => Function.update tmp (idx4 i j) (multSum cur m i j)) tmp)
    tmp0

/-- The `AS_BLENDMODE` values named in the source file; `BLENDMODE_OTHER` stands for any
value of the enumeration that the file does not name. -/
inductive AS_BLENDMODE where
  | BLENDMODE_NORMAL
  | BLENDMODE_LAYER
  | BLENDMODE_MULTIPLY
  | BLENDMODE_ADD
  | BLENDMODE_SCREEN
  | BLENDMODE_ERASE
  | BLENDMODE_OVERLAY
  | BLENDMODE_HARDLIGHT
  | BLENDMODE_DARKEN
  | BLENDMODE_DIFFERENCE
  | BLENDMODE_LIGHTEN
  | BLENDMODE_OTHER (code : Int)
deriving DecidableEq, Repr

/-- Source: `RenderContext::CONTEXT_TYPE` (rendering_context.h:81). -/
inductive CONTEXT_TYPE where
  | CAIRO
  | GL
deriving DecidableEq, Repr

/-- Source: `GLRenderContext::LSGL_MATRIX` (rendering_context.h:181). -/
inductive LSGL_MATRIX where
  | LSGL_PROJECTION
  | LSGL_MODELVIEW
deriving DecidableEq, Repr

/-- Source: `RenderContext::COLOR_MODE` (rendering_context.h:109). -/
inductive COLOR_MODE where
  | RGB_MODE
  | YUV_MODE
deriving DecidableEq, Repr

/-- The enumeration `SMOOTH_MODE`, with the three values the source file names. -/
inductive SMOOTH_MODE where
  | SMOOTH_NONE
  | SMOOTH_SUBPIXEL
  | SMOOTH_ANTIALIAS
deriving DecidableEq, Repr

/-- The enumeration `VertexAttrib` (rendering_context.h:32). -/
inductive VertexAttrib where
  | VERTEX_ATTRIB
  | COLOR_ATTRIB
  | TEXCOORD_ATTRIB
deriving DecidableEq, Repr

/-- The blend factors passed to `exec_glBlendFunc` in the source file. -/
inductive BLEND_FACTOR where
  | BLEND_ONE
  | BLEND_ZERO
  | BLEND_DST_COLOR
  | BLEND_ONE_MINUS_SRC_ALPHA
  | BLEND_ONE_MINUS_SRC_COLOR
deriving DecidableEq, Repr

/-- One call on `engineData` issued by the matrix, texture and mask code, with its
arguments. -/
inductive GLCall (α : Type) where
  | glUniformMatrix4fv (location : Int) (count : Nat) (transpose : Bool) (value : Mat4 α)
  | glUniform1f (location : Int) (v : α)
  | glUniform1f_blendmode (location : Int) (v : AS_BLENDMODE)
  | glUniform1fv (location : Int) (count : Nat) (v : List α)
  | glUniform4f (location : Int) (v0 v1 v2 v3 : α)
  | glBlendFunc (src dst : BLEND_FACTOR)
  | glTexParameteri_MIN_FILTER_NEAREST
  | glTexParameteri_MAG_FILTER_NEAREST
  | glTexParameteri_MIN_FILTER_LINEAR
  | glTexParameteri_MAG_FILTER_LINEAR
  | glBindTexture_GL_TEXTURE_2D (id : Nat)
  | glVertexAttribPointer_FLOAT_2 (attrib : VertexAttrib) (stride : Nat) (coords : List α)
  | glEnableVertexAttribArray (attrib : VertexAttrib)
  | glDisableVertexAttribArray (attrib : VertexAttrib)
  | glDrawArrays_GL_TRIANGLES (first count : Nat)
  | glEnable_GL_STENCIL_TEST
  | glDisable_GL_STENCIL_TEST
  | glStencilFunc_GL_ALWAYS
  | glStencilFunc_GL_EQUAL (ref : Int) (mask : Nat)
  | glStencilOp_GL_KEEP
  | glStencilOp_GL_INCR
  | glStencilOp_GL_DECR
  | glColorMask (r g b a : Bool)
  | glClearStencil (s : Int)
  | glClear_STENCIL

/-- The members of the base class `RenderContext` that the matrix and texture code uses
(rendering_context.h:70-131 and the constructor at rendering_context.cpp:68-73). -/
structure RenderContext (α : Type) where
  lsMVPMatrix : Mat4 α
  inMaskRendering : Bool
  maskActive : Bool
  contextType : CONTEXT_TYPE
  currentShaderBlendMode : AS_BLENDMODE

/-- The class `GLRenderContext` (rendering_context.h:141-218): the base members, its own
members, and `engineData` as the log of the calls made on it (oldest first);
`notImplemented` collects the blend modes reported through `LOG(LOG_NOT_IMPLEMENTED, ..)`.
`inMaskRenderingGL` and `maskActiveGL` are the private members `inMaskRendering` and
`maskActive` of `GLRenderContext` (rendering_context.h:146-147), which hide the members of
the same names that the constructor of the base class initialises. -/
structure GLRenderContext (α : Type) extends RenderContext α where
  maskCount : Int
  inMaskRenderingGL : Bool
  maskActiveGL : Bool
  projectionMatrixUniform : Int
  modelviewMatrixUniform : Int
  yuvUniform : Int
  alphaUniform : Int
  maskUniform : Int
  colortransMultiplyUniform : Int
  colortransAddUniform : Int
  directUniform : Int
  directColorUniform : Int
  blendModeUniform : Int
  filterdataUniform : Int
  largeTextureSize : Nat
  largeTextures : List Nat
  engineData : List (GLCall α)
  notImplemented : List AS_BLENDMODE

namespace RenderContext

/-- Source: `RenderContext::lsglLoadMatrixf` (rendering_context.cpp:75-78). -/
def lsglLoadMatrixf (rc : RenderContext α) (m : Mat4 α) : RenderContext α :=
  { rc with lsMVPMatrix := m }

/-- Source: `RenderContext::lsglLoadIdentity` (rendering_context.cpp:80-83). -/
def lsglLoadIdentity [Zero α] [One α] (rc : RenderContext α) : RenderContext α :=
  rc.lsglLoadMatrixf lsIdentityMatrix

/-- Source: `RenderContext::lsglMultMatrixf` (rendering_context.cpp:85-101).  The local array
`tmp` is uninitialised in the source; the model starts it at zero, and
`multLoops_apply` shows that its initial contents never reach the result. -/
def lsglMultMatrixf [Zero α] [Add α] [Mul α] (rc : RenderContext α) (m : Mat4 α) :
    RenderContext α :=
  let tmp := multLoops (fun _ => 0) rc.lsMVPMatrix m
  { rc with lsMVPMatrix := tmp }

/-- The array `scale` of `lsglScalef` after the three assignments
(rendering_context.cpp:105-110). -/
def scaleMatrix [Zero α] [One α] (scaleX scaleY scaleZ : α) : Mat4 α :=
  Function.update (Function.update (Function.update lsIdentityMatrix 0 scaleX) 5 scaleY)
    10 scaleZ

/-- Source: `RenderContext::lsglScalef` (rendering_context.cpp:103-112). -/
def lsglScalef [Zero α] [One α] [Add α] [Mul α] (rc : RenderContext α)
    (scaleX scaleY scaleZ : α) : RenderContext α :=
  rc.lsglMultMatrixf (scaleMatrix scaleX scaleY scaleZ)

/-- The array `trans` of `lsglTranslatef` after the three assignments
(rendering_context.cpp:116-121). -/
def transMatrix [Zero α] [One α] (translateX translateY translateZ : α) : Mat4 α :=
  Function.update (Function.update (Function.update lsIdentityMatrix 12 translateX)
    13 translateY) 14 translateZ

/-- Source: `RenderContext::lsglTranslatef` (rendering_context.cpp:114-123). -/
def lsglTranslatef [Zero α] [One α] [Add α] [Mul α] (rc : RenderContext α)
    (translateX translateY translateZ : α) : RenderContext α :=
  rc.lsglMultMatrixf (transMatrix translateX translateY translateZ)

/-- The constructor `RenderContext::RenderContext` (rendering_context.cpp:68-73); `mem` is
the indeterminate content of `lsMVPMatrix` before the body runs. -/
def new [Zero α] [One α] (t : CONTEXT_TYPE) (mem : Mat4 α) : RenderContext α :=
  lsglLoadIdentity
    { lsMVPMatrix := mem, inMaskRendering := false, maskActive := false, contextType := t,
      currentShaderBlendMode := AS_BLENDMODE.BLENDMODE_NORMAL }

end RenderContext

namespace GLRenderContext

/-- A member function of the base class called on a `GLRenderContext`. -/
def onBase (f : RenderContext α → RenderContext α) (ctx : GLRenderContext α) :
    GLRenderContext α :=
  { ctx with toRenderContext := f ctx.toRenderContext }

/-- The array `ortho` of `lsglOrtho` after the assignments (rendering_context.cpp:127-135). -/
def orthoMatrix [Field α] (l r b t n f : α) : Mat4 α :=
  let ortho : Mat4 α := fun _ => 0
  let ortho := Function.update ortho 0 (2 / (r - l))
  let ortho := Function.update ortho 5 (2 / (t - b))
  let ortho := Function.update ortho 10 (2 / (n - f))
  let ortho := Function.update ortho 12 (-(r + l) / (r - l))
  let ortho := Function.update ortho 13 (-(t + b) / (t - b))
  let ortho := Function.update ortho 14 (-(f + n) / (f - n))
  Function.update ortho 15 1

/-- Source: `GLRenderContext::lsglOrtho` (rendering_context.cpp:125-138). -/
def lsglOrtho [Field α] (ctx : GLRenderContext α) (l r b t n f : α) : GLRenderContext α :=
  ctx.onBase (fun rc => rc.lsglMultMatrixf (orthoMatrix l r b t n f))

/-- Source: `GLRenderContext::setMatrixUniform` (rendering_context.cpp:545-550). -/
def setMatrixUniform (ctx : GLRenderContext α) (m : LSGL_MATRIX) : GLRenderContext α :=
  let uni := if m = LSGL_MATRIX.LSGL_MODELVIEW then ctx.modelviewMatrixUniform
    else ctx.projectionMatrixUniform
  { ctx with engineData := ctx.engineData ++ [GLCall.glUniformMatrix4fv uni 1 false ctx.lsMVPMatrix] }

/-- The constructor `GLRenderContext::GLRenderContext` (rendering_context.h:186-188).  The
uniform locations are not initialised by the constructor; `loc` gives their indeterminate
values and `mem` the indeterminate initial content of `lsMVPMatrix`. -/
def new [Zero α] [One α] (loc : Int) (mem : Mat4 α) : GLRenderContext α :=
  { toRenderContext := RenderContext.new CONTEXT_TYPE.GL mem
    maskCount := 0
    inMaskRenderingGL := false
    maskActiveGL := false
    projectionMatrixUniform := loc
    modelviewMatrixUniform := loc
    yuvUniform := loc
    alphaUniform := loc
    maskUniform := loc
    colortransMultiplyUniform := loc
    colortransAddUniform := loc
    directUniform := loc
    directColorUniform := loc
    blendModeUniform := loc
    filterdataUniform := loc
    largeTextureSize := 0
    largeTextures := []
    engineData := []
    notImplemented := [] }

end GLRenderContext

/-- The standard orthographic projection matrix, written from the words of the
specification: column-major entries `[0]=2/(r-l)`, `[5]=2/(t-b)`, `[10]=-2/(f-n)`,
`[12]=-(r+l)/(r-l)`, `[13]=-(t+b)/(t-b)`, `[14]=-(f+n)/(f-n)`, `[15]=1`, all others `0`. -/
def standardOrtho [Field α] (l r b t n f : α) : Mat4 α :=
  ![2 / (r - l), 0, 0, 0,
    0, 2 / (t - b), 0, 0,
    0, 0, -2 / (f - n), 0,
    -(r + l) / (r - l), -(t + b) / (t - b), -(f + n) / (f - n), 1]

/-- The column-major matrix product `c * m` written as the specification states it:
entry `i + 4j` is the sum over `k` of `c[i+4k] * m[4j+k]`. -/
def matProduct [Semiring α] (c m : Mat4 α) : Mat4 α :=
  fun e => ∑ k : Fin 4, c (idx4 ⟨e.val % 4, by omega⟩ k) * m (idx4 k ⟨e.val / 4, by omega⟩)

end MatrixDefs

/-! ## Texture chunks and atlas geometry (rendering_context.cpp:254-521) -/

/-- The value of a natural number as a `uint32_t`: reduction modulo `2 ^ 32`. -/
def u32 (n : Nat) : Nat := n % 4294967296

/-- Conversion of a `float` to `uint32_t`: truncation toward zero, then reduction to 32
bits.  A value below zero, whose conversion is undefined in C++, is taken to `0`. -/
def f2u (x : ℚ) : Nat := u32 ⌊x⌋₊

/-- Conversion of a `uint32_t` to `int`. -/
def toInt32 (n : Nat) : Int := if n < 2147483648 then (n : Int) else (n : Int) - 4294967296

/-- The macros `CHUNKSIZE` (side of an atlas block) and `CHUNKSIZE_REAL` (side of the part
of a block that holds content).  They are defined outside the two source files, so their
values are parameters. -/
structure ChunkConsts where
  CHUNKSIZE : Nat
  CHUNKSIZE_REAL : Nat
deriving DecidableEq, Repr

/-- The members of `TextureChunk` that the rendering context reads: the chunk ids
(`chunks`), the index of the large texture, the size in pixels and the content scale and
offset. -/
structure TextureChunk where
  chunks : List Nat
  texId : Nat
  width : Nat
  height : Nat
  xContentScale : ℚ
  yContentScale : ℚ
  xOffset : ℚ
  yOffset : ℚ
deriving DecidableEq, Repr

/-- Modelled from the spec: `TextureChunk::getNumberOfChunks`, which the source files call
but do not define.  The specification gives the invariant
`numberOfChunks == ceil(width/CHUNKSIZE) * ceil(height/CHUNKSIZE)`; `C` is the chunk size. -/
def TextureChunk.getNumberOfChunks (C : Nat) (chunk : TextureChunk) : Nat :=
  ⌈(chunk.width : ℚ) / (C : ℚ)⌉₊ * ⌈(chunk.height : ℚ) / (C : ℚ)⌉₊

/-- The right-hand side of the assertion in `GLRenderContext::renderTextured`
(rendering_context.cpp:314), in `uint32_t` arithmetic:
`((chunk.width+C-1)/C)*((chunk.height+C-1)/C)`. -/
def assertedNumberOfChunks (C : Nat) (chunk : TextureChunk) : Nat :=
  u32 ((u32 (chunk.width + C - 1) / u32 C) * (u32 (chunk.height + C - 1) / u32 C))

/-- The fields of `ColorTransformBase` read by `setupRenderingState`. -/
structure ColorTransformBase where
  redMultiplier : ℚ
  greenMultiplier : ℚ
  blueMultiplier : ℚ
  alphaMultiplier : ℚ
  redOffset : ℚ
  greenOffset : ℚ
  blueOffset : ℚ
  alphaOffset : ℚ
deriving DecidableEq, Repr

/-- The fields of `RGB` read by `renderTextured`. -/
structure RGB where
  Red : Nat
  Green : Nat
  Blue : Nat
deriving DecidableEq, Repr

/-- The fields of `Rectangle` read by `renderTextured`. -/
structure Rectangle where
  x : ℚ
  y : ℚ
  width : ℚ
  height : ℚ
deriving DecidableEq, Repr

/-- The local `blockX` of `renderpart` (rendering_context.cpp:450). -/
def blockX (blocksPerSide CHUNKSIZE curChunkId : Nat) : Nat :=
  u32 ((curChunkId % blocksPerSide) * CHUNKSIZE)

/-- The local `blockY` of `renderpart` (rendering_context.cpp:451). -/
def blockY (blocksPerSide CHUNKSIZE curChunkId : Nat) : Nat :=
  u32 ((curChunkId / blocksPerSide) * CHUNKSIZE)

/-- The eight values that `renderpart` computes for one chunk: the texture coordinates
`startU, startV, endU, endV` and the vertex coordinates `startX, startY, endX, endY`. -/
structure Quad where
  startU : ℚ
  startV : ℚ
  endU : ℚ
  endV : ℚ
  startX : ℚ
  startY : ℚ
  endX : ℚ
  endY : ℚ
deriving DecidableEq, Repr

/-- The twelve floats written to `texture_coords` for one quad, in the order of the
writes (rendering_context.cpp:471-503). -/
def Quad.textureFloats (q : Quad) : List ℚ :=
  [q.startU, q.startV, q.endU, q.startV, q.endU, q.endV,
   q.startU, q.startV, q.endU, q.endV, q.startU, q.endV]

/-- The twelve floats written to `vertex_coords` for one quad, in the order of the
writes (rendering_context.cpp:471-503). -/
def Quad.vertexFloats (q : Quad) : List ℚ :=
  [q.startX, q.startY, q.endX, q.startY, q.endX, q.endY,
   q.startX, q.startY, q.endX, q.endY, q.startX, q.endY]

/-- The texture coordinates of the quad of chunk `curChunkId`
(rendering_context.cpp:450-461): `(startU, startV, endU, endV)`. -/
def quadTexture (largeTextureSize CHUNKSIZE curChunkId : Nat) (startULeft startVtop : ℚ)
    (availX availY : Nat) : ℚ × ℚ × ℚ × ℚ :=
  let blocksPerSide := largeTextureSize / CHUNKSIZE
  let bX := blockX blocksPerSide CHUNKSIZE curChunkId
  let bY := blockY blocksPerSide CHUNKSIZE curChunkId
  let startU := (((u32 (bX + 1) : Nat) : ℚ) + startULeft) / (largeTextureSize : ℚ)
  let startV := (((u32 (bY + 1) : Nat) : ℚ) + startVtop) / (largeTextureSize : ℚ)
  let endU := ((u32 (bX + availX + 1) : Nat) : ℚ) / (largeTextureSize : ℚ)
  let endV := ((u32 (bY + availY + 1) : Nat) : ℚ) / (largeTextureSize : ℚ)
  (startU, startV, endU, endV)

/-- The local variables of `renderpart` that change while the two loops run.  The arrays
`vertex_coords` and `texture_coords` are the lists of the floats written so far, so the
write index `k` is their length. -/
structure PartState where
  curChunk : Nat
  chunkrendercount : Nat
  vertex_coords : List ℚ
  texture_coords : List ℚ
  startULeft : ℚ
  widthtoplace : ℚ
  availXForTexture : Nat
  startX : ℚ
  startVtop : ℚ
  availYForTexture : Nat
  startY : ℚ
  heighttoplace : ℚ
deriving DecidableEq, Repr

/-- One iteration of the inner loop of `renderpart` (rendering_context.cpp:447-509).
`none` stands for undefined behaviour: a read of `chunk.chunks` past its end, or the
division by `blocksPerSide == 0`. -/
def renderpartColumn (cs : ChunkConsts) (largeTextureSize : Nat) (chunk : TextureChunk)
    (realchunkwidth leftstart : ℚ) (availY : Nat) (endY : ℚ)
    (st : PartState) (_j : Nat) : Option PartState :=
  let blocksPerSide := largeTextureSize / cs.CHUNKSIZE
  match chunk.chunks[st.curChunk]? with
  | none => none
  | some curChunkId =>
    if blocksPerSide = 0 then none
    else
      let availX := min st.availXForTexture (u32 cs.CHUNKSIZE_REAL)
      let availXForTexture := st.availXForTexture - availX
      let tex := quadTexture largeTextureSize cs.CHUNKSIZE curChunkId st.startULeft st.startVtop
        availX availY
      let widthconsumed : ℚ :=
        if st.startULeft ≠ 0 ∧ realchunkwidth + leftstart > (cs.CHUNKSIZE_REAL : ℚ) then
          min ((cs.CHUNKSIZE_REAL : ℚ) - leftstart) (cs.CHUNKSIZE_REAL : ℚ)
        else
          min st.widthtoplace (cs.CHUNKSIZE_REAL : ℚ)
      let endX := st.startX + widthconsumed / chunk.xContentScale
      let q : Quad := {
        startU := tex.1, startV := tex.2.1, endU := tex.2.2.1, endV := tex.2.2.2,
        startX := st.startX, startY := st.startY, endX := endX, endY := endY }
      some { st with
        availXForTexture := availXForTexture
        widthtoplace := st.widthtoplace - widthconsumed
        texture_coords := st.texture_coords ++ q.textureFloats
        vertex_coords := st.vertex_coords ++ q.vertexFloats
        curChunk := u32 (st.curChunk + 1)
        chunkrendercount := u32 (st.chunkrendercount + 1)
        startULeft := 0
        startX := endX }

/-- One iteration of the outer loop of `renderpart` (rendering_context.cpp:431-513). -/
def renderpartRow (cs : ChunkConsts) (largeTextureSize : Nat) (chunk : TextureChunk)
    (realchunkwidth realchunkheight leftstart topstart tx : ℚ)
    (firstchunkhorizontal lastchunkhorizontal chunkskiphorizontal : Nat)
    (st : PartState) (_i : Nat) : Option PartState :=
  let heightconsumed : ℚ :=
    if st.startVtop ≠ 0 ∧ realchunkheight + topstart > (cs.CHUNKSIZE_REAL : ℚ) then
      min ((cs.CHUNKSIZE_REAL : ℚ) - topstart) (cs.CHUNKSIZE_REAL : ℚ)
    else
      min st.heighttoplace (cs.CHUNKSIZE_REAL : ℚ)
  let endY := st.startY + heightconsumed / chunk.yContentScale
  let availY := min st.availYForTexture (u32 cs.CHUNKSIZE_REAL)
  let st1 : PartState := { st with
    heighttoplace := st.heighttoplace - heightconsumed
    startULeft := leftstart
    widthtoplace := realchunkwidth
    availXForTexture := f2u (realchunkwidth + leftstart)
    startX := tx
    availYForTexture := st.availYForTexture - availY }
  match (List.range' firstchunkhorizontal (lastchunkhorizontal - firstchunkhorizontal)).foldlM
      (renderpartColumn cs largeTextureSize chunk realchunkwidth leftstart availY endY) st1 with
  | none => none
  | some st2 =>
    some { st2 with
      curChunk := u32 (st2.curChunk + chunkskiphorizontal)
      startVtop := 0
      startY := endY }

/-- What the geometry part of `renderpart` leaves behind: the two coordinate arrays, the
number of quads and the number of quads the arrays were allocated for. -/
structure PartGeometry where
  realchunkcount : Int
  chunkrendercount : Nat
  vertex_coords : List ℚ
  texture_coords : List ℚ
deriving DecidableEq, Repr

/-- The index computations and the two loops of `renderpart`
(rendering_context.cpp:405-513). -/
def renderpartGeometry (cs : ChunkConsts) (largeTextureSize : Nat) (chunk : TextureChunk)
    (cropleft croptop cropwidth cropheight tx ty : ℚ) : Option PartGeometry :=
  let CR : ℚ := (cs.CHUNKSIZE_REAL : ℚ)
  let firstchunkhorizontal := f2u ((⌊cropleft / CR⌋ : ℤ) : ℚ)
  let firstchunkvertical := f2u ((⌊croptop / CR⌋ : ℤ) : ℚ)
  let lastchunkhorizontal := f2u ((cropleft + cropwidth + CR - 1) / CR)
  let lastchunkvertical := f2u ((croptop + cropheight + CR - 1) / CR)
  let horizontalchunks := u32 (chunk.width + cs.CHUNKSIZE_REAL - 1) / u32 cs.CHUNKSIZE_REAL
  let chunkskiphorizontal :=
    u32 (horizontalchunks + 4294967296 - lastchunkhorizontal + firstchunkhorizontal)
  let realchunkcount := toInt32 (u32 (u32 (lastchunkhorizontal + 4294967296 - firstchunkhorizontal)
    * u32 (lastchunkvertical + 4294967296 - firstchunkvertical)))
  let realchunkwidth := cropwidth
  let realchunkheight := cropheight
  let curChunk := u32 (firstchunkhorizontal + firstchunkvertical * horizontalchunks)
  let leftstart := cropleft - ((u32 (firstchunkhorizontal * cs.CHUNKSIZE_REAL) : Nat) : ℚ)
  let topstart := croptop - ((u32 (firstchunkvertical * cs.CHUNKSIZE_REAL) : Nat) : ℚ)
  let st0 : PartState := {
    curChunk := curChunk
    chunkrendercount := 0
    vertex_coords := []
    texture_coords := []
    startULeft := 0
    widthtoplace := 0
    availXForTexture := 0
    startX := 0
    startVtop := topstart
    availYForTexture := f2u (realchunkheight + topstart)
    startY := ty
    heighttoplace := realchunkheight }
  if cs.CHUNKSIZE = 0 ∨ cs.CHUNKSIZE_REAL = 0 then none
  else
    match (List.range' firstchunkvertical (lastchunkvertical - firstchunkvertical)).foldlM
        (renderpartRow cs largeTextureSize chunk realchunkwidth realchunkheight leftstart topstart
          tx firstchunkhorizontal lastchunkhorizontal chunkskiphorizontal) st0 with
    | none => none
    | some st =>
      some { realchunkcount := realchunkcount
             chunkrendercount := st.chunkrendercount
             vertex_coords := st.vertex_coords
             texture_coords := st.texture_coords }

namespace GLRenderContext

variable {M C : Type}

/-- Source: `GLRenderContext::renderpart` (rendering_context.cpp:397-521). -/
def renderpart (ops : MatrixOps M C ℚ) (cs : ChunkConsts) (ctx : GLRenderContext ℚ)
    (matrix : M) (chunk : TextureChunk)
    (cropleft croptop cropwidth cropheight tx ty : ℚ) : Option (GLRenderContext ℚ) :=
  let fmatrix := ops.get4DMatrix matrix
  let ctx1 := ctx.onBase (fun rc => rc.lsglLoadMatrixf fmatrix)
  let ctx2 := ctx1.setMatrixUniform LSGL_MATRIX.LSGL_MODELVIEW
  match renderpartGeometry cs ctx2.largeTextureSize chunk cropleft croptop cropwidth cropheight
      tx ty with
  | none => none
  | some g =>
    some { ctx2 with engineData := ctx2.engineData ++
      [GLCall.glVertexAttribPointer_FLOAT_2 VertexAttrib.VERTEX_ATTRIB 0 g.vertex_coords,
       GLCall.glVertexAttribPointer_FLOAT_2 VertexAttrib.TEXCOORD_ATTRIB 0 g.texture_coords,
       GLCall.glEnableVertexAttribArray VertexAttrib.VERTEX_ATTRIB,
       GLCall.glEnableVertexAttribArray VertexAttrib.TEXCOORD_ATTRIB,
       GLCall.glDrawArrays_GL_TRIANGLES 0 (u32 (g.chunkrendercount * 6)),
       GLCall.glDisableVertexAttribArray VertexAttrib.VERTEX_ATTRIB,
       GLCall.glDisableVertexAttribArray VertexAttrib.TEXCOORD_ATTRIB] }

/-- The blend function that `setupRenderingState` selects for a blend mode; `none` for the
modes that reach the `default` label (rendering_context.cpp:257-282). -/
def blendFuncFor (blendmode : AS_BLENDMODE) : Option (BLEND_FACTOR × BLEND_FACTOR) :=
  match blendmode with
  | AS_BLENDMODE.BLENDMODE_NORMAL => some (BLEND_FACTOR.BLEND_ONE, BLEND_FACTOR.BLEND_ONE_MINUS_SRC_ALPHA)
  | AS_BLENDMODE.BLENDMODE_LAYER => some (BLEND_FACTOR.BLEND_ONE, BLEND_FACTOR.BLEND_ONE_MINUS_SRC_ALPHA)
  | AS_BLENDMODE.BLENDMODE_MULTIPLY => some (BLEND_FACTOR.BLEND_DST_COLOR, BLEND_FACTOR.BLEND_ONE_MINUS_SRC_ALPHA)
  | AS_BLENDMODE.BLENDMODE_ADD => some (BLEND_FACTOR.BLEND_ONE, BLEND_FACTOR.BLEND_ONE)
  | AS_BLENDMODE.BLENDMODE_SCREEN => some (BLEND_FACTOR.BLEND_ONE, BLEND_FACTOR.BLEND_ONE_MINUS_SRC_COLOR)
  | AS_BLENDMODE.BLENDMODE_ERASE => some (BLEND_FACTOR.BLEND_ZERO, BLEND_FACTOR.BLEND_ONE_MINUS_SRC_ALPHA)
  | AS_BLENDMODE.BLENDMODE_OVERLAY => some (BLEND_FACTOR.BLEND_ONE, BLEND_FACTOR.BLEND_ONE_MINUS_SRC_ALPHA)
  | AS_BLENDMODE.BLENDMODE_HARDLIGHT => some (BLEND_FACTOR.BLEND_ONE, BLEND_FACTOR.BLEND_ONE_MINUS_SRC_ALPHA)
  | _ => none

/-- Source: `GLRenderContext::setupRenderingState` (rendering_context.cpp:254-293). -/
def setupRenderingState (ctx : GLRenderContext ℚ) (alpha : ℚ)
    (colortransform : ColorTransformBase) (smooth : SMOOTH_MODE) (blendmode : AS_BLENDMODE) :
    GLRenderContext ℚ :=
  let calls0 := [GLCall.glUniform1f_blendmode ctx.blendModeUniform blendmode]
  let calls1 := match blendFuncFor blendmode with
    | some (src, dst) => [GLCall.glBlendFunc src dst]
    | none => []
  let notImplemented := match blendFuncFor blendmode with
    | some _ => ctx.notImplemented
    | none => ctx.notImplemented ++ [blendmode]
  let calls2 := if smooth = SMOOTH_MODE.SMOOTH_NONE then
      [GLCall.glTexParameteri_MIN_FILTER_NEAREST, GLCall.glTexParameteri_MAG_FILTER_NEAREST]
    else []
  let calls3 := [
    GLCall.glUniform1f ctx.alphaUniform alpha,
    GLCall.glUniform4f ctx.colortransMultiplyUniform colortransform.redMultiplier
      colortransform.greenMultiplier colortransform.blueMultiplier colortransform.alphaMultiplier,
    GLCall.glUniform4f ctx.colortransAddUniform (colortransform.redOffset / 255)
      (colortransform.greenOffset / 255) (colortransform.blueOffset / 255)
      (colortransform.alphaOffset / 255)]
  { ctx with
    engineData := ctx.engineData ++ calls0 ++ calls1 ++ calls2 ++ calls3
    notImplemented := notImplemented }

/-- Source: `GLRenderContext::isDrawingMask` (rendering_context.h:208), which returns the
private member of `GLRenderContext` (rendering_context.h:146). -/
def isDrawingMask (ctx : GLRenderContext ℚ) : Bool := ctx.inMaskRenderingGL

/-- The condition under which `renderTextured` uses the scaling grid
(rendering_context.cpp:316); `none` is the null pointer. -/
def useScalingGrid (ops : MatrixOps M C ℚ) (chunk : TextureChunk) (matrix : M)
    (scalingGrid : Option Rectangle) : Bool :=
  match scalingGrid with
  | none => false
  | some g =>
    decide (g.width + |g.x| < (chunk.width : ℚ) / chunk.xContentScale) &&
    decide (g.height + |g.y| < (chunk.height : ℚ) / chunk.yContentScale) &&
    decide (ops.getRotation matrix = 0)

/-- The nine `renderpart` calls of the scaling-grid branch of `renderTextured`
(rendering_context.cpp:320-386). -/
def renderScalingGrid (ops : MatrixOps M C ℚ) (cs : ChunkConsts) (ctx : GLRenderContext ℚ)
    (chunk : TextureChunk) (matrix : M) (g : Rectangle) : Option (GLRenderContext ℚ) :=
  let scalex := chunk.xContentScale
  let scaley := chunk.yContentScale
  let leftborder := |g.x|
  let topborder := |g.y|
  let w : ℚ := (chunk.width : ℚ)
  let h : ℚ := (chunk.height : ℚ)
  let rightborder := w / scalex - (leftborder + g.width)
  let bottomborder := h / scaley - (topborder + g.height)
  let scaledleftborder := leftborder * scalex
  let scaledtopborder := topborder * scaley
  let scaledrightborder := w - ((leftborder + g.width) * scalex)
  let scaledbottomborder := h - ((topborder + g.height) * scaley)
  let scaledinnerwidth := w - (scaledrightborder + scaledleftborder)
  let scaledinnerheight := h - (scaledbottomborder + scaledtopborder)
  let innerwidth := w - (scaledrightborder + scaledleftborder)
  let innerheight := h - (scaledbottomborder + scaledtopborder)
  let innerscalex := innerwidth / (w - (scaledrightborder + scaledleftborder) / scalex)
  let innerscaley := innerheight / (h - (scaledbottomborder + scaledtopborder) / scaley)
  let trX := ops.getTranslateX matrix
  let trY := ops.getTranslateY matrix
  let scX := ops.getScaleX matrix
  let scY := ops.getScaleY matrix
  let xRight := trX + (w - rightborder) / scalex * scX + chunk.xOffset
  let yBottom := trY + (h - bottomborder) / scaley * scY + chunk.yOffset
  -- 1) unscaled upper left corner
  let m1 := ops.translate ops.identity (trX + chunk.xOffset) (trY + chunk.yOffset)
  -- 2) unscaled upper right corner
  let m2 := ops.translate ops.identity xRight (trY + chunk.yOffset)
  -- 3) unscaled lower right corner
  let m3 := ops.translate ops.identity xRight yBottom
  -- 4) unscaled lower left corner
  let m4 := ops.translate ops.identity (trX + chunk.xOffset) yBottom
  -- 5) x-scaled upper border
  let m5 := ops.translate (ops.scale ops.identity (scX / innerscalex) 1)
    (trX + leftborder + chunk.xOffset) (trY + chunk.yOffset)
  -- 6) y-scaled right border
  let m6 := ops.translate (ops.scale ops.identity 1 (scY / innerscaley))
    xRight (trY + topborder + chunk.yOffset)
  -- 7) x-scaled bottom border
  let m7 := ops.translate (ops.scale ops.identity (scX / innerscalex) 1)
    (trX + leftborder + chunk.xOffset) yBottom
  -- 8) y-scaled left border
  let m8 := ops.translate (ops.scale ops.identity 1 (scY / innerscaley))
    (trX + chunk.xOffset) (trY + topborder + chunk.yOffset)
  -- 9) scaled center
  let m9 := ops.translate (ops.scale ops.identity (scX / innerscalex) (scY / innerscaley))
    (trX + leftborder + chunk.xOffset) (trY + topborder + chunk.yOffset)
  (renderpart ops cs ctx m1 chunk 0 0 scaledleftborder scaledtopborder 0 0).bind fun c1 =>
  (renderpart ops cs c1 m2 chunk (w - scaledrightborder) 0 scaledrightborder scaledtopborder
    0 0).bind fun c2 =>
  (renderpart ops cs c2 m3 chunk (w - scaledrightborder) (h - scaledbottomborder)
    scaledrightborder scaledbottomborder 0 0).bind fun c3 =>
  (renderpart ops cs c3 m4 chunk 0 (h - scaledbottomborder) scaledleftborder scaledbottomborder
    0 0).bind fun c4 =>
  (renderpart ops cs c4 m5 chunk scaledleftborder 0 (w - (scaledrightborder + scaledleftborder))
    scaledtopborder 0 0).bind fun c5 =>
  (renderpart ops cs c5 m6 chunk (w - scaledrightborder) scaledtopborder scaledrightborder
    scaledinnerheight 0 0).bind fun c6 =>
  (renderpart ops cs c6 m7 chunk scaledleftborder (h - scaledbottomborder) scaledinnerwidth
    scaledbottomborder 0 0).bind fun c7 =>
  (renderpart ops cs c7 m8 chunk 0 scaledtopborder scaledleftborder scaledinnerheight
    0 0).bind fun c8 =>
  renderpart ops cs c8 m9 chunk scaledleftborder scaledtopborder scaledinnerwidth
    scaledinnerheight 0 0

/-- Source: `GLRenderContext::renderTextured` (rendering_context.cpp:294-396).  `none` stands for
the failures of the source: a texture index past the end of `largeTextures`, a failed
assertion, or undefined behaviour inside `renderpart`. -/
def renderTextured (ops : MatrixOps M C ℚ) (cs : ChunkConsts) (ctx : GLRenderContext ℚ)
    (chunk : TextureChunk) (alpha : ℚ) (colorMode : COLOR_MODE)
    (colortransform : ColorTransformBase) (_isMask : Bool) (directMode : ℚ) (directColor : RGB)
    (smooth : SMOOTH_MODE) (matrix : M) (scalingGrid : Option Rectangle)
    (blendmode : AS_BLENDMODE) : Option (GLRenderContext ℚ) :=
  let ctx1 := ctx.setupRenderingState alpha colortransform smooth blendmode
  let ctx2 : GLRenderContext ℚ := { ctx1 with engineData := ctx1.engineData ++
    [GLCall.glUniform1fv ctx1.filterdataUniform 1 [0],
     GLCall.glUniform1f ctx1.maskUniform (if ctx1.isDrawingMask then 1 else 0),
     GLCall.glUniform1f ctx1.yuvUniform (if colorMode = COLOR_MODE.YUV_MODE then 1 else 0),
     GLCall.glUniform1f ctx1.directUniform directMode,
     GLCall.glUniform4f ctx1.directColorUniform ((directColor.Red : ℚ) / 255)
       ((directColor.Green : ℚ) / 255) ((directColor.Blue : ℚ) / 255) 1] }
  match ctx2.largeTextures[chunk.texId]? with
  | none => none
  | some id =>
    let ctx3 : GLRenderContext ℚ :=
      { ctx2 with engineData := ctx2.engineData ++ [GLCall.glBindTexture_GL_TEXTURE_2D id] }
    if chunk.getNumberOfChunks cs.CHUNKSIZE_REAL ≠ assertedNumberOfChunks cs.CHUNKSIZE_REAL chunk
    then none
    else
      let drawn :=
        match scalingGrid, useScalingGrid ops chunk matrix scalingGrid with
        | some g, true => renderScalingGrid ops cs ctx3 chunk matrix g
        | _, _ => renderpart ops cs ctx3 matrix chunk 0 0 (chunk.width : ℚ) (chunk.height : ℚ)
            (chunk.xOffset / chunk.xContentScale) (chunk.yOffset / chunk.yContentScale)
      drawn.map fun ctx4 =>
        if smooth ≠ SMOOTH_MODE.SMOOTH_NONE then
          { ctx4 with engineData := ctx4.engineData ++
            [GLCall.glTexParameteri_MIN_FILTER_LINEAR, GLCall.glTexParameteri_MAG_FILTER_LINEAR] }
        else ctx4

end GLRenderContext

/-- The vertex counts of the `glDrawArrays` calls of a log, oldest first. -/
def drawCounts {α : Type} (log : List (GLCall α)) : List Nat :=
  log.filterMap fun call =>
    match call with
    | GLCall.glDrawArrays_GL_TRIANGLES _ count => some count
    | _ => none

/-- The coordinate arrays handed to `glVertexAttribPointer` for the attribute `attrib`,
oldest first. -/
def coordArrays {α : Type} (attrib : VertexAttrib) (log : List (GLCall α)) : List (List α) :=
  log.filterMap fun call =>
    match call with
    | GLCall.glVertexAttribPointer_FLOAT_2 a _ coords => if a = attrib then some coords else none
    | _ => none

/-- The quad of a chunk that fits in one block, written from the words of the
specification: texture coordinates from `(blockX+1, blockY+1)/largeTextureSize` to
`(blockX+width+1, blockY+height+1)/largeTextureSize`, vertex rectangle from
`(xOffset/xContentScale, yOffset/yContentScale)` with extent
`(width/xContentScale, height/yContentScale)`.  The sums of unsigned values are 32-bit. -/
def singleChunkQuad (cs : ChunkConsts) (largeTextureSize : Nat) (chunk : TextureChunk)
    (c : Nat) : Quad :=
  let bX := blockX (largeTextureSize / cs.CHUNKSIZE) cs.CHUNKSIZE c
  let bY := blockY (largeTextureSize / cs.CHUNKSIZE) cs.CHUNKSIZE c
  { startU := ((u32 (bX + 1) : ℕ) : ℚ) / (largeTextureSize : ℚ)
    startV := ((u32 (bY + 1) : ℕ) : ℚ) / (largeTextureSize : ℚ)
    endU := ((u32 (bX + chunk.width + 1) : ℕ) : ℚ) / (largeTextureSize : ℚ)
    endV := ((u32 (bY + chunk.height + 1) : ℕ) : ℚ) / (largeTextureSize : ℚ)
    startX := chunk.xOffset / chunk.xContentScale
    startY := chunk.yOffset / chunk.yContentScale
    endX := chunk.xOffset / chunk.xContentScale + (chunk.width : ℚ) / chunk.xContentScale
    endY := chunk.yOffset / chunk.yContentScale + (chunk.height : ℚ) / chunk.yContentScale }

/-! ## Properties of the quads written by `renderpart` -/

/-- The expression of `firstchunkhorizontal` and `firstchunkvertical`
(rendering_context.cpp:405-406) for the crop coordinate `crop`. -/
def firstChunk (cs : ChunkConsts) (crop : ℚ) : Nat :=
  f2u ((⌊crop / (cs.CHUNKSIZE_REAL : ℚ)⌋ : ℤ) : ℚ)

/-- The expression of `lastchunkhorizontal` and `lastchunkvertical`
(rendering_context.cpp:407-408) for the crop coordinate `crop` and the crop extent `size`. -/
def lastChunk (cs : ChunkConsts) (crop size : ℚ) : Nat :=
  f2u ((crop + size + (cs.CHUNKSIZE_REAL : ℚ) - 1) / (cs.CHUNKSIZE_REAL : ℚ))

/-- The expression of `horizontalchunks` (rendering_context.cpp:409); the same expression
on the height gives the number of chunk rows. -/
def chunksAcross (cs : ChunkConsts) (extent : Nat) : Nat :=
  u32 (extent + cs.CHUNKSIZE_REAL - 1) / u32 cs.CHUNKSIZE_REAL

/-- A chunk as the atlas allocates it, with sizes in the range the 32-bit arithmetic of
`renderpart` is written for: the macros are positive `int`s, the large texture holds at
least one block, `width + CHUNKSIZE_REAL - 1` and `height + CHUNKSIZE_REAL - 1` do not
wrap, `chunks` has one id for each block of the chunk, and twelve floats for each block
can be counted in an `int`. -/
def TextureChunk.Allocated (cs : ChunkConsts) (largeTextureSize : Nat) (chunk : TextureChunk) :
    Prop :=
  0 < cs.CHUNKSIZE_REAL ∧ cs.CHUNKSIZE_REAL < 2147483648 ∧
  0 < largeTextureSize / cs.CHUNKSIZE ∧
  chunk.width + cs.CHUNKSIZE_REAL - 1 < 4294967296 ∧
  chunk.height + cs.CHUNKSIZE_REAL - 1 < 4294967296 ∧
  chunk.chunks.length = chunksAcross cs chunk.width * chunksAcross cs chunk.height ∧
  chunk.chunks.length * 12 < 2147483648

instance (cs : ChunkConsts) (largeTextureSize : Nat) (chunk : TextureChunk) :
    Decidable (chunk.Allocated cs largeTextureSize) := by
  unfold TextureChunk.Allocated
  infer_instance

/-- A crop rectangle with non-negative size lying inside the chunk. -/
def CropInside (chunk : TextureChunk) (cropleft croptop cropwidth cropheight : ℚ) : Prop :=
  0 ≤ cropleft ∧ 0 ≤ cropwidth ∧ cropleft + cropwidth ≤ (chunk.width : ℚ) ∧
  0 ≤ croptop ∧ 0 ≤ cropheight ∧ croptop + cropheight ≤ (chunk.height : ℚ)

instance (chunk : TextureChunk) (cropleft croptop cropwidth cropheight : ℚ) :
    Decidable (CropInside chunk cropleft croptop cropwidth cropheight) := by
  unfold CropInside
  infer_instance

/-- The quads of one row laid edge to edge from `a` to `b`: the first starts at `x = a`,
each next one starts where the previous one ended, and the last ends at `b` (for an empty
row, `a = b`). -/
def edgeToEdgeX : ℚ → List Quad → ℚ → Prop
  | a, [], b => a = b
  | a, q :: qs, b => q.startX = a ∧ edgeToEdgeX q.endX qs b

/-- The rows of quads laid edge to edge: every row runs from `x = xStart` to `x = xEnd`,
all quads of a row span the same interval in `y`, the first row starts at `y = a`, each
next row starts where the previous one ended, and the last ends at `b`. -/
def rowsEdgeToEdge (xStart xEnd : ℚ) : ℚ → List (List Quad) → ℚ → Prop
  | a, [], b => a = b
  | a, row :: rest, b => ∃ y1 : ℚ, edgeToEdgeX xStart row xEnd ∧
      (∀ q ∈ row, q.startY = a ∧ q.endY = y1) ∧ rowsEdgeToEdge xStart xEnd y1 rest b

/-- The floats of `vertex_coords` for a list of rows of quads, in the order of the writes. -/
def rowsVertexFloats (rows : List (List Quad)) : List ℚ :=
  (rows.flatten.map Quad.vertexFloats).flatten

/-- The floats of `texture_coords` for a list of rows of quads, in the order of the
writes. -/
def rowsTextureFloats (rows : List (List Quad)) : List ℚ :=
  (rows.flatten.map Quad.textureFloats).flatten

/-- The value of `heightconsumed` in an iteration of the outer loop of `renderpart`
(rendering_context.cpp:433-437). -/
def rowHeightConsumed (cs : ChunkConsts) (realchunkheight topstart : ℚ) (st : PartState) : ℚ :=
  if st.startVtop ≠ 0 ∧ realchunkheight + topstart > (cs.CHUNKSIZE_REAL : ℚ) then
    min ((cs.CHUNKSIZE_REAL : ℚ) - topstart) (cs.CHUNKSIZE_REAL : ℚ)
  else
    min st.heighttoplace (cs.CHUNKSIZE_REAL : ℚ)

/-- The local variables of `renderpart` when the inner loop is entered
(rendering_context.cpp:438-446). -/
def rowStart (cs : ChunkConsts) (realchunkwidth realchunkheight leftstart topstart tx : ℚ)
    (st : PartState) : PartState :=
  { st with
    heighttoplace := st.heighttoplace - rowHeightConsumed cs realchunkheight topstart st
    startULeft := leftstart
    widthtoplace := realchunkwidth
    availXForTexture := f2u (realchunkwidth + leftstart)
    startX := tx
    availYForTexture := st.availYForTexture - min st.availYForTexture (u32 cs.CHUNKSIZE_REAL) }

/-! ## The nine regions of the scaling grid (rendering_context.cpp:316-386, 768-887) -/

/-- The local variables that the scaling-grid branches of both `renderTextured` functions
compute under the same names. -/
structure SliceQuantities where
  scaledleftborder : ℚ
  scaledtopborder : ℚ
  scaledrightborder : ℚ
  scaledbottomborder : ℚ
  innerwidth : ℚ
  innerheight : ℚ
  innerscalex : ℚ
  innerscaley : ℚ
deriving DecidableEq, Repr

/-- One `renderpart` call of the scaling-grid branch of `GLRenderContext::renderTextured`:
the matrix `m` and the crop rectangle (tx and ty are 0 in all nine calls). -/
structure GridRegion (M : Type) where
  matrix : M
  cropleft : ℚ
  croptop : ℚ
  cropwidth : ℚ
  cropheight : ℚ

namespace GLRenderContext

variable {M C : Type}

/-- The border quantities of `GLRenderContext::renderTextured`
(rendering_context.cpp:321-336). -/
def sliceQuantities (chunk : TextureChunk) (g : Rectangle) : SliceQuantities :=
  let scalex := chunk.xContentScale
  let scaley := chunk.yContentScale
  let leftborder := |g.x|
  let topborder := |g.y|
  let w : ℚ := (chunk.width : ℚ)
  let h : ℚ := (chunk.height : ℚ)
  let scaledleftborder := leftborder * scalex
  let scaledtopborder := topborder * scaley
  let scaledrightborder := w - ((leftborder + g.width) * scalex)
  let scaledbottomborder := h - ((topborder + g.height) * scaley)
  let innerwidth := w - (scaledrightborder + scaledleftborder)
  let innerheight := h - (scaledbottomborder + scaledtopborder)
  { scaledleftborder := scaledleftborder
    scaledtopborder := scaledtopborder
    scaledrightborder := scaledrightborder
    scaledbottomborder := scaledbottomborder
    innerwidth := innerwidth
    innerheight := innerheight
    innerscalex := innerwidth / (w - (scaledrightborder + scaledleftborder) / scalex)
    innerscaley := innerheight / (h - (scaledbottomborder + scaledtopborder) / scaley) }

/-- The matrix and the crop rectangle of each of the nine `renderpart` calls of the
scaling-grid branch, in the order of the calls (rendering_context.cpp:338-386). -/
def scalingGridRegions (ops : MatrixOps M C ℚ) (chunk : TextureChunk) (matrix : M)
    (g : Rectangle) : List (GridRegion M) :=
  let scalex := chunk.xContentScale
  let scaley := chunk.yContentScale
  let leftborder := |g.x|
  let topborder := |g.y|
  let w : ℚ := (chunk.width : ℚ)
  let h : ℚ := (chunk.height : ℚ)
  let rightborder := w / scalex - (leftborder + g.width)
  let bottomborder := h / scaley - (topborder + g.height)
  let q := sliceQuantities chunk g
  let scaledinnerwidth := w - (q.scaledrightborder + q.scaledleftborder)
  let scaledinnerheight := h - (q.scaledbottomborder + q.scaledtopborder)
  let trX := ops.getTranslateX matrix
  let trY := ops.getTranslateY matrix
  let scX := ops.getScaleX matrix
  let scY := ops.getScaleY matrix
  let xRight := trX + (w - rightborder) / scalex * scX + chunk.xOffset
  let yBottom := trY + (h - bottomborder) / scaley * scY + chunk.yOffset
  [ -- 1) unscaled upper left corner
    { matrix := ops.translate ops.identity (trX + chunk.xOffset) (trY + chunk.yOffset)
      cropleft := 0, croptop := 0
      cropwidth := q.scaledleftborder, cropheight := q.scaledtopborder },
    -- 2) unscaled upper right corner
    { matrix := ops.translate ops.identity xRight (trY + chunk.yOffset)
      cropleft := w - q.scaledrightborder, croptop := 0
      cropwidth := q.scaledrightborder, cropheight := q.scaledtopborder },
    -- 3) unscaled lower right corner
    { matrix := ops.translate ops.identity xRight yBottom
      cropleft := w - q.scaledrightborder, croptop := h - q.scaledbottomborder
      cropwidth := q.scaledrightborder, cropheight := q.scaledbottomborder },
    -- 4) unscaled lower left corner
    { matrix := ops.translate ops.identity (trX + chunk.xOffset) yBottom
      cropleft := 0, croptop := h - q.scaledbottomborder
      cropwidth := q.scaledleftborder, cropheight := q.scaledbottomborder },
    -- 5) x-scaled upper border
    { matrix := ops.translate (ops.scale ops.identity (scX / q.innerscalex) 1)
        (trX + leftborder + chunk.xOffset) (trY + chunk.yOffset)
      cropleft := q.scaledleftborder, croptop := 0
      cropwidth := w - (q.scaledrightborder + q.scaledleftborder)
      cropheight := q.scaledtopborder },
    -- 6) y-scaled right border
    { matrix := ops.translate (ops.scale ops.identity 1 (scY / q.innerscaley))
        xRight (trY + topborder + chunk.yOffset)
      cropleft := w - q.scaledrightborder, croptop := q.scaledtopborder
      cropwidth := q.scaledrightborder, cropheight := scaledinnerheight },
    -- 7) x-scaled bottom border
    { matrix := ops.translate (ops.scale ops.identity (scX / q.innerscalex) 1)
        (trX + leftborder + chunk.xOffset) yBottom
      cropleft := q.scaledleftborder, croptop := h - q.scaledbottomborder
      cropwidth := scaledinnerwidth, cropheight := q.scaledbottomborder },
    -- 8) y-scaled left border
    { matrix := ops.translate (ops.scale ops.identity 1 (scY / q.innerscaley))
        (trX + chunk.xOffset) (trY + topborder + chunk.yOffset)
      cropleft := 0, croptop := q.scaledtopborder
      cropwidth := q.scaledleftborder, cropheight := scaledinnerheight },
    -- 9) scaled center
    { matrix := ops.translate (ops.scale ops.identity (scX / q.innerscalex)
        (scY / q.innerscaley))
        (trX + leftborder + chunk.xOffset) (trY + topborder + chunk.yOffset)
      cropleft := q.scaledleftborder, croptop := q.scaledtopborder
      cropwidth := scaledinnerwidth, cropheight := scaledinnerheight } ]

/-- One `renderpart` call of the scaling-grid branch, for the region `r`. -/
def renderRegion (ops : MatrixOps M C ℚ) (cs : ChunkConsts) (chunk : TextureChunk)
    (ctx : GLRenderContext ℚ) (r : GridRegion M) : Option (GLRenderContext ℚ) :=
  renderpart ops cs ctx r.matrix chunk r.cropleft r.croptop r.cropwidth r.cropheight 0 0

end GLRenderContext

/-- The rectangle that the matrix `m` (without rotation) maps the rectangle
`[0, width] x [0, height]` to, read off the sixteen floats of `get4DMatrix`: the corners
`(startX, startY)` and `(endX, endY)`. -/
def destRect {M C : Type} (ops : MatrixOps M C ℚ) (m : M) (width height : ℚ) : ℚ × ℚ × ℚ × ℚ :=
  let f := ops.get4DMatrix m
  (f 12, f 13, f 12 + f 0 * width, f 13 + f 5 * height)

/-- The destination rectangle of a region of the scaling grid: the region's matrix applied
to the rectangle of size `cropwidth / xContentScale` by `cropheight / yContentScale` that
`renderpart` writes for it. -/
def GridRegion.destRect {M C : Type} (ops : MatrixOps M C ℚ) (chunk : TextureChunk)
    (r : GridRegion M) : ℚ × ℚ × ℚ × ℚ :=
  Lightspark.destRect ops r.matrix (r.cropwidth / chunk.xContentScale)
    (r.cropheight / chunk.yContentScale)

/-- The matrices handed to `glUniformMatrix4fv` in a log, oldest first. -/
def matrixUploads {α : Type} (log : List (GLCall α)) : List (Mat4 α) :=
  log.filterMap fun call =>
    match call with
    | GLCall.glUniformMatrix4fv _ _ _ value => some value
    | _ => none

/-! ## The source surface of the raster backend (rendering_context.cpp:766-893) -/

/-- A C conversion `int(x)` of a floating-point value: truncation toward zero.  Values
outside the range of `int` are not modelled. -/
def f2i (x : ℚ) : Int := if 0 ≤ x then ⌊x⌋ else ⌈x⌉

/-- A C conversion of `ceil(x)` to `uint32_t`, as in the `width` and `height` arguments of
`getCairoSurfaceForData`. -/
def c2u (x : ℚ) : Nat := f2u ((⌈x⌉ : ℤ) : ℚ)

/-- The product of an `int` and a `uint32_t`: the `int` is converted to `uint32_t` and the
product is taken modulo 2^32. -/
def i2uMul (i : Int) (n : Nat) : Nat := u32 ((i % 4294967296).toNat * u32 n)

/-- The sum of a `uint32_t` and an `int`: the `int` is converted to `uint32_t` and the sum
is taken modulo 2^32. -/
def u2iAdd (n : Nat) (i : Int) : Nat := u32 (n + (i % 4294967296).toNat)

/-- A view on the pixel buffer of a chunk, as created by `getCairoSurfaceForData`
(rendering_context.cpp:605-609): the offset of its first byte from `chunk.chunks`, its
width and height, and the stride argument. -/
structure ChunkSurface where
  bytestartpos : Int
  width : Nat
  height : Nat
  stride : Nat
deriving DecidableEq, Repr

/-- The cairo calls issued on the drawing context `cr` while `renderTextured` selects its
source surface. -/
inductive CairoCall where
  | cairo_save
  | cairo_restore
  | cairo_scale (sx sy : ℚ)
  | cairo_set_source_surface (surface : ChunkSurface) (x y : ℚ)
  | cairo_paint_with_alpha (alpha : ℚ)
  | cairo_surface_destroy (surface : ChunkSurface)
deriving DecidableEq, Repr

/-- The values that the scaling-grid branch of `CairoRenderContext::renderTextured` computes
for one region: the byte offset and size of the sub-buffer view, the arguments of
`cairo_scale` and the offsets given to `cairo_set_source_surface`. -/
structure CairoRegion where
  bytestartpos : Int
  width : Nat
  height : Nat
  scaleX : ℚ
  scaleY : ℚ
  xoffset : ℚ
  yoffset : ℚ
deriving DecidableEq, Repr

namespace CairoRenderContext

variable {M C : Type}

/-- The condition under which `CairoRenderContext::renderTextured` uses the scaling grid
(rendering_context.cpp:768); `none` is the null pointer. -/
def useScalingGrid (ops : MatrixOps M C ℚ) (chunk : TextureChunk) (matrix : M)
    (scalingGrid : Option Rectangle) : Bool :=
  match scalingGrid with
  | none => false
  | some g =>
    decide (g.width + |g.x| < (chunk.width : ℚ) / chunk.xContentScale) &&
    decide (g.height + |g.y| < (chunk.height : ℚ) / chunk.yContentScale) &&
    decide (ops.getRotation matrix = 0)

/-- The border quantities of `CairoRenderContext::renderTextured`
(rendering_context.cpp:773-784). -/
def sliceQuantities (chunk : TextureChunk) (g : Rectangle) : SliceQuantities :=
  let scalex := chunk.xContentScale
  let scaley := chunk.yContentScale
  let w : ℚ := (chunk.width : ℚ)
  let h : ℚ := (chunk.height : ℚ)
  let scaledleftborder := g.x * scalex
  let scaledtopborder := g.y * scaley
  let scaledrightborder := w - ((g.x + g.width) * scalex)
  let scaledbottomborder := h - ((g.y + g.height) * scaley)
  let innerwidth := w - (scaledrightborder + scaledleftborder)
  let innerheight := h - (scaledbottomborder + scaledtopborder)
  { scaledleftborder := scaledleftborder
    scaledtopborder := scaledtopborder
    scaledrightborder := scaledrightborder
    scaledbottomborder := scaledbottomborder
    innerwidth := innerwidth
    innerheight := innerheight
    innerscalex := innerwidth / (w - (scaledrightborder + scaledleftborder) / scalex)
    innerscaley := innerheight / (h - (scaledbottomborder + scaledtopborder) / scaley) }

/-- The regions 1 to 8 of the scaling-grid branch of `CairoRenderContext::renderTextured`,
in the order of the source (rendering_context.cpp:786-877). -/
def paintedRegions (chunk : TextureChunk) (g : Rectangle) : List CairoRegion :=
  let scalex := chunk.xContentScale
  let scaley := chunk.yContentScale
  let w : ℚ := (chunk.width : ℚ)
  let h : ℚ := (chunk.height : ℚ)
  let q := sliceQuantities chunk g
  [ -- 1) unscaled upper left corner
    { bytestartpos := 0
      width := c2u q.scaledleftborder, height := c2u q.scaledtopborder
      scaleX := 1 / (scalex * scalex), scaleY := 1 / (scaley * scaley)
      xoffset := 0, yoffset := 0 },
    -- 2) unscaled upper right corner
    { bytestartpos := f2i (((f2i (g.x + g.width) : ℤ) : ℚ) * scalex) * 4
      width := c2u q.scaledrightborder, height := c2u q.scaledtopborder
      scaleX := 1 / (scalex * scalex), scaleY := 1 / (scaley * scaley)
      xoffset := w * scalex - q.scaledrightborder, yoffset := 0 },
    -- 3) unscaled lower right corner
    { bytestartpos := f2i (((i2uMul (f2i ((g.y + g.height) * scaley)) chunk.width : ℕ) : ℚ)
        + ((f2i (g.x + g.width) : ℤ) : ℚ) * scalex) * 4
      width := c2u q.scaledrightborder, height := c2u q.scaledbottomborder
      scaleX := 1 / (scalex * scalex), scaleY := 1 / (scaley * scaley)
      xoffset := w * scalex - q.scaledrightborder
      yoffset := h * scaley - q.scaledbottomborder },
    -- 4) unscaled lower left corner
    { bytestartpos := toInt32 (i2uMul (f2i ((g.y + g.height) * scaley)) chunk.width) * 4
      width := c2u q.scaledleftborder, height := c2u q.scaledbottomborder
      scaleX := 1 / (scalex * scalex), scaleY := 1 / (scaley * scaley)
      xoffset := 0, yoffset := h * scaley - q.scaledbottomborder },
    -- 5) x-scaled upper border
    { bytestartpos := f2i (((f2i g.x : ℤ) : ℚ) * scalex) * 4
      width := c2u q.innerwidth, height := c2u q.scaledtopborder
      scaleX := 1 / (scalex * q.innerscalex), scaleY := 1 / (scaley * scaley)
      xoffset := g.x * q.innerscalex, yoffset := 0 },
    -- 6) y-scaled right border
    { bytestartpos := f2i (((i2uMul (f2i (g.y * scaley)) chunk.width : ℕ) : ℚ)
        + ((f2i (g.x + g.width) : ℤ) : ℚ) * scalex) * 4
      width := c2u q.scaledrightborder, height := c2u q.innerheight
      scaleX := 1 / (scalex * scalex), scaleY := 1 / (scaley * q.innerscaley)
      xoffset := w * scalex - q.scaledrightborder, yoffset := g.y * q.innerscaley },
    -- 7) x-scaled bottom border
    { bytestartpos := f2i (((i2uMul (f2i ((g.y + g.height) * scaley)) chunk.width : ℕ) : ℚ)
        + ((f2i g.x : ℤ) : ℚ) * scalex) * 4
      width := c2u q.innerwidth, height := c2u q.scaledbottomborder
      scaleX := 1 / (scalex * q.innerscalex), scaleY := 1 / (scaley * scaley)
      xoffset := g.x * q.innerscalex, yoffset := h * scaley - q.scaledbottomborder },
    -- 8) y-scaled left border
    { bytestartpos := toInt32 (i2uMul (f2i (g.y * scaley)) chunk.width) * 4
      width := c2u q.scaledrightborder, height := c2u q.innerheight
      scaleX := 1 / (scalex * scalex), scaleY := 1 / (scaley * q.innerscaley)
      xoffset := 0, yoffset := g.y * q.innerscaley } ]

/-- The region 9, the scaled center, of the scaling-grid branch of
`CairoRenderContext::renderTextured` (rendering_context.cpp:879-886). -/
def centerRegion (chunk : TextureChunk) (g : Rectangle) : CairoRegion :=
  let scalex := chunk.xContentScale
  let scaley := chunk.yContentScale
  let q := sliceQuantities chunk g
  { bytestartpos :=
      toInt32 (u2iAdd (i2uMul (f2i (g.y * scaley)) chunk.width) (f2i (g.x * scalex))) * 4
    width := c2u q.innerwidth, height := c2u q.innerheight
    scaleX := 1 / (scalex * q.innerscalex), scaleY := 1 / (scaley * q.innerscaley)
    xoffset := g.x * q.innerscalex, yoffset := g.y * q.innerscaley }

/-- The nine regions of the scaling-grid branch of `CairoRenderContext::renderTextured`, in
the order of the source. -/
def scalingGridRegions (chunk : TextureChunk) (g : Rectangle) : List CairoRegion :=
  paintedRegions chunk g ++ [centerRegion chunk g]

/-- The sub-buffer view of a region: `getCairoSurfaceForData(buf+bytestartpos, width, height,
chunk.width)`. -/
def regionSurface (chunk : TextureChunk) (r : CairoRegion) : ChunkSurface :=
  { bytestartpos := r.bytestartpos, width := r.width, height := r.height, stride := chunk.width }

/-- The calls of one of the regions 1 to 8, which are painted at once
(rendering_context.cpp:787-793 and alike). -/
def paintRegion (chunk : TextureChunk) (alpha : ℚ) (r : CairoRegion) : List CairoCall :=
  [CairoCall.cairo_save,
   CairoCall.cairo_scale r.scaleX r.scaleY,
   CairoCall.cairo_set_source_surface (regionSurface chunk r) r.xoffset r.yoffset,
   CairoCall.cairo_paint_with_alpha alpha,
   CairoCall.cairo_surface_destroy (regionSurface chunk r),
   CairoCall.cairo_restore]

/-- The part of `CairoRenderContext::renderTextured` that selects the source surface
(rendering_context.cpp:766-893): the surfaces created by `getCairoSurfaceForData` in the
order of their creation, the calls issued on `cr`, and the surface left in `chunkSurface`.
With the scaling grid the regions 1 to 8 are painted at once and the center is left as the
source; otherwise the whole chunk is the source. -/
def selectSource (ops : MatrixOps M C ℚ) (chunk : TextureChunk) (alpha : ℚ) (matrix : M)
    (scalingGrid : Option Rectangle) : List ChunkSurface × List CairoCall × ChunkSurface :=
  match scalingGrid, useScalingGrid ops chunk matrix scalingGrid with
  | some g, true =>
    let center := centerRegion chunk g
    ((scalingGridRegions chunk g).map (regionSurface chunk),
     ((paintedRegions chunk g).map (paintRegion chunk alpha)).flatten ++
       [CairoCall.cairo_scale center.scaleX center.scaleY,
        CairoCall.cairo_set_source_surface (regionSurface chunk center)
          center.xoffset center.yoffset],
     regionSurface chunk center)
  | _, _ =>
    let chunkSurface : ChunkSurface :=
      { bytestartpos := 0, width := chunk.width, height := chunk.height,
        stride := chunk.width }
    ([chunkSurface],
     [CairoCall.cairo_scale (1 / chunk.xContentScale) (1 / chunk.yContentScale),
      CairoCall.cairo_set_source_surface chunkSurface 0 0],
     chunkSurface)

end CairoRenderContext

/-- The full destination rectangle of a chunk drawn with `matrix`, written from the words
of the specification: origin `(translateX + xOffset, translateY + yOffset)`, size
`(width / xContentScale) * scaleX` by `(height / yContentScale) * scaleY`; given as the
corners `(startX, startY, endX, endY)`. -/
def claimedDestRect {M C : Type} (ops : MatrixOps M C ℚ) (chunk : TextureChunk) (matrix : M) :
    ℚ × ℚ × ℚ × ℚ :=
  let x0 := ops.getTranslateX matrix + chunk.xOffset
  let y0 := ops.getTranslateY matrix + chunk.yOffset
  (x0, y0, x0 + (chunk.width : ℚ) / chunk.xContentScale * ops.getScaleX matrix,
    y0 + (chunk.height : ℚ) / chunk.yContentScale * ops.getScaleY matrix)

/-- The point `(x, y)` lies in the closed rectangle with corners `(r.1, r.2.1)` and
`(r.2.2.1, r.2.2.2)`. -/
def inRect (x y : ℚ) (r : ℚ × ℚ × ℚ × ℚ) : Prop :=
  r.1 ≤ x ∧ x ≤ r.2.2.1 ∧ r.2.1 ≤ y ∧ y ≤ r.2.2.2

instance (x y : ℚ) (r : ℚ × ℚ × ℚ × ℚ) : Decidable (inRect x y r) := by
  unfold inRect
  infer_instance

/-- The blend functions configured by the `glBlendFunc` calls of a log, oldest first; the last
one is the blend function in force after the log. -/
def blendFuncs {α : Type} (log : List (GLCall α)) : List (BLEND_FACTOR × BLEND_FACTOR) :=
  log.filterMap fun call =>
    match call with
    | GLCall.glBlendFunc src dst => some (src, dst)
    | _ => none

/-- The crop rectangle of a region as `(cropleft, croptop, cropwidth, cropheight)`. -/
def GridRegion.crop {M : Type} (r : GridRegion M) : ℚ × ℚ × ℚ × ℚ :=
  (r.cropleft, r.croptop, r.cropwidth, r.cropheight)

/-- The point `(x, y)` lies in the closed crop rectangle `(left, top, width, height)`. -/
def cropCovers (c : ℚ × ℚ × ℚ × ℚ) (x y : ℚ) : Prop :=
  c.1 ≤ x ∧ x ≤ c.1 + c.2.2.1 ∧ c.2.1 ≤ y ∧ y ≤ c.2.1 + c.2.2.2

/-- The point `(x, y)` lies in the interior of the crop rectangle
`(left, top, width, height)`. -/
def cropInterior (c : ℚ × ℚ × ℚ × ℚ) (x y : ℚ) : Prop :=
  c.1 < x ∧ x < c.1 + c.2.2.1 ∧ c.2.1 < y ∧ y < c.2.1 + c.2.2.2

/-- The byte offset of a region written from the words of the specification:
`(row * chunk.width + col) * 4`, where `(col, row)` is the integer part of the crop origin
`(cropleft, croptop)` that the GPU backend uses for the region. -/
def claimedByteOffset {M : Type} (chunk : TextureChunk) (r : GridRegion M) : Int :=
  (f2i r.croptop * (chunk.width : Int) + f2i r.cropleft) * 4

/-- A chunk whose blocks lie inside the large texture: the side of the texture fits 32
bits, a block holds its `CHUNKSIZE_REAL` texels of content inside a border
(`CHUNKSIZE_REAL < CHUNKSIZE`), and every id of `chunks` is the id of a block of the
texture. -/
def TextureChunk.InAtlas (cs : ChunkConsts) (largeTextureSize : Nat) (chunk : TextureChunk) :
    Prop :=
  largeTextureSize < 4294967296 ∧ cs.CHUNKSIZE_REAL < cs.CHUNKSIZE ∧
  ∀ id ∈ chunk.chunks,
    id < (largeTextureSize / cs.CHUNKSIZE) * (largeTextureSize / cs.CHUNKSIZE)

instance (cs : ChunkConsts) (largeTextureSize : Nat) (chunk : TextureChunk) :
    Decidable (chunk.InAtlas cs largeTextureSize) := by
  unfold TextureChunk.InAtlas
  infer_instance

/-! ## Stencil masks of the GPU backend (rendering_context.cpp:145-247) -/

/-- The bodies of the mask functions of the base class, `RenderContext::pushMask()` and its
five siblings, which the functions of `GLRenderContext` call first.  Neither source file
defines them, so they are parameters: each may change the members of the base class in any
way, and has no access to `maskCount` or `engineData`. -/
structure MaskBase (α : Type) where
  pushMask : RenderContext α → RenderContext α
  popMask : RenderContext α → RenderContext α
  deactivateMask : RenderContext α → RenderContext α
  activateMask : RenderContext α → RenderContext α
  suspendActiveMask : RenderContext α → RenderContext α
  resumeActiveMask : RenderContext α → RenderContext α

/-- The value `UINT32_MAX` passed as the mask of `glStencilFunc`. -/
def UINT32_MAX : Nat := 4294967295

section MaskDefs

variable {α : Type}

/-- The calls of `noMask` (rendering_context.cpp:145-156), for a non-null `engineData`. -/
def noMask (engineData : List (GLCall α)) : List (GLCall α) :=
  engineData ++ [GLCall.glStencilFunc_GL_ALWAYS, GLCall.glStencilOp_GL_KEEP,
    GLCall.glColorMask true true true true]

/-- The calls of `drawMaskStencil` (rendering_context.cpp:158-169), for a non-null
`engineData`. -/
def drawMaskStencil (engineData : List (GLCall α)) : List (GLCall α) :=
  engineData ++ [GLCall.glEnable_GL_STENCIL_TEST, GLCall.glStencilFunc_GL_EQUAL 0 UINT32_MAX,
    GLCall.glStencilOp_GL_INCR, GLCall.glColorMask false false false false]

/-- The calls of `drawMaskedContent` (rendering_context.cpp:171-182), for a non-null
`engineData`. -/
def drawMaskedContent (engineData : List (GLCall α)) : List (GLCall α) :=
  engineData ++ [GLCall.glEnable_GL_STENCIL_TEST, GLCall.glStencilFunc_GL_EQUAL 1 UINT32_MAX,
    GLCall.glStencilOp_GL_KEEP, GLCall.glColorMask true true true true]

/-- The calls of `clearMaskStencil` (rendering_context.cpp:184-195), for a non-null
`engineData`. -/
def clearMaskStencil (engineData : List (GLCall α)) : List (GLCall α) :=
  engineData ++ [GLCall.glEnable_GL_STENCIL_TEST, GLCall.glStencilFunc_GL_EQUAL 1 UINT32_MAX,
    GLCall.glStencilOp_GL_DECR, GLCall.glColorMask false false false false]

namespace GLRenderContext

/-- Source: `GLRenderContext::pushMask` (rendering_context.cpp:197-206).  The counter
`maskCount` is an `int`; it is modelled as an unbounded integer. -/
def pushMask (mb : MaskBase α) (ctx : GLRenderContext α) : GLRenderContext α :=
  let ctx1 := ctx.onBase mb.pushMask
  let ctx2 : GLRenderContext α := { ctx1 with engineData := drawMaskStencil ctx1.engineData }
  let old := ctx2.maskCount
  let ctx3 : GLRenderContext α := { ctx2 with maskCount := old + 1 }
  if old = 0 then
    { ctx3 with engineData := ctx3.engineData ++
        [GLCall.glClearStencil 0, GLCall.glClear_STENCIL] }
  else ctx3

/-- Source: `GLRenderContext::popMask` (rendering_context.cpp:208-217). -/
def popMask (ctx : GLRenderContext α) : GLRenderContext α :=
  let ctx1 : GLRenderContext α := { ctx with maskCount := ctx.maskCount - 1 }
  if ctx1.maskCount = 0 then
    { ctx1 with engineData := noMask (ctx1.engineData ++ [GLCall.glDisable_GL_STENCIL_TEST]) }
  else
    { ctx1 with engineData := drawMaskedContent ctx1.engineData }

/-- Source: `GLRenderContext::deactivateMask` (rendering_context.cpp:219-223). -/
def deactivateMask (mb : MaskBase α) (ctx : GLRenderContext α) : GLRenderContext α :=
  let ctx1 := ctx.onBase mb.deactivateMask
  { ctx1 with engineData := clearMaskStencil ctx1.engineData }

/-- Source: `GLRenderContext::activateMask` (rendering_context.cpp:225-229). -/
def activateMask (mb : MaskBase α) (ctx : GLRenderContext α) : GLRenderContext α :=
  let ctx1 := ctx.onBase mb.activateMask
  { ctx1 with engineData := drawMaskedContent ctx1.engineData }

/-- Source: `GLRenderContext::suspendActiveMask` (rendering_context.cpp:231-238). -/
def suspendActiveMask (mb : MaskBase α) (ctx : GLRenderContext α) : GLRenderContext α :=
  let ctx1 := ctx.onBase mb.suspendActiveMask
  { ctx1 with engineData := ctx1.engineData ++
      [GLCall.glDisable_GL_STENCIL_TEST, GLCall.glStencilFunc_GL_ALWAYS,
       GLCall.glStencilOp_GL_KEEP, GLCall.glColorMask true true true true] }

/-- Source: `GLRenderContext::resumeActiveMask` (rendering_context.cpp:240-247). -/
def resumeActiveMask (mb : MaskBase α) (ctx : GLRenderContext α) : GLRenderContext α :=
  let ctx1 := ctx.onBase mb.resumeActiveMask
  { ctx1 with engineData := ctx1.engineData ++
      [GLCall.glEnable_GL_STENCIL_TEST, GLCall.glStencilFunc_GL_EQUAL 1 UINT32_MAX,
       GLCall.glStencilOp_GL_KEEP, GLCall.glColorMask true true true true] }

end GLRenderContext

/-- The stencil comparison function set by `glStencilFunc`, with its reference value. -/
inductive StencilFunc where
  | ALWAYS
  | EQUAL (ref : Int) (mask : Nat)
deriving DecidableEq, Repr

/-- The stencil operation set by `glStencilOp`. -/
inductive StencilOp where
  | KEEP
  | INCR
  | DECR
deriving DecidableEq, Repr

/-- The part of the GL state that the mask functions configure: whether the stencil test
is enabled, the stencil function, the stencil operation and the colour write mask
(red, green, blue, alpha). -/
structure StencilState where
  stencilTest : Bool
  func : StencilFunc
  op : StencilOp
  colorMask : Bool × Bool × Bool × Bool
deriving DecidableEq, Repr

/-- The state `Off`: stencil test disabled, function ALWAYS, operation KEEP, all four
colour channels writable. -/
def StencilState.off : StencilState :=
  { stencilTest := false, func := StencilFunc.ALWAYS, op := StencilOp.KEEP,
    colorMask := (true, true, true, true) }

/-- The effect of one GL call on the stencil state; calls that do not configure the
stencil test or the colour mask leave it unchanged. -/
def StencilState.apply (s : StencilState) (call : GLCall α) : StencilState :=
  match call with
  | GLCall.glEnable_GL_STENCIL_TEST => { s with stencilTest := true }
  | GLCall.glDisable_GL_STENCIL_TEST => { s with stencilTest := false }
  | GLCall.glStencilFunc_GL_ALWAYS => { s with func := StencilFunc.ALWAYS }
  | GLCall.glStencilFunc_GL_EQUAL ref mask => { s with func := StencilFunc.EQUAL ref mask }
  | GLCall.glStencilOp_GL_KEEP => { s with op := StencilOp.KEEP }
  | GLCall.glStencilOp_GL_INCR => { s with op := StencilOp.INCR }
  | GLCall.glStencilOp_GL_DECR => { s with op := StencilOp.DECR }
  | GLCall.glColorMask r g b a => { s with colorMask := (r, g, b, a) }
  | _ => s

/-- The stencil state reached from `s0` after the calls of a log, oldest first. -/
def stencilAfter (s0 : StencilState) (log : List (GLCall α)) : StencilState :=
  log.foldl StencilState.apply s0

/-- The number of `glClear(STENCIL)` calls in a log. -/
def stencilClears (log : List (GLCall α)) : Nat :=
  (log.filter fun call =>
    match call with
    | GLCall.glClear_STENCIL => true
    | _ => false).length

/-- A call of the mask nesting interface. -/
inductive MaskOp where
  | push
  | pop
deriving DecidableEq, Repr

/-- One call of `pushMask` or `popMask`. -/
def GLRenderContext.maskStep (mb : MaskBase α) (ctx : GLRenderContext α) (o : MaskOp) :
    GLRenderContext α :=
  match o with
  | MaskOp.push => ctx.pushMask mb
  | MaskOp.pop => ctx.popMask

/-- A sequence of `pushMask`/`popMask` calls, run in order. -/
def GLRenderContext.runMaskOps (mb : MaskBase α) (ctx : GLRenderContext α)
    (ops : List MaskOp) : GLRenderContext α :=
  ops.foldl (GLRenderContext.maskStep mb) ctx

/-- The number of `pushMask` calls of a sequence not yet matched by a `popMask`: pushes
minus pops. -/
def unmatchedPushes (ops : List MaskOp) : Int :=
  ops.foldl (fun n o => match o with
    | MaskOp.push => n + 1
    | MaskOp.pop => n - 1) 0

/-- A balanced sequence: every prefix has at least as many pushes as pops, and the totals
are equal. -/
def Balanced (ops : List MaskOp) : Prop :=
  (∀ n : Nat, n ≤ ops.length → 0 ≤ unmatchedPushes (ops.take n)) ∧ unmatchedPushes ops = 0

instance (ops : List MaskOp) : Decidable (Balanced ops) := by
  unfold Balanced
  infer_instance

end MaskDefs

/-- An example of the base-class mask functions: the two flags of the base class follow
the calls. -/
def exampleMaskBase : MaskBase ℚ where
  pushMask := fun rc => { rc with inMaskRendering := true }
  popMask := fun rc => { rc with inMaskRendering := false }
  deactivateMask := fun rc => { rc with maskActive := false }
  activateMask := fun rc => { rc with maskActive := true }
  suspendActiveMask := fun rc => { rc with maskActive := false }
  resumeActiveMask := fun rc => { rc with maskActive := true }

/-! ## The raster backend: drawing contexts, masks and custom surfaces
(rendering_context.cpp:553-747, 753-939) -/

/-- Operations of the class `MATRIX` that only the raster backend uses: the constructor
with six arguments and the members `x0` and `y0`.  `MATRIX` is declared outside the two
source files, so they are parameters. -/
structure CairoMatrixOps (M : Type) where
  /-- Source: `MATRIX(sx, sy, sk0, sk1, tx, ty)`. -/
  make : ℚ → ℚ → ℚ → ℚ → ℚ → ℚ → M
  /-- Source: the member `x0`. -/
  x0 : M → ℚ
  /-- Source: the member `y0`. -/
  y0 : M → ℚ
  /-- Source: an assignment to the member `x0`. -/
  setX0 : M → ℚ → M
  /-- Source: an assignment to the member `y0`. -/
  setY0 : M → ℚ → M

/-- The C function `round`: to the nearest integer, halfway cases away from zero. -/
def cround (x : ℚ) : ℚ :=
  if 0 ≤ x then ((⌊x + 1 / 2⌋ : ℤ) : ℚ) else ((⌈x - 1 / 2⌉ : ℤ) : ℚ)

/-- A cairo surface: a view on pixel data made by `getCairoSurfaceForData`, or an image
surface made by `cairo_image_surface_create`; `serial` numbers the image surfaces in the
order of their creation, so that two of them are never the same object. -/
inductive CairoSurface where
  | forData (view : ChunkSurface)
  | image (serial width height : Nat)
deriving DecidableEq, Repr

/-- A drawing context `cairo_t*`, made by `cairo_create(target)`. -/
structure CairoCtx where
  target : CairoSurface
deriving DecidableEq, Repr

/-- A matrix kept in `masksurfaces`: the `MATRIX` stored by `pushMask`, or the matrix that
`cairo_get_matrix` reads from a drawing context on which `cairo_set_matrix(m)` and then
`cairo_scale(sx, sy)` were called. -/
inductive MaskMatrix (M : Type) where
  | plain (m : M)
  | scaled (m : M) (sx sy : ℚ)
deriving DecidableEq, Repr

/-- The cairo compositing operators that `setupRenderState` selects. -/
inductive CairoOperator where
  | CAIRO_OPERATOR_OVER
  | CAIRO_OPERATOR_MULTIPLY
  | CAIRO_OPERATOR_ADD
  | CAIRO_OPERATOR_SCREEN
  | CAIRO_OPERATOR_DARKEN
  | CAIRO_OPERATOR_DIFFERENCE
  | CAIRO_OPERATOR_HARD_LIGHT
  | CAIRO_OPERATOR_LIGHTEN
  | CAIRO_OPERATOR_OVERLAY
  | CAIRO_OPERATOR_DEST_OUT
deriving DecidableEq, Repr

/-- The antialiasing modes that the raster backend selects. -/
inductive CairoAntialias where
  | CAIRO_ANTIALIAS_NONE
  | CAIRO_ANTIALIAS_SUBPIXEL
  | CAIRO_ANTIALIAS_DEFAULT
deriving DecidableEq, Repr

/-- One cairo call of the raster backend with its arguments; `call cr c` is one of the
calls of `CairoCall` issued on the drawing context `cr`. -/
inductive CairoEvent (M : Type) where
  | call (cr : CairoCtx) (c : CairoCall)
  | cairo_set_operator (cr : CairoCtx) (op : CairoOperator)
  | cairo_set_antialias (cr : CairoCtx) (a : CairoAntialias)
  | cairo_set_matrix (cr : CairoCtx) (m : MaskMatrix M)
  | cairo_mask_surface (cr : CairoCtx) (surface : CairoSurface) (x y : ℚ)
  | cairo_surface_destroy (surface : CairoSurface)
  | cairo_destroy (cr : CairoCtx)

/-- What the raster backend reports through `LOG(LOG_NOT_IMPLEMENTED, ..)`. -/
inductive CairoNotImplemented where
  | colorMode (c : COLOR_MODE)
  | blendMode (b : AS_BLENDMODE)
deriving DecidableEq, Repr

/-- A `TextureChunk` object reached through the pointer `CachedSurface::tex`: its pointer
member `chunks` (`none` is the null pointer); `members` stands for the other members,
which `allocateCustomSurface` does not touch. -/
structure TexObject where
  chunks : Option (List Nat)
  members : Nat
deriving DecidableEq, Repr

/-- The members of `CachedSurface` that `allocateCustomSurface` reads or writes: the pointer
`tex` (`none` is the null pointer) and `isChunkOwner`; `members` stands for the others.  The
class is declared outside the two source files. -/
structure CachedSurface where
  tex : Option TexObject
  isChunkOwner : Bool
  members : Nat
deriving DecidableEq, Repr

/-- The class `CairoRenderContext` with the members that rendering_context.cpp uses:
the base members, the target surface and its size, the list `cr_list` of drawing contexts,
the list `masksurfaces`, the map `customSurfaces` from objects to pairs of a surface and a
drawable (objects and drawables are pointers, given as numbers), the transform stacks of
the base class, the cairo calls made so far (oldest first) and what was reported as not
implemented.  `surfacesCreated` counts the calls of `cairo_image_surface_create`. -/
structure CairoRenderContext (M C : Type) extends RenderContext ℚ where
  transformStacks : List (TransformStack M C AS_BLENDMODE)
  cairoSurface : CairoSurface
  width : Nat
  height : Nat
  cr_list : List CairoCtx
  masksurfaces : List (CairoSurface × MaskMatrix M)
  customSurfaces : Nat → Option (CachedSurface × Nat)
  surfacesCreated : Nat
  events : List (CairoEvent M)
  notImplemented : List CairoNotImplemented

/-- The result of `getCachedSurface`: a reference to the static member `invalidSurface` or
to the surface stored in `customSurfaces`. -/
inductive CachedSurfaceRef where
  | invalidSurface
  | stored (surface : CachedSurface)
deriving DecidableEq, Repr

/-- The arguments of one `renderTextured` call. -/
structure RenderTexturedArgs (M : Type) where
  chunk : TextureChunk
  alpha : ℚ
  colorMode : COLOR_MODE
  colortransform : ColorTransformBase
  isMask : Bool
  directMode : ℚ
  directColor : RGB
  smooth : SMOOTH_MODE
  matrix : M
  scalingGrid : Option Rectangle
  blendmode : AS_BLENDMODE

namespace CairoRenderContext

variable {M C : Type}

/-- Modelled from the spec: `isDrawingMask()` on a `CairoRenderContext`, which
rendering_context.cpp calls (lines 894 and 914) and does not define; the header's inline
body belongs to a revision in which `pushMask` and `popMask` are empty.  The spec lists it
as a query flag; it returns the flag `inMaskRendering` that the constructor of the base
class initialises (rendering_context.cpp:69). -/
def isDrawingMask (ctx : CairoRenderContext M C) : Bool := ctx.inMaskRendering

/-- Modelled from the spec: `isMaskActive()` on a `CairoRenderContext`, which
rendering_context.cpp calls (lines 594 and 900) and does not define.  The spec lists it as
a query flag; it returns the flag `maskActive` that the constructor of the base class
initialises (rendering_context.cpp:69). -/
def isMaskActive (ctx : CairoRenderContext M C) : Bool := ctx.maskActive

/-- A member function of the base class called on a `CairoRenderContext`. -/
def onBase (f : RenderContext ℚ → RenderContext ℚ) (ctx : CairoRenderContext M C) :
    CairoRenderContext M C :=
  { ctx with toRenderContext := f ctx.toRenderContext }

/-- Source: the constructor `CairoRenderContext::CairoRenderContext`
(rendering_context.cpp:553-560); `buf` is the view on the caller's buffer. -/
def new (width height : Nat) (smoothing : Bool) (mem : Mat4 ℚ) : CairoRenderContext M C :=
  let cairoSurface := CairoSurface.forData
    { bytestartpos := 0, width := width, height := height, stride := width }
  let cr : CairoCtx := { target := cairoSurface }
  { toRenderContext := RenderContext.new CONTEXT_TYPE.CAIRO mem
    transformStacks := []
    cairoSurface := cairoSurface
    width := width
    height := height
    cr_list := [cr]
    masksurfaces := []
    customSurfaces := fun _ => none
    surfacesCreated := 0
    events := [CairoEvent.cairo_set_antialias cr
      (if smoothing then CairoAntialias.CAIRO_ANTIALIAS_DEFAULT
       else CairoAntialias.CAIRO_ANTIALIAS_NONE)]
    notImplemented := [] }

/-- Source: `RenderContext::transformStack()` (rendering_context.h:87-92) followed by
`TransformStack::transform()`: a transform stack is created when there is none; `none`
stands for the undefined behaviour of `back()` on an empty vector of transforms. -/
def topTransform (ctx : CairoRenderContext M C) :
    Option (List (TransformStack M C AS_BLENDMODE) × Transform2D M C AS_BLENDMODE) :=
  let tstacks := if ctx.transformStacks.isEmpty then [TransformStack.mk []]
    else ctx.transformStacks
  match tstacks.getLast? with
  | none => none
  | some st =>
    match st.transform with
    | none => none
    | some t => some (tstacks, t)

/-- Source: `CairoRenderContext::pushMask` (rendering_context.cpp:649-657). -/
def pushMask (mb : MaskBase ℚ) (ctx : CairoRenderContext M C) :
    Option (CairoRenderContext M C) :=
  let ctx1 := ctx.onBase mb.pushMask
  match ctx1.topTransform with
  | none => none
  | some (tstacks, t) =>
    let maskSurface := CairoSurface.image ctx1.surfacesCreated ctx1.width ctx1.height
    let cr : CairoCtx := { target := maskSurface }
    some { ctx1 with
      transformStacks := tstacks
      surfacesCreated := ctx1.surfacesCreated + 1
      cr_list := ctx1.cr_list ++ [cr]
      masksurfaces := ctx1.masksurfaces ++ [(maskSurface, MaskMatrix.plain t.matrix)] }

/-- Source: `CairoRenderContext::popMask` (rendering_context.cpp:659-666); `none` stands for
the undefined behaviour of `back()` and `pop_back()` on an empty list. -/
def popMask (mb : MaskBase ℚ) (ctx : CairoRenderContext M C) :
    Option (CairoRenderContext M C) :=
  let ctx1 := ctx.onBase mb.popMask
  match ctx1.masksurfaces.getLast?, ctx1.cr_list.getLast? with
  | some entry, some cr =>
    some { ctx1 with
      events := ctx1.events ++
        [CairoEvent.cairo_surface_destroy entry.1, CairoEvent.cairo_destroy cr]
      masksurfaces := ctx1.masksurfaces.dropLast
      cr_list := ctx1.cr_list.dropLast }
  | _, _ => none

/-- The operator that `setupRenderState` selects for a blend mode; `none` for the modes that
reach the `default` label (rendering_context.cpp:693-731). -/
def operatorFor (blendmode : AS_BLENDMODE) : Option CairoOperator :=
  match blendmode with
  | AS_BLENDMODE.BLENDMODE_NORMAL => some CairoOperator.CAIRO_OPERATOR_OVER
  | AS_BLENDMODE.BLENDMODE_MULTIPLY => some CairoOperator.CAIRO_OPERATOR_MULTIPLY
  | AS_BLENDMODE.BLENDMODE_ADD => some CairoOperator.CAIRO_OPERATOR_ADD
  | AS_BLENDMODE.BLENDMODE_SCREEN => some CairoOperator.CAIRO_OPERATOR_SCREEN
  | AS_BLENDMODE.BLENDMODE_LAYER => some CairoOperator.CAIRO_OPERATOR_OVER
  | AS_BLENDMODE.BLENDMODE_DARKEN => some CairoOperator.CAIRO_OPERATOR_DARKEN
  | AS_BLENDMODE.BLENDMODE_DIFFERENCE => some CairoOperator.CAIRO_OPERATOR_DIFFERENCE
  | AS_BLENDMODE.BLENDMODE_HARDLIGHT => some CairoOperator.CAIRO_OPERATOR_HARD_LIGHT
  | AS_BLENDMODE.BLENDMODE_LIGHTEN => some CairoOperator.CAIRO_OPERATOR_LIGHTEN
  | AS_BLENDMODE.BLENDMODE_OVERLAY => some CairoOperator.CAIRO_OPERATOR_OVERLAY
  | AS_BLENDMODE.BLENDMODE_ERASE => some CairoOperator.CAIRO_OPERATOR_DEST_OUT
  | _ => none

/-- Source: `CairoRenderContext::setupRenderState` (rendering_context.cpp:691-747): the calls
on `cr` and the report for a blend mode without operator. -/
def setupRenderState (cr : CairoCtx) (blendmode : AS_BLENDMODE) (isMask : Bool)
    (smooth : SMOOTH_MODE) : List (CairoEvent M) × List CairoNotImplemented :=
  let (calls0, report) : List (CairoEvent M) × List CairoNotImplemented :=
    match operatorFor blendmode with
    | some op => ([CairoEvent.cairo_set_operator cr op], [])
    | none => ([], [CairoNotImplemented.blendMode blendmode])
  let calls1 : List (CairoEvent M) :=
    if isMask then [CairoEvent.cairo_set_antialias cr CairoAntialias.CAIRO_ANTIALIAS_NONE]
    else
      match smooth with
      | SMOOTH_MODE.SMOOTH_NONE =>
        [CairoEvent.cairo_set_antialias cr CairoAntialias.CAIRO_ANTIALIAS_NONE]
      | SMOOTH_MODE.SMOOTH_SUBPIXEL =>
        [CairoEvent.cairo_set_antialias cr CairoAntialias.CAIRO_ANTIALIAS_SUBPIXEL]
      | SMOOTH_MODE.SMOOTH_ANTIALIAS =>
        [CairoEvent.cairo_set_antialias cr CairoAntialias.CAIRO_ANTIALIAS_DEFAULT]
  (calls0 ++ calls1, report)

/-- The arguments of the last `cairo_scale` call in a list of calls that is not undone by
a `cairo_restore`: the scale that `selectSource` leaves on the drawing context. -/
def sourceScale (ops : MatrixOps M C ℚ) (chunk : TextureChunk) (matrix : M)
    (scalingGrid : Option Rectangle) : ℚ × ℚ :=
  match scalingGrid, useScalingGrid ops chunk matrix scalingGrid with
  | some g, true => ((centerRegion chunk g).scaleX, (centerRegion chunk g).scaleY)
  | _, _ => (1 / chunk.xContentScale, 1 / chunk.yContentScale)

/-- The end of `CairoRenderContext::renderTextured` (rendering_context.cpp:894-916) for
given values of `isDrawingMask()` and `isMaskActive()`: the entry appended to
`masksurfaces` while a mask is drawn, and the calls that paint the source, through every
mask surface when a mask is active. -/
def renderTexturedEnd (drawingMask maskActive : Bool) (cr : CairoCtx) (alpha : ℚ)
    (chunkSurface : ChunkSurface) (maskmatrix : MaskMatrix M)
    (masksurfaces : List (CairoSurface × MaskMatrix M)) :
    List (CairoSurface × MaskMatrix M) × List (CairoEvent M) :=
  let masksurfaces1 :=
    if drawingMask then masksurfaces ++ [(CairoSurface.forData chunkSurface, maskmatrix)]
    else masksurfaces
  let paint : List (CairoEvent M) :=
    if maskActive then
      (masksurfaces1.map fun entry =>
        [CairoEvent.call cr CairoCall.cairo_save,
         CairoEvent.cairo_set_matrix cr entry.2,
         CairoEvent.cairo_mask_surface cr entry.1 0 0,
         CairoEvent.call cr CairoCall.cairo_restore]).flatten
    else [CairoEvent.call cr (CairoCall.cairo_paint_with_alpha alpha)]
  let destroy : List (CairoEvent M) :=
    if !drawingMask then [CairoEvent.cairo_surface_destroy (CairoSurface.forData chunkSurface)]
    else []
  (masksurfaces1, paint ++ destroy ++ [CairoEvent.call cr CairoCall.cairo_restore])

/-- Source: `CairoRenderContext::renderTextured` (rendering_context.cpp:753-917); `none`
stands for the undefined behaviour of `cr_list.back()` on an empty list. -/
def renderTextured (ops : MatrixOps M C ℚ) (cops : CairoMatrixOps M)
    (ctx : CairoRenderContext M C) (a : RenderTexturedArgs M) :
    Option (CairoRenderContext M C) :=
  let report0 : List CairoNotImplemented :=
    if a.colorMode ≠ COLOR_MODE.RGB_MODE then [CairoNotImplemented.colorMode a.colorMode]
    else []
  match ctx.cr_list.getLast? with
  | none => none
  | some cr =>
    let setup : List (CairoEvent M) × List CairoNotImplemented :=
      setupRenderState cr a.blendmode a.isMask a.smooth
    let m0 := ops.multiplyMatrix a.matrix
      (cops.make 1 1 0 0 (a.chunk.xOffset / a.chunk.xContentScale)
        (a.chunk.yOffset / a.chunk.yContentScale))
    let m := if a.smooth = SMOOTH_MODE.SMOOTH_NONE then
        cops.setY0 (cops.setX0 m0 (cround (cops.x0 m0)))
          (cround (cops.y0 (cops.setX0 m0 (cround (cops.x0 m0)))))
      else m0
    let source := selectSource ops a.chunk a.alpha a.matrix a.scalingGrid
    let scale := sourceScale ops a.chunk a.matrix a.scalingGrid
    let fin := renderTexturedEnd ctx.isDrawingMask ctx.isMaskActive cr a.alpha source.2.2
      (MaskMatrix.scaled m scale.1 scale.2) ctx.masksurfaces
    some { ctx with
      notImplemented := ctx.notImplemented ++ report0 ++ setup.2
      masksurfaces := fin.1
      events := ctx.events ++ [CairoEvent.call cr CairoCall.cairo_save] ++ setup.1
        ++ [CairoEvent.cairo_set_matrix cr (MaskMatrix.plain m)]
        ++ source.2.1.map (CairoEvent.call cr) ++ fin.2 }

/-- Source: `CairoRenderContext::getCachedSurface` (rendering_context.cpp:919-928).  The
member function is `const`: it returns a reference and changes no member. -/
def getCachedSurface (ctx : CairoRenderContext M C) (d : Nat) : CachedSurfaceRef :=
  match ctx.customSurfaces d with
  | none => CachedSurfaceRef.invalidSurface
  | some entry => CachedSurfaceRef.stored entry.1

/-- Source: `CairoRenderContext::allocateCustomSurface` (rendering_context.cpp:930-939).
`std::map::insert` adds the pair `(CachedSurface(), drawable)` only when `d` has no entry and
yields the entry of `d` in both cases.  The default constructors `CachedSurface()` and
`TextureChunk()` are declared outside the source files: `freshSurface` and `freshTex` are
the objects they make.  The result is the new context and the surface returned. -/
def allocateCustomSurface (freshSurface : CachedSurface) (freshTex : TexObject)
    (ctx : CairoRenderContext M C) (d : Nat) (drawable : Nat) :
    CairoRenderContext M C × CachedSurface :=
  let entry : CachedSurface × Nat :=
    match ctx.customSurfaces d with
    | none => (freshSurface, drawable)
    | some existing => existing
  let tex : TexObject :=
    match entry.1.tex with
    | none => freshTex
    | some t => t
  let surface : CachedSurface :=
    { entry.1 with tex := some { tex with chunks := none }, isChunkOwner := false }
  ({ ctx with customSurfaces := fun k => if k = d then some (surface, entry.2)
      else ctx.customSurfaces k }, surface)

end CairoRenderContext

/-- One call on a raster context: `pushMask`, `popMask` or `renderTextured`. -/
inductive CairoStep (M : Type) where
  | pushMask
  | popMask
  | renderTextured (a : RenderTexturedArgs M)

namespace CairoRenderContext

variable {M C : Type}

/-- One call of `pushMask`, `popMask` or `renderTextured`. -/
def step (ops : MatrixOps M C ℚ) (cops : CairoMatrixOps M) (mb : MaskBase ℚ)
    (ctx : CairoRenderContext M C) (s : CairoStep M) : Option (CairoRenderContext M C) :=
  match s with
  | CairoStep.pushMask => ctx.pushMask mb
  | CairoStep.popMask => ctx.popMask mb
  | CairoStep.renderTextured a => ctx.renderTextured ops cops a

/-- A sequence of calls, run in order; `none` when one of them has undefined behaviour. -/
def run (ops : MatrixOps M C ℚ) (cops : CairoMatrixOps M) (mb : MaskBase ℚ)
    (ctx : CairoRenderContext M C) (steps : List (CairoStep M)) :
    Option (CairoRenderContext M C) :=
  steps.foldlM (step ops cops mb) ctx

end CairoRenderContext

/-- The number of `pushMask` calls of a sequence of raster calls not yet matched by a
`popMask`. -/
def unmatchedPushMasks {M : Type} (steps : List (CairoStep M)) : Int :=
  steps.foldl (fun n s => match s with
    | CairoStep.pushMask => n + 1
    | CairoStep.popMask => n - 1
    | CairoStep.renderTextured _ => n) 0

/-- A sequence of raster calls whose `pushMask`/`popMask` calls are balanced: every prefix
has at least as many pushes as pops, and the totals are equal. -/
def BalancedSteps {M : Type} (steps : List (CairoStep M)) : Prop :=
  (∀ n : Nat, n ≤ steps.length → 0 ≤ unmatchedPushMasks (steps.take n)) ∧
    unmatchedPushMasks steps = 0

instance {M : Type} (steps : List (CairoStep M)) : Decidable (BalancedSteps steps) := by
  unfold BalancedSteps
  infer_instance

/-- Source: `GLRenderContext::isMaskActive` (rendering_context.h:209), which returns the
private member of `GLRenderContext` (rendering_context.h:147). -/
def GLRenderContext.isMaskActive {α : Type} (ctx : GLRenderContext α) : Bool :=
  ctx.maskActiveGL

/-- A call of the mask lifecycle. -/
inductive MaskCall where
  | pushMask
  | popMask
  | deactivateMask
  | activateMask
  | suspendActiveMask
  | resumeActiveMask
deriving DecidableEq, Repr

/-- One call of the mask lifecycle on a GPU context. -/
def GLRenderContext.maskCall {α : Type} (mb : MaskBase α) (ctx : GLRenderContext α)
    (c : MaskCall) : GLRenderContext α :=
  match c with
  | MaskCall.pushMask => ctx.pushMask mb
  | MaskCall.popMask => ctx.popMask
  | MaskCall.deactivateMask => ctx.deactivateMask mb
  | MaskCall.activateMask => ctx.activateMask mb
  | MaskCall.suspendActiveMask => ctx.suspendActiveMask mb
  | MaskCall.resumeActiveMask => ctx.resumeActiveMask mb

/-- A sequence of mask lifecycle calls, run in order. -/
def GLRenderContext.runMaskCalls {α : Type} (mb : MaskBase α) (ctx : GLRenderContext α)
    (calls : List MaskCall) : GLRenderContext α :=
  calls.foldl (GLRenderContext.maskCall mb) ctx

/-- The change of the number of unmatched `pushMask` calls made by one call. -/
def MaskCall.delta (c : MaskCall) : Int :=
  match c with
  | MaskCall.pushMask => 1
  | MaskCall.popMask => -1
  | _ => 0

/-- The number of `pushMask` calls of a sequence of lifecycle calls not yet matched by a
`popMask`: pushes minus pops. -/
def unmatchedMaskPushes (calls : List MaskCall) : Int :=
  (calls.map MaskCall.delta).sum

/-- A balanced sequence of lifecycle calls: every prefix has at least as many pushes as
pops, and the totals are equal. -/
def BalancedCalls (calls : List MaskCall) : Prop :=
  (∀ n : Nat, n ≤ calls.length → 0 ≤ unmatchedMaskPushes (calls.take n)) ∧
    unmatchedMaskPushes calls = 0

instance (calls : List MaskCall) : Decidable (BalancedCalls calls) := by
  unfold BalancedCalls
  infer_instance

/-! ## Concrete values used to evaluate the definitions -/

/-- An instance of the `MATRIX` interface for evaluating examples: a matrix is a scale
`(sx, sy)` followed by a translation `(tx, ty)`, stored as `(sx, sy, tx, ty)`, and has no
rotation; colour transforms carry no data. -/
def scaleTranslateOps : MatrixOps (ℚ × ℚ × ℚ × ℚ) Unit ℚ where
  multiplyMatrix := fun a b =>
    (a.1 * b.1, a.2.1 * b.2.1, a.1 * b.2.2.1 + a.2.2.1, a.2.1 * b.2.2.2 + a.2.2.2)
  multiplyTransform := fun _ _ => ()
  get4DMatrix := fun a =>
    ![a.1, 0, 0, 0,
      0, a.2.1, 0, 0,
      0, 0, 1, 0,
      a.2.2.1, a.2.2.2, 0, 1]
  identity := (1, 1, 0, 0)
  translate := fun a dx dy => (a.1, a.2.1, a.2.2.1 + dx, a.2.2.2 + dy)
  scale := fun a sx sy => (a.1 * sx, a.2.1 * sy, a.2.2.1, a.2.2.2)
  getTranslateX := fun a => a.2.2.1
  getTranslateY := fun a => a.2.2.2
  getScaleX := fun a => a.1
  getScaleY := fun a => a.2.1
  getRotation := fun _ => 0

/-- Example values of the two macros: blocks of 128 texels holding 126 texels of content. -/
def exampleConsts : ChunkConsts := { CHUNKSIZE := 128, CHUNKSIZE_REAL := 126 }

/-- An example context: freshly constructed, then given one large texture of side 1024
with GL id 7. -/
def exampleContext : GLRenderContext ℚ :=
  { GLRenderContext.new 0 (fun _ => 0) with largeTextureSize := 1024, largeTextures := [7] }

/-- An example chunk of 100 by 50 pixels, content scale 1, stored in atlas block 10. -/
def exampleChunk : TextureChunk :=
  { chunks := [10], texId := 0, width := 100, height := 50,
    xContentScale := 1, yContentScale := 1, xOffset := 0, yOffset := 0 }

/-- An example chunk of 200 by 50 pixels, content scale 1, stored in the two atlas blocks
10 and 11. -/
def wideChunk : TextureChunk :=
  { chunks := [10, 11], texId := 0, width := 200, height := 50,
    xContentScale := 1, yContentScale := 1, xOffset := 0, yOffset := 0 }

/-- An example scaling grid: the rectangle of size 50 by 20 at (10, 10). -/
def exampleGrid : Rectangle := { x := 10, y := 10, width := 50, height := 20 }

/-- An example chunk of 100 by 100 pixels, content scale 1, stored in atlas block 10. -/
def squareChunk : TextureChunk :=
  { chunks := [10], texId := 0, width := 100, height := 100,
    xContentScale := 1, yContentScale := 1, xOffset := 0, yOffset := 0 }

/-- An example scaling grid that leaves a border of 10 on each side of `squareChunk`. -/
def insetGrid : Rectangle := { x := 10, y := 10, width := 80, height := 80 }

/-- An example scaling grid whose origin has negative coordinates. -/
def negativeGrid : Rectangle := { x := -10, y := -5, width := 50, height := 50 }

/-- An example matrix of `scaleTranslateOps`: scale by 2 in both directions, no
translation. -/
def doubleMatrix : ℚ × ℚ × ℚ × ℚ := (2, 2, 0, 0)

/-- An example colour transform: the identity. -/
def exampleColorTransform : ColorTransformBase :=
  { redMultiplier := 1, greenMultiplier := 1, blueMultiplier := 1, alphaMultiplier := 1,
    redOffset := 0, greenOffset := 0, blueOffset := 0, alphaOffset := 0 }

/-- An example scaling grid with a left border of 10 and a right border of 20 on
`squareChunk`. -/
def offsetGrid : Rectangle := { x := 10, y := 10, width := 70, height := 70 }

/-- An example scaling grid of negative width that passes the slicing condition on
`squareChunk`: `-5 + |10| < 100` and `80 + |10| < 100`. -/
def negativeWidthGrid : Rectangle := { x := 10, y := 10, width := -5, height := 80 }

/-- An example chunk of 100 by 100 pixels with horizontal content scale 2. -/
def scaledChunk : TextureChunk :=
  { chunks := [10], texId := 0, width := 100, height := 100,
    xContentScale := 2, yContentScale := 1, xOffset := 0, yOffset := 0 }

/-- An example scaling grid whose left edge is not a whole number. -/
def fractionalGrid : Rectangle := { x := 21 / 2, y := 10, width := 20, height := 20 }

/-- An example raster context: freshly constructed for a buffer of 640 by 480 pixels, with
one transform stack holding the identity transform of `scaleTranslateOps`. -/
def exampleCairoContext : CairoRenderContext (ℚ × ℚ × ℚ × ℚ) Unit :=
  { (CairoRenderContext.new 640 480 false (fun _ => 0) :
      CairoRenderContext (ℚ × ℚ × ℚ × ℚ) Unit) with
    transformStacks := [TransformStack.mk
      [Transform2D.mk scaleTranslateOps.identity () AS_BLENDMODE.BLENDMODE_NORMAL]] }

/-- An example surface descriptor as a default constructor could leave it: no texture. -/
def exampleFreshSurface : CachedSurface := { tex := none, isChunkOwner := true, members := 0 }

/-- An example texture object as a default constructor could leave it. -/
def exampleFreshTex : TexObject := { chunks := none, members := 0 }

/-- The accessors of a cairo matrix for the scale-and-translate matrices of
`scaleTranslateOps`: `(xx, yy, x0, y0)`. -/
def scaleTranslateCairoOps : CairoMatrixOps (ℚ × ℚ × ℚ × ℚ) where
  make := fun xx yy _ _ x0 y0 => (xx, yy, x0, y0)
  x0 := fun m => m.2.2.1
  y0 := fun m => m.2.2.2
  setX0 := fun m v => (m.1, m.2.1, v, m.2.2.2)
  setY0 := fun m v => (m.1, m.2.1, m.2.2.1, v)

/-- Example arguments of `renderTextured`: `exampleChunk` drawn opaque at the origin. -/
def exampleRenderTexturedArgs : RenderTexturedArgs (ℚ × ℚ × ℚ × ℚ) :=
  { chunk := exampleChunk, alpha := 1, colorMode := COLOR_MODE.RGB_MODE,
    colortransform := exampleColorTransform, isMask := false, directMode := 0,
    directColor := RGB.mk 0 0 0, smooth := SMOOTH_MODE.SMOOTH_NONE,
    matrix := scaleTranslateOps.identity, scalingGrid := none,
    blendmode := AS_BLENDMODE.BLENDMODE_NORMAL }

/-- An example sequence of raster calls: a mask opened, one draw, the mask closed. -/
def exampleCairoSteps : List (CairoStep (ℚ × ℚ × ℚ × ℚ)) :=
  [CairoStep.pushMask, CairoStep.renderTextured exampleRenderTexturedArgs, CairoStep.popMask]

/-! ## Theorems -/

section TransformStackTheorems

variable {M C B α : Type}

theorem TransformStack.transform_eq_none_iff (s : TransformStack M C B) :
    s.transform = none ↔ s.transforms = [] := by
  simp [TransformStack.transform]

theorem TransformStack.push_transforms (ops : MatrixOps M C α)
    (s : TransformStack M C B) (t : Transform2D M C B) :
    (s.push ops t).transforms = s.transforms ++
      [match s.transform with
        | none => t
        | some top => Transform2D.mk (ops.multiplyMatrix top.matrix t.matrix)
            (ops.multiplyTransform top.colorTransform t.colorTransform) t.blendmode] := by
  cases hs : s.transform with
  | none =>
    have hnil : s.transforms = [] := (TransformStack.transform_eq_none_iff s).1 hs
    simp [TransformStack.push, TransformStack.transform, hnil]
  | some top =>
    have hne : s.transforms ≠ [] := by
      intro h
      rw [(TransformStack.transform_eq_none_iff s).2 h] at hs
      cases hs
    have hs2 : s.transforms.getLast? = some top := hs
    simp [TransformStack.push, hs2, hne, TransformStack.transform]

/-- C1: `push` appends exactly one entry and leaves the existing ones unchanged; the new
entry is the pushed transform itself on an empty stack, and otherwise the composition of
the old top with it (matrix `top.matrix.multiplyMatrix(t.matrix)`, colour transform
`top.colorTransform.multiplyTransform(t.colorTransform)`, blend mode taken from the pushed
transform alone). -/
theorem TransformStack.push_appends_composed (ops : MatrixOps M C α)
    (s : TransformStack M C B) (t : Transform2D M C B) :
    ∃ e, (s.push ops t).transforms = s.transforms ++ [e] ∧
      (s.push ops t).transforms.length = s.transforms.length + 1 ∧
      (s.push ops t).transforms.take s.transforms.length = s.transforms ∧
      (s.push ops t).transform = some e ∧
      (s.transforms = [] → e = t) ∧
      (∀ top, s.transform = some top →
        e.matrix = ops.multiplyMatrix top.matrix t.matrix ∧
        e.colorTransform = ops.multiplyTransform top.colorTransform t.colorTransform ∧
        e.blendmode = t.blendmode) := by
  refine ⟨_, TransformStack.push_transforms ops s t, ?_, ?_, ?_, ?_, ?_⟩
  · rw [TransformStack.push_transforms]
    simp
  · rw [TransformStack.push_transforms]
    simp
  · simp [TransformStack.transform, TransformStack.push_transforms]
  · intro h
    rw [(TransformStack.transform_eq_none_iff s).2 h]
  · intro top h
    rw [h]
    exact ⟨rfl, rfl, rfl⟩

/-- C2: on a non-empty stack, `push` immediately followed by `pop` is defined and gives
back the original stack: every entry, and in particular the top transform (matrix, colour
transform and blend mode), is the one from before the push. -/
theorem TransformStack.pop_push_restores (ops : MatrixOps M C α)
    (s : TransformStack M C B) (t : Transform2D M C B) (hs : s.transforms ≠ []) :
    (s.push ops t).pop = some s ∧
      ((s.push ops t).pop.bind TransformStack.transform) = s.transform ∧
      s.transform ≠ none := by
  have hpop : (s.push ops t).pop = some s := by
    have he := TransformStack.push_transforms ops s t
    cases s with
    | mk l =>
      simp only [TransformStack.pop, he]
      simp
  refine ⟨hpop, by rw [hpop]; rfl, ?_⟩
  intro h
  exact hs ((TransformStack.transform_eq_none_iff s).1 h)

/-- C2, evaluated: pushing `(5, 7, 1)` on the one-entry stack `[(2, 3, 0)]` and popping. -/
theorem TransformStack.pop_push_restores_witness :
    (TransformStack.mk [Transform2D.mk (2 : Int) (3 : Int) (0 : Int)]).transforms ≠ [] ∧
    (((TransformStack.mk [Transform2D.mk (2 : Int) (3 : Int) (0 : Int)]).push intOps
        (Transform2D.mk 5 7 1)).pop
      = some (TransformStack.mk [Transform2D.mk (2 : Int) (3 : Int) (0 : Int)]) ∧
     (((TransformStack.mk [Transform2D.mk (2 : Int) (3 : Int) (0 : Int)]).push intOps
        (Transform2D.mk 5 7 1)).pop.bind TransformStack.transform)
      = (TransformStack.mk [Transform2D.mk (2 : Int) (3 : Int) (0 : Int)]).transform ∧
     (TransformStack.mk [Transform2D.mk (2 : Int) (3 : Int) (0 : Int)]).transform ≠ none) :=
  ⟨by simp, TransformStack.pop_push_restores intOps _ _ (by simp)⟩

end TransformStackTheorems

section MatrixTheorems

variable {α : Type}

/-! ### Shared lemmas on the multiplication loops -/

theorem idx4_surj (e : Fin 16) :
    e = idx4 ⟨e.val % 4, by omega⟩ ⟨e.val / 4, by omega⟩ := by
  apply Fin.ext
  simp only [idx4]
  omega

theorem forall_idx4 {P : Fin 16 → Prop} (h : ∀ i j : Fin 4, P (idx4 i j)) (e : Fin 16) : P e := by
  rw [idx4_surj e]
  exact h _ _

theorem multLoops_apply [Zero α] [Add α] [Mul α] (tmp0 cur m : Mat4 α) (i j : Fin 4) :
    multLoops tmp0 cur m (idx4 i j) = multSum cur m i j := by
  fin_cases i <;> fin_cases j <;> rfl

theorem multSum_eq [Zero α] [Add α] [Mul α] (cur m : Mat4 α) (i j : Fin 4) :
    multSum cur m i j = 0 + cur (idx4 i 0) * m (idx4 0 j) + cur (idx4 i 1) * m (idx4 1 j)
      + cur (idx4 i 2) * m (idx4 2 j) + cur (idx4 i 3) * m (idx4 3 j) := by
  rfl

theorem multSum_eq_sum [Semiring α] (cur m : Mat4 α) (i j : Fin 4) :
    multSum cur m i j = ∑ k : Fin 4, cur (idx4 i k) * m (idx4 k j) := by
  rw [multSum_eq, Fin.sum_univ_four, zero_add]

theorem multLoops_independent [Zero α] [Add α] [Mul α] (tmp0 tmp1 cur m : Mat4 α) :
    multLoops tmp0 cur m = multLoops tmp1 cur m := by
  funext e
  revert e
  apply forall_idx4
  intro i j
  rw [multLoops_apply, multLoops_apply]

theorem lsIdentityMatrix_apply [Zero α] [One α] (a b : Fin 4) :
    (lsIdentityMatrix : Mat4 α) (idx4 a b) = if a = b then 1 else 0 := by
  fin_cases a <;> fin_cases b <;> rfl

theorem multLoops_identity_right [Semiring α] (tmp0 c : Mat4 α) :
    multLoops tmp0 c lsIdentityMatrix = c := by
  funext e
  revert e
  apply forall_idx4
  intro i j
  rw [multLoops_apply, multSum_eq_sum]
  simp [lsIdentityMatrix_apply]

theorem multLoops_identity_left [Semiring α] (tmp0 m : Mat4 α) :
    multLoops tmp0 lsIdentityMatrix m = m := by
  funext e
  revert e
  apply forall_idx4
  intro i j
  rw [multLoops_apply, multSum_eq_sum]
  simp [lsIdentityMatrix_apply]

theorem matProduct_apply [Semiring α] (c m : Mat4 α) (i j : Fin 4) :
    matProduct c m (idx4 i j) = ∑ k : Fin 4, c (idx4 i k) * m (idx4 k j) := by
  fin_cases i <;> fin_cases j <;> rfl

/-! ### C3 -/

/-- C3: `lsglMultMatrixf(m)` replaces the current matrix `c` by the matrix whose entry
`i + 4j` is the sum over `k` of `c[i+4k] * m[4j+k]`, that is by the column-major product
`c * m`; every entry is computed from the old `c`, whatever the local array `tmp` held
before the loops, and no other member of the context changes. -/
theorem RenderContext.lsglMultMatrixf_product [Semiring α] (rc : RenderContext α) (m : Mat4 α) :
    (∀ i j : Fin 4, (rc.lsglMultMatrixf m).lsMVPMatrix (idx4 i j)
        = ∑ k : Fin 4, rc.lsMVPMatrix (idx4 i k) * m (idx4 k j)) ∧
    (rc.lsglMultMatrixf m).lsMVPMatrix = matProduct rc.lsMVPMatrix m ∧
    (∀ tmp0 : Mat4 α, multLoops tmp0 rc.lsMVPMatrix m = (rc.lsglMultMatrixf m).lsMVPMatrix) ∧
    rc.lsglMultMatrixf m = { rc with lsMVPMatrix := matProduct rc.lsMVPMatrix m } := by
  have h1 : ∀ i j : Fin 4, (rc.lsglMultMatrixf m).lsMVPMatrix (idx4 i j)
      = ∑ k : Fin 4, rc.lsMVPMatrix (idx4 i k) * m (idx4 k j) := by
    intro i j
    simp only [RenderContext.lsglMultMatrixf]
    rw [multLoops_apply, multSum_eq_sum]
  have h2 : (rc.lsglMultMatrixf m).lsMVPMatrix = matProduct rc.lsMVPMatrix m := by
    funext e
    revert e
    apply forall_idx4
    intro i j
    rw [h1, matProduct_apply]
  refine ⟨h1, h2, ?_, ?_⟩
  · intro tmp0
    exact multLoops_independent _ _ _ _
  · rw [← h2]
    rfl

/-! ### C4 -/

/-- C4: the identity matrix is a two-sided identity for `lsglMultMatrixf`:
multiplying any current matrix by `lsIdentityMatrix` leaves the context unchanged, and in
a freshly constructed context or after `lsglLoadIdentity()` the call `lsglMultMatrixf(m)`
makes the current matrix equal to `m`. -/
theorem RenderContext.lsglMultMatrixf_identity [Semiring α] (rc : RenderContext α)
    (m : Mat4 α) (t : CONTEXT_TYPE) (mem : Mat4 α) :
    rc.lsglMultMatrixf lsIdentityMatrix = rc ∧
    (rc.lsglMultMatrixf lsIdentityMatrix).lsMVPMatrix = rc.lsMVPMatrix ∧
    ((RenderContext.new t mem).lsglMultMatrixf m).lsMVPMatrix = m ∧
    (rc.lsglLoadIdentity.lsglMultMatrixf m).lsMVPMatrix = m := by
  have h : rc.lsglMultMatrixf lsIdentityMatrix = rc := by
    simp only [RenderContext.lsglMultMatrixf, multLoops_identity_right]
  refine ⟨h, by rw [h], ?_, ?_⟩
  · simp only [RenderContext.lsglMultMatrixf, RenderContext.new, RenderContext.lsglLoadIdentity,
      RenderContext.lsglLoadMatrixf, multLoops_identity_left]
  · simp only [RenderContext.lsglMultMatrixf, RenderContext.lsglLoadIdentity,
      RenderContext.lsglLoadMatrixf, multLoops_identity_left]

end MatrixTheorems

section MatrixTheorems2

variable {α : Type}

theorem scaleMatrix_eq [Zero α] [One α] (sx sy sz : α) :
    RenderContext.scaleMatrix sx sy sz =
      ![sx, 0, 0, 0,
        0, sy, 0, 0,
        0, 0, sz, 0,
        0, 0, 0, 1] := by
  funext e
  fin_cases e <;> rfl

theorem transMatrix_eq [Zero α] [One α] (tx ty tz : α) :
    RenderContext.transMatrix tx ty tz =
      ![1, 0, 0, 0,
        0, 1, 0, 0,
        0, 0, 1, 0,
        tx, ty, tz, 1] := by
  funext e
  fin_cases e <;> rfl

theorem lsglMultMatrixf_apply [Zero α] [Add α] [Mul α] (rc : RenderContext α) (m : Mat4 α)
    (i j : Fin 4) :
    (rc.lsglMultMatrixf m).lsMVPMatrix (idx4 i j) =
      0 + rc.lsMVPMatrix (idx4 i 0) * m (idx4 0 j) + rc.lsMVPMatrix (idx4 i 1) * m (idx4 1 j)
      + rc.lsMVPMatrix (idx4 i 2) * m (idx4 2 j) + rc.lsMVPMatrix (idx4 i 3) * m (idx4 3 j) := by
  simp only [RenderContext.lsglMultMatrixf]
  rw [multLoops_apply, multSum_eq]

/-- C5: `lsglScalef(sx,sy,sz)` is `lsglMultMatrixf` on the identity matrix with entries
0, 5, 10 set to `sx, sy, sz`, so that columns 0, 1, 2 of the current matrix are multiplied
by `sx, sy, sz` and column 3 is unchanged; `lsglTranslatef(tx,ty,tz)` is `lsglMultMatrixf`
on the identity matrix with entries 12, 13, 14 set to `tx, ty, tz`, so that columns 0..2
are unchanged and column 3 becomes `tx*col0 + ty*col1 + tz*col2 + col3`. -/
theorem RenderContext.lsglScalef_lsglTranslatef_effect [CommSemiring α] (rc : RenderContext α)
    (sx sy sz tx ty tz : α) :
    (rc.lsglScalef sx sy sz = rc.lsglMultMatrixf
        ![sx, 0, 0, 0,
          0, sy, 0, 0,
          0, 0, sz, 0,
          0, 0, 0, 1] ∧
     ∀ i : Fin 4,
      (rc.lsglScalef sx sy sz).lsMVPMatrix (idx4 i 0) = rc.lsMVPMatrix (idx4 i 0) * sx ∧
      (rc.lsglScalef sx sy sz).lsMVPMatrix (idx4 i 1) = rc.lsMVPMatrix (idx4 i 1) * sy ∧
      (rc.lsglScalef sx sy sz).lsMVPMatrix (idx4 i 2) = rc.lsMVPMatrix (idx4 i 2) * sz ∧
      (rc.lsglScalef sx sy sz).lsMVPMatrix (idx4 i 3) = rc.lsMVPMatrix (idx4 i 3)) ∧
    (rc.lsglTranslatef tx ty tz = rc.lsglMultMatrixf
        ![1, 0, 0, 0,
          0, 1, 0, 0,
          0, 0, 1, 0,
          tx, ty, tz, 1] ∧
     ∀ i : Fin 4,
      (rc.lsglTranslatef tx ty tz).lsMVPMatrix (idx4 i 0) = rc.lsMVPMatrix (idx4 i 0) ∧
      (rc.lsglTranslatef tx ty tz).lsMVPMatrix (idx4 i 1) = rc.lsMVPMatrix (idx4 i 1) ∧
      (rc.lsglTranslatef tx ty tz).lsMVPMatrix (idx4 i 2) = rc.lsMVPMatrix (idx4 i 2) ∧
      (rc.lsglTranslatef tx ty tz).lsMVPMatrix (idx4 i 3) =
        tx * rc.lsMVPMatrix (idx4 i 0) + ty * rc.lsMVPMatrix (idx4 i 1)
          + tz * rc.lsMVPMatrix (idx4 i 2) + rc.lsMVPMatrix (idx4 i 3)) := by
  refine ⟨⟨?_, ?_⟩, ?_, ?_⟩
  · simp only [RenderContext.lsglScalef, scaleMatrix_eq]
  · intro i
    simp only [RenderContext.lsglScalef, lsglMultMatrixf_apply]
    refine ⟨?_, ?_, ?_, ?_⟩
    · show 0 + rc.lsMVPMatrix (idx4 i 0) * sx + rc.lsMVPMatrix (idx4 i 1) * 0
        + rc.lsMVPMatrix (idx4 i 2) * 0 + rc.lsMVPMatrix (idx4 i 3) * 0 = _
      simp
    · show 0 + rc.lsMVPMatrix (idx4 i 0) * 0 + rc.lsMVPMatrix (idx4 i 1) * sy
        + rc.lsMVPMatrix (idx4 i 2) * 0 + rc.lsMVPMatrix (idx4 i 3) * 0 = _
      simp
    · show 0 + rc.lsMVPMatrix (idx4 i 0) * 0 + rc.lsMVPMatrix (idx4 i 1) * 0
        + rc.lsMVPMatrix (idx4 i 2) * sz + rc.lsMVPMatrix (idx4 i 3) * 0 = _
      simp
    · show 0 + rc.lsMVPMatrix (idx4 i 0) * 0 + rc.lsMVPMatrix (idx4 i 1) * 0
        + rc.lsMVPMatrix (idx4 i 2) * 0 + rc.lsMVPMatrix (idx4 i 3) * 1 = _
      simp
  · simp only [RenderContext.lsglTranslatef, transMatrix_eq]
  · intro i
    simp only [RenderContext.lsglTranslatef, lsglMultMatrixf_apply]
    refine ⟨?_, ?_, ?_, ?_⟩
    · show 0 + rc.lsMVPMatrix (idx4 i 0) * 1 + rc.lsMVPMatrix (idx4 i 1) * 0
        + rc.lsMVPMatrix (idx4 i 2) * 0 + rc.lsMVPMatrix (idx4 i 3) * 0 = _
      simp
    · show 0 + rc.lsMVPMatrix (idx4 i 0) * 0 + rc.lsMVPMatrix (idx4 i 1) * 1
        + rc.lsMVPMatrix (idx4 i 2) * 0 + rc.lsMVPMatrix (idx4 i 3) * 0 = _
      simp
    · show 0 + rc.lsMVPMatrix (idx4 i 0) * 0 + rc.lsMVPMatrix (idx4 i 1) * 0
        + rc.lsMVPMatrix (idx4 i 2) * 1 + rc.lsMVPMatrix (idx4 i 3) * 0 = _
      simp
    · show 0 + rc.lsMVPMatrix (idx4 i 0) * tx + rc.lsMVPMatrix (idx4 i 1) * ty
        + rc.lsMVPMatrix (idx4 i 2) * tz + rc.lsMVPMatrix (idx4 i 3) * 1 = _
      ring

theorem orthoMatrix_eq_standardOrtho [Field α] (l r b t n f : α) :
    GLRenderContext.orthoMatrix l r b t n f = standardOrtho l r b t n f := by
  have h10 : 2 / (n - f) = -2 / (f - n) := by
    rw [neg_div, ← div_neg, neg_sub]
  funext e
  fin_cases e
  case «10» => exact h10
  all_goals rfl

/-- C6: for `l ≠ r`, `b ≠ t` and `n ≠ f` (so that every division of the code is defined),
`lsglOrtho(l,r,b,t,n,f)` multiplies the current matrix on the right by the standard
orthographic projection matrix and changes nothing else; starting from the identity, the
current matrix becomes exactly that matrix.  The code writes entry 10 as `2/(n-f)`, which
is the `-2/(f-n)` of the standard matrix. -/
theorem GLRenderContext.lsglOrtho_standard [Field α] (ctx : GLRenderContext α)
    (l r b t n f : α) (_hlr : l ≠ r) (_hbt : b ≠ t) (_hnf : n ≠ f) :
    ctx.lsglOrtho l r b t n f
      = ctx.onBase (fun rc => rc.lsglMultMatrixf (standardOrtho l r b t n f)) ∧
    (ctx.lsglOrtho l r b t n f).lsMVPMatrix
      = matProduct ctx.lsMVPMatrix (standardOrtho l r b t n f) ∧
    ((ctx.onBase RenderContext.lsglLoadIdentity).lsglOrtho l r b t n f).lsMVPMatrix
      = standardOrtho l r b t n f := by
  have h1 : ctx.lsglOrtho l r b t n f
      = ctx.onBase (fun rc => rc.lsglMultMatrixf (standardOrtho l r b t n f)) := by
    simp only [GLRenderContext.lsglOrtho, orthoMatrix_eq_standardOrtho]
  refine ⟨h1, ?_, ?_⟩
  · rw [h1]
    funext e
    revert e
    apply forall_idx4
    intro i j
    simp only [GLRenderContext.onBase, RenderContext.lsglMultMatrixf]
    rw [multLoops_apply, multSum_eq_sum, matProduct_apply]
  · simp only [GLRenderContext.lsglOrtho, orthoMatrix_eq_standardOrtho, GLRenderContext.onBase,
      RenderContext.lsglMultMatrixf, RenderContext.lsglLoadIdentity,
      RenderContext.lsglLoadMatrixf, multLoops_identity_left]

/-- C6, evaluated for `l = 0, r = 2, b = 0, t = 3, n = 1, f = 5`. -/
theorem GLRenderContext.lsglOrtho_standard_witness :
    (0 : ℚ) ≠ 2 ∧ (0 : ℚ) ≠ 3 ∧ (1 : ℚ) ≠ 5 ∧
    ((GLRenderContext.new 0 (fun _ => 7)).lsglOrtho (0 : ℚ) 2 0 3 1 5
      = (GLRenderContext.new 0 (fun _ => 7)).onBase
          (fun rc => rc.lsglMultMatrixf (standardOrtho 0 2 0 3 1 5)) ∧
    ((GLRenderContext.new 0 (fun _ => 7)).lsglOrtho (0 : ℚ) 2 0 3 1 5).lsMVPMatrix
      = matProduct (GLRenderContext.new 0 (fun _ => 7)).lsMVPMatrix (standardOrtho 0 2 0 3 1 5) ∧
    (((GLRenderContext.new 0 (fun _ => 7)).onBase RenderContext.lsglLoadIdentity).lsglOrtho
        (0 : ℚ) 2 0 3 1 5).lsMVPMatrix
      = standardOrtho 0 2 0 3 1 5) :=
  ⟨by norm_num, by norm_num, by norm_num,
    GLRenderContext.lsglOrtho_standard _ 0 2 0 3 1 5 (by norm_num) (by norm_num) (by norm_num)⟩

/-- C7: with the GPU calls kept in an explicit log, `lsglLoadIdentity`, `lsglLoadMatrixf`,
`lsglMultMatrixf`, `lsglScalef`, `lsglTranslatef` and `lsglOrtho` change only `lsMVPMatrix`
and add nothing to the log; `setMatrixUniform(m)` appends exactly one matrix upload whose
payload is the current `lsMVPMatrix`, addressed to `modelviewMatrixUniform` when
`m == LSGL_MODELVIEW` and to `projectionMatrixUniform` otherwise, and changes nothing else
(in particular not `lsMVPMatrix`). -/
theorem GLRenderContext.matrix_helpers_frame [Field α] (ctx : GLRenderContext α)
    (m : Mat4 α) (x y z l r b t n f : α) (which : LSGL_MATRIX) :
    ((ctx.onBase RenderContext.lsglLoadIdentity).engineData = ctx.engineData ∧
      ctx.onBase RenderContext.lsglLoadIdentity
        = { ctx with lsMVPMatrix := (ctx.onBase RenderContext.lsglLoadIdentity).lsMVPMatrix }) ∧
    ((ctx.onBase (fun rc => rc.lsglLoadMatrixf m)).engineData = ctx.engineData ∧
      ctx.onBase (fun rc => rc.lsglLoadMatrixf m)
        = { ctx with lsMVPMatrix := (ctx.onBase (fun rc => rc.lsglLoadMatrixf m)).lsMVPMatrix }) ∧
    ((ctx.onBase (fun rc => rc.lsglMultMatrixf m)).engineData = ctx.engineData ∧
      ctx.onBase (fun rc => rc.lsglMultMatrixf m)
        = { ctx with lsMVPMatrix := (ctx.onBase (fun rc => rc.lsglMultMatrixf m)).lsMVPMatrix }) ∧
    ((ctx.onBase (fun rc => rc.lsglScalef x y z)).engineData = ctx.engineData ∧
      ctx.onBase (fun rc => rc.lsglScalef x y z)
        = { ctx with lsMVPMatrix := (ctx.onBase (fun rc => rc.lsglScalef x y z)).lsMVPMatrix }) ∧
    ((ctx.onBase (fun rc => rc.lsglTranslatef x y z)).engineData = ctx.engineData ∧
      ctx.onBase (fun rc => rc.lsglTranslatef x y z)
        = { ctx with
            lsMVPMatrix := (ctx.onBase (fun rc => rc.lsglTranslatef x y z)).lsMVPMatrix }) ∧
    ((ctx.lsglOrtho l r b t n f).engineData = ctx.engineData ∧
      ctx.lsglOrtho l r b t n f
        = { ctx with lsMVPMatrix := (ctx.lsglOrtho l r b t n f).lsMVPMatrix }) ∧
    (ctx.setMatrixUniform which).engineData = ctx.engineData ++
      [GLCall.glUniformMatrix4fv
        (match which with
          | LSGL_MATRIX.LSGL_MODELVIEW => ctx.modelviewMatrixUniform
          | LSGL_MATRIX.LSGL_PROJECTION => ctx.projectionMatrixUniform)
        1 false ctx.lsMVPMatrix] ∧
    (ctx.setMatrixUniform which).lsMVPMatrix = ctx.lsMVPMatrix ∧
    ctx.setMatrixUniform which
      = { ctx with engineData := (ctx.setMatrixUniform which).engineData } := by
  refine ⟨⟨rfl, rfl⟩, ⟨rfl, rfl⟩, ⟨rfl, rfl⟩, ⟨rfl, rfl⟩, ⟨rfl, rfl⟩, ⟨rfl, rfl⟩, ?_, rfl, rfl⟩
  cases which <;> rfl

end MatrixTheorems2


section ChunkTheorems

/-! ### Shared lemmas on 32-bit arithmetic and rounding -/

theorem u32_of_lt {n : Nat} (h : n < 4294967296) : u32 n = n :=
  Nat.mod_eq_of_lt h

theorem u32_lt (n : Nat) : u32 n < 4294967296 :=
  Nat.mod_lt _ (by norm_num)

theorem natCeil_div_eq (w C : Nat) (hC : 0 < C) :
    ⌈(w : ℚ) / (C : ℚ)⌉₊ = (w + C - 1) / C := by
  have hCq : (0 : ℚ) < (C : ℚ) := by exact_mod_cast hC
  apply le_antisymm
  · rw [Nat.ceil_le, div_le_iff₀ hCq]
    have h1 : w ≤ (w + C - 1) / C * C := by
      have h2 := Nat.lt_div_mul_add (a := w + C - 1) hC
      omega
    exact_mod_cast h1
  · have h3 : (w : ℚ) / (C : ℚ) ≤ (⌈(w : ℚ) / (C : ℚ)⌉₊ : ℚ) := Nat.le_ceil _
    rw [div_le_iff₀ hCq] at h3
    have h4 : w ≤ ⌈(w : ℚ) / (C : ℚ)⌉₊ * C := by exact_mod_cast h3
    apply Nat.le_of_lt_succ
    rw [Nat.div_lt_iff_lt_mul hC]
    have h5 : Nat.succ ⌈(w : ℚ) / (C : ℚ)⌉₊ * C = ⌈(w : ℚ) / (C : ℚ)⌉₊ * C + C :=
      Nat.succ_mul _ _
    omega

theorem assertedNumberOfChunks_eq (C : Nat) (chunk : TextureChunk) (hC : 0 < C)
    (hC32 : C < 4294967296)
    (hw : chunk.width + C - 1 < 4294967296) (hh : chunk.height + C - 1 < 4294967296)
    (hn : chunk.getNumberOfChunks C < 4294967296) :
    assertedNumberOfChunks C chunk = chunk.getNumberOfChunks C := by
  unfold assertedNumberOfChunks
  unfold TextureChunk.getNumberOfChunks at hn ⊢
  rw [natCeil_div_eq _ _ hC, natCeil_div_eq _ _ hC] at hn ⊢
  rw [u32_of_lt hw, u32_of_lt hh, u32_of_lt hC32, u32_of_lt hn]

/-! ### C8 -/

/-- C8 (as amended): for a chunk size `0 < C < 2^32`, when `width + C - 1` and `height + C - 1` fit in 32 bits and so does
the product of the two quotients, the value that the assertion of `renderTextured`
computes in unsigned arithmetic, `((width+C-1)/C) * ((height+C-1)/C)`, equals
`ceil(width/C) * ceil(height/C)`, the number of chunks. -/
theorem assertedNumberOfChunks_eq_ceil (C : Nat) (chunk : TextureChunk) (hC : 0 < C)
    (hC32 : C < 4294967296)
    (hw : chunk.width + C - 1 < 4294967296) (hh : chunk.height + C - 1 < 4294967296)
    (hn : chunk.getNumberOfChunks C < 4294967296) :
    chunk.getNumberOfChunks C = ⌈(chunk.width : ℚ) / (C : ℚ)⌉₊ * ⌈(chunk.height : ℚ) / (C : ℚ)⌉₊ ∧
    assertedNumberOfChunks C chunk
      = ⌈(chunk.width : ℚ) / (C : ℚ)⌉₊ * ⌈(chunk.height : ℚ) / (C : ℚ)⌉₊ ∧
    assertedNumberOfChunks C chunk = chunk.getNumberOfChunks C := by
  have h : assertedNumberOfChunks C chunk = chunk.getNumberOfChunks C :=
    assertedNumberOfChunks_eq C chunk hC hC32 hw hh hn
  exact ⟨rfl, h, h⟩

/-- C8 (as amended), evaluated for a chunk of 200 by 50 pixels and chunk size 126. -/
theorem assertedNumberOfChunks_eq_ceil_witness :
    0 < 126 ∧ 126 < 4294967296 ∧
    (TextureChunk.mk [0, 1] 0 200 50 1 1 0 0).width + 126 - 1 < 4294967296 ∧
    (TextureChunk.mk [0, 1] 0 200 50 1 1 0 0).height + 126 - 1 < 4294967296 ∧
    assertedNumberOfChunks 126 (TextureChunk.mk [0, 1] 0 200 50 1 1 0 0)
      = (TextureChunk.mk [0, 1] 0 200 50 1 1 0 0).getNumberOfChunks 126 ∧
    assertedNumberOfChunks 126 (TextureChunk.mk [0, 1] 0 200 50 1 1 0 0) = 2 :=
  have hn : (TextureChunk.mk [0, 1] 0 200 50 1 1 0 0).getNumberOfChunks 126 < 4294967296 := by
    unfold TextureChunk.getNumberOfChunks
    rw [natCeil_div_eq _ _ (by norm_num), natCeil_div_eq _ _ (by norm_num)]
    decide
  ⟨by decide, by decide, by decide, by decide,
    (assertedNumberOfChunks_eq_ceil 126 (TextureChunk.mk [0, 1] 0 200 50 1 1 0 0)
      (by decide) (by decide) (by decide) (by decide) hn).2.2,
    by decide⟩

/-- C8 (counterexample): for the 32-bit width `4294967295`, height `1` and chunk size `126`
the sum `width + C - 1` wraps, the assertion computes `0`, and
`ceil(width/C) * ceil(height/C)` is `34087043`. -/
theorem assertedNumberOfChunks_wraps :
    (TextureChunk.mk [] 0 4294967295 1 1 1 0 0).width < 4294967296 ∧
    (TextureChunk.mk [] 0 4294967295 1 1 1 0 0).height < 4294967296 ∧
    assertedNumberOfChunks 126 (TextureChunk.mk [] 0 4294967295 1 1 1 0 0) = 0 ∧
    ⌈(((TextureChunk.mk [] 0 4294967295 1 1 1 0 0).width : ℕ) : ℚ) / ((126 : ℕ) : ℚ)⌉₊
      * ⌈(((TextureChunk.mk [] 0 4294967295 1 1 1 0 0).height : ℕ) : ℚ) / ((126 : ℕ) : ℚ)⌉₊
      = 34087043 ∧
    (TextureChunk.mk [] 0 4294967295 1 1 1 0 0).getNumberOfChunks 126 = 34087043 ∧
    assertedNumberOfChunks 126 (TextureChunk.mk [] 0 4294967295 1 1 1 0 0)
      ≠ (TextureChunk.mk [] 0 4294967295 1 1 1 0 0).getNumberOfChunks 126 := by
  have hn : (TextureChunk.mk [] 0 4294967295 1 1 1 0 0).getNumberOfChunks 126 = 34087043 := by
    unfold TextureChunk.getNumberOfChunks
    rw [natCeil_div_eq _ _ (by norm_num), natCeil_div_eq _ _ (by norm_num)]
    decide
  have ha : assertedNumberOfChunks 126 (TextureChunk.mk [] 0 4294967295 1 1 1 0 0) = 0 := by
    decide
  refine ⟨by decide, by decide, ha, hn, hn, ?_⟩
  rw [ha, hn]
  decide

/-! ### C9 -/

theorem blockX_exact (lts cs c : Nat) (hlts : lts < 4294967296) (hbps : 0 < lts / cs) :
    blockX (lts / cs) cs c = (c % (lts / cs)) * cs ∧ blockX (lts / cs) cs c + cs ≤ lts := by
  have h1 : c % (lts / cs) < lts / cs := Nat.mod_lt _ hbps
  have h2 : lts / cs * cs ≤ lts := Nat.div_mul_le_self lts cs
  have h3 : (c % (lts / cs) + 1) * cs ≤ lts / cs * cs := Nat.mul_le_mul_right cs h1
  have h4 : (c % (lts / cs) + 1) * cs = c % (lts / cs) * cs + cs := Nat.succ_mul _ _
  have h5 : c % (lts / cs) * cs < 4294967296 := by omega
  unfold blockX
  rw [u32_of_lt h5]
  exact ⟨rfl, by omega⟩

theorem blockY_exact (lts cs c : Nat) (hlts : lts < 4294967296)
    (hc : c < (lts / cs) * (lts / cs)) :
    blockY (lts / cs) cs c = (c / (lts / cs)) * cs ∧ blockY (lts / cs) cs c + cs ≤ lts := by
  have h1 : c / (lts / cs) < lts / cs := Nat.div_lt_of_lt_mul hc
  have h2 : lts / cs * cs ≤ lts := Nat.div_mul_le_self lts cs
  have h3 : (c / (lts / cs) + 1) * cs ≤ lts / cs * cs := Nat.mul_le_mul_right cs h1
  have h4 : (c / (lts / cs) + 1) * cs = c / (lts / cs) * cs + cs := Nat.succ_mul _ _
  have h5 : c / (lts / cs) * cs < 4294967296 := by omega
  unfold blockY
  rw [u32_of_lt h5]
  exact ⟨rfl, by omega⟩

/-- C9: in `renderpart`, with `blocksPerSide = largeTextureSize/CHUNKSIZE > 0`, the block of
chunk id `c` is at `blockX = (c % blocksPerSide)*CHUNKSIZE` and
`blockY = (c / blocksPerSide)*CHUNKSIZE` (the 32-bit product of the code), and the quad that
an iteration of the inner loop writes for it has the texture coordinates
`startU = (blockX + 1 + startULeft)/largeTextureSize`,
`startV = (blockY + 1 + startVtop)/largeTextureSize`,
`endU = (blockX + availX + 1)/largeTextureSize`,
`endV = (blockY + availY + 1)/largeTextureSize`, the integer sums being the 32-bit sums of
the code.  For the id of a block inside the large texture (`c < blocksPerSide^2`) and
`availX`, `availY` shorter than a block, none of these products and sums wraps: the block
lies inside the texture and the four coordinates are the exact quotients. -/
theorem renderpart_block_texcoords (cs : ChunkConsts) (lts c : Nat)
    (hlts : lts < 4294967296) (hbps : 0 < lts / cs.CHUNKSIZE) :
    blockX (lts / cs.CHUNKSIZE) cs.CHUNKSIZE c = (c % (lts / cs.CHUNKSIZE)) * cs.CHUNKSIZE ∧
    blockY (lts / cs.CHUNKSIZE) cs.CHUNKSIZE c = u32 ((c / (lts / cs.CHUNKSIZE)) * cs.CHUNKSIZE) ∧
    (∀ (chunk : TextureChunk) (realchunkwidth leftstart endY : ℚ) (availY : Nat)
        (st : PartState) (j : Nat), chunk.chunks[st.curChunk]? = some c →
      ∃ (st2 : PartState) (q : Quad), renderpartColumn cs lts chunk realchunkwidth leftstart availY endY st j = some st2 ∧
        st2.texture_coords = st.texture_coords ++ q.textureFloats ∧
        (q.startU, q.startV, q.endU, q.endV) = quadTexture lts cs.CHUNKSIZE c st.startULeft
          st.startVtop (min st.availXForTexture (u32 cs.CHUNKSIZE_REAL)) availY) ∧
    (∀ (startULeft startVtop : ℚ) (availX availY : Nat),
      quadTexture lts cs.CHUNKSIZE c startULeft startVtop availX availY =
        ((((blockX (lts / cs.CHUNKSIZE) cs.CHUNKSIZE c + 1 : ℕ) : ℚ) + startULeft) / (lts : ℚ),
         (((u32 (blockY (lts / cs.CHUNKSIZE) cs.CHUNKSIZE c + 1) : ℕ) : ℚ) + startVtop)
            / (lts : ℚ),
         ((u32 (blockX (lts / cs.CHUNKSIZE) cs.CHUNKSIZE c + availX + 1) : ℕ) : ℚ) / (lts : ℚ),
         ((u32 (blockY (lts / cs.CHUNKSIZE) cs.CHUNKSIZE c + availY + 1) : ℕ) : ℚ) / (lts : ℚ))) ∧
    (∀ (startULeft startVtop : ℚ) (availX availY : Nat),
      c < (lts / cs.CHUNKSIZE) * (lts / cs.CHUNKSIZE) → availX < cs.CHUNKSIZE →
      availY < cs.CHUNKSIZE →
      blockY (lts / cs.CHUNKSIZE) cs.CHUNKSIZE c = (c / (lts / cs.CHUNKSIZE)) * cs.CHUNKSIZE ∧
      blockX (lts / cs.CHUNKSIZE) cs.CHUNKSIZE c + cs.CHUNKSIZE ≤ lts ∧
      blockY (lts / cs.CHUNKSIZE) cs.CHUNKSIZE c + cs.CHUNKSIZE ≤ lts ∧
      quadTexture lts cs.CHUNKSIZE c startULeft startVtop availX availY =
        (((((c % (lts / cs.CHUNKSIZE)) * cs.CHUNKSIZE + 1 : ℕ) : ℚ) + startULeft) / (lts : ℚ),
         ((((c / (lts / cs.CHUNKSIZE)) * cs.CHUNKSIZE + 1 : ℕ) : ℚ) + startVtop) / (lts : ℚ),
         (((c % (lts / cs.CHUNKSIZE)) * cs.CHUNKSIZE + availX + 1 : ℕ) : ℚ) / (lts : ℚ),
         (((c / (lts / cs.CHUNKSIZE)) * cs.CHUNKSIZE + availY + 1 : ℕ) : ℚ) / (lts : ℚ))) := by
  obtain ⟨hX, hXle⟩ := blockX_exact lts cs.CHUNKSIZE c hlts hbps
  have hcs : 0 < cs.CHUNKSIZE := by
    rcases Nat.eq_zero_or_pos cs.CHUNKSIZE with h | h
    · rw [h, Nat.div_zero] at hbps
      exact absurd hbps (lt_irrefl 0)
    · exact h
  have hX1 : u32 (blockX (lts / cs.CHUNKSIZE) cs.CHUNKSIZE c + 1)
      = blockX (lts / cs.CHUNKSIZE) cs.CHUNKSIZE c + 1 := u32_of_lt (by omega)
  have hne : lts / cs.CHUNKSIZE ≠ 0 := Nat.pos_iff_ne_zero.mp hbps
  refine ⟨hX, rfl, ?_, ?_, ?_⟩
  · intro chunk realchunkwidth leftstart endY availY st j hread
    simp only [renderpartColumn, hread, hne, if_false]
    exact ⟨_, _, rfl, rfl, rfl⟩
  · intro startULeft startVtop availX availY
    simp only [quadTexture, hX1]
  · intro startULeft startVtop availX availY hc hax hay
    obtain ⟨hY, hYle⟩ := blockY_exact lts cs.CHUNKSIZE c hlts hc
    have hY1 : u32 (blockY (lts / cs.CHUNKSIZE) cs.CHUNKSIZE c + 1)
        = blockY (lts / cs.CHUNKSIZE) cs.CHUNKSIZE c + 1 := u32_of_lt (by omega)
    have hXa : u32 (blockX (lts / cs.CHUNKSIZE) cs.CHUNKSIZE c + availX + 1)
        = blockX (lts / cs.CHUNKSIZE) cs.CHUNKSIZE c + availX + 1 := u32_of_lt (by omega)
    have hYa : u32 (blockY (lts / cs.CHUNKSIZE) cs.CHUNKSIZE c + availY + 1)
        = blockY (lts / cs.CHUNKSIZE) cs.CHUNKSIZE c + availY + 1 := u32_of_lt (by omega)
    refine ⟨hY, hXle, hYle, ?_⟩
    simp only [quadTexture, hX1, hY1, hXa, hYa]
    rw [hX, hY]

/-- C9, evaluated for a large texture of side 1024, blocks of 128 and chunk id 10. -/
theorem renderpart_block_texcoords_witness :
    (1024 : Nat) < 4294967296 ∧ 0 < 1024 / (ChunkConsts.mk 128 126).CHUNKSIZE ∧
    blockX (1024 / 128) 128 10 = 256 ∧ blockY (1024 / 128) 128 10 = 128 ∧
    quadTexture 1024 128 10 0 0 100 50 = (257 / 1024, 129 / 1024, 357 / 1024, 179 / 1024) := by
  have h := renderpart_block_texcoords (ChunkConsts.mk 128 126) 1024 10 (by decide) (by decide)
  refine ⟨by decide, by decide, by decide, by decide, ?_⟩
  rw [(h.2.2.2.2 0 0 100 50 (by decide) (by decide) (by decide)).2.2.2]
  norm_num

/-! ### C10 -/

theorem f2u_natCast (n : Nat) (h : n < 4294967296) : f2u (n : ℚ) = n := by
  unfold f2u
  rw [Nat.floor_natCast, u32_of_lt h]

theorem natCeil_div_eq_one (w C : Nat) (h0 : 0 < w) (h : w ≤ C) :
    ⌈(w : ℚ) / (C : ℚ)⌉₊ = 1 := by
  rw [natCeil_div_eq w C (by omega)]
  apply Nat.div_eq_of_lt_le <;> omega

theorem f2u_last_single (w C : Nat) (h0 : 0 < w) (h : w ≤ C) :
    f2u (((w : ℚ) + (C : ℚ) - 1) / (C : ℚ)) = 1 := by
  have hC : (0 : ℚ) < (C : ℚ) := by exact_mod_cast (by omega : 0 < C)
  have hw : (1 : ℚ) ≤ (w : ℚ) := by exact_mod_cast h0
  have hwC : (w : ℚ) ≤ (C : ℚ) := by exact_mod_cast h
  have hx : ⌊((w : ℚ) + (C : ℚ) - 1) / (C : ℚ)⌋₊ = 1 := by
    rw [Nat.floor_eq_iff (div_nonneg (by linarith) hC.le)]
    constructor
    · rw [le_div_iff₀ hC]
      push_cast
      linarith
    · rw [div_lt_iff₀ hC]
      push_cast
      linarith
  unfold f2u
  rw [hx]
  rfl

theorem renderpartGeometry_single (cs : ChunkConsts) (lts : Nat) (chunk : TextureChunk)
    (c : Nat) (hw0 : 0 < chunk.width) (hw : chunk.width ≤ cs.CHUNKSIZE_REAL)
    (hh0 : 0 < chunk.height) (hh : chunk.height ≤ cs.CHUNKSIZE_REAL)
    (hCR : cs.CHUNKSIZE_REAL < 2147483648) (hchunks : chunk.chunks[0]? = some c)
    (hbps : 0 < lts / cs.CHUNKSIZE) :
    renderpartGeometry cs lts chunk 0 0 (chunk.width : ℚ) (chunk.height : ℚ)
        (chunk.xOffset / chunk.xContentScale) (chunk.yOffset / chunk.yContentScale)
      = some { realchunkcount := 1
               chunkrendercount := 1
               vertex_coords := (singleChunkQuad cs lts chunk c).vertexFloats
               texture_coords := (singleChunkQuad cs lts chunk c).textureFloats } := by
  have hcs : cs.CHUNKSIZE ≠ 0 := by
    intro h
    rw [h, Nat.div_zero] at hbps
    exact absurd hbps (lt_irrefl 0)
  have hcr : cs.CHUNKSIZE_REAL ≠ 0 := by omega
  have hne : lts / cs.CHUNKSIZE ≠ 0 := Nat.pos_iff_ne_zero.mp hbps
  have hf : f2u 0 = 0 := by
    simp [f2u, u32]
  have hlw := f2u_last_single chunk.width cs.CHUNKSIZE_REAL hw0 hw
  have hlh := f2u_last_single chunk.height cs.CHUNKSIZE_REAL hh0 hh
  have hu0 : u32 0 = 0 := rfl
  have hu1 : u32 1 = 1 := rfl
  have hu2 : u32 4294967297 = 1 := rfl
  have hCRu : u32 cs.CHUNKSIZE_REAL = cs.CHUNKSIZE_REAL := u32_of_lt (by omega)
  have hfw : f2u (chunk.width : ℚ) = chunk.width := f2u_natCast _ (by omega)
  have hfh : f2u (chunk.height : ℚ) = chunk.height := f2u_natCast _ (by omega)
  have hminw : min (chunk.width : ℚ) (cs.CHUNKSIZE_REAL : ℚ) = (chunk.width : ℚ) :=
    min_eq_left (by exact_mod_cast hw)
  have hminh : min (chunk.height : ℚ) (cs.CHUNKSIZE_REAL : ℚ) = (chunk.height : ℚ) :=
    min_eq_left (by exact_mod_cast hh)
  have hminw2 : min chunk.width cs.CHUNKSIZE_REAL = chunk.width := min_eq_left hw
  have hminh2 : min chunk.height cs.CHUNKSIZE_REAL = chunk.height := min_eq_left hh
  simp [renderpartGeometry, renderpartRow, renderpartColumn, hcs, hcr, hne, hf, hlw, hlh, hu0,
    hu1, hu2, hCRu, hfw, hfh, hminw, hminh, hminw2, hminh2, hchunks, singleChunkQuad, quadTexture,
    Quad.vertexFloats, Quad.textureFloats, toInt32]


theorem drawCounts_append {α : Type} (l1 l2 : List (GLCall α)) :
    drawCounts (l1 ++ l2) = drawCounts l1 ++ drawCounts l2 := by
  simp [drawCounts, List.filterMap_append]

theorem coordArrays_append {α : Type} (a : VertexAttrib) (l1 l2 : List (GLCall α)) :
    coordArrays a (l1 ++ l2) = coordArrays a l1 ++ coordArrays a l2 := by
  simp [coordArrays, List.filterMap_append]

theorem singleChunkQuad_exact (cs : ChunkConsts) (lts : Nat) (chunk : TextureChunk) (c : Nat)
    (hw : chunk.width ≤ cs.CHUNKSIZE_REAL) (hh : chunk.height ≤ cs.CHUNKSIZE_REAL)
    (hlts : lts < 4294967296) (hbps : 0 < lts / cs.CHUNKSIZE)
    (hc : c < (lts / cs.CHUNKSIZE) * (lts / cs.CHUNKSIZE))
    (hcr : cs.CHUNKSIZE_REAL < cs.CHUNKSIZE) :
    singleChunkQuad cs lts chunk c =
      { startU := (((c % (lts / cs.CHUNKSIZE)) * cs.CHUNKSIZE + 1 : ℕ) : ℚ) / (lts : ℚ)
        startV := (((c / (lts / cs.CHUNKSIZE)) * cs.CHUNKSIZE + 1 : ℕ) : ℚ) / (lts : ℚ)
        endU := (((c % (lts / cs.CHUNKSIZE)) * cs.CHUNKSIZE + chunk.width + 1 : ℕ) : ℚ)
          / (lts : ℚ)
        endV := (((c / (lts / cs.CHUNKSIZE)) * cs.CHUNKSIZE + chunk.height + 1 : ℕ) : ℚ)
          / (lts : ℚ)
        startX := chunk.xOffset / chunk.xContentScale
        startY := chunk.yOffset / chunk.yContentScale
        endX := chunk.xOffset / chunk.xContentScale + (chunk.width : ℚ) / chunk.xContentScale
        endY := chunk.yOffset / chunk.yContentScale + (chunk.height : ℚ) / chunk.yContentScale } := by
  obtain ⟨hX, hXle⟩ := blockX_exact lts cs.CHUNKSIZE c hlts hbps
  obtain ⟨hY, hYle⟩ := blockY_exact lts cs.CHUNKSIZE c hlts hc
  have hX1 : u32 (blockX (lts / cs.CHUNKSIZE) cs.CHUNKSIZE c + 1)
      = blockX (lts / cs.CHUNKSIZE) cs.CHUNKSIZE c + 1 := u32_of_lt (by omega)
  have hY1 : u32 (blockY (lts / cs.CHUNKSIZE) cs.CHUNKSIZE c + 1)
      = blockY (lts / cs.CHUNKSIZE) cs.CHUNKSIZE c + 1 := u32_of_lt (by omega)
  have hXa : u32 (blockX (lts / cs.CHUNKSIZE) cs.CHUNKSIZE c + chunk.width + 1)
      = blockX (lts / cs.CHUNKSIZE) cs.CHUNKSIZE c + chunk.width + 1 := u32_of_lt (by omega)
  have hYa : u32 (blockY (lts / cs.CHUNKSIZE) cs.CHUNKSIZE c + chunk.height + 1)
      = blockY (lts / cs.CHUNKSIZE) cs.CHUNKSIZE c + chunk.height + 1 := u32_of_lt (by omega)
  simp only [singleChunkQuad, hX1, hY1, hXa, hYa]
  rw [hX, hY]

/-- C10: a chunk that fits in a single backing chunk (`0 < width <= CHUNKSIZE_REAL`,
`0 < height <= CHUNKSIZE_REAL`), rendered by `renderTextured` without a scaling grid, is
drawn as exactly one quad: `renderTextured` succeeds, it issues one draw call, of 6
vertices, and hands over one texture-coordinate array and one vertex array, each holding
the six corners of the quad `singleChunkQuad`: texture coordinates from
`(blockX+1, blockY+1)/largeTextureSize` to
`(blockX+width+1, blockY+height+1)/largeTextureSize`, vertex rectangle from
`(xOffset/xContentScale, yOffset/yContentScale)` with extent
`(width/xContentScale, height/yContentScale)`.  The integer sums in the texture
coordinates are the 32-bit sums of the code; when the block lies inside the large texture
(`c < blocksPerSide^2`) and `CHUNKSIZE_REAL < CHUNKSIZE` nothing wraps and the coordinates
are the exact quotients. -/
theorem GLRenderContext.renderTextured_single_chunk {M C : Type} (ops : MatrixOps M C ℚ)
    (cs : ChunkConsts) (ctx : GLRenderContext ℚ) (chunk : TextureChunk) (alpha : ℚ)
    (colorMode : COLOR_MODE) (colortransform : ColorTransformBase) (isMask : Bool)
    (directMode : ℚ) (directColor : RGB) (smooth : SMOOTH_MODE) (matrix : M)
    (blendmode : AS_BLENDMODE) (c id : Nat)
    (hw0 : 0 < chunk.width) (hw : chunk.width ≤ cs.CHUNKSIZE_REAL)
    (hh0 : 0 < chunk.height) (hh : chunk.height ≤ cs.CHUNKSIZE_REAL)
    (hCR : cs.CHUNKSIZE_REAL < 2147483648)
    (hchunks : chunk.chunks[0]? = some c)
    (htex : ctx.largeTextures[chunk.texId]? = some id)
    (hbps : 0 < ctx.largeTextureSize / cs.CHUNKSIZE) :
    ∃ ctx2, ctx.renderTextured ops cs chunk alpha colorMode colortransform isMask directMode
        directColor smooth matrix none blendmode = some ctx2 ∧
      drawCounts ctx2.engineData = drawCounts ctx.engineData ++ [6] ∧
      coordArrays VertexAttrib.TEXCOORD_ATTRIB ctx2.engineData
        = coordArrays VertexAttrib.TEXCOORD_ATTRIB ctx.engineData
          ++ [(singleChunkQuad cs ctx.largeTextureSize chunk c).textureFloats] ∧
      coordArrays VertexAttrib.VERTEX_ATTRIB ctx2.engineData
        = coordArrays VertexAttrib.VERTEX_ATTRIB ctx.engineData
          ++ [(singleChunkQuad cs ctx.largeTextureSize chunk c).vertexFloats] ∧
      ((singleChunkQuad cs ctx.largeTextureSize chunk c).textureFloats.length = 12 ∧
       (singleChunkQuad cs ctx.largeTextureSize chunk c).vertexFloats.length = 12) ∧
      (ctx.largeTextureSize < 4294967296 →
        c < (ctx.largeTextureSize / cs.CHUNKSIZE) * (ctx.largeTextureSize / cs.CHUNKSIZE) →
        cs.CHUNKSIZE_REAL < cs.CHUNKSIZE →
        singleChunkQuad cs ctx.largeTextureSize chunk c =
          { startU := (((c % (ctx.largeTextureSize / cs.CHUNKSIZE)) * cs.CHUNKSIZE + 1 : ℕ) : ℚ)
              / (ctx.largeTextureSize : ℚ)
            startV := (((c / (ctx.largeTextureSize / cs.CHUNKSIZE)) * cs.CHUNKSIZE + 1 : ℕ) : ℚ)
              / (ctx.largeTextureSize : ℚ)
            endU := (((c % (ctx.largeTextureSize / cs.CHUNKSIZE)) * cs.CHUNKSIZE
              + chunk.width + 1 : ℕ) : ℚ) / (ctx.largeTextureSize : ℚ)
            endV := (((c / (ctx.largeTextureSize / cs.CHUNKSIZE)) * cs.CHUNKSIZE
              + chunk.height + 1 : ℕ) : ℚ) / (ctx.largeTextureSize : ℚ)
            startX := chunk.xOffset / chunk.xContentScale
            startY := chunk.yOffset / chunk.yContentScale
            endX := chunk.xOffset / chunk.xContentScale
              + (chunk.width : ℚ) / chunk.xContentScale
            endY := chunk.yOffset / chunk.yContentScale
              + (chunk.height : ℚ) / chunk.yContentScale }) := by
  have hread : chunk.chunks[0]? = some c := hchunks
  have hgeo := renderpartGeometry_single cs ctx.largeTextureSize chunk c hw0 hw hh0 hh hCR hread hbps
  have hnum : chunk.getNumberOfChunks cs.CHUNKSIZE_REAL = 1 := by
    unfold TextureChunk.getNumberOfChunks
    rw [natCeil_div_eq_one _ _ hw0 hw, natCeil_div_eq_one _ _ hh0 hh]
  have hassert : assertedNumberOfChunks cs.CHUNKSIZE_REAL chunk
      = chunk.getNumberOfChunks cs.CHUNKSIZE_REAL :=
    assertedNumberOfChunks_eq _ _ (by omega) (by omega) (by omega) (by omega) (by omega)
  have hmain : ∃ ctx2, ctx.renderTextured ops cs chunk alpha colorMode colortransform isMask
        directMode directColor smooth matrix none blendmode = some ctx2 ∧
      drawCounts ctx2.engineData = drawCounts ctx.engineData ++ [6] ∧
      coordArrays VertexAttrib.TEXCOORD_ATTRIB ctx2.engineData
        = coordArrays VertexAttrib.TEXCOORD_ATTRIB ctx.engineData
          ++ [(singleChunkQuad cs ctx.largeTextureSize chunk c).textureFloats] ∧
      coordArrays VertexAttrib.VERTEX_ATTRIB ctx2.engineData
        = coordArrays VertexAttrib.VERTEX_ATTRIB ctx.engineData
          ++ [(singleChunkQuad cs ctx.largeTextureSize chunk c).vertexFloats] := by
    rcases hb : GLRenderContext.blendFuncFor blendmode with _ | ⟨src, dst⟩ <;>
      cases smooth <;>
      simp [GLRenderContext.renderTextured, GLRenderContext.setupRenderingState, hb, htex,
        hassert, GLRenderContext.useScalingGrid, GLRenderContext.renderpart, hgeo,
        GLRenderContext.setMatrixUniform, GLRenderContext.onBase, drawCounts, coordArrays,
        RenderContext.lsglLoadMatrixf, u32]
  obtain ⟨ctx2, h1, h2, h3, h4⟩ := hmain
  exact ⟨ctx2, h1, h2, h3, h4, ⟨rfl, rfl⟩, fun hlts hc hcr =>
    singleChunkQuad_exact cs ctx.largeTextureSize chunk c hw hh hlts hbps hc hcr⟩

/-- C10, evaluated: the chunk of 100 by 50 pixels with content scale 1 in atlas block 10 of
a large texture of side 1024, drawn with the identity matrix. -/
theorem GLRenderContext.renderTextured_single_chunk_witness :
    0 < exampleChunk.width ∧ exampleChunk.width ≤ exampleConsts.CHUNKSIZE_REAL ∧
    0 < exampleChunk.height ∧ exampleChunk.height ≤ exampleConsts.CHUNKSIZE_REAL ∧
    exampleConsts.CHUNKSIZE_REAL < 2147483648 ∧
    exampleChunk.chunks[0]? = some 10 ∧
    exampleContext.largeTextures[exampleChunk.texId]? = some 7 ∧
    0 < exampleContext.largeTextureSize / exampleConsts.CHUNKSIZE ∧
    (∃ ctx2, exampleContext.renderTextured scaleTranslateOps exampleConsts exampleChunk 1
        COLOR_MODE.RGB_MODE exampleColorTransform false 0 (RGB.mk 0 0 0)
        SMOOTH_MODE.SMOOTH_NONE scaleTranslateOps.identity none AS_BLENDMODE.BLENDMODE_NORMAL
          = some ctx2 ∧
      drawCounts ctx2.engineData = [6] ∧
      coordArrays VertexAttrib.TEXCOORD_ATTRIB ctx2.engineData
        = [[257 / 1024, 129 / 1024, 357 / 1024, 129 / 1024, 357 / 1024, 179 / 1024,
            257 / 1024, 129 / 1024, 357 / 1024, 179 / 1024, 257 / 1024, 179 / 1024]] ∧
      coordArrays VertexAttrib.VERTEX_ATTRIB ctx2.engineData
        = [[0, 0, 100, 0, 100, 50, 0, 0, 100, 50, 0, 50]]) := by
  have h := GLRenderContext.renderTextured_single_chunk scaleTranslateOps exampleConsts
    exampleContext exampleChunk 1 COLOR_MODE.RGB_MODE exampleColorTransform false 0
    (RGB.mk 0 0 0) SMOOTH_MODE.SMOOTH_NONE scaleTranslateOps.identity
    AS_BLENDMODE.BLENDMODE_NORMAL 10 7 (by decide) (by decide) (by decide) (by decide)
    (by decide) rfl rfl (by decide)
  refine ⟨by decide, by decide, by decide, by decide, by decide, rfl, rfl, by decide, ?_⟩
  obtain ⟨ctx2, h1, h2, h3, h4, -, h6⟩ := h
  have hq := h6 (by decide) (by decide) (by decide)
  refine ⟨ctx2, h1, ?_, ?_, ?_⟩
  · rw [h2]
    rfl
  · rw [h3, hq]
    simp [coordArrays, exampleContext, GLRenderContext.new, Quad.textureFloats, exampleChunk,
      exampleConsts]
  · rw [h4, hq]
    simp [coordArrays, exampleContext, GLRenderContext.new, Quad.vertexFloats, exampleChunk,
      exampleConsts]


end ChunkTheorems

section LoopTheorems

/-! ### Shared lemmas on the two loops of `renderpart` -/

theorem consumed_step (w CR : ℚ) (n : Nat) (hCR : 0 ≤ CR) :
    min w CR + min (w - min w CR) ((n : ℚ) * CR) = min w (((n + 1 : ℕ) : ℚ) * CR) := by
  have hn : (0 : ℚ) ≤ (n : ℚ) * CR := mul_nonneg (Nat.cast_nonneg n) hCR
  have h1 : (((n + 1 : ℕ) : ℚ)) * CR = (n : ℚ) * CR + CR := by push_cast; ring
  rw [h1]
  rcases le_total w CR with h | h
  · rw [min_eq_left h, sub_self, min_eq_left hn, add_zero, min_eq_left (by linarith)]
  · rw [min_eq_right h]
    rcases le_total (w - CR) ((n : ℚ) * CR) with h2 | h2
    · rw [min_eq_left h2, min_eq_left (by linarith)]
      ring
    · rw [min_eq_right h2, min_eq_right (by linarith)]
      ring

theorem renderpartColumn_step (cs : ChunkConsts) (lts : Nat) (chunk : TextureChunk)
    (rcw ls : ℚ) (availY : Nat) (endY : ℚ) (st : PartState) (j c : Nat)
    (hread : chunk.chunks[st.curChunk]? = some c) (hbps : lts / cs.CHUNKSIZE ≠ 0) :
    ∃ (st2 : PartState) (q : Quad) (wc : ℚ),
      renderpartColumn cs lts chunk rcw ls availY endY st j = some st2 ∧
      wc = (if st.startULeft ≠ 0 ∧ rcw + ls > (cs.CHUNKSIZE_REAL : ℚ) then
              min ((cs.CHUNKSIZE_REAL : ℚ) - ls) (cs.CHUNKSIZE_REAL : ℚ)
            else min st.widthtoplace (cs.CHUNKSIZE_REAL : ℚ)) ∧
      st2.vertex_coords = st.vertex_coords ++ q.vertexFloats ∧
      st2.texture_coords = st.texture_coords ++ q.textureFloats ∧
      st2.curChunk = u32 (st.curChunk + 1) ∧
      st2.chunkrendercount = u32 (st.chunkrendercount + 1) ∧
      st2.startULeft = 0 ∧
      st2.widthtoplace = st.widthtoplace - wc ∧
      st2.startX = st.startX + wc / chunk.xContentScale ∧
      q.startX = st.startX ∧ q.endX = st.startX + wc / chunk.xContentScale ∧
      q.startY = st.startY ∧ q.endY = endY ∧
      st2.startY = st.startY ∧ st2.startVtop = st.startVtop ∧
      st2.availYForTexture = st.availYForTexture ∧ st2.heighttoplace = st.heighttoplace := by
  simp only [renderpartColumn, hread, hbps, if_false]
  exact ⟨_, _, _, rfl, rfl, rfl, rfl, rfl, rfl, rfl, rfl, rfl, rfl, rfl, rfl, rfl, rfl, rfl,
    rfl, rfl⟩

theorem colLoop0 (cs : ChunkConsts) (lts : Nat) (chunk : TextureChunk)
    (rcw ls : ℚ) (availY : Nat) (endY : ℚ) (hbps : lts / cs.CHUNKSIZE ≠ 0) :
    ∀ (js : List Nat) (st : PartState),
      st.curChunk + js.length ≤ chunk.chunks.length →
      st.curChunk + js.length < 4294967296 →
      st.chunkrendercount + js.length < 4294967296 →
      ∃ (st2 : PartState) (row : List Quad),
        js.foldlM (renderpartColumn cs lts chunk rcw ls availY endY) st = some st2 ∧
        row.length = js.length ∧
        st2.vertex_coords = st.vertex_coords ++ (row.map Quad.vertexFloats).flatten ∧
        st2.texture_coords = st.texture_coords ++ (row.map Quad.textureFloats).flatten ∧
        st2.curChunk = st.curChunk + js.length ∧
        st2.chunkrendercount = st.chunkrendercount + js.length ∧
        edgeToEdgeX st.startX row st2.startX ∧
        (∀ q ∈ row, q.startY = st.startY ∧ q.endY = endY) ∧
        st2.startY = st.startY ∧ st2.startVtop = st.startVtop ∧
        st2.availYForTexture = st.availYForTexture ∧ st2.heighttoplace = st.heighttoplace ∧
        (st.startULeft = 0 → 0 ≤ st.widthtoplace →
          st2.startX = st.startX
            + min st.widthtoplace ((js.length : ℚ) * (cs.CHUNKSIZE_REAL : ℚ))
              / chunk.xContentScale) := by
  intro js
  induction js with
  | nil =>
    intro st _ _ _
    refine ⟨st, [], rfl, rfl, by simp, by simp, by simp, by simp, rfl, by simp, rfl, rfl, rfl,
      rfl, ?_⟩
    intro _ hw
    simp [min_eq_right hw]
  | cons j js ih =>
    intro st hlen h32 hcrc
    simp only [List.length_cons] at hlen h32 hcrc
    have hlt : st.curChunk < chunk.chunks.length := by omega
    have hread : chunk.chunks[st.curChunk]? = some (chunk.chunks[st.curChunk]) :=
      List.getElem?_eq_getElem hlt
    obtain ⟨st1, q, wc, hstep, hwc, hv1, ht1, hc1, hr1, hu1, hw1, hx1, hqs, hqe, hqy, hqy2,
      hy1, hvt1, hay1, hh1⟩ :=
      renderpartColumn_step cs lts chunk rcw ls availY endY st j _ hread hbps
    have hc1' : st1.curChunk = st.curChunk + 1 := by rw [hc1]; exact u32_of_lt (by omega)
    have hr1' : st1.chunkrendercount = st.chunkrendercount + 1 := by
      rw [hr1]; exact u32_of_lt (by omega)
    obtain ⟨st2, row, hfold, hrl, hv2, ht2, hc2, hr2, hedge, hrow, hy2, hvt2, hay2, hh2, hcons⟩ :=
      ih st1 (by omega) (by omega) (by omega)
    refine ⟨st2, q :: row, ?_, by simp [hrl], ?_, ?_, by simp only [List.length_cons]; omega,
      by simp only [List.length_cons]; omega, ?_, ?_, by rw [hy2, hy1],
      by rw [hvt2, hvt1], by rw [hay2, hay1], by rw [hh2, hh1], ?_⟩
    · simp only [List.foldlM_cons, hstep]
      exact hfold
    · rw [hv2, hv1]
      simp
    · rw [ht2, ht1]
      simp
    · refine ⟨hqs, ?_⟩
      rw [hqe, ← hx1]
      exact hedge
    · intro q2 hq2
      rcases List.mem_cons.mp hq2 with h | h
      · subst h
        exact ⟨hqy, hqy2⟩
      · have := hrow q2 h
        rw [hy1] at this
        exact this
    · intro hu0 hw0
      have hCR : (0 : ℚ) ≤ (cs.CHUNKSIZE_REAL : ℚ) := Nat.cast_nonneg _
      have hwc2 : wc = min st.widthtoplace (cs.CHUNKSIZE_REAL : ℚ) := by
        rw [hwc, if_neg]
        intro h
        exact h.1 hu0
      have hw1nn : 0 ≤ st1.widthtoplace := by
        rw [hw1, hwc2]
        exact sub_nonneg.mpr (min_le_left _ _)
      rw [hcons hu1 hw1nn, hx1, hw1, hwc2, add_assoc, ← add_div, consumed_step _ _ _ hCR]
      simp

theorem colLoop_total (cs : ChunkConsts) (lts : Nat) (chunk : TextureChunk)
    (rcw ls : ℚ) (availY : Nat) (endY : ℚ) (hbps : lts / cs.CHUNKSIZE ≠ 0)
    (js : List Nat) (st st2 : PartState)
    (hfold : js.foldlM (renderpartColumn cs lts chunk rcw ls availY endY) st = some st2)
    (hlen : st.curChunk + js.length ≤ chunk.chunks.length)
    (h32 : st.curChunk + js.length < 4294967296)
    (hcrc : st.chunkrendercount + js.length < 4294967296)
    (hw : st.widthtoplace = rcw)
    (hls0 : 0 ≤ ls) (hrcw0 : 0 ≤ rcw)
    (hx : ls + rcw ≤ (js.length : ℚ) * (cs.CHUNKSIZE_REAL : ℚ)) :
    st2.startX = st.startX + rcw / chunk.xContentScale := by
  have hCR : (0 : ℚ) ≤ (cs.CHUNKSIZE_REAL : ℚ) := Nat.cast_nonneg _
  cases js with
  | nil =>
    simp only [List.foldlM_nil] at hfold
    have hst : st = st2 := by
      injection hfold
    subst hst
    have h0 : rcw = 0 := by
      simp only [List.length_nil, Nat.cast_zero, zero_mul] at hx
      linarith
    rw [h0]
    simp
  | cons j js =>
    simp only [List.length_cons] at hlen h32 hcrc hx
    have hlt : st.curChunk < chunk.chunks.length := by omega
    have hread : chunk.chunks[st.curChunk]? = some (chunk.chunks[st.curChunk]) :=
      List.getElem?_eq_getElem hlt
    obtain ⟨st1, q, wc, hstep, hwc, hv1, ht1, hc1, hr1, hu1, hw1, hx1, hqs, hqe, hqy, hqy2,
      hy1, hvt1, hay1, hh1⟩ :=
      renderpartColumn_step cs lts chunk rcw ls availY endY st j _ hread hbps
    have hc1' : st1.curChunk = st.curChunk + 1 := by rw [hc1]; exact u32_of_lt (by omega)
    have hr1' : st1.chunkrendercount = st.chunkrendercount + 1 := by
      rw [hr1]; exact u32_of_lt (by omega)
    obtain ⟨st2', row, hfold', -, -, -, -, -, -, -, -, -, -, -, hcons⟩ :=
      colLoop0 cs lts chunk rcw ls availY endY hbps js st1 (by omega) (by omega) (by omega)
    simp only [List.foldlM_cons, hstep] at hfold
    have hsame : st2' = st2 := by
      have h := hfold'.symm.trans hfold
      injection h
    subst hsame
    have hx' : ls + rcw ≤ (js.length : ℚ) * (cs.CHUNKSIZE_REAL : ℚ) + (cs.CHUNKSIZE_REAL : ℚ) := by
      have : ((js.length + 1 : ℕ) : ℚ) * (cs.CHUNKSIZE_REAL : ℚ)
          = (js.length : ℚ) * (cs.CHUNKSIZE_REAL : ℚ) + (cs.CHUNKSIZE_REAL : ℚ) := by
        push_cast; ring
      rw [this] at hx
      exact hx
    have hn : (0 : ℚ) ≤ (js.length : ℚ) * (cs.CHUNKSIZE_REAL : ℚ) :=
      mul_nonneg (Nat.cast_nonneg _) hCR
    -- the width placed by this column and by the remaining ones
    have htotal : wc + min (st.widthtoplace - wc)
        ((js.length : ℚ) * (cs.CHUNKSIZE_REAL : ℚ)) = rcw ∧ 0 ≤ st.widthtoplace - wc := by
      rw [hw]
      by_cases hc : st.startULeft ≠ 0 ∧ rcw + ls > (cs.CHUNKSIZE_REAL : ℚ)
      · rw [if_pos hc] at hwc
        have hwc' : wc = (cs.CHUNKSIZE_REAL : ℚ) - ls := by
          rw [hwc]
          exact min_eq_left (by linarith)
        rw [hwc']
        constructor
        · rw [min_eq_left (by linarith)]
          ring
        · linarith [hc.2]
      · rw [if_neg hc, hw] at hwc
        rw [hwc]
        constructor
        · rw [consumed_step _ _ _ hCR]
          apply min_eq_left
          have : ((js.length + 1 : ℕ) : ℚ) * (cs.CHUNKSIZE_REAL : ℚ)
              = (js.length : ℚ) * (cs.CHUNKSIZE_REAL : ℚ) + (cs.CHUNKSIZE_REAL : ℚ) := by
            push_cast; ring
          rw [this]
          linarith
        · exact sub_nonneg.mpr (min_le_left _ _)
    have hw1nn : 0 ≤ st1.widthtoplace := by rw [hw1]; exact htotal.2
    rw [hcons hu1 hw1nn, hx1, hw1, add_assoc, ← add_div, htotal.1]

theorem renderpartRow_eq (cs : ChunkConsts) (lts : Nat) (chunk : TextureChunk)
    (rcw rch ls ts tx : ℚ) (fch lch skip : Nat) (st : PartState) (i : Nat) :
    renderpartRow cs lts chunk rcw rch ls ts tx fch lch skip st i =
      match (List.range' fch (lch - fch)).foldlM
          (renderpartColumn cs lts chunk rcw ls
            (min st.availYForTexture (u32 cs.CHUNKSIZE_REAL))
            (st.startY + rowHeightConsumed cs rch ts st / chunk.yContentScale))
          (rowStart cs rcw rch ls ts tx st) with
      | none => none
      | some st2 =>
        some { st2 with
          curChunk := u32 (st2.curChunk + skip)
          startVtop := 0
          startY := st.startY + rowHeightConsumed cs rch ts st / chunk.yContentScale } := by
  rfl

theorem renderpartRow_step (cs : ChunkConsts) (lts : Nat) (chunk : TextureChunk)
    (rcw rch ls ts tx : ℚ) (fch lch skip : Nat) (st : PartState) (i : Nat)
    (hbps : lts / cs.CHUNKSIZE ≠ 0)
    (hlen : st.curChunk + (lch - fch) ≤ chunk.chunks.length)
    (h32 : st.curChunk + (lch - fch) + skip < 4294967296)
    (hcrc : st.chunkrendercount + (lch - fch) < 4294967296) :
    ∃ (st2 : PartState) (row : List Quad),
      renderpartRow cs lts chunk rcw rch ls ts tx fch lch skip st i = some st2 ∧
      row.length = lch - fch ∧
      st2.vertex_coords = st.vertex_coords ++ (row.map Quad.vertexFloats).flatten ∧
      st2.texture_coords = st.texture_coords ++ (row.map Quad.textureFloats).flatten ∧
      st2.curChunk = st.curChunk + (lch - fch) + skip ∧
      st2.chunkrendercount = st.chunkrendercount + (lch - fch) ∧
      (∀ q ∈ row, q.startY = st.startY ∧
        q.endY = st.startY + rowHeightConsumed cs rch ts st / chunk.yContentScale) ∧
      st2.startY = st.startY + rowHeightConsumed cs rch ts st / chunk.yContentScale ∧
      st2.startVtop = 0 ∧
      st2.heighttoplace = st.heighttoplace - rowHeightConsumed cs rch ts st ∧
      (0 ≤ ls → 0 ≤ rcw → ls + rcw ≤ ((lch - fch : ℕ) : ℚ) * (cs.CHUNKSIZE_REAL : ℚ) →
        edgeToEdgeX tx row (tx + rcw / chunk.xContentScale)) := by
  have hjl : (List.range' fch (lch - fch)).length = lch - fch := List.length_range' _ _ _
  obtain ⟨st2, row, hfold, hrl, hv2, ht2, hc2, hr2, hedge, hrow, hy2, hvt2, hay2, hh2, hcons⟩ :=
    colLoop0 cs lts chunk rcw ls (min st.availYForTexture (u32 cs.CHUNKSIZE_REAL))
      (st.startY + rowHeightConsumed cs rch ts st / chunk.yContentScale) hbps
      (List.range' fch (lch - fch)) (rowStart cs rcw rch ls ts tx st)
      (by rw [hjl]; exact hlen) (by rw [hjl]; show st.curChunk + (lch - fch) < _; omega)
      (by rw [hjl]; exact hcrc)
  rw [hjl] at hrl hc2 hr2
  have hc2' : st2.curChunk = st.curChunk + (lch - fch) := hc2
  have hr2' : st2.chunkrendercount = st.chunkrendercount + (lch - fch) := hr2
  refine ⟨{ st2 with
      curChunk := u32 (st2.curChunk + skip)
      startVtop := 0
      startY := st.startY + rowHeightConsumed cs rch ts st / chunk.yContentScale },
    row, ?_, hrl, hv2, ht2, ?_, hr2', ?_, rfl, rfl, ?_, ?_⟩
  · rw [renderpartRow_eq, hfold]
  · show u32 (st2.curChunk + skip) = _
    rw [hc2']
    exact u32_of_lt h32
  · intro q hq
    exact hrow q hq
  · show st2.heighttoplace = _
    rw [hh2]
    rfl
  · intro hls0 hrcw0 hx
    have hx2 : st2.startX = tx + rcw / chunk.xContentScale :=
      colLoop_total cs lts chunk rcw ls _ _ hbps (List.range' fch (lch - fch))
        (rowStart cs rcw rch ls ts tx st) st2 hfold
        (by rw [hjl]; exact hlen) (by rw [hjl]; show st.curChunk + (lch - fch) < _; omega)
        (by rw [hjl]; exact hcrc) rfl hls0 hrcw0 (by rw [hjl]; exact hx)
    rw [← hx2]
    exact hedge

end LoopTheorems

section LoopTheorems2

theorem rowsVertexFloats_cons (row : List Quad) (rows : List (List Quad)) :
    rowsVertexFloats (row :: rows)
      = (row.map Quad.vertexFloats).flatten ++ rowsVertexFloats rows := by
  simp [rowsVertexFloats]

theorem rowsTextureFloats_cons (row : List Quad) (rows : List (List Quad)) :
    rowsTextureFloats (row :: rows)
      = (row.map Quad.textureFloats).flatten ++ rowsTextureFloats rows := by
  simp [rowsTextureFloats]

theorem rowLoop0 (cs : ChunkConsts) (lts : Nat) (chunk : TextureChunk)
    (rcw rch ls ts tx : ℚ) (fch lch skip hcN : Nat) (hbps : lts / cs.CHUNKSIZE ≠ 0)
    (hskip : skip = hcN - (lch - fch)) (hn : lch - fch ≤ hcN) :
    ∀ (is : List Nat) (st : PartState),
      st.curChunk + is.length * hcN ≤ chunk.chunks.length + (hcN - (lch - fch)) →
      st.curChunk + is.length * hcN < 4294967296 →
      st.chunkrendercount + is.length * (lch - fch) < 4294967296 →
      ∃ (st2 : PartState) (rows : List (List Quad)),
        is.foldlM (renderpartRow cs lts chunk rcw rch ls ts tx fch lch skip) st = some st2 ∧
        rows.length = is.length ∧
        (∀ row ∈ rows, row.length = lch - fch) ∧
        st2.vertex_coords = st.vertex_coords ++ rowsVertexFloats rows ∧
        st2.texture_coords = st.texture_coords ++ rowsTextureFloats rows ∧
        st2.chunkrendercount = st.chunkrendercount + is.length * (lch - fch) ∧
        (0 ≤ ls → 0 ≤ rcw → ls + rcw ≤ ((lch - fch : ℕ) : ℚ) * (cs.CHUNKSIZE_REAL : ℚ) →
          st.startVtop = 0 → 0 ≤ st.heighttoplace →
          rowsEdgeToEdge tx (tx + rcw / chunk.xContentScale) st.startY rows
            (st.startY + min st.heighttoplace ((is.length : ℚ) * (cs.CHUNKSIZE_REAL : ℚ))
              / chunk.yContentScale)) := by
  intro is
  induction is with
  | nil =>
    intro st _ _ _
    refine ⟨st, [], rfl, rfl, by simp, by simp [rowsVertexFloats], by simp [rowsTextureFloats],
      by simp, ?_⟩
    intro _ _ _ _ hh
    simp [rowsEdgeToEdge, min_eq_right hh]
  | cons i is ih =>
    intro st hlen h32 hcrc
    simp only [List.length_cons, Nat.succ_mul] at hlen h32 hcrc
    obtain ⟨st1, row, hstep, hrl, hv1, ht1, hc1, hr1, hrow, hy1, hvt1, hh1, hedge⟩ :=
      renderpartRow_step cs lts chunk rcw rch ls ts tx fch lch skip st i hbps
        (by omega) (by omega) (by omega)
    have hc1' : st1.curChunk = st.curChunk + hcN := by rw [hc1, hskip]; omega
    obtain ⟨st2, rows, hfold, hrsl, hrows, hv2, ht2, hr2, hchain⟩ :=
      ih st1 (by omega) (by omega) (by omega)
    refine ⟨st2, row :: rows, ?_, by simp [hrsl], ?_, ?_, ?_, ?_, ?_⟩
    · simp only [List.foldlM_cons, hstep]
      exact hfold
    · intro r hr
      rcases List.mem_cons.mp hr with h | h
      · rw [h]; exact hrl
      · exact hrows r h
    · rw [hv2, hv1, rowsVertexFloats_cons, List.append_assoc]
    · rw [ht2, ht1, rowsTextureFloats_cons, List.append_assoc]
    · rw [hr2, hr1]
      simp only [List.length_cons, Nat.succ_mul]
      omega
    · intro hls0 hrcw0 hx hvt0 hh0
      have hCR : (0 : ℚ) ≤ (cs.CHUNKSIZE_REAL : ℚ) := Nat.cast_nonneg _
      have hcn : rowHeightConsumed cs rch ts st = min st.heighttoplace (cs.CHUNKSIZE_REAL : ℚ) := by
        unfold rowHeightConsumed
        rw [if_neg]
        intro h
        exact h.1 hvt0
      have hh1nn : 0 ≤ st1.heighttoplace := by
        rw [hh1, hcn]
        exact sub_nonneg.mpr (min_le_left _ _)
      have hrest := hchain hls0 hrcw0 hx hvt1 hh1nn
      refine ⟨st1.startY, hedge hls0 hrcw0 hx, ?_, ?_⟩
      · intro q hq
        rw [hy1]
        exact hrow q hq
      · have hend : st1.startY + min st1.heighttoplace
            ((is.length : ℚ) * (cs.CHUNKSIZE_REAL : ℚ)) / chunk.yContentScale
            = st.startY + min st.heighttoplace
              (((i :: is).length : ℚ) * (cs.CHUNKSIZE_REAL : ℚ)) / chunk.yContentScale := by
          rw [hy1, hh1, hcn, add_assoc, ← add_div, consumed_step _ _ _ hCR]
          simp
        rw [← hend]
        exact hrest

theorem rowLoop (cs : ChunkConsts) (lts : Nat) (chunk : TextureChunk)
    (rcw rch ls ts tx : ℚ) (fch lch skip hcN : Nat) (hbps : lts / cs.CHUNKSIZE ≠ 0)
    (hskip : skip = hcN - (lch - fch)) (hn : lch - fch ≤ hcN)
    (is : List Nat) (st : PartState)
    (hlen : st.curChunk + is.length * hcN ≤ chunk.chunks.length + (hcN - (lch - fch)))
    (h32 : st.curChunk + is.length * hcN < 4294967296)
    (hcrc : st.chunkrendercount + is.length * (lch - fch) < 4294967296) :
    ∃ (st2 : PartState) (rows : List (List Quad)),
      is.foldlM (renderpartRow cs lts chunk rcw rch ls ts tx fch lch skip) st = some st2 ∧
      rows.length = is.length ∧
      (∀ row ∈ rows, row.length = lch - fch) ∧
      st2.vertex_coords = st.vertex_coords ++ rowsVertexFloats rows ∧
      st2.texture_coords = st.texture_coords ++ rowsTextureFloats rows ∧
      st2.chunkrendercount = st.chunkrendercount + is.length * (lch - fch) ∧
      (0 ≤ ls → 0 ≤ rcw → ls + rcw ≤ ((lch - fch : ℕ) : ℚ) * (cs.CHUNKSIZE_REAL : ℚ) →
        st.heighttoplace = rch → 0 ≤ ts → 0 ≤ rch →
        ts + rch ≤ (is.length : ℚ) * (cs.CHUNKSIZE_REAL : ℚ) →
        rowsEdgeToEdge tx (tx + rcw / chunk.xContentScale) st.startY rows
          (st.startY + rch / chunk.yContentScale)) := by
  have hCR : (0 : ℚ) ≤ (cs.CHUNKSIZE_REAL : ℚ) := Nat.cast_nonneg _
  cases is with
  | nil =>
    refine ⟨st, [], rfl, rfl, by simp, by simp [rowsVertexFloats], by simp [rowsTextureFloats],
      by simp, ?_⟩
    intro _ _ _ _ hts0 hrch0 hy
    have h0 : rch = 0 := by
      simp only [List.length_nil, Nat.cast_zero, zero_mul] at hy
      linarith
    simp [rowsEdgeToEdge, h0]
  | cons i is =>
    simp only [List.length_cons, Nat.succ_mul] at hlen h32 hcrc
    obtain ⟨st1, row, hstep, hrl, hv1, ht1, hc1, hr1, hrow, hy1, hvt1, hh1, hedge⟩ :=
      renderpartRow_step cs lts chunk rcw rch ls ts tx fch lch skip st i hbps
        (by omega) (by omega) (by omega)
    have hc1' : st1.curChunk = st.curChunk + hcN := by rw [hc1, hskip]; omega
    obtain ⟨st2, rows, hfold, hrsl, hrows, hv2, ht2, hr2, hchain⟩ :=
      rowLoop0 cs lts chunk rcw rch ls ts tx fch lch skip hcN hbps hskip hn is st1
        (by omega) (by omega) (by omega)
    refine ⟨st2, row :: rows, ?_, by simp [hrsl], ?_, ?_, ?_, ?_, ?_⟩
    · simp only [List.foldlM_cons, hstep]
      exact hfold
    · intro r hr
      rcases List.mem_cons.mp hr with h | h
      · rw [h]; exact hrl
      · exact hrows r h
    · rw [hv2, hv1, rowsVertexFloats_cons, List.append_assoc]
    · rw [ht2, ht1, rowsTextureFloats_cons, List.append_assoc]
    · rw [hr2, hr1]
      simp only [List.length_cons, Nat.succ_mul]
      omega
    · intro hls0 hrcw0 hx hh hts0 hrch0 hy
      have hy' : ts + rch ≤ (is.length : ℚ) * (cs.CHUNKSIZE_REAL : ℚ)
          + (cs.CHUNKSIZE_REAL : ℚ) := by
        have : (((i :: is).length : ℕ) : ℚ) * (cs.CHUNKSIZE_REAL : ℚ)
            = (is.length : ℚ) * (cs.CHUNKSIZE_REAL : ℚ) + (cs.CHUNKSIZE_REAL : ℚ) := by
          simp only [List.length_cons]
          push_cast; ring
        rw [this] at hy
        exact hy
      have htotal : rowHeightConsumed cs rch ts st + min (st.heighttoplace
          - rowHeightConsumed cs rch ts st) ((is.length : ℚ) * (cs.CHUNKSIZE_REAL : ℚ)) = rch
          ∧ 0 ≤ st.heighttoplace - rowHeightConsumed cs rch ts st := by
        rw [hh]
        unfold rowHeightConsumed
        by_cases hc : st.startVtop ≠ 0 ∧ rch + ts > (cs.CHUNKSIZE_REAL : ℚ)
        · rw [if_pos hc, min_eq_left (by linarith : (cs.CHUNKSIZE_REAL : ℚ) - ts ≤ _)]
          constructor
          · rw [min_eq_left (by linarith)]
            ring
          · linarith [hc.2]
        · rw [if_neg hc, hh]
          constructor
          · rw [consumed_step _ _ _ hCR]
            apply min_eq_left
            have : ((is.length + 1 : ℕ) : ℚ) * (cs.CHUNKSIZE_REAL : ℚ)
                = (is.length : ℚ) * (cs.CHUNKSIZE_REAL : ℚ) + (cs.CHUNKSIZE_REAL : ℚ) := by
              push_cast; ring
            rw [this]
            linarith
          · exact sub_nonneg.mpr (min_le_left _ _)
      have hh1nn : 0 ≤ st1.heighttoplace := by rw [hh1]; exact htotal.2
      have hrest := hchain hls0 hrcw0 hx hvt1 hh1nn
      refine ⟨st1.startY, hedge hls0 hrcw0 hx, ?_, ?_⟩
      · intro q hq
        rw [hy1]
        exact hrow q hq
      · have hend : st1.startY + min st1.heighttoplace
            ((is.length : ℚ) * (cs.CHUNKSIZE_REAL : ℚ)) / chunk.yContentScale
            = st.startY + rch / chunk.yContentScale := by
          rw [hy1, hh1, add_assoc, ← add_div, htotal.1]
        rw [← hend]
        exact hrest

end LoopTheorems2

section LoopTheorems3

theorem chunksAcross_eq (cs : ChunkConsts) (W : Nat) (hCR : cs.CHUNKSIZE_REAL < 2147483648)
    (hW : W + cs.CHUNKSIZE_REAL - 1 < 4294967296) :
    chunksAcross cs W = (W + cs.CHUNKSIZE_REAL - 1) / cs.CHUNKSIZE_REAL := by
  unfold chunksAcross
  rw [u32_of_lt hW, u32_of_lt (by omega)]

theorem firstChunk_eq (cs : ChunkConsts) (W : Nat) (c : ℚ) (hCR0 : 0 < cs.CHUNKSIZE_REAL)
    (hW : W + cs.CHUNKSIZE_REAL - 1 < 4294967296) (h0 : 0 ≤ c) (hc : c ≤ (W : ℚ)) :
    firstChunk cs c = ⌊c / (cs.CHUNKSIZE_REAL : ℚ)⌋₊ ∧
    ((firstChunk cs c * cs.CHUNKSIZE_REAL : ℕ) : ℚ) ≤ c ∧
    firstChunk cs c * cs.CHUNKSIZE_REAL < 4294967296 := by
  have hC : (0 : ℚ) < (cs.CHUNKSIZE_REAL : ℚ) := by exact_mod_cast hCR0
  have hq : 0 ≤ c / (cs.CHUNKSIZE_REAL : ℚ) := div_nonneg h0 hC.le
  have hfl : ((⌊c / (cs.CHUNKSIZE_REAL : ℚ)⌋₊ : ℕ) : ℚ) ≤ c / (cs.CHUNKSIZE_REAL : ℚ) :=
    Nat.floor_le hq
  have hmul : ((⌊c / (cs.CHUNKSIZE_REAL : ℚ)⌋₊ * cs.CHUNKSIZE_REAL : ℕ) : ℚ) ≤ c := by
    push_cast
    exact (le_div_iff₀ hC).mp hfl
  have hnat : ⌊c / (cs.CHUNKSIZE_REAL : ℚ)⌋₊ * cs.CHUNKSIZE_REAL ≤ W := by
    have : ((⌊c / (cs.CHUNKSIZE_REAL : ℚ)⌋₊ * cs.CHUNKSIZE_REAL : ℕ) : ℚ) ≤ (W : ℚ) :=
      le_trans hmul hc
    exact_mod_cast this
  have hle : ⌊c / (cs.CHUNKSIZE_REAL : ℚ)⌋₊ ≤ W :=
    le_trans (Nat.le_mul_of_pos_right _ hCR0) hnat
  have hfc : firstChunk cs c = ⌊c / (cs.CHUNKSIZE_REAL : ℚ)⌋₊ := by
    unfold firstChunk
    have hz : (⌊c / (cs.CHUNKSIZE_REAL : ℚ)⌋ : ℤ) = ((⌊c / (cs.CHUNKSIZE_REAL : ℚ)⌋₊ : ℕ) : ℤ) :=
      (Int.natCast_floor_eq_floor hq).symm
    rw [hz]
    have : (((⌊c / (cs.CHUNKSIZE_REAL : ℚ)⌋₊ : ℕ) : ℤ) : ℚ)
        = ((⌊c / (cs.CHUNKSIZE_REAL : ℚ)⌋₊ : ℕ) : ℚ) := by push_cast; rfl
    rw [this]
    exact f2u_natCast _ (by omega)
  rw [hfc]
  exact ⟨rfl, hmul, by omega⟩

theorem lastChunk_eq (cs : ChunkConsts) (W : Nat) (c s : ℚ) (hCR0 : 0 < cs.CHUNKSIZE_REAL)
    (hW : W + cs.CHUNKSIZE_REAL - 1 < 4294967296) (h0 : 0 ≤ c) (hs : 0 ≤ s)
    (hcs : c + s ≤ (W : ℚ)) :
    lastChunk cs c s = ⌊(c + s + (cs.CHUNKSIZE_REAL : ℚ) - 1) / (cs.CHUNKSIZE_REAL : ℚ)⌋₊ ∧
    lastChunk cs c s ≤ (W + cs.CHUNKSIZE_REAL - 1) / cs.CHUNKSIZE_REAL ∧
    firstChunk cs c ≤ lastChunk cs c s := by
  have hC : (0 : ℚ) < (cs.CHUNKSIZE_REAL : ℚ) := by exact_mod_cast hCR0
  have hC1 : (1 : ℚ) ≤ (cs.CHUNKSIZE_REAL : ℚ) := by exact_mod_cast hCR0
  have hcast : ((W + cs.CHUNKSIZE_REAL - 1 : ℕ) : ℚ) = (W : ℚ) + (cs.CHUNKSIZE_REAL : ℚ) - 1 := by
    rw [Nat.cast_sub (by omega)]
    push_cast
    ring
  have hle : ⌊(c + s + (cs.CHUNKSIZE_REAL : ℚ) - 1) / (cs.CHUNKSIZE_REAL : ℚ)⌋₊
      ≤ (W + cs.CHUNKSIZE_REAL - 1) / cs.CHUNKSIZE_REAL := by
    rw [← Nat.floor_div_eq_div (W + cs.CHUNKSIZE_REAL - 1) cs.CHUNKSIZE_REAL (α := ℚ), hcast]
    apply Nat.floor_le_floor
    apply div_le_div_of_nonneg_right _ hC.le
    linarith
  have hdivlt : (W + cs.CHUNKSIZE_REAL - 1) / cs.CHUNKSIZE_REAL < 4294967296 :=
    lt_of_le_of_lt (Nat.div_le_self _ _) hW
  have hlc : lastChunk cs c s
      = ⌊(c + s + (cs.CHUNKSIZE_REAL : ℚ) - 1) / (cs.CHUNKSIZE_REAL : ℚ)⌋₊ := by
    unfold lastChunk f2u
    exact u32_of_lt (by omega)
  have hcW : c ≤ (W : ℚ) := by linarith
  obtain ⟨hfc, _, _⟩ := firstChunk_eq cs W c hCR0 hW h0 hcW
  refine ⟨hlc, by rw [hlc]; exact hle, ?_⟩
  rw [hlc, hfc]
  apply Nat.floor_le_floor
  apply div_le_div_of_nonneg_right _ hC.le
  linarith

end LoopTheorems3

section LoopTheorems4

theorem renderpartGeometry_eq (cs : ChunkConsts) (lts : Nat) (chunk : TextureChunk)
    (cl ct cw ch tx ty : ℚ) :
    renderpartGeometry cs lts chunk cl ct cw ch tx ty
      = if cs.CHUNKSIZE = 0 ∨ cs.CHUNKSIZE_REAL = 0 then none
        else
          match (List.range' (firstChunk cs ct) (lastChunk cs ct ch - firstChunk cs ct)).foldlM
              (renderpartRow cs lts chunk cw ch
                (cl - ((u32 (firstChunk cs cl * cs.CHUNKSIZE_REAL) : Nat) : ℚ))
                (ct - ((u32 (firstChunk cs ct * cs.CHUNKSIZE_REAL) : Nat) : ℚ))
                tx (firstChunk cs cl) (lastChunk cs cl cw)
                (u32 (chunksAcross cs chunk.width + 4294967296 - lastChunk cs cl cw
                  + firstChunk cs cl)))
              { curChunk := u32 (firstChunk cs cl + firstChunk cs ct * chunksAcross cs chunk.width)
                chunkrendercount := 0
                vertex_coords := []
                texture_coords := []
                startULeft := 0
                widthtoplace := 0
                availXForTexture := 0
                startX := 0
                startVtop := ct - ((u32 (firstChunk cs ct * cs.CHUNKSIZE_REAL) : Nat) : ℚ)
                availYForTexture :=
                  f2u (ch + (ct - ((u32 (firstChunk cs ct * cs.CHUNKSIZE_REAL) : Nat) : ℚ)))
                startY := ty
                heighttoplace := ch } with
          | none => none
          | some st =>
            some { realchunkcount := toInt32 (u32 (u32 (lastChunk cs cl cw + 4294967296
                      - firstChunk cs cl) * u32 (lastChunk cs ct ch + 4294967296
                      - firstChunk cs ct)))
                   chunkrendercount := st.chunkrendercount
                   vertex_coords := st.vertex_coords
                   texture_coords := st.texture_coords } :=
  rfl

theorem renderpartGeometry_rows (cs : ChunkConsts) (lts : Nat) (chunk : TextureChunk)
    (cl ct cw ch tx ty : ℚ) (hA : chunk.Allocated cs lts) (hC : CropInside chunk cl ct cw ch) :
    ∃ rows : List (List Quad),
      renderpartGeometry cs lts chunk cl ct cw ch tx ty
        = some { realchunkcount := (((lastChunk cs cl cw - firstChunk cs cl)
                    * (lastChunk cs ct ch - firstChunk cs ct) : ℕ) : ℤ)
                 chunkrendercount := (lastChunk cs ct ch - firstChunk cs ct)
                    * (lastChunk cs cl cw - firstChunk cs cl)
                 vertex_coords := rowsVertexFloats rows
                 texture_coords := rowsTextureFloats rows } ∧
      rows.length = lastChunk cs ct ch - firstChunk cs ct ∧
      (∀ row ∈ rows, row.length = lastChunk cs cl cw - firstChunk cs cl) ∧
      (lastChunk cs ct ch - firstChunk cs ct) * (lastChunk cs cl cw - firstChunk cs cl)
        ≤ chunk.chunks.length ∧
      (cl + cw ≤ ((lastChunk cs cl cw : ℕ) : ℚ) * (cs.CHUNKSIZE_REAL : ℚ) →
        ct + ch ≤ ((lastChunk cs ct ch : ℕ) : ℚ) * (cs.CHUNKSIZE_REAL : ℚ) →
        rowsEdgeToEdge tx (tx + cw / chunk.xContentScale) ty rows
          (ty + ch / chunk.yContentScale)) := by
  obtain ⟨hCR0, hCR, hbps, hW, hH, hL, hL12⟩ := hA
  obtain ⟨hcl, hcw, hclw, hct, hch, hcth⟩ := hC
  have hclW : cl ≤ (chunk.width : ℚ) := by linarith
  have hctH : ct ≤ (chunk.height : ℚ) := by linarith
  obtain ⟨_, hamul, ha32⟩ := firstChunk_eq cs chunk.width cl hCR0 hW hcl hclW
  obtain ⟨_, hcmul, hc32⟩ := firstChunk_eq cs chunk.height ct hCR0 hH hct hctH
  obtain ⟨_, hbhc, hab⟩ := lastChunk_eq cs chunk.width cl cw hCR0 hW hcl hcw hclw
  obtain ⟨_, hdvc, hcd⟩ := lastChunk_eq cs chunk.height ct ch hCR0 hH hct hch hcth
  rw [← chunksAcross_eq cs chunk.width hCR hW] at hbhc
  rw [← chunksAcross_eq cs chunk.height hCR hH] at hdvc
  have hhc32 : chunksAcross cs chunk.width < 4294967296 := by
    rw [chunksAcross_eq cs chunk.width hCR hW]
    exact lt_of_le_of_lt (Nat.div_le_self _ _) hW
  have hvc32 : chunksAcross cs chunk.height < 4294967296 := by
    rw [chunksAcross_eq cs chunk.height hCR hH]
    exact lt_of_le_of_lt (Nat.div_le_self _ _) hH
  have hne : lts / cs.CHUNKSIZE ≠ 0 := Nat.pos_iff_ne_zero.mp hbps
  have hcs0 : cs.CHUNKSIZE ≠ 0 := by
    intro h
    rw [h, Nat.div_zero] at hbps
    exact absurd hbps (lt_irrefl 0)
  simp only [renderpartGeometry_eq]
  generalize firstChunk cs cl = a at *
  generalize lastChunk cs cl cw = b at *
  generalize firstChunk cs ct = c at *
  generalize lastChunk cs ct ch = d at *
  generalize chunksAcross cs chunk.width = hcN at *
  generalize chunksAcross cs chunk.height = vcN at *
  have hua : u32 (a * cs.CHUNKSIZE_REAL) = a * cs.CHUNKSIZE_REAL := u32_of_lt ha32
  have huc : u32 (c * cs.CHUNKSIZE_REAL) = c * cs.CHUNKSIZE_REAL := u32_of_lt hc32
  have hskip : u32 (hcN + 4294967296 - b + a) = hcN - (b - a) := by
    unfold u32
    omega
  have hdhc : d * hcN ≤ vcN * hcN := Nat.mul_le_mul_right _ hdvc
  have hLeq : chunk.chunks.length = vcN * hcN := by rw [hL, Nat.mul_comm]
  have hcdm : c * hcN + (d - c) * hcN = d * hcN := by
    rw [← Nat.add_mul]
    congr 1
    omega
  have hchc : c * hcN ≤ d * hcN := Nat.mul_le_mul_right _ hcd
  have hbound : a + d * hcN < 4294967296 := by
    rcases Nat.eq_zero_or_pos vcN with hv | hv
    · have hd0 : d = 0 := by omega
      rw [hd0]
      omega
    · have : hcN ≤ vcN * hcN := Nat.le_mul_of_pos_left _ hv
      omega
  have hcur : u32 (a + c * hcN) = a + c * hcN := u32_of_lt (by omega)
  have hprod : (d - c) * (b - a) ≤ chunk.chunks.length := by
    rw [hLeq]
    exact Nat.mul_le_mul (le_trans (Nat.sub_le _ _) hdvc) (le_trans (Nat.sub_le _ _) hbhc)
  obtain ⟨st2, rows, hfold, hrl, hrows, hv2, ht2, hr2, hchain⟩ :=
    rowLoop cs lts chunk cw ch (cl - ((u32 (a * cs.CHUNKSIZE_REAL) : Nat) : ℚ))
      (ct - ((u32 (c * cs.CHUNKSIZE_REAL) : Nat) : ℚ)) tx a b
      (u32 (hcN + 4294967296 - b + a)) hcN hne hskip (le_trans (Nat.sub_le _ _) hbhc)
      (List.range' c (d - c))
      { curChunk := u32 (a + c * hcN)
        chunkrendercount := 0
        vertex_coords := []
        texture_coords := []
        startULeft := 0
        widthtoplace := 0
        availXForTexture := 0
        startX := 0
        startVtop := ct - ((u32 (c * cs.CHUNKSIZE_REAL) : Nat) : ℚ)
        availYForTexture := f2u (ch + (ct - ((u32 (c * cs.CHUNKSIZE_REAL) : Nat) : ℚ)))
        startY := ty
        heighttoplace := ch }
      (by
        simp only [List.length_range', hcur]
        omega)
      (by
        simp only [List.length_range', hcur]
        omega)
      (by
        simp only [List.length_range']
        omega)
  simp only [List.length_range', List.nil_append, Nat.zero_add] at hrl hv2 ht2 hr2
  refine ⟨rows, ?_, hrl, hrows, hprod, ?_⟩
  · rw [if_neg (by omega), hfold]
    have hrc : toInt32 (u32 (u32 (b + 4294967296 - a) * u32 (d + 4294967296 - c)))
        = (((b - a) * (d - c) : ℕ) : ℤ) := by
      have h1 : u32 (b + 4294967296 - a) = b - a := by unfold u32; omega
      have h2 : u32 (d + 4294967296 - c) = d - c := by unfold u32; omega
      have h3 : (b - a) * (d - c) ≤ chunk.chunks.length := by
        rw [Nat.mul_comm]; exact hprod
      rw [h1, h2, u32_of_lt (by omega)]
      unfold toInt32
      rw [if_pos (by omega)]
    simp only [hrc, hv2, ht2, hr2]
  · intro hx hy
    have hsubx : (((b - a : ℕ) : ℕ) : ℚ) = (b : ℚ) - (a : ℚ) := Nat.cast_sub hab
    have hsuby : (((d - c : ℕ) : ℕ) : ℚ) = (d : ℚ) - (c : ℚ) := Nat.cast_sub hcd
    have hamul2 : (a : ℚ) * (cs.CHUNKSIZE_REAL : ℚ) ≤ cl := by
      have := hamul
      push_cast at this
      exact this
    have hcmul2 : (c : ℚ) * (cs.CHUNKSIZE_REAL : ℚ) ≤ ct := by
      have := hcmul
      push_cast at this
      exact this
    rw [hua, huc, List.length_range'] at hchain
    exact hchain (by push_cast; linarith) hcw (by rw [hsubx]; push_cast; linarith) rfl
      (by push_cast; linarith) hch (by rw [hsuby]; push_cast; linarith)

end LoopTheorems4

section QuadTheorems

theorem edgeToEdgeX_widths (row : List Quad) :
    ∀ a b : ℚ, edgeToEdgeX a row b → (row.map fun q => q.endX - q.startX).sum = b - a := by
  induction row with
  | nil =>
    intro a b h
    simp only [edgeToEdgeX] at h
    simp [h]
  | cons q qs ih =>
    intro a b h
    obtain ⟨h1, h2⟩ := h
    simp only [List.map_cons, List.sum_cons, ih _ _ h2, h1]
    ring

theorem flatten_length_of_rows (n : Nat) (rows : List (List Quad))
    (h : ∀ row ∈ rows, row.length = n) : rows.flatten.length = rows.length * n := by
  induction rows with
  | nil => simp
  | cons r rs ih =>
    simp only [List.flatten_cons, List.length_append, List.length_cons]
    rw [ih (fun row hr => h row (List.mem_cons_of_mem _ hr)), h r (List.mem_cons_self _ _)]
    ring

theorem vertexFloats_flatten_length (quads : List Quad) :
    (quads.map Quad.vertexFloats).flatten.length = quads.length * 12 := by
  induction quads with
  | nil => simp
  | cons q qs ih =>
    simp only [List.map_cons, List.flatten_cons, List.length_append, ih, List.length_cons]
    simp only [Quad.vertexFloats, List.length_cons, List.length_nil]
    omega

theorem textureFloats_flatten_length (quads : List Quad) :
    (quads.map Quad.textureFloats).flatten.length = quads.length * 12 := by
  induction quads with
  | nil => simp
  | cons q qs ih =>
    simp only [List.map_cons, List.flatten_cons, List.length_append, ih, List.length_cons]
    simp only [Quad.textureFloats, List.length_cons, List.length_nil]
    omega

/-- A crop whose right (or bottom) edge is a whole number is covered by the chunk columns
(rows) that `renderpart` selects. -/
theorem lastChunk_covers_whole (cs : ChunkConsts) (W n : Nat) (c s : ℚ)
    (hCR0 : 0 < cs.CHUNKSIZE_REAL) (hW : W + cs.CHUNKSIZE_REAL - 1 < 4294967296)
    (h0 : 0 ≤ c) (hs : 0 ≤ s) (hcs : c + s ≤ (W : ℚ)) (hn : c + s = (n : ℚ)) :
    c + s ≤ ((lastChunk cs c s : ℕ) : ℚ) * (cs.CHUNKSIZE_REAL : ℚ) := by
  obtain ⟨hl, _, _⟩ := lastChunk_eq cs W c s hCR0 hW h0 hs hcs
  have hcast : c + s + (cs.CHUNKSIZE_REAL : ℚ) - 1 = ((n + cs.CHUNKSIZE_REAL - 1 : ℕ) : ℚ) := by
    rw [Nat.cast_sub (by omega), hn]
    push_cast
    ring
  rw [hl, hcast, Nat.floor_div_eq_div, hn]
  have h1 := Nat.lt_mul_div_succ (n + cs.CHUNKSIZE_REAL - 1) hCR0
  rw [Nat.mul_add, Nat.mul_one, Nat.mul_comm] at h1
  have h2 : n ≤ (n + cs.CHUNKSIZE_REAL - 1) / cs.CHUNKSIZE_REAL * cs.CHUNKSIZE_REAL := by omega
  exact_mod_cast h2

/-! ### Quads laid edge to edge -/

/-- For a chunk as the atlas allocates it and a crop rectangle with
non-negative size inside the chunk whose right and bottom edges are reached by the chunk
columns and rows that the code selects (`cropleft + cropwidth ≤ lastchunkhorizontal *
CHUNKSIZE_REAL` and `croptop + cropheight ≤ lastchunkvertical * CHUNKSIZE_REAL`), the two
loops of `renderpart` finish and the quads they write form rows laid edge to edge: in every
row the first quad starts at `x = tx`, each next quad starts where the previous one ended,
the last ends at `tx + cropwidth / xContentScale`, so the widths of the quads of a row sum
to `cropwidth / xContentScale`; the rows run from `ty` to `ty + cropheight / yContentScale`
in the same way. -/
theorem renderpart_quads_edge_to_edge (cs : ChunkConsts) (lts : Nat) (chunk : TextureChunk)
    (cropleft croptop cropwidth cropheight tx ty : ℚ)
    (hA : chunk.Allocated cs lts)
    (hC : CropInside chunk cropleft croptop cropwidth cropheight)
    (hx : cropleft + cropwidth
      ≤ ((lastChunk cs cropleft cropwidth : ℕ) : ℚ) * (cs.CHUNKSIZE_REAL : ℚ))
    (hy : croptop + cropheight
      ≤ ((lastChunk cs croptop cropheight : ℕ) : ℚ) * (cs.CHUNKSIZE_REAL : ℚ)) :
    ∃ (g : PartGeometry) (rows : List (List Quad)),
      renderpartGeometry cs lts chunk cropleft croptop cropwidth cropheight tx ty = some g ∧
      g.vertex_coords = rowsVertexFloats rows ∧
      g.texture_coords = rowsTextureFloats rows ∧
      rowsEdgeToEdge tx (tx + cropwidth / chunk.xContentScale) ty rows
        (ty + cropheight / chunk.yContentScale) ∧
      (∀ row ∈ rows, (row.map fun q => q.endX - q.startX).sum
        = cropwidth / chunk.xContentScale) := by
  obtain ⟨rows, hg, _, _, _, hedge⟩ :=
    renderpartGeometry_rows cs lts chunk cropleft croptop cropwidth cropheight tx ty hA hC
  have he := hedge hx hy
  refine ⟨_, rows, hg, rfl, rfl, he, ?_⟩
  have hall : ∀ (rs : List (List Quad)) (a b : ℚ),
      rowsEdgeToEdge tx (tx + cropwidth / chunk.xContentScale) a rs b →
      ∀ row ∈ rs, edgeToEdgeX tx row (tx + cropwidth / chunk.xContentScale) := by
    intro rs
    induction rs with
    | nil => intro _ _ _ row hr; cases hr
    | cons r rest ih =>
      intro a b h row hr
      obtain ⟨y1, h1, _, h3⟩ := h
      rcases List.mem_cons.mp hr with hh | hh
      · rw [hh]; exact h1
      · exact ih y1 b h3 row hh
  intro row hr
  rw [edgeToEdgeX_widths row _ _ (hall rows _ _ he row hr)]
  ring

theorem lastChunk_example_whole : lastChunk exampleConsts 0 100 = 1
    ∧ lastChunk exampleConsts 0 50 = 1 := by
  constructor
  · have h : ⌊((0 : ℚ) + 100 + ((exampleConsts.CHUNKSIZE_REAL : ℕ) : ℚ) - 1)
        / ((exampleConsts.CHUNKSIZE_REAL : ℕ) : ℚ)⌋₊ = 1 := by
      rw [Nat.floor_eq_iff (by norm_num [exampleConsts])]
      norm_num [exampleConsts]
    unfold lastChunk f2u
    rw [h]
    rfl
  · have h : ⌊((0 : ℚ) + 50 + ((exampleConsts.CHUNKSIZE_REAL : ℕ) : ℚ) - 1)
        / ((exampleConsts.CHUNKSIZE_REAL : ℕ) : ℚ)⌋₊ = 1 := by
      rw [Nat.floor_eq_iff (by norm_num [exampleConsts])]
      norm_num [exampleConsts]
    unfold lastChunk f2u
    rw [h]
    rfl

/-- The whole-chunk crop of the example chunk (100 by 50, content scale 1) at
`tx = ty = 0` is written edge to edge. -/
theorem renderpart_quads_edge_to_edge_witness :
    ∃ (g : PartGeometry) (rows : List (List Quad)),
      renderpartGeometry exampleConsts 1024 exampleChunk 0 0 100 50 0 0 = some g ∧
      g.vertex_coords = rowsVertexFloats rows ∧
      g.texture_coords = rowsTextureFloats rows ∧
      rowsEdgeToEdge 0 (0 + 100 / exampleChunk.xContentScale) 0 rows
        (0 + 50 / exampleChunk.yContentScale) ∧
      (∀ row ∈ rows, (row.map fun q => q.endX - q.startX).sum
        = 100 / exampleChunk.xContentScale) :=
  renderpart_quads_edge_to_edge exampleConsts 1024 exampleChunk 0 0 100 50 0 0
    (by decide)
    (by unfold CropInside; norm_num [exampleChunk])
    (by rw [lastChunk_example_whole.1]; norm_num [exampleConsts])
    (by rw [lastChunk_example_whole.2]; norm_num [exampleConsts])

end QuadTheorems

section QuadTheorems2

/-! ### C11 -/

theorem wideChunk_indices :
    firstChunk exampleConsts 0 = 0 ∧ lastChunk exampleConsts 0 (253 / 2) = 1 ∧
    lastChunk exampleConsts 0 50 = 1 ∧ f2u ((253 : ℚ) / 2) = 126 ∧ f2u (50 : ℚ) = 50 := by
  refine ⟨?_, ?_, ?_, ?_, ?_⟩
  · simp [firstChunk, f2u, u32]
  · have h : ⌊((0 : ℚ) + 253 / 2 + ((exampleConsts.CHUNKSIZE_REAL : ℕ) : ℚ) - 1)
        / ((exampleConsts.CHUNKSIZE_REAL : ℕ) : ℚ)⌋₊ = 1 := by
      rw [Nat.floor_eq_iff (by norm_num [exampleConsts])]
      norm_num [exampleConsts]
    unfold lastChunk f2u
    rw [h]
    rfl
  · exact lastChunk_example_whole.2
  · have h : ⌊((253 : ℚ) / 2)⌋₊ = 126 := by
      rw [Nat.floor_eq_iff (by norm_num)]
      norm_num
    unfold f2u
    rw [h]
    rfl
  · exact f2u_natCast 50 (by norm_num)

/-- C11, evaluated at a fractional crop: a chunk of 200 by 50 pixels in two blocks,
`CHUNKSIZE_REAL = 126`, content scale 1, crop `(0, 0, 126.5, 50)` at `tx = ty = 0`.  The crop lies inside the
chunk, but `lastchunkhorizontal = (0 + 126.5 + 125) / 126` truncates to 1, so one quad is
written, from `x = 0` to `x = 126`: the row ends before `tx + cropwidth / xContentScale =
126.5`, and no arrangement of the written floats into rows runs edge to edge up to
126.5. -/
theorem renderpart_fractional_crop_falls_short :
    wideChunk.Allocated exampleConsts 1024 ∧ CropInside wideChunk 0 0 (253 / 2) 50 ∧
    (∃ g : PartGeometry,
      renderpartGeometry exampleConsts 1024 wideChunk 0 0 (253 / 2) 50 0 0 = some g ∧
      g.realchunkcount = 1 ∧
      g.vertex_coords = [0, 0, 126, 0, 126, 50, 0, 0, 126, 50, 0, 50] ∧
      ¬ ∃ rows : List (List Quad), g.vertex_coords = rowsVertexFloats rows ∧
        rowsEdgeToEdge 0 (0 + (253 / 2) / wideChunk.xContentScale) 0 rows
          (0 + 50 / wideChunk.yContentScale)) := by
  obtain ⟨hf, hl, hlv, ha, hb⟩ := wideChunk_indices
  refine ⟨by decide, by unfold CropInside; norm_num [wideChunk], ?_⟩
  have hu0 : u32 0 = 0 := rfl
  have hu126 : u32 126 = 126 := rfl
  have hu1 : u32 4294967297 = 1 := rfl
  have hu11 : u32 1 = 1 := rfl
  have hca : chunksAcross exampleConsts 200 = 2 := by decide
  have hg : renderpartGeometry exampleConsts 1024 wideChunk 0 0 (253 / 2) 50 0 0
      = some { realchunkcount := 1
               chunkrendercount := 1
               vertex_coords := [0, 0, 126, 0, 126, 50, 0, 0, 126, 50, 0, 50]
               texture_coords := (quadTexture 1024 128 10 0 0 126 50).1 ::
                 (quadTexture 1024 128 10 0 0 126 50).2.1 ::
                 (quadTexture 1024 128 10 0 0 126 50).2.2.1 ::
                 (quadTexture 1024 128 10 0 0 126 50).2.1 ::
                 (quadTexture 1024 128 10 0 0 126 50).2.2.1 ::
                 (quadTexture 1024 128 10 0 0 126 50).2.2.2 ::
                 (quadTexture 1024 128 10 0 0 126 50).1 ::
                 (quadTexture 1024 128 10 0 0 126 50).2.1 ::
                 (quadTexture 1024 128 10 0 0 126 50).2.2.1 ::
                 (quadTexture 1024 128 10 0 0 126 50).2.2.2 ::
                 (quadTexture 1024 128 10 0 0 126 50).1 ::
                 [(quadTexture 1024 128 10 0 0 126 50).2.2.2] } := by
    rw [renderpartGeometry_eq, hf, hl, hlv]
    simp [renderpartRow_eq, rowStart, rowHeightConsumed, renderpartColumn, exampleConsts,
      wideChunk, hu0, hu126, hu1, hu11, ha, hb, Quad.vertexFloats, Quad.textureFloats, toInt32]
    norm_num
  refine ⟨_, hg, rfl, rfl, ?_⟩
  rintro ⟨rows, hv, he⟩
  cases rows with
  | nil => simp [rowsVertexFloats] at hv
  | cons row rest =>
    obtain ⟨y1, hrow, _, _⟩ := he
    cases row with
    | nil =>
      simp only [edgeToEdgeX] at hrow
      norm_num [wideChunk] at hrow
    | cons q qs =>
      obtain ⟨hq0, hq1⟩ := hrow
      cases qs with
      | nil =>
        simp only [edgeToEdgeX] at hq1
        simp [rowsVertexFloats, Quad.vertexFloats] at hv
        norm_num [wideChunk] at hq1
        linarith [hv.2.2.1]
      | cons q2 qs2 =>
        have hlen := congrArg List.length hv
        simp [rowsVertexFloats, Quad.vertexFloats] at hlen

end QuadTheorems2

section PartTheorems

variable {M C : Type}

/-- The calls that `renderpart` adds to the log once its geometry `g` is computed
(rendering_context.cpp:402-404 and 514-520). -/
theorem GLRenderContext.renderpart_of_geometry (ops : MatrixOps M C ℚ) (cs : ChunkConsts)
    (ctx : GLRenderContext ℚ) (matrix : M) (chunk : TextureChunk)
    (cl ct cw ch tx ty : ℚ) (g : PartGeometry)
    (hg : renderpartGeometry cs ctx.largeTextureSize chunk cl ct cw ch tx ty = some g) :
    ∃ ctx2 : GLRenderContext ℚ,
      GLRenderContext.renderpart ops cs ctx matrix chunk cl ct cw ch tx ty = some ctx2 ∧
      ctx2.engineData = ctx.engineData ++
        [GLCall.glUniformMatrix4fv ctx.modelviewMatrixUniform 1 false (ops.get4DMatrix matrix),
         GLCall.glVertexAttribPointer_FLOAT_2 VertexAttrib.VERTEX_ATTRIB 0 g.vertex_coords,
         GLCall.glVertexAttribPointer_FLOAT_2 VertexAttrib.TEXCOORD_ATTRIB 0 g.texture_coords,
         GLCall.glEnableVertexAttribArray VertexAttrib.VERTEX_ATTRIB,
         GLCall.glEnableVertexAttribArray VertexAttrib.TEXCOORD_ATTRIB,
         GLCall.glDrawArrays_GL_TRIANGLES 0 (u32 (g.chunkrendercount * 6)),
         GLCall.glDisableVertexAttribArray VertexAttrib.VERTEX_ATTRIB,
         GLCall.glDisableVertexAttribArray VertexAttrib.TEXCOORD_ATTRIB] ∧
      ctx2.largeTextureSize = ctx.largeTextureSize ∧
      ctx2.modelviewMatrixUniform = ctx.modelviewMatrixUniform := by
  have hg2 : renderpartGeometry cs
      ((ctx.onBase (fun rc => rc.lsglLoadMatrixf (ops.get4DMatrix matrix))).setMatrixUniform
        LSGL_MATRIX.LSGL_MODELVIEW).largeTextureSize chunk cl ct cw ch tx ty = some g := hg
  simp [GLRenderContext.renderpart, hg2, hg, GLRenderContext.setMatrixUniform,
    GLRenderContext.onBase, RenderContext.lsglLoadMatrixf]

/-- Without a geometry (a read past the end of `chunk.chunks` or a division by zero),
`renderpart` has no result. -/
theorem GLRenderContext.renderpart_eq_some (ops : MatrixOps M C ℚ) (cs : ChunkConsts)
    (ctx ctx2 : GLRenderContext ℚ) (matrix : M) (chunk : TextureChunk)
    (cl ct cw ch tx ty : ℚ)
    (h : GLRenderContext.renderpart ops cs ctx matrix chunk cl ct cw ch tx ty = some ctx2) :
    ∃ g : PartGeometry,
      renderpartGeometry cs ctx.largeTextureSize chunk cl ct cw ch tx ty = some g := by
  rcases hg : renderpartGeometry cs ctx.largeTextureSize chunk cl ct cw ch tx ty with _ | g
  · have hg2 : renderpartGeometry cs
        ((ctx.onBase (fun rc => rc.lsglLoadMatrixf (ops.get4DMatrix matrix))).setMatrixUniform
          LSGL_MATRIX.LSGL_MODELVIEW).largeTextureSize chunk cl ct cw ch tx ty = none := hg
    simp [GLRenderContext.renderpart, hg2, hg, GLRenderContext.setMatrixUniform,
      GLRenderContext.onBase, RenderContext.lsglLoadMatrixf] at h
  · exact ⟨g, rfl⟩

/-! ### C12 -/

/-- C12: for a chunk as the atlas allocates it and a crop rectangle with non-negative size
inside the chunk, `renderpart` finishes; it writes the floats of exactly
`realchunkcount = (lastchunkhorizontal - firstchunkhorizontal) * (lastchunkvertical -
firstchunkvertical)` quads into `vertex_coords` and into `texture_coords`, twelve floats for
each quad, so that each array ends with `realchunkcount * 12` floats, the number it was
allocated for (the write index `k` is the length of the part written so far); and it issues
exactly one `glDrawArrays(GL_TRIANGLES, ...)`, of `chunkrendercount * 6 = realchunkcount * 6`
vertices. -/
theorem GLRenderContext.renderpart_quad_count (ops : MatrixOps M C ℚ) (cs : ChunkConsts)
    (ctx : GLRenderContext ℚ) (matrix : M) (chunk : TextureChunk)
    (cropleft croptop cropwidth cropheight tx ty : ℚ)
    (hA : chunk.Allocated cs ctx.largeTextureSize)
    (hC : CropInside chunk cropleft croptop cropwidth cropheight) :
    ∃ (g : PartGeometry) (quads : List Quad) (ctx2 : GLRenderContext ℚ),
      renderpartGeometry cs ctx.largeTextureSize chunk cropleft croptop cropwidth cropheight
        tx ty = some g ∧
      GLRenderContext.renderpart ops cs ctx matrix chunk cropleft croptop cropwidth cropheight
        tx ty = some ctx2 ∧
      g.realchunkcount
        = (((lastChunk cs cropleft cropwidth - firstChunk cs cropleft)
            * (lastChunk cs croptop cropheight - firstChunk cs croptop) : ℕ) : ℤ) ∧
      ((quads.length : ℕ) : ℤ) = g.realchunkcount ∧
      g.vertex_coords = (quads.map Quad.vertexFloats).flatten ∧
      g.texture_coords = (quads.map Quad.textureFloats).flatten ∧
      ((g.vertex_coords.length : ℕ) : ℤ) = g.realchunkcount * 12 ∧
      ((g.texture_coords.length : ℕ) : ℤ) = g.realchunkcount * 12 ∧
      ((g.chunkrendercount : ℕ) : ℤ) = g.realchunkcount ∧
      drawCounts ctx2.engineData = drawCounts ctx.engineData ++ [g.chunkrendercount * 6] := by
  obtain ⟨rows, hg, hrl, hrows, hprod, _⟩ :=
    renderpartGeometry_rows cs ctx.largeTextureSize chunk cropleft croptop cropwidth cropheight
      tx ty hA hC
  obtain ⟨ctx2, hr, hlog, _, _⟩ :=
    GLRenderContext.renderpart_of_geometry ops cs ctx matrix chunk cropleft croptop cropwidth
      cropheight tx ty _ hg
  have hflat : rows.flatten.length = (lastChunk cs croptop cropheight - firstChunk cs croptop)
      * (lastChunk cs cropleft cropwidth - firstChunk cs cropleft) := by
    rw [flatten_length_of_rows _ rows hrows, hrl]
  have hL12 := hA.2.2.2.2.2.2
  refine ⟨_, rows.flatten, ctx2, hg, hr, rfl, ?_, rfl, rfl, ?_, ?_, ?_, ?_⟩
  · simp only [hflat]
    push_cast
    ring
  · simp only [rowsVertexFloats, vertexFloats_flatten_length, hflat]
    push_cast
    ring
  · simp only [rowsTextureFloats, textureFloats_flatten_length, hflat]
    push_cast
    ring
  · simp only
    push_cast
    ring
  · rw [hlog, drawCounts_append]
    have hu : u32 ((lastChunk cs croptop cropheight - firstChunk cs croptop)
        * (lastChunk cs cropleft cropwidth - firstChunk cs cropleft) * 6)
        = (lastChunk cs croptop cropheight - firstChunk cs croptop)
        * (lastChunk cs cropleft cropwidth - firstChunk cs cropleft) * 6 :=
      u32_of_lt (by omega)
    simp [drawCounts, hu]

/-- C12, evaluated: the whole-chunk crop of the example chunk on the example context, with
the identity of the example matrix operations. -/
theorem GLRenderContext.renderpart_quad_count_witness :
    ∃ (g : PartGeometry) (quads : List Quad) (ctx2 : GLRenderContext ℚ),
      renderpartGeometry exampleConsts exampleContext.largeTextureSize exampleChunk 0 0 100 50
        0 0 = some g ∧
      GLRenderContext.renderpart scaleTranslateOps exampleConsts exampleContext
        scaleTranslateOps.identity exampleChunk 0 0 100 50 0 0 = some ctx2 ∧
      g.realchunkcount
        = (((lastChunk exampleConsts 0 100 - firstChunk exampleConsts 0)
            * (lastChunk exampleConsts 0 50 - firstChunk exampleConsts 0) : ℕ) : ℤ) ∧
      ((quads.length : ℕ) : ℤ) = g.realchunkcount ∧
      g.vertex_coords = (quads.map Quad.vertexFloats).flatten ∧
      g.texture_coords = (quads.map Quad.textureFloats).flatten ∧
      ((g.vertex_coords.length : ℕ) : ℤ) = g.realchunkcount * 12 ∧
      ((g.texture_coords.length : ℕ) : ℤ) = g.realchunkcount * 12 ∧
      ((g.chunkrendercount : ℕ) : ℤ) = g.realchunkcount ∧
      drawCounts ctx2.engineData
        = drawCounts exampleContext.engineData ++ [g.chunkrendercount * 6] :=
  GLRenderContext.renderpart_quad_count scaleTranslateOps exampleConsts exampleContext
    scaleTranslateOps.identity exampleChunk 0 0 100 50 0 0
    (by decide)
    (by unfold CropInside; norm_num [exampleChunk])

end PartTheorems

section SliceTheorems0

variable {M C : Type}

theorem GLRenderContext.renderScalingGrid_eq_regions (ops : MatrixOps M C ℚ) (cs : ChunkConsts)
    (ctx : GLRenderContext ℚ) (chunk : TextureChunk) (matrix : M) (g : Rectangle) :
    GLRenderContext.renderScalingGrid ops cs ctx chunk matrix g
      = (GLRenderContext.scalingGridRegions ops chunk matrix g).foldlM
          (GLRenderContext.renderRegion ops cs chunk) ctx := by
  simp only [GLRenderContext.renderScalingGrid, GLRenderContext.scalingGridRegions,
    GLRenderContext.sliceQuantities, GLRenderContext.renderRegion, List.foldlM_cons,
    List.foldlM_nil, Option.bind_eq_bind, Option.pure_def, Option.bind_some]

end SliceTheorems0

section SliceTheorems1

variable {M C : Type}

theorem matrixUploads_append {α : Type} (l1 l2 : List (GLCall α)) :
    matrixUploads (l1 ++ l2) = matrixUploads l1 ++ matrixUploads l2 := by
  simp [matrixUploads, List.filterMap_append]

/-- For an allocated chunk and a crop inside it `renderpart` finishes and adds one matrix
upload, one pair of coordinate arrays and one draw call to the log. -/
theorem GLRenderContext.renderpart_total (ops : MatrixOps M C ℚ) (cs : ChunkConsts)
    (ctx : GLRenderContext ℚ) (matrix : M) (chunk : TextureChunk)
    (cl ct cw ch tx ty : ℚ) (hA : chunk.Allocated cs ctx.largeTextureSize)
    (hC : CropInside chunk cl ct cw ch) :
    ∃ (g : PartGeometry) (ctx2 : GLRenderContext ℚ),
      renderpartGeometry cs ctx.largeTextureSize chunk cl ct cw ch tx ty = some g ∧
      GLRenderContext.renderpart ops cs ctx matrix chunk cl ct cw ch tx ty = some ctx2 ∧
      ctx2.largeTextureSize = ctx.largeTextureSize ∧
      drawCounts ctx2.engineData
        = drawCounts ctx.engineData ++ [u32 (g.chunkrendercount * 6)] ∧
      matrixUploads ctx2.engineData
        = matrixUploads ctx.engineData ++ [ops.get4DMatrix matrix] ∧
      coordArrays VertexAttrib.VERTEX_ATTRIB ctx2.engineData
        = coordArrays VertexAttrib.VERTEX_ATTRIB ctx.engineData ++ [g.vertex_coords] ∧
      coordArrays VertexAttrib.TEXCOORD_ATTRIB ctx2.engineData
        = coordArrays VertexAttrib.TEXCOORD_ATTRIB ctx.engineData ++ [g.texture_coords] := by
  obtain ⟨rows, hg, _⟩ :=
    renderpartGeometry_rows cs ctx.largeTextureSize chunk cl ct cw ch tx ty hA hC
  obtain ⟨ctx2, hr, hlog, hlts, _⟩ :=
    GLRenderContext.renderpart_of_geometry ops cs ctx matrix chunk cl ct cw ch tx ty _ hg
  refine ⟨_, ctx2, hg, hr, hlts, ?_, ?_, ?_, ?_⟩
  · rw [hlog, drawCounts_append]
    simp [drawCounts]
  · rw [hlog, matrixUploads_append]
    simp [matrixUploads]
  · rw [hlog, coordArrays_append]
    simp [coordArrays]
  · rw [hlog, coordArrays_append]
    simp [coordArrays]

/-- A list of regions with crops inside an allocated chunk is rendered by as many
`renderpart` calls, each with the matrix of its region. -/
theorem GLRenderContext.renderRegions_total (ops : MatrixOps M C ℚ) (cs : ChunkConsts)
    (chunk : TextureChunk) :
    ∀ (regions : List (GridRegion M)) (ctx : GLRenderContext ℚ),
      chunk.Allocated cs ctx.largeTextureSize →
      (∀ r ∈ regions, CropInside chunk r.cropleft r.croptop r.cropwidth r.cropheight) →
      ∃ ctx2 : GLRenderContext ℚ,
        regions.foldlM (GLRenderContext.renderRegion ops cs chunk) ctx = some ctx2 ∧
        ctx2.largeTextureSize = ctx.largeTextureSize ∧
        (drawCounts ctx2.engineData).length
          = (drawCounts ctx.engineData).length + regions.length ∧
        matrixUploads ctx2.engineData
          = matrixUploads ctx.engineData ++ regions.map (fun r => ops.get4DMatrix r.matrix) := by
  intro regions
  induction regions with
  | nil =>
    intro ctx _ _
    exact ⟨ctx, rfl, rfl, by simp, by simp⟩
  | cons r rs ih =>
    intro ctx hA hC
    obtain ⟨g, ctx1, _, hr, hlts, hd, hm, _, _⟩ :=
      GLRenderContext.renderpart_total ops cs ctx r.matrix chunk r.cropleft r.croptop
        r.cropwidth r.cropheight 0 0 hA (hC r (List.mem_cons_self _ _))
    have hA1 : chunk.Allocated cs ctx1.largeTextureSize := by rw [hlts]; exact hA
    obtain ⟨ctx2, hf, hlts2, hd2, hm2⟩ :=
      ih ctx1 hA1 (fun r2 hr2 => hC r2 (List.mem_cons_of_mem _ hr2))
    refine ⟨ctx2, ?_, by rw [hlts2, hlts], ?_, ?_⟩
    · have hstep : GLRenderContext.renderRegion ops cs chunk ctx r = some ctx1 := hr
      simp only [List.foldlM_cons, hstep]
      exact hf
    · rw [hd2, hd]
      simp only [List.length_append, List.length_cons, List.length_nil]
      omega
    · rw [hm2, hm]
      simp

/-- With positive content scales and a grid of non-negative size that passes the slicing
condition, each of the nine crops lies inside the chunk. -/
theorem GLRenderContext.scalingGrid_crops_inside (ops : MatrixOps M C ℚ) (chunk : TextureChunk)
    (matrix : M) (g : Rectangle)
    (hxs : 0 < chunk.xContentScale) (hys : 0 < chunk.yContentScale)
    (hw : 0 ≤ g.width) (hh : 0 ≤ g.height)
    (hx : g.width + |g.x| < (chunk.width : ℚ) / chunk.xContentScale)
    (hy : g.height + |g.y| < (chunk.height : ℚ) / chunk.yContentScale) :
    ∀ r ∈ GLRenderContext.scalingGridRegions ops chunk matrix g,
      CropInside chunk r.cropleft r.croptop r.cropwidth r.cropheight := by
  have ha : 0 ≤ |g.x| * chunk.xContentScale := mul_nonneg (abs_nonneg _) hxs.le
  have hb : 0 ≤ |g.y| * chunk.yContentScale := mul_nonneg (abs_nonneg _) hys.le
  have hc : 0 ≤ g.width * chunk.xContentScale := mul_nonneg hw hxs.le
  have hd : 0 ≤ g.height * chunk.yContentScale := mul_nonneg hh hys.le
  have hx2 : |g.x| * chunk.xContentScale + g.width * chunk.xContentScale
      < (chunk.width : ℚ) := by
    have := (lt_div_iff₀ hxs).mp hx
    linarith
  have hy2 : |g.y| * chunk.yContentScale + g.height * chunk.yContentScale
      < (chunk.height : ℚ) := by
    have := (lt_div_iff₀ hys).mp hy
    linarith
  intro r hr
  simp only [GLRenderContext.scalingGridRegions, GLRenderContext.sliceQuantities,
    List.mem_cons, List.mem_singleton, List.not_mem_nil, or_false] at hr
  rcases hr with h | h | h | h | h | h | h | h | h <;> subst h <;>
    (unfold CropInside; simp only; refine ⟨?_, ?_, ?_, ?_, ?_, ?_⟩ <;> linarith)

end SliceTheorems1

section SliceTheorems2

variable {M C : Type}

theorem TextureChunk.Allocated.assertion {cs : ChunkConsts} {lts : Nat} {chunk : TextureChunk}
    (hA : chunk.Allocated cs lts) :
    chunk.getNumberOfChunks cs.CHUNKSIZE_REAL
      = assertedNumberOfChunks cs.CHUNKSIZE_REAL chunk := by
  obtain ⟨hCR0, hCR, _, hW, hH, hL, hL12⟩ := hA
  rw [chunksAcross_eq cs chunk.width hCR hW, chunksAcross_eq cs chunk.height hCR hH] at hL
  have hn : chunk.getNumberOfChunks cs.CHUNKSIZE_REAL < 4294967296 := by
    unfold TextureChunk.getNumberOfChunks
    rw [natCeil_div_eq _ _ hCR0, natCeil_div_eq _ _ hCR0, ← hL]
    omega
  exact (assertedNumberOfChunks_eq _ _ hCR0 (by omega) hW hH hn).symm

/-- The calls of `renderTextured` before and after the `renderpart` calls: they add no
draw call, no matrix upload and no coordinate array, and leave `largeTextureSize` alone. -/
theorem GLRenderContext.renderTextured_eq (ops : MatrixOps M C ℚ) (cs : ChunkConsts)
    (ctx : GLRenderContext ℚ) (chunk : TextureChunk) (alpha : ℚ) (colorMode : COLOR_MODE)
    (colortransform : ColorTransformBase) (isMask : Bool) (directMode : ℚ) (directColor : RGB)
    (smooth : SMOOTH_MODE) (matrix : M) (scalingGrid : Option Rectangle)
    (blendmode : AS_BLENDMODE) (id : Nat)
    (htex : ctx.largeTextures[chunk.texId]? = some id)
    (hassert : chunk.getNumberOfChunks cs.CHUNKSIZE_REAL
      = assertedNumberOfChunks cs.CHUNKSIZE_REAL chunk) :
    ∃ (ctx3 : GLRenderContext ℚ) (tail : List (GLCall ℚ)),
      ctx3.largeTextureSize = ctx.largeTextureSize ∧
      drawCounts ctx3.engineData = drawCounts ctx.engineData ∧
      matrixUploads ctx3.engineData = matrixUploads ctx.engineData ∧
      (∀ a, coordArrays a ctx3.engineData = coordArrays a ctx.engineData) ∧
      drawCounts tail = [] ∧ matrixUploads tail = [] ∧ (∀ a, coordArrays a tail = []) ∧
      ctx.renderTextured ops cs chunk alpha colorMode colortransform isMask directMode
          directColor smooth matrix scalingGrid blendmode
        = (match scalingGrid, GLRenderContext.useScalingGrid ops chunk matrix scalingGrid with
            | some g, true => GLRenderContext.renderScalingGrid ops cs ctx3 chunk matrix g
            | _, _ => GLRenderContext.renderpart ops cs ctx3 matrix chunk 0 0
                (chunk.width : ℚ) (chunk.height : ℚ)
                (chunk.xOffset / chunk.xContentScale)
                (chunk.yOffset / chunk.yContentScale)).map
          fun (ctx4 : GLRenderContext ℚ) =>
            { ctx4 with engineData := ctx4.engineData ++ tail } := by
  refine ⟨({ (ctx.setupRenderingState alpha colortransform smooth blendmode) with
      engineData := (ctx.setupRenderingState alpha colortransform smooth blendmode).engineData ++
        [GLCall.glUniform1fv ctx.filterdataUniform 1 [0],
         GLCall.glUniform1f ctx.maskUniform (if ctx.isDrawingMask then 1 else 0),
         GLCall.glUniform1f ctx.yuvUniform (if colorMode = COLOR_MODE.YUV_MODE then 1 else 0),
         GLCall.glUniform1f ctx.directUniform directMode,
         GLCall.glUniform4f ctx.directColorUniform ((directColor.Red : ℚ) / 255)
           ((directColor.Green : ℚ) / 255) ((directColor.Blue : ℚ) / 255) 1]
        ++ [GLCall.glBindTexture_GL_TEXTURE_2D id] } : GLRenderContext ℚ),
    if smooth ≠ SMOOTH_MODE.SMOOTH_NONE then
      [GLCall.glTexParameteri_MIN_FILTER_LINEAR, GLCall.glTexParameteri_MAG_FILTER_LINEAR]
    else [], ?_, ?_, ?_, ?_, ?_, ?_, ?_, ?_⟩
  · rfl
  · rcases hb : GLRenderContext.blendFuncFor blendmode with _ | ⟨src, dst⟩ <;>
      cases smooth <;>
      simp [GLRenderContext.setupRenderingState, hb, drawCounts]
  · rcases hb : GLRenderContext.blendFuncFor blendmode with _ | ⟨src, dst⟩ <;>
      cases smooth <;>
      simp [GLRenderContext.setupRenderingState, hb, matrixUploads]
  · intro a
    rcases hb : GLRenderContext.blendFuncFor blendmode with _ | ⟨src, dst⟩ <;>
      cases smooth <;>
      simp [GLRenderContext.setupRenderingState, hb, coordArrays]
  · cases smooth <;> simp [drawCounts]
  · cases smooth <;> simp [matrixUploads]
  · intro a
    cases smooth <;> simp [coordArrays]
  · unfold GLRenderContext.renderTextured
    have htex2 : (ctx.setupRenderingState alpha colortransform smooth
        blendmode).largeTextures[chunk.texId]? = some id := htex
    simp only [htex2, hassert, ne_eq, not_true_eq_false, if_false]
    refine congrArg₂ Option.map ?_ rfl
    funext ctx4
    cases smooth <;> simp

end SliceTheorems2

section SliceTheorems3

variable {M C : Type}

theorem GLRenderContext.useScalingGrid_iff (ops : MatrixOps M C ℚ) (chunk : TextureChunk)
    (matrix : M) (scalingGrid : Option Rectangle) :
    GLRenderContext.useScalingGrid ops chunk matrix scalingGrid = true ↔
      ∃ g, scalingGrid = some g ∧
        g.width + |g.x| < (chunk.width : ℚ) / chunk.xContentScale ∧
        g.height + |g.y| < (chunk.height : ℚ) / chunk.yContentScale ∧
        ops.getRotation matrix = 0 := by
  cases scalingGrid <;> simp [GLRenderContext.useScalingGrid, and_assoc]

theorem CairoRenderContext.selectSource_surfaces (ops : MatrixOps M C ℚ) (chunk : TextureChunk)
    (alpha : ℚ) (matrix : M) (scalingGrid : Option Rectangle) :
    (CairoRenderContext.selectSource ops chunk alpha matrix scalingGrid).1.length
      = if CairoRenderContext.useScalingGrid ops chunk matrix scalingGrid = true then 9 else 1 := by
  cases scalingGrid with
  | none => simp [CairoRenderContext.selectSource, CairoRenderContext.useScalingGrid]
  | some g =>
    cases hu : CairoRenderContext.useScalingGrid ops chunk matrix (some g) <;>
      simp [CairoRenderContext.selectSource, hu, CairoRenderContext.scalingGridRegions,
        CairoRenderContext.paintedRegions]

/-! ### C13 -/

/-- C13: `GLRenderContext::renderTextured` on an allocated chunk with positive content
scales (and a grid of non-negative size, when there is one) finishes, and it uses the
scaling grid if and only if `scalingGrid` is non-null,
`scalingGrid.width + |scalingGrid.x| < chunk.width / xContentScale`,
`scalingGrid.height + |scalingGrid.y| < chunk.height / yContentScale` and
`matrix.getRotation() == 0`.  With the grid it makes exactly nine `renderpart` calls (nine
draw calls, the nine matrix uploads being those of the nine regions); in every other case
it makes exactly one, with the unmodified matrix and the geometry of the whole-chunk crop
`(0, 0, chunk.width, chunk.height)`.  `CairoRenderContext::renderTextured` evaluates the
same condition and creates nine sub-buffer views when it holds and one view otherwise. -/
theorem GLRenderContext.renderTextured_slicing (ops : MatrixOps M C ℚ) (cs : ChunkConsts)
    (ctx : GLRenderContext ℚ) (chunk : TextureChunk) (alpha : ℚ) (colorMode : COLOR_MODE)
    (colortransform : ColorTransformBase) (isMask : Bool) (directMode : ℚ) (directColor : RGB)
    (smooth : SMOOTH_MODE) (matrix : M) (scalingGrid : Option Rectangle)
    (blendmode : AS_BLENDMODE) (id : Nat)
    (hA : chunk.Allocated cs ctx.largeTextureSize)
    (htex : ctx.largeTextures[chunk.texId]? = some id)
    (hxs : 0 < chunk.xContentScale) (hys : 0 < chunk.yContentScale)
    (hgrid : ∀ g, scalingGrid = some g → 0 ≤ g.width ∧ 0 ≤ g.height) :
    ∃ ctx2 : GLRenderContext ℚ,
      ctx.renderTextured ops cs chunk alpha colorMode colortransform isMask directMode
        directColor smooth matrix scalingGrid blendmode = some ctx2 ∧
      (GLRenderContext.useScalingGrid ops chunk matrix scalingGrid = true ↔
        ∃ g, scalingGrid = some g ∧
          g.width + |g.x| < (chunk.width : ℚ) / chunk.xContentScale ∧
          g.height + |g.y| < (chunk.height : ℚ) / chunk.yContentScale ∧
          ops.getRotation matrix = 0) ∧
      (GLRenderContext.useScalingGrid ops chunk matrix scalingGrid = true →
        (drawCounts ctx2.engineData).length = (drawCounts ctx.engineData).length + 9 ∧
        ∃ g, scalingGrid = some g ∧
          matrixUploads ctx2.engineData = matrixUploads ctx.engineData ++
            (GLRenderContext.scalingGridRegions ops chunk matrix g).map
              (fun r => ops.get4DMatrix r.matrix)) ∧
      (GLRenderContext.useScalingGrid ops chunk matrix scalingGrid = false →
        ∃ gw : PartGeometry,
          renderpartGeometry cs ctx.largeTextureSize chunk 0 0 (chunk.width : ℚ)
            (chunk.height : ℚ) (chunk.xOffset / chunk.xContentScale)
            (chunk.yOffset / chunk.yContentScale) = some gw ∧
          drawCounts ctx2.engineData
            = drawCounts ctx.engineData ++ [u32 (gw.chunkrendercount * 6)] ∧
          matrixUploads ctx2.engineData
            = matrixUploads ctx.engineData ++ [ops.get4DMatrix matrix] ∧
          coordArrays VertexAttrib.VERTEX_ATTRIB ctx2.engineData
            = coordArrays VertexAttrib.VERTEX_ATTRIB ctx.engineData ++ [gw.vertex_coords] ∧
          coordArrays VertexAttrib.TEXCOORD_ATTRIB ctx2.engineData
            = coordArrays VertexAttrib.TEXCOORD_ATTRIB ctx.engineData
              ++ [gw.texture_coords]) ∧
      CairoRenderContext.useScalingGrid ops chunk matrix scalingGrid
        = GLRenderContext.useScalingGrid ops chunk matrix scalingGrid ∧
      (CairoRenderContext.selectSource ops chunk alpha matrix scalingGrid).1.length
        = if GLRenderContext.useScalingGrid ops chunk matrix scalingGrid = true
          then 9 else 1 := by
  obtain ⟨ctx3, tail, hlts, hd3, hm3, hc3, htd, htm, htc, heq⟩ :=
    GLRenderContext.renderTextured_eq ops cs ctx chunk alpha colorMode colortransform isMask
      directMode directColor smooth matrix scalingGrid blendmode id htex hA.assertion
  have hA3 : chunk.Allocated cs ctx3.largeTextureSize := by rw [hlts]; exact hA
  have hcairo : CairoRenderContext.useScalingGrid ops chunk matrix scalingGrid
      = GLRenderContext.useScalingGrid ops chunk matrix scalingGrid := rfl
  have hsurf := CairoRenderContext.selectSource_surfaces ops chunk alpha matrix scalingGrid
  rw [hcairo] at hsurf
  have hiff := GLRenderContext.useScalingGrid_iff ops chunk matrix scalingGrid
  have hwhole : CropInside chunk 0 0 (chunk.width : ℚ) (chunk.height : ℚ) := by
    unfold CropInside
    refine ⟨le_refl _, Nat.cast_nonneg _, by simp, le_refl _, Nat.cast_nonneg _, by simp⟩
  obtain ⟨gw, ctx4, hgw, hr4, _, hd4, hm4, hv4, ht4⟩ :=
    GLRenderContext.renderpart_total ops cs ctx3 matrix chunk 0 0 (chunk.width : ℚ)
      (chunk.height : ℚ) (chunk.xOffset / chunk.xContentScale)
      (chunk.yOffset / chunk.yContentScale) hA3 hwhole
  rw [hlts] at hgw
  have hfallback : ∀ ctx2 : GLRenderContext ℚ,
      ctx2 = { ctx4 with engineData := ctx4.engineData ++ tail } →
      ∃ gw : PartGeometry,
        renderpartGeometry cs ctx.largeTextureSize chunk 0 0 (chunk.width : ℚ)
          (chunk.height : ℚ) (chunk.xOffset / chunk.xContentScale)
          (chunk.yOffset / chunk.yContentScale) = some gw ∧
        drawCounts ctx2.engineData
          = drawCounts ctx.engineData ++ [u32 (gw.chunkrendercount * 6)] ∧
        matrixUploads ctx2.engineData
          = matrixUploads ctx.engineData ++ [ops.get4DMatrix matrix] ∧
        coordArrays VertexAttrib.VERTEX_ATTRIB ctx2.engineData
          = coordArrays VertexAttrib.VERTEX_ATTRIB ctx.engineData ++ [gw.vertex_coords] ∧
        coordArrays VertexAttrib.TEXCOORD_ATTRIB ctx2.engineData
          = coordArrays VertexAttrib.TEXCOORD_ATTRIB ctx.engineData
            ++ [gw.texture_coords] := by
    intro ctx2 h2
    subst h2
    refine ⟨gw, hgw, ?_, ?_, ?_, ?_⟩
    · simp only [drawCounts_append, hd4, hd3, htd, List.append_nil]
    · simp only [matrixUploads_append, hm4, hm3, htm, List.append_nil]
    · simp only [coordArrays_append, hv4, hc3, htc, List.append_nil]
    · simp only [coordArrays_append, ht4, hc3, htc, List.append_nil]
  cases hs : scalingGrid with
  | none =>
    have hu : GLRenderContext.useScalingGrid ops chunk matrix none = false := rfl
    rw [hs] at heq hiff hsurf
    simp only [hr4, Option.map_some'] at heq
    refine ⟨_, heq, hiff, ?_, fun _ => hfallback _ rfl, rfl, hsurf⟩
    intro h
    rw [hu] at h
    exact absurd h (by decide)
  | some g =>
    rw [hs] at heq hiff hsurf
    cases hu : GLRenderContext.useScalingGrid ops chunk matrix (some g) with
    | false =>
      simp only [hu, hr4, Option.map_some'] at heq
      rw [hu] at hiff hsurf
      refine ⟨_, heq, hiff, ?_, fun _ => hfallback _ rfl, hu, hsurf⟩
      intro h
      exact absurd h (by decide)
    | true =>
      rw [hu] at hiff hsurf
      obtain ⟨g2, hg2, hx, hy, _⟩ := hiff.mp rfl
      cases hg2
      obtain ⟨hw0, hh0⟩ := hgrid g hs
      obtain ⟨ctx5, hf5, _, hd5, hm5⟩ :=
        GLRenderContext.renderRegions_total ops cs chunk
          (GLRenderContext.scalingGridRegions ops chunk matrix g) ctx3 hA3
          (GLRenderContext.scalingGrid_crops_inside ops chunk matrix g hxs hys hw0 hh0 hx hy)
      rw [← GLRenderContext.renderScalingGrid_eq_regions] at hf5
      simp only [hu, hf5, Option.map_some'] at heq
      have hlen : (GLRenderContext.scalingGridRegions ops chunk matrix g).length = 9 := rfl
      refine ⟨_, heq, hiff, fun _ => ⟨?_, g, rfl, ?_⟩, ?_, hu, hsurf⟩
      · simp only [drawCounts_append, htd, List.append_nil, hd5, hd3, hlen]
      · simp only [matrixUploads_append, htm, List.append_nil, hm5, hm3]
      · intro h
        exact absurd h (by decide)

end SliceTheorems3

section SliceTheorems4

/-- C13, evaluated: the example chunk (100 by 50) with the grid of size 50 by 20 at (10, 10)
and a matrix without rotation is drawn through the scaling grid, by nine draw calls. -/
theorem GLRenderContext.renderTextured_slicing_witness :
    exampleChunk.Allocated exampleConsts exampleContext.largeTextureSize ∧
    exampleContext.largeTextures[exampleChunk.texId]? = some 7 ∧
    0 < exampleChunk.xContentScale ∧ 0 < exampleChunk.yContentScale ∧
    GLRenderContext.useScalingGrid scaleTranslateOps exampleChunk scaleTranslateOps.identity
      (some exampleGrid) = true ∧
    (∃ ctx2 : GLRenderContext ℚ,
      exampleContext.renderTextured scaleTranslateOps exampleConsts exampleChunk 1
        COLOR_MODE.RGB_MODE exampleColorTransform false 0 (RGB.mk 0 0 0)
        SMOOTH_MODE.SMOOTH_NONE scaleTranslateOps.identity (some exampleGrid)
        AS_BLENDMODE.BLENDMODE_NORMAL = some ctx2 ∧
      (drawCounts ctx2.engineData).length = 9) := by
  have hu : GLRenderContext.useScalingGrid scaleTranslateOps exampleChunk
      scaleTranslateOps.identity (some exampleGrid) = true := by
    simp [GLRenderContext.useScalingGrid, exampleGrid, exampleChunk, scaleTranslateOps]
    norm_num
  have hxs : 0 < exampleChunk.xContentScale := by norm_num [exampleChunk]
  have hys : 0 < exampleChunk.yContentScale := by norm_num [exampleChunk]
  obtain ⟨ctx2, h, _, h9, _⟩ :=
    GLRenderContext.renderTextured_slicing scaleTranslateOps exampleConsts exampleContext
      exampleChunk 1 COLOR_MODE.RGB_MODE exampleColorTransform false 0 (RGB.mk 0 0 0)
      SMOOTH_MODE.SMOOTH_NONE scaleTranslateOps.identity (some exampleGrid)
      AS_BLENDMODE.BLENDMODE_NORMAL 7 (by decide) rfl hxs hys
      (by
        intro g hg
        cases hg
        norm_num [exampleGrid])
  exact ⟨by decide, rfl, hxs, hys, hu, ctx2, h, by
    rw [(h9 hu).1]
    rfl⟩

end SliceTheorems4

section SliceTheorems5

theorem vec16_entries (a0 a1 a2 a3 a4 a5 a6 a7 a8 a9 a10 a11 a12 a13 a14 a15 : ℚ) :
    (![a0, a1, a2, a3, a4, a5, a6, a7, a8, a9, a10, a11, a12, a13, a14, a15] : Fin 16 → ℚ) 5
      = a5 ∧
    (![a0, a1, a2, a3, a4, a5, a6, a7, a8, a9, a10, a11, a12, a13, a14, a15] : Fin 16 → ℚ) 12
      = a12 ∧
    (![a0, a1, a2, a3, a4, a5, a6, a7, a8, a9, a10, a11, a12, a13, a14, a15] : Fin 16 → ℚ) 13
      = a13 :=
  ⟨rfl, rfl, rfl⟩

/-! ### C14 -/

/-- C14, evaluated at a matrix that scales by 2: for the chunk of 100 by 100 pixels (content
scale 1, no offset) and the grid of size 80 by 80 at (10, 10), `renderTextured` uses the
scaling grid, and the nine destination rectangles are the ones listed: the columns are
`[0, 10]`, `[10, 170]` and `[180, 190]`, whereas the full destination rectangle is
`[0, 200] x [0, 200]`.  The point (175, 5) of the full rectangle lies in none of the nine
rectangles. -/
theorem GLRenderContext.scalingGrid_regions_leave_gap :
    GLRenderContext.useScalingGrid scaleTranslateOps squareChunk doubleMatrix (some insetGrid)
      = true ∧
    (GLRenderContext.scalingGridRegions scaleTranslateOps squareChunk doubleMatrix insetGrid).map
        (GridRegion.destRect scaleTranslateOps squareChunk)
      = [(0, 0, 10, 10), (180, 0, 190, 10), (180, 180, 190, 190), (0, 180, 10, 190),
         (10, 0, 170, 10), (180, 10, 190, 170), (10, 180, 170, 190), (0, 10, 10, 170),
         (10, 10, 170, 170)] ∧
    claimedDestRect scaleTranslateOps squareChunk doubleMatrix = (0, 0, 200, 200) ∧
    inRect 175 5 (claimedDestRect scaleTranslateOps squareChunk doubleMatrix) ∧
    ∀ r ∈ (GLRenderContext.scalingGridRegions scaleTranslateOps squareChunk doubleMatrix
        insetGrid).map (GridRegion.destRect scaleTranslateOps squareChunk),
      ¬ inRect 175 5 r := by
  have hregions : (GLRenderContext.scalingGridRegions scaleTranslateOps squareChunk
      doubleMatrix insetGrid).map (GridRegion.destRect scaleTranslateOps squareChunk)
      = [(0, 0, 10, 10), (180, 0, 190, 10), (180, 180, 190, 190), (0, 180, 10, 190),
         (10, 0, 170, 10), (180, 10, 190, 170), (10, 180, 170, 190), (0, 10, 10, 170),
         (10, 10, 170, 170)] := by
    simp [GLRenderContext.scalingGridRegions, GLRenderContext.sliceQuantities,
      GridRegion.destRect, destRect, scaleTranslateOps, squareChunk, doubleMatrix, insetGrid,
      (vec16_entries _ _ _ _ _ _ _ _ _ _ _ _ _ _ _ _).1,
      (vec16_entries _ _ _ _ _ _ _ _ _ _ _ _ _ _ _ _).2.1,
      (vec16_entries _ _ _ _ _ _ _ _ _ _ _ _ _ _ _ _).2.2]
    norm_num
  have hfull : claimedDestRect scaleTranslateOps squareChunk doubleMatrix = (0, 0, 200, 200) := by
    simp [claimedDestRect, scaleTranslateOps, squareChunk, doubleMatrix]
    norm_num
  refine ⟨?_, hregions, hfull, ?_, ?_⟩
  · simp [GLRenderContext.useScalingGrid, scaleTranslateOps, squareChunk, insetGrid]
    norm_num
  · rw [hfull]
    unfold inRect
    norm_num
  · rw [hregions]
    intro r hr
    simp only [List.mem_cons, List.mem_singleton, List.not_mem_nil, or_false] at hr
    rcases hr with h | h | h | h | h | h | h | h | h <;> subst h <;>
      (unfold inRect; norm_num)

/-! ### C15 -/

/-- For a grid with non-negative `x` and `y` the border quantities of the two backends
are equal. -/
theorem sliceQuantities_eq_of_nonneg (chunk : TextureChunk) (g : Rectangle)
    (hx : 0 ≤ g.x) (hy : 0 ≤ g.y) :
    CairoRenderContext.sliceQuantities chunk g = GLRenderContext.sliceQuantities chunk g := by
  simp [CairoRenderContext.sliceQuantities, GLRenderContext.sliceQuantities,
    abs_of_nonneg hx, abs_of_nonneg hy]

/-- C15, evaluated at a grid with negative origin: for the chunk of 100 by 100 pixels
(content scale 1) and the grid of size 50 by 50 at (-10, -5) both backends use the scaling
grid; `GLRenderContext::renderTextured` computes the borders 10, 5, 40, 45 (left, top,
right, bottom) from `abs(scalingGrid->x)` and `abs(scalingGrid->y)`, whereas
`CairoRenderContext::renderTextured` computes -10, -5, 60, 55 from `scalingGrid->x` and
`scalingGrid->y`. -/
theorem sliceQuantities_differ_at_negative_origin :
    GLRenderContext.useScalingGrid scaleTranslateOps squareChunk scaleTranslateOps.identity
      (some negativeGrid) = true ∧
    CairoRenderContext.useScalingGrid scaleTranslateOps squareChunk scaleTranslateOps.identity
      (some negativeGrid) = true ∧
    GLRenderContext.sliceQuantities squareChunk negativeGrid
      = { scaledleftborder := 10, scaledtopborder := 5, scaledrightborder := 40,
          scaledbottomborder := 45, innerwidth := 50, innerheight := 50,
          innerscalex := 1, innerscaley := 1 } ∧
    CairoRenderContext.sliceQuantities squareChunk negativeGrid
      = { scaledleftborder := -10, scaledtopborder := -5, scaledrightborder := 60,
          scaledbottomborder := 55, innerwidth := 50, innerheight := 50,
          innerscalex := 1, innerscaley := 1 } ∧
    CairoRenderContext.sliceQuantities squareChunk negativeGrid
      ≠ GLRenderContext.sliceQuantities squareChunk negativeGrid := by
  have hgl : GLRenderContext.sliceQuantities squareChunk negativeGrid
      = { scaledleftborder := 10, scaledtopborder := 5, scaledrightborder := 40,
          scaledbottomborder := 45, innerwidth := 50, innerheight := 50,
          innerscalex := 1, innerscaley := 1 } := by
    simp [GLRenderContext.sliceQuantities, squareChunk, negativeGrid]
    norm_num
  have hcairo : CairoRenderContext.sliceQuantities squareChunk negativeGrid
      = { scaledleftborder := -10, scaledtopborder := -5, scaledrightborder := 60,
          scaledbottomborder := 55, innerwidth := 50, innerheight := 50,
          innerscalex := 1, innerscaley := 1 } := by
    simp [CairoRenderContext.sliceQuantities, squareChunk, negativeGrid]
    norm_num
  have hu : GLRenderContext.useScalingGrid scaleTranslateOps squareChunk
      scaleTranslateOps.identity (some negativeGrid) = true := by
    simp [GLRenderContext.useScalingGrid, scaleTranslateOps, squareChunk, negativeGrid]
    norm_num
  refine ⟨hu, hu, hgl, hcairo, ?_⟩
  rw [hgl, hcairo]
  intro h
  have h2 := congrArg SliceQuantities.scaledleftborder h
  norm_num at h2

end SliceTheorems5

section MaskTheorems

variable {α : Type}

/-! ### Shared lemmas on the stencil state and the mask counter -/

theorem stencilAfter_append (s0 : StencilState) (l1 l2 : List (GLCall α)) :
    stencilAfter s0 (l1 ++ l2) = stencilAfter (stencilAfter s0 l1) l2 := by
  simp [stencilAfter, List.foldl_append]

theorem stencilClears_append (l1 l2 : List (GLCall α)) :
    stencilClears (l1 ++ l2) = stencilClears l1 + stencilClears l2 := by
  simp [stencilClears, List.filter_append]

theorem pushMask_maskCount (mb : MaskBase α) (ctx : GLRenderContext α) :
    (ctx.pushMask mb).maskCount = ctx.maskCount + 1 := by
  unfold GLRenderContext.pushMask
  simp only [GLRenderContext.onBase]
  split <;> rfl

theorem pushMask_engineData (mb : MaskBase α) (ctx : GLRenderContext α) :
    (ctx.pushMask mb).engineData = ctx.engineData ++
      [GLCall.glEnable_GL_STENCIL_TEST, GLCall.glStencilFunc_GL_EQUAL 0 UINT32_MAX,
       GLCall.glStencilOp_GL_INCR, GLCall.glColorMask false false false false] ++
      (if ctx.maskCount = 0 then [GLCall.glClearStencil 0, GLCall.glClear_STENCIL] else []) := by
  unfold GLRenderContext.pushMask
  simp only [GLRenderContext.onBase, drawMaskStencil]
  split <;> simp

theorem popMask_maskCount (ctx : GLRenderContext α) :
    ctx.popMask.maskCount = ctx.maskCount - 1 := by
  unfold GLRenderContext.popMask
  simp only
  split <;> rfl

theorem popMask_engineData (ctx : GLRenderContext α) :
    ctx.popMask.engineData = ctx.engineData ++
      (if ctx.maskCount - 1 = 0 then
        [GLCall.glDisable_GL_STENCIL_TEST, GLCall.glStencilFunc_GL_ALWAYS,
         GLCall.glStencilOp_GL_KEEP, GLCall.glColorMask true true true true]
       else
        [GLCall.glEnable_GL_STENCIL_TEST, GLCall.glStencilFunc_GL_EQUAL 1 UINT32_MAX,
         GLCall.glStencilOp_GL_KEEP, GLCall.glColorMask true true true true]) := by
  unfold GLRenderContext.popMask
  simp only [noMask, drawMaskedContent]
  split <;> simp

theorem popMask_stencil (ctx : GLRenderContext α) (s0 : StencilState) :
    stencilAfter s0 ctx.popMask.engineData =
      if ctx.maskCount - 1 = 0 then StencilState.off
      else { stencilTest := true, func := StencilFunc.EQUAL 1 UINT32_MAX, op := StencilOp.KEEP,
             colorMask := (true, true, true, true) } := by
  rw [popMask_engineData, stencilAfter_append]
  split <;> rfl

theorem unmatchedPushes_concat (ops : List MaskOp) (o : MaskOp) :
    unmatchedPushes (ops ++ [o]) = unmatchedPushes ops +
      (match o with
        | MaskOp.push => 1
        | MaskOp.pop => -1) := by
  unfold unmatchedPushes
  rw [List.foldl_append]
  cases o <;> simp [sub_eq_add_neg]

theorem runMaskOps_concat (mb : MaskBase α) (ctx : GLRenderContext α) (ops : List MaskOp)
    (o : MaskOp) :
    ctx.runMaskOps mb (ops ++ [o]) = (ctx.runMaskOps mb ops).maskStep mb o := by
  simp [GLRenderContext.runMaskOps, List.foldl_append]

theorem runMaskOps_maskCount (mb : MaskBase α) (ctx : GLRenderContext α) (ops : List MaskOp) :
    (ctx.runMaskOps mb ops).maskCount = ctx.maskCount + unmatchedPushes ops := by
  induction ops using List.reverseRecOn with
  | nil => simp [GLRenderContext.runMaskOps, unmatchedPushes]
  | append_singleton ops o ih =>
    rw [runMaskOps_concat, unmatchedPushes_concat]
    cases o
    · simp only [GLRenderContext.maskStep, pushMask_maskCount, ih]
      ring
    · simp only [GLRenderContext.maskStep, popMask_maskCount, ih]
      ring

/-! ### C16 -/

/-- C16: starting from the state `Off` (`maskCount = 0`, stencil test disabled, function
ALWAYS, operation KEEP, all four colour channels writable), after any balanced sequence of
`pushMask`/`popMask` calls the counter and the stencil state (test enable, function and
reference, operation, colour mask) are those from before the sequence; and after every
prefix of the sequence `maskCount` is the number of `pushMask` calls not yet matched by a
`popMask`. -/
theorem GLRenderContext.balanced_masks_restore (mb : MaskBase α) (ctx : GLRenderContext α)
    (s0 : StencilState) (ops : List MaskOp)
    (hcount : ctx.maskCount = 0)
    (hoff : stencilAfter s0 ctx.engineData = StencilState.off)
    (hbal : Balanced ops) :
    (ctx.runMaskOps mb ops).maskCount = ctx.maskCount ∧
    stencilAfter s0 (ctx.runMaskOps mb ops).engineData = stencilAfter s0 ctx.engineData ∧
    ∀ n : Nat, (ctx.runMaskOps mb (ops.take n)).maskCount = unmatchedPushes (ops.take n) := by
  have hcnt : ∀ l : List MaskOp, (ctx.runMaskOps mb l).maskCount = unmatchedPushes l := by
    intro l
    rw [runMaskOps_maskCount, hcount, zero_add]
  refine ⟨by rw [hcnt, hbal.2, hcount], ?_, fun n => hcnt _⟩
  rcases List.eq_nil_or_concat ops with h | ⟨init, o, h⟩
  · subst h
    rfl
  · rw [List.concat_eq_append] at h
    subst h
    have hinit : 0 ≤ unmatchedPushes init := by
      have h1 := hbal.1 init.length (by simp)
      simpa using h1
    have htot := hbal.2
    rw [unmatchedPushes_concat] at htot
    cases o with
    | push =>
      simp only at htot
      omega
    | pop =>
      simp only at htot
      rw [runMaskOps_concat]
      simp only [GLRenderContext.maskStep]
      rw [popMask_stencil, hcnt init, hoff]
      have : unmatchedPushes init - 1 = 0 := by omega
      rw [if_pos this]

/-- C16, evaluated: two nested masks opened and closed on the example context. -/
theorem GLRenderContext.balanced_masks_restore_witness :
    exampleContext.maskCount = 0 ∧
    stencilAfter StencilState.off exampleContext.engineData = StencilState.off ∧
    Balanced [MaskOp.push, MaskOp.push, MaskOp.pop, MaskOp.pop] ∧
    (exampleContext.runMaskOps exampleMaskBase
        [MaskOp.push, MaskOp.push, MaskOp.pop, MaskOp.pop]).maskCount = 0 ∧
    stencilAfter StencilState.off (exampleContext.runMaskOps exampleMaskBase
        [MaskOp.push, MaskOp.push, MaskOp.pop, MaskOp.pop]).engineData = StencilState.off ∧
    (exampleContext.runMaskOps exampleMaskBase
        ([MaskOp.push, MaskOp.push, MaskOp.pop, MaskOp.pop].take 2)).maskCount = 2 := by
  have hb : Balanced [MaskOp.push, MaskOp.push, MaskOp.pop, MaskOp.pop] := by decide
  have h := GLRenderContext.balanced_masks_restore exampleMaskBase exampleContext
    StencilState.off [MaskOp.push, MaskOp.push, MaskOp.pop, MaskOp.pop] rfl rfl hb
  exact ⟨rfl, rfl, hb, h.1, h.2.1, by rw [h.2.2 2]; rfl⟩

/-! ### C17 -/

/-- C17: `pushMask` increments `maskCount` by exactly 1, leaves the stencil configured to
increment on draw (stencil test enabled, operation INCR) with colour writes disabled on all
four channels, and clears the stencil buffer (clear value 0) if and only if `maskCount`
was 0 before the call. -/
theorem GLRenderContext.pushMask_effect (mb : MaskBase α) (ctx : GLRenderContext α)
    (s0 : StencilState) :
    (ctx.pushMask mb).maskCount = ctx.maskCount + 1 ∧
    (ctx.pushMask mb).engineData = ctx.engineData ++
      [GLCall.glEnable_GL_STENCIL_TEST, GLCall.glStencilFunc_GL_EQUAL 0 UINT32_MAX,
       GLCall.glStencilOp_GL_INCR, GLCall.glColorMask false false false false] ++
      (if ctx.maskCount = 0 then [GLCall.glClearStencil 0, GLCall.glClear_STENCIL] else []) ∧
    stencilAfter s0 (ctx.pushMask mb).engineData =
      { stencilTest := true, func := StencilFunc.EQUAL 0 UINT32_MAX, op := StencilOp.INCR,
        colorMask := (false, false, false, false) } ∧
    stencilClears (ctx.pushMask mb).engineData =
      stencilClears ctx.engineData + (if ctx.maskCount = 0 then 1 else 0) ∧
    (stencilClears (ctx.pushMask mb).engineData = stencilClears ctx.engineData + 1
      ↔ ctx.maskCount = 0) := by
  have hclr : stencilClears (ctx.pushMask mb).engineData =
      stencilClears ctx.engineData + (if ctx.maskCount = 0 then 1 else 0) := by
    rw [pushMask_engineData, stencilClears_append, stencilClears_append]
    split <;> rfl
  refine ⟨pushMask_maskCount mb ctx, pushMask_engineData mb ctx, ?_, hclr, ?_⟩
  · rw [pushMask_engineData, stencilAfter_append, stencilAfter_append]
    split <;> rfl
  · rw [hclr]
    split <;> simp_all

/-! ### C18 -/

/-- C18 (as amended): `popMask` decrements `maskCount` by exactly 1; if the counter
reaches 0 it disables stencil testing and restores normal colour writes (function ALWAYS,
operation KEEP, all four channels enabled); otherwise it enables the stencil test with
function EQUAL and the constant reference value 1, operation KEEP and colour writes
enabled, whatever the remaining nesting level is. -/
theorem GLRenderContext.popMask_effect (ctx : GLRenderContext α) (s0 : StencilState) :
    ctx.popMask.maskCount = ctx.maskCount - 1 ∧
    ctx.popMask.engineData = ctx.engineData ++
      (if ctx.popMask.maskCount = 0 then
        [GLCall.glDisable_GL_STENCIL_TEST, GLCall.glStencilFunc_GL_ALWAYS,
         GLCall.glStencilOp_GL_KEEP, GLCall.glColorMask true true true true]
       else
        [GLCall.glEnable_GL_STENCIL_TEST, GLCall.glStencilFunc_GL_EQUAL 1 UINT32_MAX,
         GLCall.glStencilOp_GL_KEEP, GLCall.glColorMask true true true true]) ∧
    stencilAfter s0 ctx.popMask.engineData =
      (if ctx.popMask.maskCount = 0 then StencilState.off
       else { stencilTest := true, func := StencilFunc.EQUAL 1 UINT32_MAX,
              op := StencilOp.KEEP, colorMask := (true, true, true, true) }) := by
  refine ⟨popMask_maskCount ctx, ?_, ?_⟩
  · rw [popMask_maskCount]
    exact popMask_engineData ctx
  · rw [popMask_maskCount]
    exact popMask_stencil ctx s0

/-- C18 (counterexample): with three masks open, `popMask` leaves two levels and sets the
stencil function to EQUAL with reference 1, not with the remaining level 2. -/
theorem GLRenderContext.popMask_reference_is_one :
    ({ exampleContext with maskCount := 3 } : GLRenderContext ℚ).popMask.maskCount = 2 ∧
    (stencilAfter StencilState.off
        ({ exampleContext with maskCount := 3 } : GLRenderContext ℚ).popMask.engineData).func
      = StencilFunc.EQUAL 1 UINT32_MAX ∧
    (stencilAfter StencilState.off
        ({ exampleContext with maskCount := 3 } : GLRenderContext ℚ).popMask.engineData).func
      ≠ StencilFunc.EQUAL 2 UINT32_MAX := by
  refine ⟨rfl, rfl, ?_⟩
  decide

/-! ### C19 -/

/-- C19 (as amended): `activateMask` turns the stencil test on, configured as
test-equal-1 with keep-on-pass and colour writes enabled; `deactivateMask` leaves the
stencil test enabled, configured as test-equal-1 with operation DECR and colour writes
disabled on all four channels (drawing the mask shape again then erases it from the
stencil buffer); neither call changes `maskCount`. -/
theorem GLRenderContext.activate_deactivate_effect (mb : MaskBase α) (ctx : GLRenderContext α)
    (s0 : StencilState) :
    stencilAfter s0 (ctx.activateMask mb).engineData =
      { stencilTest := true, func := StencilFunc.EQUAL 1 UINT32_MAX, op := StencilOp.KEEP,
        colorMask := (true, true, true, true) } ∧
    stencilAfter s0 (ctx.deactivateMask mb).engineData =
      { stencilTest := true, func := StencilFunc.EQUAL 1 UINT32_MAX, op := StencilOp.DECR,
        colorMask := (false, false, false, false) } ∧
    (ctx.activateMask mb).maskCount = ctx.maskCount ∧
    (ctx.deactivateMask mb).maskCount = ctx.maskCount ∧
    (ctx.activateMask mb).engineData = ctx.engineData ++
      [GLCall.glEnable_GL_STENCIL_TEST, GLCall.glStencilFunc_GL_EQUAL 1 UINT32_MAX,
       GLCall.glStencilOp_GL_KEEP, GLCall.glColorMask true true true true] ∧
    (ctx.deactivateMask mb).engineData = ctx.engineData ++
      [GLCall.glEnable_GL_STENCIL_TEST, GLCall.glStencilFunc_GL_EQUAL 1 UINT32_MAX,
       GLCall.glStencilOp_GL_DECR, GLCall.glColorMask false false false false] := by
  have ha : (ctx.activateMask mb).engineData = ctx.engineData ++
      [GLCall.glEnable_GL_STENCIL_TEST, GLCall.glStencilFunc_GL_EQUAL 1 UINT32_MAX,
       GLCall.glStencilOp_GL_KEEP, GLCall.glColorMask true true true true] := rfl
  have hd : (ctx.deactivateMask mb).engineData = ctx.engineData ++
      [GLCall.glEnable_GL_STENCIL_TEST, GLCall.glStencilFunc_GL_EQUAL 1 UINT32_MAX,
       GLCall.glStencilOp_GL_DECR, GLCall.glColorMask false false false false] := rfl
  refine ⟨?_, ?_, rfl, rfl, ha, hd⟩
  · rw [ha, stencilAfter_append]
    rfl
  · rw [hd, stencilAfter_append]
    rfl

/-- C19 (counterexample): after `deactivateMask` on the example context the stencil test
is enabled, the stencil operation is DECR and no colour channel is writable. -/
theorem GLRenderContext.deactivateMask_keeps_test_on :
    (stencilAfter StencilState.off
        (exampleContext.deactivateMask exampleMaskBase).engineData).stencilTest = true ∧
    (stencilAfter StencilState.off
        (exampleContext.deactivateMask exampleMaskBase).engineData).op = StencilOp.DECR ∧
    (stencilAfter StencilState.off
        (exampleContext.deactivateMask exampleMaskBase).engineData).op ≠ StencilOp.KEEP ∧
    (stencilAfter StencilState.off
        (exampleContext.deactivateMask exampleMaskBase).engineData).colorMask
      = (false, false, false, false) := by
  refine ⟨rfl, rfl, ?_, rfl⟩
  decide

/-! ### C20 -/

/-- C20: `suspendActiveMask` leaves the stencil test disabled with function ALWAYS,
operation KEEP and all four colour channels enabled; a following `resumeActiveMask`
restores exactly the configuration that `activateMask` establishes (stencil test enabled,
function EQUAL reference 1, operation KEEP, all colour channels enabled); neither call
changes `maskCount`, and a suspend/resume pair around an active mask is the identity on
the stencil configuration. -/
theorem GLRenderContext.suspend_resume_effect (mb : MaskBase α) (ctx ctx0 : GLRenderContext α)
    (s0 : StencilState) :
    stencilAfter s0 (ctx.suspendActiveMask mb).engineData =
      { stencilTest := false, func := StencilFunc.ALWAYS, op := StencilOp.KEEP,
        colorMask := (true, true, true, true) } ∧
    stencilAfter s0 ((ctx.suspendActiveMask mb).resumeActiveMask mb).engineData =
      { stencilTest := true, func := StencilFunc.EQUAL 1 UINT32_MAX, op := StencilOp.KEEP,
        colorMask := (true, true, true, true) } ∧
    stencilAfter s0 ((ctx.suspendActiveMask mb).resumeActiveMask mb).engineData =
      stencilAfter s0 (ctx0.activateMask mb).engineData ∧
    (ctx.suspendActiveMask mb).maskCount = ctx.maskCount ∧
    (ctx.resumeActiveMask mb).maskCount = ctx.maskCount ∧
    stencilAfter s0 (((ctx0.activateMask mb).suspendActiveMask mb).resumeActiveMask mb).engineData
      = stencilAfter s0 (ctx0.activateMask mb).engineData ∧
    (((ctx0.activateMask mb).suspendActiveMask mb).resumeActiveMask mb).maskCount
      = (ctx0.activateMask mb).maskCount := by
  have hs : ∀ c : GLRenderContext α, (c.suspendActiveMask mb).engineData = c.engineData ++
      [GLCall.glDisable_GL_STENCIL_TEST, GLCall.glStencilFunc_GL_ALWAYS,
       GLCall.glStencilOp_GL_KEEP, GLCall.glColorMask true true true true] := fun _ => rfl
  have hr : ∀ c : GLRenderContext α, (c.resumeActiveMask mb).engineData = c.engineData ++
      [GLCall.glEnable_GL_STENCIL_TEST, GLCall.glStencilFunc_GL_EQUAL 1 UINT32_MAX,
       GLCall.glStencilOp_GL_KEEP, GLCall.glColorMask true true true true] := fun _ => rfl
  have ha : ∀ c : GLRenderContext α, (c.activateMask mb).engineData = c.engineData ++
      [GLCall.glEnable_GL_STENCIL_TEST, GLCall.glStencilFunc_GL_EQUAL 1 UINT32_MAX,
       GLCall.glStencilOp_GL_KEEP, GLCall.glColorMask true true true true] := fun _ => rfl
  have hres : ∀ c : GLRenderContext α, stencilAfter s0 (c.resumeActiveMask mb).engineData =
      { stencilTest := true, func := StencilFunc.EQUAL 1 UINT32_MAX, op := StencilOp.KEEP,
        colorMask := (true, true, true, true) } := by
    intro c
    rw [hr, stencilAfter_append]
    rfl
  have hact : stencilAfter s0 (ctx0.activateMask mb).engineData =
      { stencilTest := true, func := StencilFunc.EQUAL 1 UINT32_MAX, op := StencilOp.KEEP,
        colorMask := (true, true, true, true) } := by
    rw [ha, stencilAfter_append]
    rfl
  refine ⟨?_, hres _, ?_, rfl, rfl, ?_, rfl⟩
  · rw [hs, stencilAfter_append]
    rfl
  · rw [hres, hact]
  · rw [hres, hact]

end MaskTheorems

section BlendTheorems

theorem blendFuncs_append {α : Type} (l1 l2 : List (GLCall α)) :
    blendFuncs (l1 ++ l2) = blendFuncs l1 ++ blendFuncs l2 := by
  simp [blendFuncs, List.filterMap_append]

theorem GLRenderContext.setupRenderingState_engineData (ctx : GLRenderContext ℚ) (alpha : ℚ)
    (colortransform : ColorTransformBase) (smooth : SMOOTH_MODE) (blendmode : AS_BLENDMODE) :
    (ctx.setupRenderingState alpha colortransform smooth blendmode).engineData
      = ctx.engineData ++ [GLCall.glUniform1f_blendmode ctx.blendModeUniform blendmode]
        ++ (match GLRenderContext.blendFuncFor blendmode with
            | some (src, dst) => [GLCall.glBlendFunc src dst]
            | none => [])
        ++ (if smooth = SMOOTH_MODE.SMOOTH_NONE then
              [GLCall.glTexParameteri_MIN_FILTER_NEAREST,
               GLCall.glTexParameteri_MAG_FILTER_NEAREST]
            else [])
        ++ [GLCall.glUniform1f ctx.alphaUniform alpha,
            GLCall.glUniform4f ctx.colortransMultiplyUniform colortransform.redMultiplier
              colortransform.greenMultiplier colortransform.blueMultiplier
              colortransform.alphaMultiplier,
            GLCall.glUniform4f ctx.colortransAddUniform (colortransform.redOffset / 255)
              (colortransform.greenOffset / 255) (colortransform.blueOffset / 255)
              (colortransform.alphaOffset / 255)] :=
  rfl

/-! ### C25 -/

/-- C25 (as amended): for every blend mode value `setupRenderingState` completes; it always
sets the blend mode uniform, the alpha uniform and the two colour-transform uniforms; a
supported mode gets its own blend function (NORMAL, LAYER, OVERLAY, HARDLIGHT:
ONE / ONE_MINUS_SRC_ALPHA; MULTIPLY: DST_COLOR / ONE_MINUS_SRC_ALPHA; ADD: ONE / ONE;
SCREEN: ONE / ONE_MINUS_SRC_COLOR; ERASE: ZERO / ONE_MINUS_SRC_ALPHA); for every other mode
the call is reported as not implemented and no `glBlendFunc` is issued, so the blend
function of the previous draw stays in force. -/
theorem GLRenderContext.setupRenderingState_blend (ctx : GLRenderContext ℚ) (alpha : ℚ)
    (colortransform : ColorTransformBase) (smooth : SMOOTH_MODE) (blendmode : AS_BLENDMODE) :
    (∃ mid : List (GLCall ℚ),
      (ctx.setupRenderingState alpha colortransform smooth blendmode).engineData
        = ctx.engineData ++ [GLCall.glUniform1f_blendmode ctx.blendModeUniform blendmode] ++ mid
          ++ [GLCall.glUniform1f ctx.alphaUniform alpha,
              GLCall.glUniform4f ctx.colortransMultiplyUniform colortransform.redMultiplier
                colortransform.greenMultiplier colortransform.blueMultiplier
                colortransform.alphaMultiplier,
              GLCall.glUniform4f ctx.colortransAddUniform (colortransform.redOffset / 255)
                (colortransform.greenOffset / 255) (colortransform.blueOffset / 255)
                (colortransform.alphaOffset / 255)]) ∧
    GLRenderContext.blendFuncFor AS_BLENDMODE.BLENDMODE_NORMAL
      = some (BLEND_FACTOR.BLEND_ONE, BLEND_FACTOR.BLEND_ONE_MINUS_SRC_ALPHA) ∧
    GLRenderContext.blendFuncFor AS_BLENDMODE.BLENDMODE_LAYER
      = some (BLEND_FACTOR.BLEND_ONE, BLEND_FACTOR.BLEND_ONE_MINUS_SRC_ALPHA) ∧
    GLRenderContext.blendFuncFor AS_BLENDMODE.BLENDMODE_OVERLAY
      = some (BLEND_FACTOR.BLEND_ONE, BLEND_FACTOR.BLEND_ONE_MINUS_SRC_ALPHA) ∧
    GLRenderContext.blendFuncFor AS_BLENDMODE.BLENDMODE_HARDLIGHT
      = some (BLEND_FACTOR.BLEND_ONE, BLEND_FACTOR.BLEND_ONE_MINUS_SRC_ALPHA) ∧
    GLRenderContext.blendFuncFor AS_BLENDMODE.BLENDMODE_MULTIPLY
      = some (BLEND_FACTOR.BLEND_DST_COLOR, BLEND_FACTOR.BLEND_ONE_MINUS_SRC_ALPHA) ∧
    GLRenderContext.blendFuncFor AS_BLENDMODE.BLENDMODE_ADD
      = some (BLEND_FACTOR.BLEND_ONE, BLEND_FACTOR.BLEND_ONE) ∧
    GLRenderContext.blendFuncFor AS_BLENDMODE.BLENDMODE_SCREEN
      = some (BLEND_FACTOR.BLEND_ONE, BLEND_FACTOR.BLEND_ONE_MINUS_SRC_COLOR) ∧
    GLRenderContext.blendFuncFor AS_BLENDMODE.BLENDMODE_ERASE
      = some (BLEND_FACTOR.BLEND_ZERO, BLEND_FACTOR.BLEND_ONE_MINUS_SRC_ALPHA) ∧
    (∀ p, GLRenderContext.blendFuncFor blendmode = some p →
      blendFuncs (ctx.setupRenderingState alpha colortransform smooth blendmode).engineData
        = blendFuncs ctx.engineData ++ [p] ∧
      (ctx.setupRenderingState alpha colortransform smooth blendmode).notImplemented
        = ctx.notImplemented) ∧
    (GLRenderContext.blendFuncFor blendmode = none →
      blendFuncs (ctx.setupRenderingState alpha colortransform smooth blendmode).engineData
        = blendFuncs ctx.engineData ∧
      (ctx.setupRenderingState alpha colortransform smooth blendmode).notImplemented
        = ctx.notImplemented ++ [blendmode]) ∧
    (GLRenderContext.blendFuncFor blendmode = none ↔
      blendmode ≠ AS_BLENDMODE.BLENDMODE_NORMAL ∧ blendmode ≠ AS_BLENDMODE.BLENDMODE_LAYER ∧
      blendmode ≠ AS_BLENDMODE.BLENDMODE_OVERLAY ∧ blendmode ≠ AS_BLENDMODE.BLENDMODE_HARDLIGHT ∧
      blendmode ≠ AS_BLENDMODE.BLENDMODE_MULTIPLY ∧ blendmode ≠ AS_BLENDMODE.BLENDMODE_ADD ∧
      blendmode ≠ AS_BLENDMODE.BLENDMODE_SCREEN ∧ blendmode ≠ AS_BLENDMODE.BLENDMODE_ERASE) := by
  refine ⟨⟨(match GLRenderContext.blendFuncFor blendmode with
            | some (src, dst) => [GLCall.glBlendFunc src dst]
            | none => [])
        ++ (if smooth = SMOOTH_MODE.SMOOTH_NONE then
              [GLCall.glTexParameteri_MIN_FILTER_NEAREST,
               GLCall.glTexParameteri_MAG_FILTER_NEAREST]
            else []), by
      rw [GLRenderContext.setupRenderingState_engineData]
      simp only [List.append_assoc]⟩,
    rfl, rfl, rfl, rfl, rfl, rfl, rfl, rfl, ?_, ?_, ?_⟩
  · intro p hp
    obtain ⟨src, dst⟩ := p
    constructor
    · rw [GLRenderContext.setupRenderingState_engineData, hp]
      cases smooth <;> simp [blendFuncs]
    · simp [GLRenderContext.setupRenderingState, hp]
  · intro hp
    constructor
    · rw [GLRenderContext.setupRenderingState_engineData, hp]
      cases smooth <;> simp [blendFuncs]
    · simp [GLRenderContext.setupRenderingState, hp]
  · cases blendmode <;> simp [GLRenderContext.blendFuncFor]

/-- C25 (counterexample): after a draw with BLENDMODE_ADD (blend function ONE / ONE), a call
of `setupRenderingState` with the unsupported mode BLENDMODE_DARKEN issues no `glBlendFunc`:
the blend function in force is still ONE / ONE, and the mode is reported as not
implemented. -/
theorem GLRenderContext.setupRenderingState_darken_inherits :
    GLRenderContext.blendFuncFor AS_BLENDMODE.BLENDMODE_DARKEN = none ∧
    blendFuncs ((exampleContext.setupRenderingState 1 exampleColorTransform
      SMOOTH_MODE.SMOOTH_NONE AS_BLENDMODE.BLENDMODE_ADD).setupRenderingState 1
      exampleColorTransform SMOOTH_MODE.SMOOTH_NONE AS_BLENDMODE.BLENDMODE_DARKEN).engineData
      = [(BLEND_FACTOR.BLEND_ONE, BLEND_FACTOR.BLEND_ONE)] ∧
    ((exampleContext.setupRenderingState 1 exampleColorTransform
      SMOOTH_MODE.SMOOTH_NONE AS_BLENDMODE.BLENDMODE_ADD).setupRenderingState 1
      exampleColorTransform SMOOTH_MODE.SMOOTH_NONE AS_BLENDMODE.BLENDMODE_DARKEN).notImplemented
      = [AS_BLENDMODE.BLENDMODE_DARKEN] := by
  refine ⟨rfl, ?_, ?_⟩
  · simp [GLRenderContext.setupRenderingState, GLRenderContext.blendFuncFor, blendFuncs,
      exampleContext, GLRenderContext.new]
  · simp [GLRenderContext.setupRenderingState, GLRenderContext.blendFuncFor,
      exampleContext, GLRenderContext.new]

end BlendTheorems

section CropTheorems

variable {M C : Type}

theorem GLRenderContext.scalingGridRegions_crops (ops : MatrixOps M C ℚ) (chunk : TextureChunk)
    (matrix : M) (g : Rectangle) :
    (GLRenderContext.scalingGridRegions ops chunk matrix g).map GridRegion.crop
      = [(0, 0, (GLRenderContext.sliceQuantities chunk g).scaledleftborder,
            (GLRenderContext.sliceQuantities chunk g).scaledtopborder),
         ((chunk.width : ℚ) - (GLRenderContext.sliceQuantities chunk g).scaledrightborder, 0,
            (GLRenderContext.sliceQuantities chunk g).scaledrightborder,
            (GLRenderContext.sliceQuantities chunk g).scaledtopborder),
         ((chunk.width : ℚ) - (GLRenderContext.sliceQuantities chunk g).scaledrightborder,
            (chunk.height : ℚ) - (GLRenderContext.sliceQuantities chunk g).scaledbottomborder,
            (GLRenderContext.sliceQuantities chunk g).scaledrightborder,
            (GLRenderContext.sliceQuantities chunk g).scaledbottomborder),
         (0, (chunk.height : ℚ) - (GLRenderContext.sliceQuantities chunk g).scaledbottomborder,
            (GLRenderContext.sliceQuantities chunk g).scaledleftborder,
            (GLRenderContext.sliceQuantities chunk g).scaledbottomborder),
         ((GLRenderContext.sliceQuantities chunk g).scaledleftborder, 0,
            (GLRenderContext.sliceQuantities chunk g).innerwidth,
            (GLRenderContext.sliceQuantities chunk g).scaledtopborder),
         ((chunk.width : ℚ) - (GLRenderContext.sliceQuantities chunk g).scaledrightborder,
            (GLRenderContext.sliceQuantities chunk g).scaledtopborder,
            (GLRenderContext.sliceQuantities chunk g).scaledrightborder,
            (GLRenderContext.sliceQuantities chunk g).innerheight),
         ((GLRenderContext.sliceQuantities chunk g).scaledleftborder,
            (chunk.height : ℚ) - (GLRenderContext.sliceQuantities chunk g).scaledbottomborder,
            (GLRenderContext.sliceQuantities chunk g).innerwidth,
            (GLRenderContext.sliceQuantities chunk g).scaledbottomborder),
         (0, (GLRenderContext.sliceQuantities chunk g).scaledtopborder,
            (GLRenderContext.sliceQuantities chunk g).scaledleftborder,
            (GLRenderContext.sliceQuantities chunk g).innerheight),
         ((GLRenderContext.sliceQuantities chunk g).scaledleftborder,
            (GLRenderContext.sliceQuantities chunk g).scaledtopborder,
            (GLRenderContext.sliceQuantities chunk g).innerwidth,
            (GLRenderContext.sliceQuantities chunk g).innerheight)] :=
  rfl

end CropTheorems

section CropTheorems2

variable {M C : Type}

/-! ### C26 -/

/-- C26 (as amended): for every chunk and every scaling grid of non-negative width and
height that passes the slicing condition, the nine crop rectangles passed to `renderpart` (in the
order of the calls: the four corners, the top, right, bottom and left strips, the centre)
are those of a 3 by 3 table with the columns `[0, scaledleftborder]`, `[scaledleftborder,
width - scaledrightborder]`, `[width - scaledrightborder, width]` and the rows alike, the
origin of each crop at the matching column and row boundary: all sizes are non-negative, the column widths sum to `chunk.width` and the row heights to `chunk.height`,
every point of `[0, width] x [0, height]` lies in one of the nine rectangles, each of them
lies inside the chunk rectangle, and no point lies in the interior of two of them. -/
theorem GLRenderContext.scalingGrid_crops_partition (ops : MatrixOps M C ℚ)
    (chunk : TextureChunk) (matrix : M) (g : Rectangle)
    (hw : 0 ≤ g.width) (hh : 0 ≤ g.height)
    (hx : g.width + |g.x| < (chunk.width : ℚ) / chunk.xContentScale)
    (hy : g.height + |g.y| < (chunk.height : ℚ) / chunk.yContentScale) :
    (GLRenderContext.scalingGridRegions ops chunk matrix g).map GridRegion.crop
      = [(0, 0, (GLRenderContext.sliceQuantities chunk g).scaledleftborder,
            (GLRenderContext.sliceQuantities chunk g).scaledtopborder),
         ((chunk.width : ℚ) - (GLRenderContext.sliceQuantities chunk g).scaledrightborder, 0,
            (GLRenderContext.sliceQuantities chunk g).scaledrightborder,
            (GLRenderContext.sliceQuantities chunk g).scaledtopborder),
         ((chunk.width : ℚ) - (GLRenderContext.sliceQuantities chunk g).scaledrightborder,
            (chunk.height : ℚ) - (GLRenderContext.sliceQuantities chunk g).scaledbottomborder,
            (GLRenderContext.sliceQuantities chunk g).scaledrightborder,
            (GLRenderContext.sliceQuantities chunk g).scaledbottomborder),
         (0, (chunk.height : ℚ) - (GLRenderContext.sliceQuantities chunk g).scaledbottomborder,
            (GLRenderContext.sliceQuantities chunk g).scaledleftborder,
            (GLRenderContext.sliceQuantities chunk g).scaledbottomborder),
         ((GLRenderContext.sliceQuantities chunk g).scaledleftborder, 0,
            (GLRenderContext.sliceQuantities chunk g).innerwidth,
            (GLRenderContext.sliceQuantities chunk g).scaledtopborder),
         ((chunk.width : ℚ) - (GLRenderContext.sliceQuantities chunk g).scaledrightborder,
            (GLRenderContext.sliceQuantities chunk g).scaledtopborder,
            (GLRenderContext.sliceQuantities chunk g).scaledrightborder,
            (GLRenderContext.sliceQuantities chunk g).innerheight),
         ((GLRenderContext.sliceQuantities chunk g).scaledleftborder,
            (chunk.height : ℚ) - (GLRenderContext.sliceQuantities chunk g).scaledbottomborder,
            (GLRenderContext.sliceQuantities chunk g).innerwidth,
            (GLRenderContext.sliceQuantities chunk g).scaledbottomborder),
         (0, (GLRenderContext.sliceQuantities chunk g).scaledtopborder,
            (GLRenderContext.sliceQuantities chunk g).scaledleftborder,
            (GLRenderContext.sliceQuantities chunk g).innerheight),
         ((GLRenderContext.sliceQuantities chunk g).scaledleftborder,
            (GLRenderContext.sliceQuantities chunk g).scaledtopborder,
            (GLRenderContext.sliceQuantities chunk g).innerwidth,
            (GLRenderContext.sliceQuantities chunk g).innerheight)] ∧
    (∀ c ∈ (GLRenderContext.scalingGridRegions ops chunk matrix g).map GridRegion.crop,
      0 ≤ c.2.2.1 ∧ 0 ≤ c.2.2.2) ∧
    (GLRenderContext.sliceQuantities chunk g).scaledleftborder
      + (GLRenderContext.sliceQuantities chunk g).innerwidth
      + (GLRenderContext.sliceQuantities chunk g).scaledrightborder = (chunk.width : ℚ) ∧
    (GLRenderContext.sliceQuantities chunk g).scaledtopborder
      + (GLRenderContext.sliceQuantities chunk g).innerheight
      + (GLRenderContext.sliceQuantities chunk g).scaledbottomborder = (chunk.height : ℚ) ∧
    (∀ x y : ℚ, 0 ≤ x → x ≤ (chunk.width : ℚ) → 0 ≤ y → y ≤ (chunk.height : ℚ) →
      ∃ c ∈ (GLRenderContext.scalingGridRegions ops chunk matrix g).map GridRegion.crop,
        cropCovers c x y) ∧
    (∀ c ∈ (GLRenderContext.scalingGridRegions ops chunk matrix g).map GridRegion.crop,
      ∀ x y : ℚ, cropCovers c x y →
        0 ≤ x ∧ x ≤ (chunk.width : ℚ) ∧ 0 ≤ y ∧ y ≤ (chunk.height : ℚ)) ∧
    List.Pairwise (fun c1 c2 => ∀ x y : ℚ, ¬ (cropInterior c1 x y ∧ cropInterior c2 x y))
      ((GLRenderContext.scalingGridRegions ops chunk matrix g).map GridRegion.crop) := by
  have hxs : 0 < chunk.xContentScale := by
    have hpos : 0 < (chunk.width : ℚ) / chunk.xContentScale :=
      lt_of_le_of_lt (add_nonneg hw (abs_nonneg _)) hx
    by_contra hneg
    exact absurd hpos (not_lt.mpr
      (div_nonpos_of_nonneg_of_nonpos (Nat.cast_nonneg _) (not_lt.mp hneg)))
  have hys : 0 < chunk.yContentScale := by
    have hpos : 0 < (chunk.height : ℚ) / chunk.yContentScale :=
      lt_of_le_of_lt (add_nonneg hh (abs_nonneg _)) hy
    by_contra hneg
    exact absurd hpos (not_lt.mpr
      (div_nonpos_of_nonneg_of_nonpos (Nat.cast_nonneg _) (not_lt.mp hneg)))
  have ha : 0 ≤ |g.x| * chunk.xContentScale := mul_nonneg (abs_nonneg _) hxs.le
  have hb : 0 ≤ |g.y| * chunk.yContentScale := mul_nonneg (abs_nonneg _) hys.le
  have hc : 0 ≤ g.width * chunk.xContentScale := mul_nonneg hw hxs.le
  have hd : 0 ≤ g.height * chunk.yContentScale := mul_nonneg hh hys.le
  have hx2 : |g.x| * chunk.xContentScale + g.width * chunk.xContentScale
      < (chunk.width : ℚ) := by
    have := (lt_div_iff₀ hxs).mp hx
    linarith
  have hy2 : |g.y| * chunk.yContentScale + g.height * chunk.yContentScale
      < (chunk.height : ℚ) := by
    have := (lt_div_iff₀ hys).mp hy
    linarith
  refine ⟨GLRenderContext.scalingGridRegions_crops ops chunk matrix g, ?_⟩
  rw [GLRenderContext.scalingGridRegions_crops]
  simp only [GLRenderContext.sliceQuantities]
  refine ⟨?_, by ring, by ring, ?_, ?_, ?_⟩
  · intro c hc'
    simp only [List.mem_cons, List.mem_singleton, List.not_mem_nil, or_false] at hc'
    rcases hc' with h | h | h | h | h | h | h | h | h <;> subst h <;>
      (constructor <;> simp only <;> linarith)
  · intro x y hx0 hxw hy0 hyh
    simp only [List.mem_cons, List.mem_singleton, List.not_mem_nil, or_false]
    rcases le_total x (|g.x| * chunk.xContentScale) with h1 | h1
    · rcases le_total y (|g.y| * chunk.yContentScale) with h2 | h2
      · refine ⟨_, Or.inl rfl, ?_⟩
        unfold cropCovers; simp only; refine ⟨?_, ?_, ?_, ?_⟩ <;> linarith
      · rcases le_total y ((|g.y| + g.height) * chunk.yContentScale) with h3 | h3
        · refine ⟨_, Or.inr (Or.inr (Or.inr (Or.inr (Or.inr (Or.inr (Or.inr (Or.inl rfl))))))), ?_⟩
          unfold cropCovers; simp only; refine ⟨?_, ?_, ?_, ?_⟩ <;> linarith
        · refine ⟨_, Or.inr (Or.inr (Or.inr (Or.inl rfl))), ?_⟩
          unfold cropCovers; simp only; refine ⟨?_, ?_, ?_, ?_⟩ <;> linarith
    · rcases le_total x ((|g.x| + g.width) * chunk.xContentScale) with h4 | h4
      · rcases le_total y (|g.y| * chunk.yContentScale) with h2 | h2
        · refine ⟨_, Or.inr (Or.inr (Or.inr (Or.inr (Or.inl rfl)))), ?_⟩
          unfold cropCovers; simp only; refine ⟨?_, ?_, ?_, ?_⟩ <;> linarith
        · rcases le_total y ((|g.y| + g.height) * chunk.yContentScale) with h3 | h3
          · refine ⟨_, Or.inr (Or.inr (Or.inr (Or.inr (Or.inr (Or.inr (Or.inr (Or.inr (rfl)))))))), ?_⟩
            unfold cropCovers; simp only; refine ⟨?_, ?_, ?_, ?_⟩ <;> linarith
          · refine ⟨_, Or.inr (Or.inr (Or.inr (Or.inr (Or.inr (Or.inr (Or.inl rfl)))))), ?_⟩
            unfold cropCovers; simp only; refine ⟨?_, ?_, ?_, ?_⟩ <;> linarith
      · rcases le_total y (|g.y| * chunk.yContentScale) with h2 | h2
        · refine ⟨_, Or.inr (Or.inl rfl), ?_⟩
          unfold cropCovers; simp only; refine ⟨?_, ?_, ?_, ?_⟩ <;> linarith
        · rcases le_total y ((|g.y| + g.height) * chunk.yContentScale) with h3 | h3
          · refine ⟨_, Or.inr (Or.inr (Or.inr (Or.inr (Or.inr (Or.inl rfl))))), ?_⟩
            unfold cropCovers; simp only; refine ⟨?_, ?_, ?_, ?_⟩ <;> linarith
          · refine ⟨_, Or.inr (Or.inr (Or.inl rfl)), ?_⟩
            unfold cropCovers; simp only; refine ⟨?_, ?_, ?_, ?_⟩ <;> linarith
  · intro c hc' x y hcov
    simp only [List.mem_cons, List.mem_singleton, List.not_mem_nil, or_false] at hc'
    rcases hc' with h | h | h | h | h | h | h | h | h <;> subst h <;>
      (unfold cropCovers at hcov; simp only at hcov; obtain ⟨h1, h2, h3, h4⟩ := hcov;
       refine ⟨?_, ?_, ?_, ?_⟩ <;> linarith)
  · simp only [List.pairwise_cons, List.mem_cons, List.mem_singleton, List.not_mem_nil,
      or_false, forall_eq_or_imp, forall_eq, List.Pairwise.nil, and_true, cropInterior,
      IsEmpty.forall_iff, implies_true]
    repeat' constructor
    all_goals
      intro x y h
      obtain ⟨⟨h1, h2, h3, h4⟩, h5, h6, h7, h8⟩ := h
      linarith

end CropTheorems2

section ViewTheorems

theorem c2u_natCast (n : Nat) (h : n < 4294967296) : c2u (n : ℚ) = n := by
  unfold c2u
  rw [Int.ceil_natCast]
  exact f2u_natCast n h

/-! ### C27 -/

/-- C27, evaluated at a grid with different left and right borders: for the chunk of 100 by
100 pixels (content scale 1) and the grid of size 70 by 70 at (10, 10) the borders are 10
(left, top) and 20 (right, bottom).  The sizes of the nine sub-buffer views of
`CairoRenderContext::renderTextured` equal the rounded-up crop sizes of the GPU backend in
the regions 1 to 7 and 9; the view of region 8, the left strip, is 20 wide
(`ceil(scaledrightborder)`) where the GPU backend crops the width `scaledleftborder = 10`. -/
theorem CairoRenderContext.left_strip_view_width :
    GLRenderContext.useScalingGrid scaleTranslateOps squareChunk scaleTranslateOps.identity
      (some offsetGrid) = true ∧
    (CairoRenderContext.scalingGridRegions squareChunk offsetGrid).map
        (fun r => (r.width, r.height))
      = [(10, 10), (20, 10), (20, 20), (10, 20), (70, 10), (20, 70), (70, 20), (20, 70),
         (70, 70)] ∧
    (GLRenderContext.scalingGridRegions scaleTranslateOps squareChunk scaleTranslateOps.identity
        offsetGrid).map (fun r => (c2u r.cropwidth, c2u r.cropheight))
      = [(10, 10), (20, 10), (20, 20), (10, 20), (70, 10), (20, 70), (70, 20), (10, 70),
         (70, 70)] := by
  have h10 : c2u (10 : ℚ) = 10 := c2u_natCast 10 (by norm_num)
  have h20 : c2u (20 : ℚ) = 20 := c2u_natCast 20 (by norm_num)
  have h70 : c2u (70 : ℚ) = 70 := c2u_natCast 70 (by norm_num)
  refine ⟨?_, ?_, ?_⟩
  · simp [GLRenderContext.useScalingGrid, scaleTranslateOps, squareChunk, offsetGrid]
    norm_num
  · simp [CairoRenderContext.scalingGridRegions, CairoRenderContext.paintedRegions,
      CairoRenderContext.centerRegion, CairoRenderContext.sliceQuantities, squareChunk,
      offsetGrid]
    norm_num [h10, h20, h70]
  · simp [GLRenderContext.scalingGridRegions, GLRenderContext.sliceQuantities, squareChunk,
      offsetGrid]
    norm_num [h10, h20, h70]

end ViewTheorems

section ViewTheorems2

variable {M C : Type}

/-- For a grid with non-negative `x` and `y` the sizes of the nine sub-buffer views are the
rounded-up crop sizes of the GPU backend, except in region 8, whose width is
`ceil(scaledrightborder)`. -/
theorem CairoRenderContext.view_sizes (ops : MatrixOps M C ℚ) (chunk : TextureChunk)
    (matrix : M) (g : Rectangle) (hx : 0 ≤ g.x) (hy : 0 ≤ g.y) :
    (CairoRenderContext.scalingGridRegions chunk g).map (fun r => (r.width, r.height))
      = ((GLRenderContext.scalingGridRegions ops chunk matrix g).map
          (fun r => (c2u r.cropwidth, c2u r.cropheight))).set 7
          (c2u (GLRenderContext.sliceQuantities chunk g).scaledrightborder,
           c2u (GLRenderContext.sliceQuantities chunk g).innerheight) := by
  simp [CairoRenderContext.scalingGridRegions, CairoRenderContext.paintedRegions,
    CairoRenderContext.centerRegion, GLRenderContext.scalingGridRegions,
    sliceQuantities_eq_of_nonneg chunk g hx hy, GLRenderContext.sliceQuantities]

theorem f2i_intCast (z : ℤ) : f2i (z : ℚ) = z := by
  unfold f2i
  split <;> simp

theorem f2i_half (n : ℕ) : f2i ((2 * (n : ℚ) + 1) / 2) = n := by
  unfold f2i
  rw [if_pos (by positivity)]
  rw [Int.floor_eq_iff]
  constructor
  · push_cast; linarith
  · push_cast; linarith

/-! ### C28 -/

/-- C28, evaluated at a grid with a fractional left edge and content scale 2: for the chunk
of 100 by 100 pixels with `xContentScale = 2` and the grid of size 20 by 20 at (10.5, 10),
the crop origins of the GPU backend have the columns 0, 21 and 61, so the offsets
`(row * chunk.width + col) * 4` are the second list.  `CairoRenderContext::renderTextured`
computes the first list: it truncates `x` and `x + width` before the multiplication by
`scalex` in the regions 2, 3, 5, 6 and 7 (columns 20 and 60) and after it in region 9
(column 21), so the top strip, the centre and the bottom strip do not start in the same
column. -/
theorem CairoRenderContext.bytestartpos_truncates_early :
    GLRenderContext.useScalingGrid scaleTranslateOps scaledChunk scaleTranslateOps.identity
      (some fractionalGrid) = true ∧
    0 ≤ fractionalGrid.x ∧ 0 ≤ fractionalGrid.y ∧
    (CairoRenderContext.scalingGridRegions scaledChunk fractionalGrid).map
        (fun r => r.bytestartpos)
      = [0, 240, 12240, 12000, 80, 4240, 12080, 4000, 4084] ∧
    (GLRenderContext.scalingGridRegions scaleTranslateOps scaledChunk
        scaleTranslateOps.identity fractionalGrid).map (claimedByteOffset scaledChunk)
      = [0, 244, 12244, 12000, 84, 4244, 12084, 4000, 4084] := by
  have hf10 : f2i ((21 : ℚ) / 2) = 10 := by
    have := f2i_half 10
    norm_num at this
    exact this
  have hf30 : f2i ((61 : ℚ) / 2) = 30 := by
    have := f2i_half 30
    norm_num at this
    exact this
  have habs : |(21 : ℚ) / 2| = 21 / 2 := abs_of_pos (by norm_num)
  have hi : ∀ z : ℤ, f2i (z : ℚ) = z := f2i_intCast
  have h0 : f2i (0 : ℚ) = 0 := by simpa using hi 0
  have h10 : f2i (10 : ℚ) = 10 := by simpa using hi 10
  have h20 : f2i (20 : ℚ) = 20 := by simpa using hi 20
  have h21 : f2i (21 : ℚ) = 21 := by simpa using hi 21
  have h30 : f2i (30 : ℚ) = 30 := by simpa using hi 30
  have h60 : f2i (60 : ℚ) = 60 := by simpa using hi 60
  have h61 : f2i (61 : ℚ) = 61 := by simpa using hi 61
  have h1020 : f2i (1020 : ℚ) = 1020 := by simpa using hi 1020
  have h1021 : f2i (1021 : ℚ) = 1021 := by simpa using hi 1021
  have h1060 : f2i (1060 : ℚ) = 1060 := by simpa using hi 1060
  have h3020 : f2i (3020 : ℚ) = 3020 := by simpa using hi 3020
  have h3060 : f2i (3060 : ℚ) = 3060 := by simpa using hi 3060
  have hm10 : i2uMul 10 100 = 1000 := by decide
  have hm30 : i2uMul 30 100 = 3000 := by decide
  have ht10 : toInt32 1000 = 1000 := by decide
  have ht30 : toInt32 3000 = 3000 := by decide
  have hc9 : toInt32 (u2iAdd 1000 21) = 1021 := by decide
  refine ⟨?_, ?_, ?_, ?_, ?_⟩
  · simp [GLRenderContext.useScalingGrid, scaleTranslateOps, scaledChunk, fractionalGrid, habs]
    norm_num
  · norm_num [fractionalGrid]
  · norm_num [fractionalGrid]
  · simp [CairoRenderContext.scalingGridRegions, CairoRenderContext.paintedRegions,
      CairoRenderContext.centerRegion, scaledChunk, fractionalGrid]
    norm_num [hf10, hf30, h0, h10, h20, h21, h30, h60, h61, h1020, h1021, h1060, h3020, h3060,
      hm10, hm30, ht10, ht30, hc9]
  · simp [GLRenderContext.scalingGridRegions, GLRenderContext.sliceQuantities,
      claimedByteOffset, scaledChunk, fractionalGrid, habs]
    norm_num [hf10, hf30, h0, h10, h20, h21, h30, h60, h61, hm10, hm30, ht10, ht30]

end ViewTheorems2

section CenterRegionTheorems

/-- The byte offset of region 9 at a grid with negative origin: for the chunk of 100 by 100
pixels (content scale 1) and the grid at `(-10, -5)`, the `uint32_t` sum
`int(-5) * 100 + int(-10)` wraps to `2^32 - 510` and is converted to the `int` `-510`, so
`bytestartpos` is `-2040`. -/
theorem CairoRenderContext.centerRegion_negative_origin :
    (CairoRenderContext.centerRegion squareChunk negativeGrid).bytestartpos = -2040 := by
  have h5 : f2i (-5 : ℚ) = -5 := by simpa using f2i_intCast (-5)
  have h10 : f2i (-10 : ℚ) = -10 := by simpa using f2i_intCast (-10)
  have hc : toInt32 (u2iAdd (i2uMul (-5) 100) (-10)) = -510 := by decide
  simp only [CairoRenderContext.centerRegion, squareChunk, negativeGrid, mul_one, h5, h10, hc]
  norm_num

end CenterRegionTheorems

section SurfaceTheorems

variable {M C : Type}

/-! ### C23 -/

/-- C23: `getCachedSurface(d)` is defined for every state of `customSurfaces` and every `d`
and changes nothing (it is a function of the context); it yields the sentinel
`invalidSurface` if and only if `d` has no entry in `customSurfaces`, and otherwise the
surface stored for `d`. -/
theorem CairoRenderContext.getCachedSurface_lookup (ctx : CairoRenderContext M C) (d : Nat) :
    (ctx.getCachedSurface d = CachedSurfaceRef.invalidSurface ↔ ctx.customSurfaces d = none) ∧
    (∀ (surface : CachedSurface) (drawable : Nat),
      ctx.customSurfaces d = some (surface, drawable) →
      ctx.getCachedSurface d = CachedSurfaceRef.stored surface) := by
  constructor
  · unfold CairoRenderContext.getCachedSurface
    cases h : ctx.customSurfaces d <;> simp
  · intro surface drawable h
    simp [CairoRenderContext.getCachedSurface, h]

/-! ### C24 -/

/-- C24 (as amended): after `allocateCustomSurface(d, drawable)` the map has an entry for
`d` whose surface has a non-null `tex` with `chunks == nullptr` and `isChunkOwner == false`;
entries of other objects are unchanged; the surface returned is the one of that entry and
`getCachedSurface(d)` yields it, not the sentinel.  If `d` had no entry, the entry holds the
drawable passed to this call; if `d` already had an entry, that entry is kept: it holds the
drawable it had before, and its `tex` object is the old one when that was not null. -/
theorem CairoRenderContext.allocateCustomSurface_effect (freshSurface : CachedSurface)
    (freshTex : TexObject) (ctx : CairoRenderContext M C) (d : Nat) (drawable : Nat) :
    ∃ (surface : CachedSurface) (kept : Nat) (tex : TexObject),
      (ctx.allocateCustomSurface freshSurface freshTex d drawable).2 = surface ∧
      (ctx.allocateCustomSurface freshSurface freshTex d drawable).1.customSurfaces d
        = some (surface, kept) ∧
      surface.tex = some tex ∧ tex.chunks = none ∧ surface.isChunkOwner = false ∧
      (∀ k, k ≠ d →
        (ctx.allocateCustomSurface freshSurface freshTex d drawable).1.customSurfaces k
          = ctx.customSurfaces k) ∧
      (ctx.allocateCustomSurface freshSurface freshTex d drawable).1.getCachedSurface d
        = CachedSurfaceRef.stored surface ∧
      (ctx.customSurfaces d = none → kept = drawable) ∧
      (∀ (old : CachedSurface) (oldDrawable : Nat),
        ctx.customSurfaces d = some (old, oldDrawable) →
        kept = oldDrawable ∧ surface.members = old.members ∧
        (∀ t, old.tex = some t → tex.members = t.members)) := by
  cases h : ctx.customSurfaces d with
  | none =>
    cases ht : freshSurface.tex with
    | none =>
      refine ⟨_, drawable, { freshTex with chunks := none }, rfl, ?_, ?_, rfl, ?_, ?_, ?_,
        fun _ => rfl, ?_⟩
      · simp [CairoRenderContext.allocateCustomSurface, h, ht]
      · simp [CairoRenderContext.allocateCustomSurface, h, ht]
      · simp [CairoRenderContext.allocateCustomSurface, h, ht]
      · intro k hk
        simp [CairoRenderContext.allocateCustomSurface, hk]
      · simp [CairoRenderContext.allocateCustomSurface, CairoRenderContext.getCachedSurface, h,
          ht]
      · intro old oldDrawable ho
        cases ho
    | some t0 =>
      refine ⟨_, drawable, { t0 with chunks := none }, rfl, ?_, ?_, rfl, ?_, ?_, ?_,
        fun _ => rfl, ?_⟩
      · simp [CairoRenderContext.allocateCustomSurface, h, ht]
      · simp [CairoRenderContext.allocateCustomSurface, h, ht]
      · simp [CairoRenderContext.allocateCustomSurface, h, ht]
      · intro k hk
        simp [CairoRenderContext.allocateCustomSurface, hk]
      · simp [CairoRenderContext.allocateCustomSurface, CairoRenderContext.getCachedSurface, h,
          ht]
      · intro old oldDrawable ho
        cases ho
  | some entry =>
    obtain ⟨old, oldDrawable⟩ := entry
    cases ht : old.tex with
    | none =>
      refine ⟨_, oldDrawable, { freshTex with chunks := none }, rfl, ?_, ?_, rfl, ?_, ?_, ?_,
        ?_, ?_⟩
      · simp [CairoRenderContext.allocateCustomSurface, h, ht]
      · simp [CairoRenderContext.allocateCustomSurface, h, ht]
      · simp [CairoRenderContext.allocateCustomSurface, h, ht]
      · intro k hk
        simp [CairoRenderContext.allocateCustomSurface, hk]
      · simp [CairoRenderContext.allocateCustomSurface, CairoRenderContext.getCachedSurface, h,
          ht]
      · intro hn
        cases hn
      · intro old2 od2 ho
        cases ho
        refine ⟨rfl, ?_, ?_⟩
        · simp [CairoRenderContext.allocateCustomSurface, h, ht]
        · intro t htt
          rw [ht] at htt
          cases htt
    | some t0 =>
      refine ⟨_, oldDrawable, { t0 with chunks := none }, rfl, ?_, ?_, rfl, ?_, ?_, ?_,
        ?_, ?_⟩
      · simp [CairoRenderContext.allocateCustomSurface, h, ht]
      · simp [CairoRenderContext.allocateCustomSurface, h, ht]
      · simp [CairoRenderContext.allocateCustomSurface, h, ht]
      · intro k hk
        simp [CairoRenderContext.allocateCustomSurface, hk]
      · simp [CairoRenderContext.allocateCustomSurface, CairoRenderContext.getCachedSurface, h,
          ht]
      · intro hn
        cases hn
      · intro old2 od2 ho
        cases ho
        refine ⟨rfl, ?_, ?_⟩
        · simp [CairoRenderContext.allocateCustomSurface, h, ht]
        · intro t htt
          rw [ht] at htt
          cases htt
          rfl

/-- C24 (counterexample): an object that already has an entry with drawable 1 is allocated
again with drawable 2; the entry still holds drawable 1. -/
theorem CairoRenderContext.allocateCustomSurface_keeps_drawable :
    (CairoRenderContext.allocateCustomSurface exampleFreshSurface exampleFreshTex
      (exampleCairoContext.allocateCustomSurface exampleFreshSurface exampleFreshTex 5 1).1
      5 2).1.customSurfaces 5
      = some ({ tex := some { chunks := none, members := 0 }, isChunkOwner := false,
                members := 0 }, 1) := by
  simp [CairoRenderContext.allocateCustomSurface, exampleCairoContext, CairoRenderContext.new,
    exampleFreshSurface, exampleFreshTex]

end SurfaceTheorems

section CairoMaskTheorems

variable {M C : Type}

theorem unmatchedPushMasks_concat (steps : List (CairoStep M)) (s : CairoStep M) :
    unmatchedPushMasks (steps ++ [s]) = unmatchedPushMasks steps +
      (match s with
        | CairoStep.pushMask => 1
        | CairoStep.popMask => -1
        | CairoStep.renderTextured _ => 0) := by
  unfold unmatchedPushMasks
  rw [List.foldl_append]
  cases s <;> simp [sub_eq_add_neg]

theorem CairoRenderContext.run_concat (ops : MatrixOps M C ℚ) (cops : CairoMatrixOps M)
    (mb : MaskBase ℚ) (ctx : CairoRenderContext M C) (steps : List (CairoStep M))
    (s : CairoStep M) :
    ctx.run ops cops mb (steps ++ [s])
      = (ctx.run ops cops mb steps).bind fun c => c.step ops cops mb s := by
  unfold CairoRenderContext.run
  rw [List.foldlM_append]
  cases h : List.foldlM (CairoRenderContext.step ops cops mb) ctx steps <;> simp

theorem CairoRenderContext.pushMask_eq (mb : MaskBase ℚ) (ctx : CairoRenderContext M C)
    (t : Transform2D M C AS_BLENDMODE)
    (htop : ctx.topTransform = some (ctx.transformStacks, t)) :
    ctx.pushMask mb = some { ctx.onBase mb.pushMask with
      surfacesCreated := ctx.surfacesCreated + 1
      cr_list := ctx.cr_list ++
        [{ target := CairoSurface.image ctx.surfacesCreated ctx.width ctx.height }]
      masksurfaces := ctx.masksurfaces ++
        [(CairoSurface.image ctx.surfacesCreated ctx.width ctx.height,
          MaskMatrix.plain t.matrix)] } := by
  have h1 : (ctx.onBase mb.pushMask).topTransform = some (ctx.transformStacks, t) := htop
  simp only [CairoRenderContext.pushMask, h1]
  rfl

theorem CairoRenderContext.popMask_eq (mb : MaskBase ℚ) (ctx : CairoRenderContext M C)
    (ms : List (CairoSurface × MaskMatrix M)) (entry : CairoSurface × MaskMatrix M)
    (cs : List CairoCtx) (cr : CairoCtx)
    (hm : ctx.masksurfaces = ms ++ [entry]) (hc : ctx.cr_list = cs ++ [cr]) :
    ctx.popMask mb = some { ctx.onBase mb.popMask with
      events := ctx.events ++
        [CairoEvent.cairo_surface_destroy entry.1, CairoEvent.cairo_destroy cr]
      masksurfaces := ms
      cr_list := cs } := by
  have h1 : (ctx.onBase mb.popMask).masksurfaces.getLast? = some entry := by
    show ctx.masksurfaces.getLast? = some entry
    rw [hm]; simp
  have h2 : (ctx.onBase mb.popMask).cr_list.getLast? = some cr := by
    show ctx.cr_list.getLast? = some cr
    rw [hc]; simp
  have h3 : (ctx.onBase mb.popMask).masksurfaces.dropLast = ms := by
    show ctx.masksurfaces.dropLast = ms
    rw [hm]; simp
  have h4 : (ctx.onBase mb.popMask).cr_list.dropLast = cs := by
    show ctx.cr_list.dropLast = cs
    rw [hc]; simp
  simp only [CairoRenderContext.popMask, h1, h2, h3, h4]
  rfl

theorem CairoRenderContext.renderTextured_keeps_lists (ops : MatrixOps M C ℚ)
    (cops : CairoMatrixOps M) (ctx : CairoRenderContext M C) (a : RenderTexturedArgs M)
    (hcr : ctx.cr_list ≠ []) (hflag : ctx.isDrawingMask = false) :
    ∃ ctx2 : CairoRenderContext M C, ctx.renderTextured ops cops a = some ctx2 ∧
      ctx2.masksurfaces = ctx.masksurfaces ∧ ctx2.cr_list = ctx.cr_list ∧
      ctx2.transformStacks = ctx.transformStacks ∧ ctx2.width = ctx.width ∧
      ctx2.height = ctx.height ∧ ctx2.surfacesCreated = ctx.surfacesCreated := by
  obtain ⟨cr, hcr2⟩ : ∃ cr, ctx.cr_list.getLast? = some cr := by
    cases h : ctx.cr_list.getLast? with
    | none => exact absurd (List.getLast?_eq_none_iff.mp h) hcr
    | some cr => exact ⟨cr, rfl⟩
  simp only [CairoRenderContext.renderTextured, hcr2]
  refine ⟨_, rfl, ?_, rfl, rfl, rfl, rfl, rfl⟩
  simp [CairoRenderContext.renderTexturedEnd, hflag]

/-- The end of `renderTextured` appends the source surface to `masksurfaces` exactly when
`isDrawingMask()` holds. -/
theorem CairoRenderContext.renderTexturedEnd_masksurfaces (maskActive : Bool) (cr : CairoCtx)
    (alpha : ℚ) (chunkSurface : ChunkSurface) (maskmatrix : MaskMatrix M)
    (masksurfaces : List (CairoSurface × MaskMatrix M)) :
    (CairoRenderContext.renderTexturedEnd true maskActive cr alpha chunkSurface maskmatrix
      masksurfaces).1 = masksurfaces ++ [(CairoSurface.forData chunkSurface, maskmatrix)] ∧
    (CairoRenderContext.renderTexturedEnd false maskActive cr alpha chunkSurface maskmatrix
      masksurfaces).1 = masksurfaces :=
  ⟨rfl, rfl⟩

end CairoMaskTheorems

section CairoMaskTheorems2

variable {M C : Type}

/-- While `isDrawingMask()` holds, `renderTextured` appends its source surface to
`masksurfaces` and leaves `cr_list` as it is. -/
theorem CairoRenderContext.renderTextured_appends_entry (ops : MatrixOps M C ℚ)
    (cops : CairoMatrixOps M) (ctx : CairoRenderContext M C) (a : RenderTexturedArgs M)
    (cr : CairoCtx) (hcr : ctx.cr_list.getLast? = some cr)
    (hflag : ctx.isDrawingMask = true) :
    ∃ (ctx2 : CairoRenderContext M C) (chunkSurface : ChunkSurface) (maskmatrix : MaskMatrix M)
        (evs : List (CairoEvent M)),
      ctx.renderTextured ops cops a = some ctx2 ∧
      ctx2.masksurfaces = ctx.masksurfaces ++ [(CairoSurface.forData chunkSurface, maskmatrix)] ∧
      ctx2.cr_list = ctx.cr_list ∧ ctx2.events = ctx.events ++ evs := by
  simp only [CairoRenderContext.renderTextured, hcr, CairoRenderContext.renderTexturedEnd,
    hflag, if_true, List.append_assoc]
  exact ⟨_, _, _, _, rfl, rfl, rfl, rfl⟩

/-! ### C22 -/

/-- C22, evaluated at a mask with one draw: on a raster context with a current top
transform `t`, when `isDrawingMask()` holds after `pushMask`, the balanced sequence
`pushMask`, `renderTextured`, `popMask` leaves `masksurfaces` one entry longer than before.
`renderTextured` appends its source surface, `popMask` removes and destroys that last
entry, and the surface that `pushMask` created stays in `masksurfaces` and is not
destroyed; `cr_list` is as before. -/
theorem CairoRenderContext.mask_surface_outlives_popMask (ops : MatrixOps M C ℚ)
    (cops : CairoMatrixOps M) (mb : MaskBase ℚ) (ctx : CairoRenderContext M C)
    (t : Transform2D M C AS_BLENDMODE) (a : RenderTexturedArgs M)
    (htop : ctx.topTransform = some (ctx.transformStacks, t))
    (hflag : ∀ ctx1 : CairoRenderContext M C, ctx.pushMask mb = some ctx1 →
      ctx1.isDrawingMask = true) :
    BalancedSteps [CairoStep.pushMask, CairoStep.renderTextured a, CairoStep.popMask] ∧
    ∃ (ctx3 : CairoRenderContext M C) (chunkSurface : ChunkSurface)
        (evs : List (CairoEvent M)),
      ctx.run ops cops mb [CairoStep.pushMask, CairoStep.renderTextured a, CairoStep.popMask]
        = some ctx3 ∧
      ctx3.masksurfaces = ctx.masksurfaces ++
        [(CairoSurface.image ctx.surfacesCreated ctx.width ctx.height,
          MaskMatrix.plain t.matrix)] ∧
      ctx3.masksurfaces.length = ctx.masksurfaces.length + 1 ∧
      ctx3.cr_list = ctx.cr_list ∧
      ctx3.events = ctx.events ++ evs ++
        [CairoEvent.cairo_surface_destroy (CairoSurface.forData chunkSurface),
         CairoEvent.cairo_destroy
          (CairoCtx.mk (CairoSurface.image ctx.surfacesCreated ctx.width ctx.height))] := by
  have hbal : BalancedSteps
      [CairoStep.pushMask, CairoStep.renderTextured a, CairoStep.popMask] := by
    constructor
    · intro n hn
      simp only [List.length_cons, List.length_nil] at hn
      have : n = 0 ∨ n = 1 ∨ n = 2 ∨ n = 3 := by omega
      rcases this with h | h | h | h <;> subst h <;> simp [unmatchedPushMasks]
    · simp [unmatchedPushMasks]
  refine ⟨hbal, ?_⟩
  have hpush := CairoRenderContext.pushMask_eq mb ctx t htop
  have hf := hflag _ hpush
  obtain ⟨ctx2, chunkSurface, mm, evs, hr, hm2, hc2, he2⟩ :=
    CairoRenderContext.renderTextured_appends_entry ops cops _ a
      (CairoCtx.mk (CairoSurface.image ctx.surfacesCreated ctx.width ctx.height))
      (by simp) hf
  have hpop := CairoRenderContext.popMask_eq mb ctx2
    (ctx.masksurfaces ++ [(CairoSurface.image ctx.surfacesCreated ctx.width ctx.height,
      MaskMatrix.plain t.matrix)]) (CairoSurface.forData chunkSurface, mm) ctx.cr_list
    (CairoCtx.mk (CairoSurface.image ctx.surfacesCreated ctx.width ctx.height)) hm2 hc2
  have hrun : ctx.run ops cops mb
      [CairoStep.pushMask, CairoStep.renderTextured a, CairoStep.popMask]
      = ctx2.popMask mb := by
    simp only [CairoRenderContext.run, List.foldlM_cons, List.foldlM_nil,
      CairoRenderContext.step, hpush, hr, Option.bind_eq_bind, Option.some_bind,
      Option.pure_def, Option.bind_some]
  rw [hpop] at hrun
  refine ⟨_, chunkSurface, evs, hrun, rfl, ?_, rfl, ?_⟩
  · simp
  · show ctx2.events ++ _ = _
    rw [he2]
    rfl

/-- C22, evaluated on the example raster context with base functions that set the flag
`inMaskRendering` in `pushMask`: after a mask opened, one draw and the mask closed,
`masksurfaces` holds one entry more than before. -/
theorem CairoRenderContext.mask_surface_outlives_popMask_witness :
    exampleCairoContext.topTransform = some (exampleCairoContext.transformStacks,
      Transform2D.mk scaleTranslateOps.identity () AS_BLENDMODE.BLENDMODE_NORMAL) ∧
    (∀ ctx1 : CairoRenderContext (ℚ × ℚ × ℚ × ℚ) Unit,
      exampleCairoContext.pushMask exampleMaskBase = some ctx1 → ctx1.isDrawingMask = true) ∧
    BalancedSteps exampleCairoSteps ∧
    exampleCairoContext.masksurfaces.length = 0 ∧
    ∃ ctx3 : CairoRenderContext (ℚ × ℚ × ℚ × ℚ) Unit,
      exampleCairoContext.run scaleTranslateOps scaleTranslateCairoOps exampleMaskBase
        exampleCairoSteps = some ctx3 ∧
      ctx3.masksurfaces.length = 1 ∧
      ctx3.cr_list.length = exampleCairoContext.cr_list.length := by
  have htop : exampleCairoContext.topTransform = some (exampleCairoContext.transformStacks,
      Transform2D.mk scaleTranslateOps.identity () AS_BLENDMODE.BLENDMODE_NORMAL) := rfl
  have hflag : ∀ ctx1 : CairoRenderContext (ℚ × ℚ × ℚ × ℚ) Unit,
      exampleCairoContext.pushMask exampleMaskBase = some ctx1 →
      ctx1.isDrawingMask = true := by
    intro ctx1 h1
    rw [CairoRenderContext.pushMask_eq exampleMaskBase exampleCairoContext _ htop] at h1
    cases h1
    rfl
  obtain ⟨hbal, ctx3, _, _, hrun, _, hlen, hc, _⟩ :=
    CairoRenderContext.mask_surface_outlives_popMask scaleTranslateOps scaleTranslateCairoOps
      exampleMaskBase exampleCairoContext _ exampleRenderTexturedArgs htop hflag
  exact ⟨htop, hflag, hbal, rfl, ctx3, hrun, hlen, by rw [hc]⟩

/-- While `isDrawingMask()` does not hold after `pushMask`, the same sequence leaves
`masksurfaces` and `cr_list` as they were, and `popMask` destroys the surface that
`pushMask` created. -/
theorem CairoRenderContext.mask_lists_restored_without_flag (ops : MatrixOps M C ℚ)
    (cops : CairoMatrixOps M) (mb : MaskBase ℚ) (ctx : CairoRenderContext M C)
    (t : Transform2D M C AS_BLENDMODE) (a : RenderTexturedArgs M)
    (htop : ctx.topTransform = some (ctx.transformStacks, t))
    (hflag : (mb.pushMask ctx.toRenderContext).inMaskRendering = false) :
    ∃ ctx3 : CairoRenderContext M C,
      ctx.run ops cops mb [CairoStep.pushMask, CairoStep.renderTextured a, CairoStep.popMask]
        = some ctx3 ∧
      ctx3.masksurfaces = ctx.masksurfaces ∧ ctx3.cr_list = ctx.cr_list := by
  have hpush := CairoRenderContext.pushMask_eq mb ctx t htop
  obtain ⟨ctx2, hr, hm2, hc2, _⟩ :=
    CairoRenderContext.renderTextured_keeps_lists ops cops
      ({ ctx.onBase mb.pushMask with
        surfacesCreated := ctx.surfacesCreated + 1
        cr_list := ctx.cr_list ++
          [{ target := CairoSurface.image ctx.surfacesCreated ctx.width ctx.height }]
        masksurfaces := ctx.masksurfaces ++
          [(CairoSurface.image ctx.surfacesCreated ctx.width ctx.height,
            MaskMatrix.plain t.matrix)] } : CairoRenderContext M C) a (by simp) hflag
  have hpop := CairoRenderContext.popMask_eq mb ctx2 ctx.masksurfaces
    (CairoSurface.image ctx.surfacesCreated ctx.width ctx.height, MaskMatrix.plain t.matrix)
    ctx.cr_list (CairoCtx.mk (CairoSurface.image ctx.surfacesCreated ctx.width ctx.height))
    hm2 hc2
  have hrun : ctx.run ops cops mb
      [CairoStep.pushMask, CairoStep.renderTextured a, CairoStep.popMask]
      = ctx2.popMask mb := by
    simp only [CairoRenderContext.run, List.foldlM_cons, List.foldlM_nil,
      CairoRenderContext.step, hpush, hr, Option.bind_eq_bind, Option.some_bind,
      Option.pure_def, Option.bind_some]
  rw [hpop] at hrun
  exact ⟨_, hrun, rfl, rfl⟩

end CairoMaskTheorems2

section MaskFlagTheorems

variable {α : Type}

/-- None of the six mask functions of `GLRenderContext` assigns the private member
`maskActive`, whatever the functions of the base class do. -/
theorem GLRenderContext.maskCall_maskActiveGL (mb : MaskBase α) (ctx : GLRenderContext α)
    (c : MaskCall) : (ctx.maskCall mb c).maskActiveGL = ctx.maskActiveGL := by
  cases c
  · simp only [GLRenderContext.maskCall, GLRenderContext.pushMask, GLRenderContext.onBase]
    split <;> rfl
  · simp only [GLRenderContext.maskCall, GLRenderContext.popMask]
    split <;> rfl
  · rfl
  · rfl
  · rfl
  · rfl

theorem GLRenderContext.runMaskCalls_maskActiveGL (mb : MaskBase α) (calls : List MaskCall) :
    ∀ ctx : GLRenderContext α, (ctx.runMaskCalls mb calls).maskActiveGL = ctx.maskActiveGL := by
  induction calls with
  | nil => intro ctx; rfl
  | cons c cs ih =>
    intro ctx
    show ((ctx.maskCall mb c).runMaskCalls mb cs).maskActiveGL = _
    rw [ih, GLRenderContext.maskCall_maskActiveGL]

/-! ### C21 -/

/-- The mask functions of `GLRenderContext`, evaluated with base functions that set the
flags of the base class: after `pushMask` and `activateMask` the flag `maskActive` of the
base class is set and `isMaskActive()` is false. -/
theorem GLRenderContext.isMaskActive_example :
    ((GLRenderContext.new 0 (fun _ => 0) : GLRenderContext ℚ).runMaskCalls exampleMaskBase
      [MaskCall.pushMask, MaskCall.activateMask]).maskActive = true ∧
    ((GLRenderContext.new 0 (fun _ => 0) : GLRenderContext ℚ).runMaskCalls exampleMaskBase
      [MaskCall.pushMask, MaskCall.activateMask]).isMaskActive = false :=
  ⟨rfl, rfl⟩

end MaskFlagTheorems

section CropWitness

/-- C26 (as amended), evaluated: the nine crop rectangles of `squareChunk` sliced by
`insetGrid`. -/
theorem GLRenderContext.scalingGrid_crops_partition_witness :
    0 ≤ insetGrid.width ∧ 0 ≤ insetGrid.height ∧
    insetGrid.width + |insetGrid.x| < (squareChunk.width : ℚ) / squareChunk.xContentScale ∧
    insetGrid.height + |insetGrid.y| < (squareChunk.height : ℚ) / squareChunk.yContentScale ∧
    (GLRenderContext.sliceQuantities squareChunk insetGrid).scaledleftborder
      + (GLRenderContext.sliceQuantities squareChunk insetGrid).innerwidth
      + (GLRenderContext.sliceQuantities squareChunk insetGrid).scaledrightborder
        = (squareChunk.width : ℚ) ∧
    (∃ c ∈ (GLRenderContext.scalingGridRegions scaleTranslateOps squareChunk doubleMatrix
        insetGrid).map GridRegion.crop, cropCovers c 50 50) ∧
    List.Pairwise (fun c1 c2 => ∀ x y : ℚ, ¬ (cropInterior c1 x y ∧ cropInterior c2 x y))
      ((GLRenderContext.scalingGridRegions scaleTranslateOps squareChunk doubleMatrix
        insetGrid).map GridRegion.crop) := by
  have h3 : 0 ≤ insetGrid.width := by norm_num [insetGrid]
  have h4 : 0 ≤ insetGrid.height := by norm_num [insetGrid]
  have habs : |(10 : ℚ)| = 10 := abs_of_pos (by norm_num)
  have h5 : insetGrid.width + |insetGrid.x|
      < (squareChunk.width : ℚ) / squareChunk.xContentScale := by
    norm_num [insetGrid, squareChunk, habs]
  have h6 : insetGrid.height + |insetGrid.y|
      < (squareChunk.height : ℚ) / squareChunk.yContentScale := by
    norm_num [insetGrid, squareChunk, habs]
  have h := GLRenderContext.scalingGrid_crops_partition scaleTranslateOps squareChunk
    doubleMatrix insetGrid h3 h4 h5 h6
  exact ⟨h3, h4, h5, h6, h.2.2.1,
    h.2.2.2.2.1 50 50 (by norm_num) (by norm_num [squareChunk]) (by norm_num)
      (by norm_num [squareChunk]), h.2.2.2.2.2.2⟩

end CropWitness

section CropCounterexample

/-! ### C26 -/

/-- C26 (counterexample): the scaling grid of width `-5` and height `80` at `(10, 10)`
passes the slicing condition on the chunk of 100 by 100 pixels (content scale 1), and
`renderTextured` slices: the top strip, the bottom strip and the centre get the crop width
`innerwidth = -5`, and the right column starts at `width - scaledrightborder = 5`, inside
the left column `[0, 10]`, so the point `(7, 5)` lies in the interior of the upper left and
of the upper right corner. -/
theorem GLRenderContext.scalingGrid_negative_width_overlaps :
    GLRenderContext.useScalingGrid scaleTranslateOps squareChunk scaleTranslateOps.identity
      (some negativeWidthGrid) = true ∧
    (GLRenderContext.scalingGridRegions scaleTranslateOps squareChunk scaleTranslateOps.identity
        negativeWidthGrid).map GridRegion.crop
      = [(0, 0, 10, 10), (5, 0, 95, 10), (5, 90, 95, 10), (0, 90, 10, 10), (10, 0, -5, 10),
         (5, 10, 95, 80), (10, 90, -5, 10), (0, 10, 10, 80), (10, 10, -5, 80)] ∧
    cropInterior (0, 0, 10, 10) 7 5 ∧ cropInterior (5, 0, 95, 10) 7 5 ∧
    ¬ List.Pairwise (fun c1 c2 => ∀ x y : ℚ, ¬ (cropInterior c1 x y ∧ cropInterior c2 x y))
      ((GLRenderContext.scalingGridRegions scaleTranslateOps squareChunk
        scaleTranslateOps.identity negativeWidthGrid).map GridRegion.crop) := by
  have habs : |(10 : ℚ)| = 10 := abs_of_pos (by norm_num)
  have hcrops : (GLRenderContext.scalingGridRegions scaleTranslateOps squareChunk
      scaleTranslateOps.identity negativeWidthGrid).map GridRegion.crop
      = [(0, 0, 10, 10), (5, 0, 95, 10), (5, 90, 95, 10), (0, 90, 10, 10), (10, 0, -5, 10),
         (5, 10, 95, 80), (10, 90, -5, 10), (0, 10, 10, 80), (10, 10, -5, 80)] := by
    simp [GLRenderContext.scalingGridRegions, GLRenderContext.sliceQuantities, GridRegion.crop,
      squareChunk, negativeWidthGrid, habs]
    norm_num
  have h1 : cropInterior ((0 : ℚ), (0 : ℚ), (10 : ℚ), (10 : ℚ)) 7 5 := by
    unfold cropInterior
    norm_num
  have h2 : cropInterior ((5 : ℚ), (0 : ℚ), (95 : ℚ), (10 : ℚ)) 7 5 := by
    unfold cropInterior
    norm_num
  refine ⟨?_, hcrops, h1, h2, ?_⟩
  · simp [GLRenderContext.useScalingGrid, scaleTranslateOps, squareChunk, negativeWidthGrid,
      habs]
    norm_num
  · rw [hcrops]
    intro hp
    have h := (List.pairwise_cons.mp hp).1 (5, 0, 95, 10) (by simp)
    exact h 7 5 ⟨h1, h2⟩

end CropCounterexample

section QuadLoopTheorems

/-! ### The chunk index and the texel span of each quad -/

/-- The value of `widthconsumed` (or `heightconsumed`) when the texels still to place and
the extent still to place agree: `avail` is `availXForTexture`, `s` is `startULeft`, `w` is
`widthtoplace`. -/
theorem consumed_eq_span (avail CR : Nat) (s w total first : ℚ)
    (hinv : (avail : ℚ) - s = w) (hf0 : 0 ≤ first)
    (hfirst : s ≠ 0 → s = first ∧ w = total) :
    (if s ≠ 0 ∧ total + first > (CR : ℚ) then min ((CR : ℚ) - first) (CR : ℚ)
      else min w (CR : ℚ)) = ((min avail CR : ℕ) : ℚ) - s := by
  by_cases hc : s ≠ 0 ∧ total + first > (CR : ℚ)
  · rw [if_pos hc]
    obtain ⟨hs, hw⟩ := hfirst hc.1
    have hA : (CR : ℚ) < (avail : ℚ) := by
      have : (avail : ℚ) = total + first := by rw [← hw, ← hs]; linarith
      rw [this]
      exact hc.2
    have hAn : CR < avail := by exact_mod_cast hA
    rw [min_eq_left (by linarith), Nat.min_eq_right hAn.le, hs]
  · rw [if_neg hc]
    by_cases hs0 : s = 0
    · rw [hs0, sub_zero] at hinv
      rw [hs0, sub_zero, ← hinv, Nat.cast_min]
    · obtain ⟨hs, hw⟩ := hfirst hs0
      have hle : total + first ≤ (CR : ℚ) := by
        by_contra h
        exact hc ⟨hs0, lt_of_not_le h⟩
      have hA : (avail : ℚ) = total + first := by rw [← hw, ← hs]; linarith
      have hAn : avail ≤ CR := by
        have : (avail : ℚ) ≤ (CR : ℚ) := by rw [hA]; exact hle
        exact_mod_cast this
      rw [Nat.min_eq_left hAn, hA, hw, hs, min_eq_left (by linarith)]
      ring

theorem renderpartColumn_quad (cs : ChunkConsts) (lts : Nat) (chunk : TextureChunk)
    (rcw ls : ℚ) (availY : Nat) (endY : ℚ) (st : PartState) (j c : Nat)
    (hread : chunk.chunks[st.curChunk]? = some c) (hbps : lts / cs.CHUNKSIZE ≠ 0) :
    ∃ (st2 : PartState) (q : Quad),
      renderpartColumn cs lts chunk rcw ls availY endY st j = some st2 ∧
      st2.vertex_coords = st.vertex_coords ++ q.vertexFloats ∧
      st2.texture_coords = st.texture_coords ++ q.textureFloats ∧
      st2.curChunk = u32 (st.curChunk + 1) ∧
      st2.chunkrendercount = u32 (st.chunkrendercount + 1) ∧
      st2.startULeft = 0 ∧
      st2.availXForTexture
        = st.availXForTexture - min st.availXForTexture (u32 cs.CHUNKSIZE_REAL) ∧
      st2.widthtoplace = st.widthtoplace -
        (if st.startULeft ≠ 0 ∧ rcw + ls > (cs.CHUNKSIZE_REAL : ℚ) then
          min ((cs.CHUNKSIZE_REAL : ℚ) - ls) (cs.CHUNKSIZE_REAL : ℚ)
        else min st.widthtoplace (cs.CHUNKSIZE_REAL : ℚ)) ∧
      (q.startU, q.startV, q.endU, q.endV) = quadTexture lts cs.CHUNKSIZE c st.startULeft
        st.startVtop (min st.availXForTexture (u32 cs.CHUNKSIZE_REAL)) availY ∧
      q.endX = q.startX +
        (if st.startULeft ≠ 0 ∧ rcw + ls > (cs.CHUNKSIZE_REAL : ℚ) then
          min ((cs.CHUNKSIZE_REAL : ℚ) - ls) (cs.CHUNKSIZE_REAL : ℚ)
        else min st.widthtoplace (cs.CHUNKSIZE_REAL : ℚ)) / chunk.xContentScale ∧
      q.startY = st.startY ∧ q.endY = endY ∧
      st2.startY = st.startY ∧ st2.startVtop = st.startVtop ∧
      st2.availYForTexture = st.availYForTexture ∧ st2.heighttoplace = st.heighttoplace := by
  simp only [renderpartColumn, hread, hbps, if_false]
  exact ⟨_, _, rfl, rfl, rfl, rfl, rfl, rfl, rfl, rfl, rfl, rfl, rfl, rfl, rfl, rfl, rfl, rfl⟩

theorem colLoop_quads (cs : ChunkConsts) (lts : Nat) (chunk : TextureChunk)
    (rcw ls : ℚ) (availY : Nat) (endY : ℚ) (hbps : lts / cs.CHUNKSIZE ≠ 0)
    (hCRu : u32 cs.CHUNKSIZE_REAL = cs.CHUNKSIZE_REAL) :
    ∀ (js : List Nat) (st : PartState),
      st.curChunk + js.length ≤ chunk.chunks.length →
      st.curChunk + js.length < 4294967296 →
      st.chunkrendercount + js.length < 4294967296 →
      ∃ (st2 : PartState) (row : List Quad),
        js.foldlM (renderpartColumn cs lts chunk rcw ls availY endY) st = some st2 ∧
        row.length = js.length ∧
        st2.vertex_coords = st.vertex_coords ++ (row.map Quad.vertexFloats).flatten ∧
        st2.texture_coords = st.texture_coords ++ (row.map Quad.textureFloats).flatten ∧
        st2.curChunk = st.curChunk + js.length ∧
        st2.chunkrendercount = st.chunkrendercount + js.length ∧
        st2.startY = st.startY ∧ st2.startVtop = st.startVtop ∧
        st2.availYForTexture = st.availYForTexture ∧ st2.heighttoplace = st.heighttoplace ∧
        (∀ (k : Nat) (q : Quad), row[k]? = some q →
          ∃ id : Nat, chunk.chunks[st.curChunk + k]? = some id ∧
            (q.startU, q.startV, q.endU, q.endV) = quadTexture lts cs.CHUNKSIZE id
              (if k = 0 then st.startULeft else 0) st.startVtop
              (min (st.availXForTexture - k * cs.CHUNKSIZE_REAL) cs.CHUNKSIZE_REAL) availY ∧
            q.startY = st.startY ∧ q.endY = endY ∧
            ((st.availXForTexture : ℚ) - st.startULeft = st.widthtoplace → 0 ≤ ls →
              (st.startULeft ≠ 0 → st.startULeft = ls ∧ st.widthtoplace = rcw) →
              q.endX = q.startX +
                (((min (st.availXForTexture - k * cs.CHUNKSIZE_REAL) cs.CHUNKSIZE_REAL : ℕ) : ℚ)
                  - (if k = 0 then st.startULeft else 0)) / chunk.xContentScale)) := by
  intro js
  induction js with
  | nil =>
    intro st _ _ _
    refine ⟨st, [], rfl, rfl, by simp, by simp, by simp, by simp, rfl, rfl, rfl, rfl, ?_⟩
    intro k q hq
    simp at hq
  | cons j js ih =>
    intro st hlen h32 hcrc
    simp only [List.length_cons] at hlen h32 hcrc
    have hlt : st.curChunk < chunk.chunks.length := by omega
    have hread : chunk.chunks[st.curChunk]? = some (chunk.chunks[st.curChunk]) :=
      List.getElem?_eq_getElem hlt
    obtain ⟨st1, q, hstep, hv1, ht1, hc1, hr1, hu1, ha1, hw1, htex, hqe, hqy, hqy2,
      hy1, hvt1, hay1, hh1⟩ :=
      renderpartColumn_quad cs lts chunk rcw ls availY endY st j _ hread hbps
    rw [hCRu] at ha1 htex
    have hc1' : st1.curChunk = st.curChunk + 1 := by rw [hc1]; exact u32_of_lt (by omega)
    have hr1' : st1.chunkrendercount = st.chunkrendercount + 1 := by
      rw [hr1]; exact u32_of_lt (by omega)
    obtain ⟨st2, row, hfold, hrl, hv2, ht2, hc2, hr2, hy2, hvt2, hay2, hh2, hquads⟩ :=
      ih st1 (by omega) (by omega) (by omega)
    refine ⟨st2, q :: row, ?_, by simp [hrl], ?_, ?_, by simp only [List.length_cons]; omega,
      by simp only [List.length_cons]; omega, by rw [hy2, hy1],
      by rw [hvt2, hvt1], by rw [hay2, hay1], by rw [hh2, hh1], ?_⟩
    · simp only [List.foldlM_cons, hstep]
      exact hfold
    · rw [hv2, hv1]
      simp
    · rw [ht2, ht1]
      simp
    · intro k q2 hq2
      cases k with
      | zero =>
        simp only [List.getElem?_cons_zero, Option.some.injEq] at hq2
        subst hq2
        refine ⟨_, hread, ?_, hqy, hqy2, ?_⟩
        · simp only [if_true, Nat.zero_mul, Nat.sub_zero]
          exact htex
        · intro hinv hls0 hfirst
          rw [hqe, consumed_eq_span st.availXForTexture cs.CHUNKSIZE_REAL st.startULeft
            st.widthtoplace rcw ls hinv hls0 hfirst]
          simp only [if_true, Nat.zero_mul, Nat.sub_zero]
      | succ k =>
        simp only [List.getElem?_cons_succ] at hq2
        obtain ⟨id, hid, htex2, hs2, he2, hx2⟩ := hquads k q2 hq2
        have hav : st1.availXForTexture - k * cs.CHUNKSIZE_REAL
            = st.availXForTexture - (k + 1) * cs.CHUNKSIZE_REAL := by
          rw [ha1, Nat.succ_mul]
          rcases Nat.le_total st.availXForTexture cs.CHUNKSIZE_REAL with h | h
          · rw [Nat.min_eq_left h]
            omega
          · rw [Nat.min_eq_right h]
            omega
        refine ⟨id, ?_, ?_, by rw [hs2, hy1], he2, ?_⟩
        · rw [hc1'] at hid
          rw [← hid]
          congr 1
          omega
        · rw [htex2, hu1, hvt1, hav]
          simp
        · intro hinv hls0 hfirst
          have hwc := consumed_eq_span st.availXForTexture cs.CHUNKSIZE_REAL st.startULeft
            st.widthtoplace rcw ls hinv hls0 hfirst
          have hinv1 : (st1.availXForTexture : ℚ) - st1.startULeft = st1.widthtoplace := by
            rw [hw1, hwc, hu1, ha1, Nat.cast_sub (Nat.min_le_left _ _), ← hinv]
            ring
          have h := hx2 hinv1 hls0 (fun h0 => absurd hu1 h0)
          rw [h, hu1, hav]
          simp

end QuadLoopTheorems

section QuadLoopTheorems2

theorem renderpartRow_quads (cs : ChunkConsts) (lts : Nat) (chunk : TextureChunk)
    (rcw rch ls ts tx : ℚ) (fch lch skip : Nat) (st : PartState) (i : Nat)
    (hbps : lts / cs.CHUNKSIZE ≠ 0) (hCRu : u32 cs.CHUNKSIZE_REAL = cs.CHUNKSIZE_REAL)
    (hlen : st.curChunk + (lch - fch) ≤ chunk.chunks.length)
    (h32 : st.curChunk + (lch - fch) + skip < 4294967296)
    (hcrc : st.chunkrendercount + (lch - fch) < 4294967296) :
    ∃ (st2 : PartState) (row : List Quad),
      renderpartRow cs lts chunk rcw rch ls ts tx fch lch skip st i = some st2 ∧
      row.length = lch - fch ∧
      st2.vertex_coords = st.vertex_coords ++ (row.map Quad.vertexFloats).flatten ∧
      st2.texture_coords = st.texture_coords ++ (row.map Quad.textureFloats).flatten ∧
      st2.curChunk = st.curChunk + (lch - fch) + skip ∧
      st2.chunkrendercount = st.chunkrendercount + (lch - fch) ∧
      st2.startVtop = 0 ∧
      st2.availYForTexture
        = st.availYForTexture - min st.availYForTexture cs.CHUNKSIZE_REAL ∧
      st2.heighttoplace = st.heighttoplace - rowHeightConsumed cs rch ts st ∧
      (∀ (k : Nat) (q : Quad), row[k]? = some q →
        ∃ id : Nat, chunk.chunks[st.curChunk + k]? = some id ∧
          (q.startU, q.startV, q.endU, q.endV) = quadTexture lts cs.CHUNKSIZE id
            (if k = 0 then ls else 0) st.startVtop
            (min (f2u (rcw + ls) - k * cs.CHUNKSIZE_REAL) cs.CHUNKSIZE_REAL)
            (min st.availYForTexture cs.CHUNKSIZE_REAL) ∧
          q.endY = q.startY + rowHeightConsumed cs rch ts st / chunk.yContentScale ∧
          (((f2u (rcw + ls) : ℕ) : ℚ) = rcw + ls → 0 ≤ ls →
            q.endX = q.startX +
              (((min (f2u (rcw + ls) - k * cs.CHUNKSIZE_REAL) cs.CHUNKSIZE_REAL : ℕ) : ℚ)
                - (if k = 0 then ls else 0)) / chunk.xContentScale)) := by
  have hjl : (List.range' fch (lch - fch)).length = lch - fch := List.length_range' _ _ _
  obtain ⟨st2, row, hfold, hrl, hv2, ht2, hc2, hr2, hy2, hvt2, hay2, hh2, hquads⟩ :=
    colLoop_quads cs lts chunk rcw ls (min st.availYForTexture (u32 cs.CHUNKSIZE_REAL))
      (st.startY + rowHeightConsumed cs rch ts st / chunk.yContentScale) hbps hCRu
      (List.range' fch (lch - fch)) (rowStart cs rcw rch ls ts tx st)
      (by rw [hjl]; exact hlen) (by rw [hjl]; show st.curChunk + (lch - fch) < _; omega)
      (by rw [hjl]; exact hcrc)
  rw [hjl] at hrl hc2 hr2
  have hc2' : st2.curChunk = st.curChunk + (lch - fch) := hc2
  have hr2' : st2.chunkrendercount = st.chunkrendercount + (lch - fch) := hr2
  refine ⟨{ st2 with
      curChunk := u32 (st2.curChunk + skip)
      startVtop := 0
      startY := st.startY + rowHeightConsumed cs rch ts st / chunk.yContentScale },
    row, ?_, hrl, hv2, ht2, ?_, hr2', rfl, ?_, ?_, ?_⟩
  · rw [renderpartRow_eq, hfold]
  · show u32 (st2.curChunk + skip) = _
    rw [hc2']
    exact u32_of_lt h32
  · show st2.availYForTexture = _
    rw [hay2]
    show st.availYForTexture - min st.availYForTexture (u32 cs.CHUNKSIZE_REAL) = _
    rw [hCRu]
  · show st2.heighttoplace = _
    rw [hh2]
    rfl
  · intro k q hq
    obtain ⟨id, hid, htex, hs, he, hx⟩ := hquads k q hq
    refine ⟨id, hid, ?_, ?_, ?_⟩
    · rw [htex, hCRu]
      rfl
    · rw [he, hs]
      rfl
    · intro hwhole hls0
      have h := hx (by
        show ((f2u (rcw + ls) : ℕ) : ℚ) - ls = rcw
        rw [hwhole]
        ring) hls0 (fun _ => ⟨rfl, rfl⟩)
      exact h

theorem rowLoop_quads (cs : ChunkConsts) (lts : Nat) (chunk : TextureChunk)
    (rcw rch ls ts tx : ℚ) (fch lch skip hcN : Nat) (hbps : lts / cs.CHUNKSIZE ≠ 0)
    (hCRu : u32 cs.CHUNKSIZE_REAL = cs.CHUNKSIZE_REAL)
    (hskip : skip = hcN - (lch - fch)) (hn : lch - fch ≤ hcN) :
    ∀ (is : List Nat) (st : PartState),
      st.curChunk + is.length * hcN ≤ chunk.chunks.length + (hcN - (lch - fch)) →
      st.curChunk + is.length * hcN < 4294967296 →
      st.chunkrendercount + is.length * (lch - fch) < 4294967296 →
      ∃ (st2 : PartState) (rows : List (List Quad)),
        is.foldlM (renderpartRow cs lts chunk rcw rch ls ts tx fch lch skip) st = some st2 ∧
        rows.length = is.length ∧
        (∀ row ∈ rows, row.length = lch - fch) ∧
        st2.vertex_coords = st.vertex_coords ++ rowsVertexFloats rows ∧
        st2.texture_coords = st.texture_coords ++ rowsTextureFloats rows ∧
        st2.chunkrendercount = st.chunkrendercount + is.length * (lch - fch) ∧
        (∀ (r : Nat) (row : List Quad) (k : Nat) (q : Quad),
          rows[r]? = some row → row[k]? = some q →
          ∃ id : Nat, chunk.chunks[st.curChunk + r * hcN + k]? = some id ∧
            (q.startU, q.startV, q.endU, q.endV) = quadTexture lts cs.CHUNKSIZE id
              (if k = 0 then ls else 0) (if r = 0 then st.startVtop else 0)
              (min (f2u (rcw + ls) - k * cs.CHUNKSIZE_REAL) cs.CHUNKSIZE_REAL)
              (min (st.availYForTexture - r * cs.CHUNKSIZE_REAL) cs.CHUNKSIZE_REAL) ∧
            (((f2u (rcw + ls) : ℕ) : ℚ) = rcw + ls → 0 ≤ ls →
              q.endX = q.startX +
                (((min (f2u (rcw + ls) - k * cs.CHUNKSIZE_REAL) cs.CHUNKSIZE_REAL : ℕ) : ℚ)
                  - (if k = 0 then ls else 0)) / chunk.xContentScale) ∧
            ((st.availYForTexture : ℚ) - st.startVtop = st.heighttoplace → 0 ≤ ts →
              (st.startVtop ≠ 0 → st.startVtop = ts ∧ st.heighttoplace = rch) →
              q.endY = q.startY +
                (((min (st.availYForTexture - r * cs.CHUNKSIZE_REAL) cs.CHUNKSIZE_REAL : ℕ) : ℚ)
                  - (if r = 0 then st.startVtop else 0)) / chunk.yContentScale)) := by
  intro is
  induction is with
  | nil =>
    intro st _ _ _
    refine ⟨st, [], rfl, rfl, by simp, by simp [rowsVertexFloats], by simp [rowsTextureFloats],
      by simp, ?_⟩
    intro r row k q hr
    simp at hr
  | cons i is ih =>
    intro st hlen h32 hcrc
    simp only [List.length_cons, Nat.succ_mul] at hlen h32 hcrc
    obtain ⟨st1, row, hstep, hrl, hv1, ht1, hc1, hr1, hvt1, hay1, hh1, hquads⟩ :=
      renderpartRow_quads cs lts chunk rcw rch ls ts tx fch lch skip st i hbps hCRu
        (by omega) (by omega) (by omega)
    have hc1' : st1.curChunk = st.curChunk + hcN := by rw [hc1, hskip]; omega
    obtain ⟨st2, rows, hfold, hrsl, hrows, hv2, ht2, hr2, hrest⟩ :=
      ih st1 (by omega) (by omega) (by omega)
    refine ⟨st2, row :: rows, ?_, by simp [hrsl], ?_, ?_, ?_, ?_, ?_⟩
    · simp only [List.foldlM_cons, hstep]
      exact hfold
    · intro r hr
      rcases List.mem_cons.mp hr with h | h
      · rw [h]; exact hrl
      · exact hrows r h
    · rw [hv2, hv1, rowsVertexFloats_cons, List.append_assoc]
    · rw [ht2, ht1, rowsTextureFloats_cons, List.append_assoc]
    · rw [hr2, hr1]
      simp only [List.length_cons, Nat.succ_mul]
      omega
    · intro r row2 k q hrow hq
      cases r with
      | zero =>
        simp only [List.getElem?_cons_zero, Option.some.injEq] at hrow
        subst hrow
        obtain ⟨id, hid, htex, hey, hx⟩ := hquads k q hq
        refine ⟨id, ?_, ?_, hx, ?_⟩
        · rw [← hid]
          congr 1
          omega
        · simp only [if_true, Nat.zero_mul, Nat.sub_zero]
          exact htex
        · intro hinv hts0 hfirst
          have hrc : rowHeightConsumed cs rch ts st
              = ((min st.availYForTexture cs.CHUNKSIZE_REAL : ℕ) : ℚ) - st.startVtop := by
            unfold rowHeightConsumed
            exact consumed_eq_span st.availYForTexture cs.CHUNKSIZE_REAL st.startVtop
              st.heighttoplace rch ts hinv hts0 hfirst
          rw [hey, hrc]
          simp only [if_true, Nat.zero_mul, Nat.sub_zero]
      | succ r =>
        simp only [List.getElem?_cons_succ] at hrow
        obtain ⟨id, hid, htex, hx, hy⟩ := hrest r row2 k q hrow hq
        have hav : st1.availYForTexture - r * cs.CHUNKSIZE_REAL
            = st.availYForTexture - (r + 1) * cs.CHUNKSIZE_REAL := by
          rw [hay1, Nat.succ_mul]
          rcases Nat.le_total st.availYForTexture cs.CHUNKSIZE_REAL with h | h
          · rw [Nat.min_eq_left h]
            omega
          · rw [Nat.min_eq_right h]
            omega
        refine ⟨id, ?_, ?_, hx, ?_⟩
        · rw [hc1'] at hid
          rw [← hid]
          congr 1
          rw [Nat.succ_mul]
          omega
        · rw [htex, hvt1, hav]
          simp
        · intro hinv hts0 hfirst
          have hrc : rowHeightConsumed cs rch ts st
              = ((min st.availYForTexture cs.CHUNKSIZE_REAL : ℕ) : ℚ) - st.startVtop := by
            unfold rowHeightConsumed
            exact consumed_eq_span st.availYForTexture cs.CHUNKSIZE_REAL st.startVtop
              st.heighttoplace rch ts hinv hts0 hfirst
          have hinv1 : (st1.availYForTexture : ℚ) - st1.startVtop = st1.heighttoplace := by
            rw [hh1, hrc, hvt1, hay1, Nat.cast_sub (Nat.min_le_left _ _), ← hinv]
            ring
          have h := hy hinv1 hts0 (fun h0 => absurd hvt1 h0)
          rw [h, hvt1, hav]
          simp

end QuadLoopTheorems2

section QuadLoopTheorems3

theorem f2u_of_whole (x : ℚ) (n W : Nat) (hx : x = (n : ℚ)) (hn : n ≤ W)
    (hW : W < 4294967296) : ((f2u x : ℕ) : ℚ) = x := by
  rw [hx, f2u_natCast n (by omega)]

/-- For a chunk as the atlas allocates it and a crop rectangle with non-negative size
inside the chunk, the two loops of `renderpart` finish, and the quad of row `r` and column
`k` of the crop (counted from the first chunk row and column touched) is built from the id
read at index `(firstchunkvertical + r) * horizontalchunks + firstchunkhorizontal + k` of
`chunk.chunks`, with the values of `startULeft`, `startVtop`, `availX` and `availY` of that
iteration. -/
theorem renderpartGeometry_quads (cs : ChunkConsts) (lts : Nat) (chunk : TextureChunk)
    (cl ct cw ch tx ty : ℚ) (hA : chunk.Allocated cs lts) (hC : CropInside chunk cl ct cw ch) :
    ∃ rows : List (List Quad),
      renderpartGeometry cs lts chunk cl ct cw ch tx ty
        = some { realchunkcount := (((lastChunk cs cl cw - firstChunk cs cl)
                    * (lastChunk cs ct ch - firstChunk cs ct) : ℕ) : ℤ)
                 chunkrendercount := (lastChunk cs ct ch - firstChunk cs ct)
                    * (lastChunk cs cl cw - firstChunk cs cl)
                 vertex_coords := rowsVertexFloats rows
                 texture_coords := rowsTextureFloats rows } ∧
      rows.length = lastChunk cs ct ch - firstChunk cs ct ∧
      (∀ row ∈ rows, row.length = lastChunk cs cl cw - firstChunk cs cl) ∧
      (∀ (r : Nat) (row : List Quad) (k : Nat) (q : Quad),
        rows[r]? = some row → row[k]? = some q →
        ∃ id : Nat,
          chunk.chunks[(firstChunk cs ct + r) * chunksAcross cs chunk.width
            + (firstChunk cs cl + k)]? = some id ∧
          (q.startU, q.startV, q.endU, q.endV) = quadTexture lts cs.CHUNKSIZE id
            (if k = 0 then cl - ((firstChunk cs cl * cs.CHUNKSIZE_REAL : ℕ) : ℚ) else 0)
            (if r = 0 then ct - ((firstChunk cs ct * cs.CHUNKSIZE_REAL : ℕ) : ℚ) else 0)
            (min (f2u (cw + (cl - ((firstChunk cs cl * cs.CHUNKSIZE_REAL : ℕ) : ℚ)))
              - k * cs.CHUNKSIZE_REAL) cs.CHUNKSIZE_REAL)
            (min (f2u (ch + (ct - ((firstChunk cs ct * cs.CHUNKSIZE_REAL : ℕ) : ℚ)))
              - r * cs.CHUNKSIZE_REAL) cs.CHUNKSIZE_REAL) ∧
          ((∃ n : ℕ, cl + cw = (n : ℚ)) →
            q.endX = q.startX +
              (((min (f2u (cw + (cl - ((firstChunk cs cl * cs.CHUNKSIZE_REAL : ℕ) : ℚ)))
                  - k * cs.CHUNKSIZE_REAL) cs.CHUNKSIZE_REAL : ℕ) : ℚ)
                - (if k = 0 then cl - ((firstChunk cs cl * cs.CHUNKSIZE_REAL : ℕ) : ℚ) else 0))
                / chunk.xContentScale) ∧
          ((∃ n : ℕ, ct + ch = (n : ℚ)) →
            q.endY = q.startY +
              (((min (f2u (ch + (ct - ((firstChunk cs ct * cs.CHUNKSIZE_REAL : ℕ) : ℚ)))
                  - r * cs.CHUNKSIZE_REAL) cs.CHUNKSIZE_REAL : ℕ) : ℚ)
                - (if r = 0 then ct - ((firstChunk cs ct * cs.CHUNKSIZE_REAL : ℕ) : ℚ) else 0))
                / chunk.yContentScale)) := by
  obtain ⟨hCR0, hCR, hbps, hW, hH, hL, hL12⟩ := hA
  obtain ⟨hcl, hcw, hclw, hct, hch, hcth⟩ := hC
  have hclW : cl ≤ (chunk.width : ℚ) := by linarith
  have hctH : ct ≤ (chunk.height : ℚ) := by linarith
  obtain ⟨_, hamul, ha32⟩ := firstChunk_eq cs chunk.width cl hCR0 hW hcl hclW
  obtain ⟨_, hcmul, hc32⟩ := firstChunk_eq cs chunk.height ct hCR0 hH hct hctH
  obtain ⟨_, hbhc, hab⟩ := lastChunk_eq cs chunk.width cl cw hCR0 hW hcl hcw hclw
  obtain ⟨_, hdvc, hcd⟩ := lastChunk_eq cs chunk.height ct ch hCR0 hH hct hch hcth
  rw [← chunksAcross_eq cs chunk.width hCR hW] at hbhc
  rw [← chunksAcross_eq cs chunk.height hCR hH] at hdvc
  have hhc32 : chunksAcross cs chunk.width < 4294967296 := by
    rw [chunksAcross_eq cs chunk.width hCR hW]
    exact lt_of_le_of_lt (Nat.div_le_self _ _) hW
  have hvc32 : chunksAcross cs chunk.height < 4294967296 := by
    rw [chunksAcross_eq cs chunk.height hCR hH]
    exact lt_of_le_of_lt (Nat.div_le_self _ _) hH
  have hne : lts / cs.CHUNKSIZE ≠ 0 := Nat.pos_iff_ne_zero.mp hbps
  have hcs0 : cs.CHUNKSIZE ≠ 0 := by
    intro h
    rw [h, Nat.div_zero] at hbps
    exact absurd hbps (lt_irrefl 0)
  have hCRu : u32 cs.CHUNKSIZE_REAL = cs.CHUNKSIZE_REAL := u32_of_lt (by omega)
  simp only [renderpartGeometry_eq]
  generalize firstChunk cs cl = a at *
  generalize lastChunk cs cl cw = b at *
  generalize firstChunk cs ct = c at *
  generalize lastChunk cs ct ch = d at *
  generalize chunksAcross cs chunk.width = hcN at *
  generalize chunksAcross cs chunk.height = vcN at *
  have hua : u32 (a * cs.CHUNKSIZE_REAL) = a * cs.CHUNKSIZE_REAL := u32_of_lt ha32
  have huc : u32 (c * cs.CHUNKSIZE_REAL) = c * cs.CHUNKSIZE_REAL := u32_of_lt hc32
  have hskip : u32 (hcN + 4294967296 - b + a) = hcN - (b - a) := by
    unfold u32
    omega
  have hdhc : d * hcN ≤ vcN * hcN := Nat.mul_le_mul_right _ hdvc
  have hLeq : chunk.chunks.length = vcN * hcN := by rw [hL, Nat.mul_comm]
  have hcdm : c * hcN + (d - c) * hcN = d * hcN := by
    rw [← Nat.add_mul]
    congr 1
    omega
  have hchc : c * hcN ≤ d * hcN := Nat.mul_le_mul_right _ hcd
  have hbound : a + d * hcN < 4294967296 := by
    rcases Nat.eq_zero_or_pos vcN with hv | hv
    · have hd0 : d = 0 := by omega
      rw [hd0]
      omega
    · have : hcN ≤ vcN * hcN := Nat.le_mul_of_pos_left _ hv
      omega
  have hcur : u32 (a + c * hcN) = a + c * hcN := u32_of_lt (by omega)
  have hprod : (d - c) * (b - a) ≤ chunk.chunks.length := by
    rw [hLeq]
    exact Nat.mul_le_mul (le_trans (Nat.sub_le _ _) hdvc) (le_trans (Nat.sub_le _ _) hbhc)
  obtain ⟨st2, rows, hfold, hrl, hrows, hv2, ht2, hr2, hquads⟩ :=
    rowLoop_quads cs lts chunk cw ch (cl - ((u32 (a * cs.CHUNKSIZE_REAL) : Nat) : ℚ))
      (ct - ((u32 (c * cs.CHUNKSIZE_REAL) : Nat) : ℚ)) tx a b
      (u32 (hcN + 4294967296 - b + a)) hcN hne hCRu hskip (le_trans (Nat.sub_le _ _) hbhc)
      (List.range' c (d - c))
      { curChunk := u32 (a + c * hcN)
        chunkrendercount := 0
        vertex_coords := []
        texture_coords := []
        startULeft := 0
        widthtoplace := 0
        availXForTexture := 0
        startX := 0
        startVtop := ct - ((u32 (c * cs.CHUNKSIZE_REAL) : Nat) : ℚ)
        availYForTexture := f2u (ch + (ct - ((u32 (c * cs.CHUNKSIZE_REAL) : Nat) : ℚ)))
        startY := ty
        heighttoplace := ch }
      (by
        simp only [List.length_range', hcur]
        omega)
      (by
        simp only [List.length_range', hcur]
        omega)
      (by
        simp only [List.length_range']
        omega)
  simp only [List.length_range', List.nil_append, Nat.zero_add] at hrl hv2 ht2 hr2
  have hamul2 : (a : ℚ) * (cs.CHUNKSIZE_REAL : ℚ) ≤ cl := by
    have := hamul
    push_cast at this
    exact this
  have hcmul2 : (c : ℚ) * (cs.CHUNKSIZE_REAL : ℚ) ≤ ct := by
    have := hcmul
    push_cast at this
    exact this
  refine ⟨rows, ?_, hrl, hrows, ?_⟩
  · rw [if_neg (by omega), hfold]
    have hrc : toInt32 (u32 (u32 (b + 4294967296 - a) * u32 (d + 4294967296 - c)))
        = (((b - a) * (d - c) : ℕ) : ℤ) := by
      have h1 : u32 (b + 4294967296 - a) = b - a := by unfold u32; omega
      have h2 : u32 (d + 4294967296 - c) = d - c := by unfold u32; omega
      have h3 : (b - a) * (d - c) ≤ chunk.chunks.length := by
        rw [Nat.mul_comm]; exact hprod
      rw [h1, h2, u32_of_lt (by omega)]
      unfold toInt32
      rw [if_pos (by omega)]
    simp only [hrc, hv2, ht2, hr2]
  · intro r row k q hrow hq
    obtain ⟨id, hid, htex, hx, hy⟩ := hquads r row k q hrow hq
    simp only [hua, huc, hcur] at hid htex hx hy
    refine ⟨id, ?_, htex, ?_, ?_⟩
    · rw [← hid]
      congr 1
      rw [Nat.add_mul]
      omega
    · rintro ⟨n, hn⟩
      have hnW : n ≤ chunk.width := by
        have : (n : ℚ) ≤ (chunk.width : ℚ) := by rw [← hn]; exact hclw
        exact_mod_cast this
      have han : a * cs.CHUNKSIZE_REAL ≤ n := by
        have : ((a * cs.CHUNKSIZE_REAL : ℕ) : ℚ) ≤ (n : ℚ) := by
          push_cast
          rw [← hn]
          linarith
        exact_mod_cast this
      have hwhole : cw + (cl - ((a * cs.CHUNKSIZE_REAL : ℕ) : ℚ))
          = ((n - a * cs.CHUNKSIZE_REAL : ℕ) : ℚ) := by
        rw [Nat.cast_sub han, ← hn]
        ring
      exact hx (f2u_of_whole _ _ chunk.width hwhole (by omega) (by omega))
        (by push_cast; linarith)
    · rintro ⟨n, hn⟩
      have hnH : n ≤ chunk.height := by
        have : (n : ℚ) ≤ (chunk.height : ℚ) := by rw [← hn]; exact hcth
        exact_mod_cast this
      have hcn : c * cs.CHUNKSIZE_REAL ≤ n := by
        have : ((c * cs.CHUNKSIZE_REAL : ℕ) : ℚ) ≤ (n : ℚ) := by
          push_cast
          rw [← hn]
          linarith
        exact_mod_cast this
      have hwhole : ch + (ct - ((c * cs.CHUNKSIZE_REAL : ℕ) : ℚ))
          = ((n - c * cs.CHUNKSIZE_REAL : ℕ) : ℚ) := by
        rw [Nat.cast_sub hcn, ← hn]
        ring
      have hf := f2u_of_whole _ _ chunk.height hwhole (by omega) (by omega)
      exact hy (by rw [hf]; ring) (by push_cast; linarith)
        (by intro _; constructor <;> first | rfl | trivial)

end QuadLoopTheorems3

section IndexTheorems

variable {M C : Type}

/-! ### C29 -/

/-- C29: for a chunk as the atlas allocates it and a crop rectangle with non-negative size
inside the chunk, `renderpart` finishes (no read of `chunk.chunks` is out of range) and
writes its quads row by row; the quad of chunk row `i` and chunk column `j`, for
`firstchunkvertical ≤ i < lastchunkvertical` and
`firstchunkhorizontal ≤ j < lastchunkhorizontal`, is built from the id read at index
`i * horizontalchunks + j` of `chunk.chunks`, where
`horizontalchunks = ceil(chunk.width / CHUNKSIZE_REAL)`, and that index is smaller than
`horizontalchunks * ceil(chunk.height / CHUNKSIZE_REAL)`, the length of `chunk.chunks`. -/
theorem GLRenderContext.renderpart_reads_in_range (ops : MatrixOps M C ℚ) (cs : ChunkConsts)
    (ctx : GLRenderContext ℚ) (matrix : M) (chunk : TextureChunk)
    (cropleft croptop cropwidth cropheight tx ty : ℚ)
    (hA : chunk.Allocated cs ctx.largeTextureSize)
    (hC : CropInside chunk cropleft croptop cropwidth cropheight) :
    chunksAcross cs chunk.width = ⌈(chunk.width : ℚ) / (cs.CHUNKSIZE_REAL : ℚ)⌉₊ ∧
    chunksAcross cs chunk.height = ⌈(chunk.height : ℚ) / (cs.CHUNKSIZE_REAL : ℚ)⌉₊ ∧
    chunk.chunks.length = chunksAcross cs chunk.width * chunksAcross cs chunk.height ∧
    ∃ (g : PartGeometry) (rows : List (List Quad)) (ctx2 : GLRenderContext ℚ),
      renderpartGeometry cs ctx.largeTextureSize chunk cropleft croptop cropwidth cropheight
        tx ty = some g ∧
      GLRenderContext.renderpart ops cs ctx matrix chunk cropleft croptop cropwidth cropheight
        tx ty = some ctx2 ∧
      g.vertex_coords = rowsVertexFloats rows ∧
      g.texture_coords = rowsTextureFloats rows ∧
      rows.length = lastChunk cs croptop cropheight - firstChunk cs croptop ∧
      (∀ row ∈ rows, row.length = lastChunk cs cropleft cropwidth - firstChunk cs cropleft) ∧
      (∀ i j : Nat, firstChunk cs croptop ≤ i → i < lastChunk cs croptop cropheight →
        firstChunk cs cropleft ≤ j → j < lastChunk cs cropleft cropwidth →
        i * chunksAcross cs chunk.width + j
          < chunksAcross cs chunk.width * chunksAcross cs chunk.height ∧
        ∃ (id : Nat) (row : List Quad) (q : Quad),
          chunk.chunks[i * chunksAcross cs chunk.width + j]? = some id ∧
          rows[i - firstChunk cs croptop]? = some row ∧
          row[j - firstChunk cs cropleft]? = some q ∧
          (q.startU, q.startV, q.endU, q.endV) = quadTexture ctx.largeTextureSize cs.CHUNKSIZE id
            (if j = firstChunk cs cropleft then
              cropleft - ((firstChunk cs cropleft * cs.CHUNKSIZE_REAL : ℕ) : ℚ) else 0)
            (if i = firstChunk cs croptop then
              croptop - ((firstChunk cs croptop * cs.CHUNKSIZE_REAL : ℕ) : ℚ) else 0)
            (min (f2u (cropwidth
                + (cropleft - ((firstChunk cs cropleft * cs.CHUNKSIZE_REAL : ℕ) : ℚ)))
              - (j - firstChunk cs cropleft) * cs.CHUNKSIZE_REAL) cs.CHUNKSIZE_REAL)
            (min (f2u (cropheight
                + (croptop - ((firstChunk cs croptop * cs.CHUNKSIZE_REAL : ℕ) : ℚ)))
              - (i - firstChunk cs croptop) * cs.CHUNKSIZE_REAL) cs.CHUNKSIZE_REAL)) := by
  obtain ⟨rows, hg, hrl, hrows, hquads⟩ :=
    renderpartGeometry_quads cs ctx.largeTextureSize chunk cropleft croptop cropwidth
      cropheight tx ty hA hC
  obtain ⟨ctx2, hr, _, _, _⟩ :=
    GLRenderContext.renderpart_of_geometry ops cs ctx matrix chunk cropleft croptop cropwidth
      cropheight tx ty _ hg
  obtain ⟨hCR0, hCR, _, hW, hH, hL, _⟩ := hA
  refine ⟨?_, ?_, hL, _, rows, ctx2, hg, hr, rfl, rfl, hrl, hrows, ?_⟩
  · rw [chunksAcross_eq cs chunk.width hCR hW, natCeil_div_eq _ _ hCR0]
  · rw [chunksAcross_eq cs chunk.height hCR hH, natCeil_div_eq _ _ hCR0]
  · intro i j hi1 hi2 hj1 hj2
    have hri : i - firstChunk cs croptop < rows.length := by rw [hrl]; omega
    have hrow : rows[i - firstChunk cs croptop]? = some (rows[i - firstChunk cs croptop]) :=
      List.getElem?_eq_getElem hri
    have hlen := hrows _ (List.getElem_mem hri)
    have hkj : j - firstChunk cs cropleft < (rows[i - firstChunk cs croptop]).length := by
      rw [hlen]; omega
    have hq : (rows[i - firstChunk cs croptop])[j - firstChunk cs cropleft]?
        = some ((rows[i - firstChunk cs croptop])[j - firstChunk cs cropleft]) :=
      List.getElem?_eq_getElem hkj
    obtain ⟨id, hid, htex, _, _⟩ := hquads _ _ _ _ hrow hq
    have hi3 : firstChunk cs croptop + (i - firstChunk cs croptop) = i := by omega
    have hj3 : firstChunk cs cropleft + (j - firstChunk cs cropleft) = j := by omega
    rw [hi3, hj3] at hid
    have hjz : (j - firstChunk cs cropleft = 0) ↔ (j = firstChunk cs cropleft) := by omega
    have hiz : (i - firstChunk cs croptop = 0) ↔ (i = firstChunk cs croptop) := by omega
    simp only [hjz, hiz] at htex
    refine ⟨?_, id, _, _, hid, hrow, hq, htex⟩
    rw [← hL]
    obtain ⟨hlt, _⟩ := List.getElem?_eq_some.mp hid
    exact hlt

/-- C29, evaluated: the whole of `wideChunk`, two blocks side by side, on the example
context; the two quads are built from the ids at the indices 0 and 1. -/
theorem GLRenderContext.renderpart_reads_in_range_witness :
    wideChunk.Allocated exampleConsts exampleContext.largeTextureSize ∧
    CropInside wideChunk 0 0 200 50 ∧
    chunksAcross exampleConsts wideChunk.width = 2 ∧
    wideChunk.chunks.length = 2 ∧
    ∃ ctx2 : GLRenderContext ℚ,
      GLRenderContext.renderpart scaleTranslateOps exampleConsts exampleContext
        scaleTranslateOps.identity wideChunk 0 0 200 50 0 0 = some ctx2 := by
  have hA : wideChunk.Allocated exampleConsts exampleContext.largeTextureSize := by decide
  have hC : CropInside wideChunk 0 0 200 50 := by
    unfold CropInside
    norm_num [wideChunk]
  obtain ⟨_, _, _, _, _, ctx2, _, hr, _⟩ :=
    GLRenderContext.renderpart_reads_in_range scaleTranslateOps exampleConsts exampleContext
      scaleTranslateOps.identity wideChunk 0 0 200 50 0 0 hA hC
  exact ⟨hA, hC, by decide, rfl, ctx2, hr⟩

end IndexTheorems

section SpanTheorems

/-- The texture coordinates of a block inside the large texture, multiplied by the side of
the texture: the texel positions, none of which wraps. -/
theorem quadTexture_texels (lts CS id : Nat) (sU sV : ℚ) (aX aY : Nat)
    (hlts : lts < 4294967296) (hbps : 0 < lts / CS) (hid : id < (lts / CS) * (lts / CS))
    (hax : aX < CS) (hay : aY < CS) :
    (quadTexture lts CS id sU sV aX aY).1 * (lts : ℚ)
      = ((blockX (lts / CS) CS id : ℕ) : ℚ) + 1 + sU ∧
    (quadTexture lts CS id sU sV aX aY).2.1 * (lts : ℚ)
      = ((blockY (lts / CS) CS id : ℕ) : ℚ) + 1 + sV ∧
    (quadTexture lts CS id sU sV aX aY).2.2.1 * (lts : ℚ)
      = ((blockX (lts / CS) CS id : ℕ) : ℚ) + (aX : ℚ) + 1 ∧
    (quadTexture lts CS id sU sV aX aY).2.2.2 * (lts : ℚ)
      = ((blockY (lts / CS) CS id : ℕ) : ℚ) + (aY : ℚ) + 1 := by
  obtain ⟨_, hXle⟩ := blockX_exact lts CS id hlts hbps
  obtain ⟨_, hYle⟩ := blockY_exact lts CS id hlts hid
  have hX1 : u32 (blockX (lts / CS) CS id + 1) = blockX (lts / CS) CS id + 1 :=
    u32_of_lt (by omega)
  have hY1 : u32 (blockY (lts / CS) CS id + 1) = blockY (lts / CS) CS id + 1 :=
    u32_of_lt (by omega)
  have hXa : u32 (blockX (lts / CS) CS id + aX + 1) = blockX (lts / CS) CS id + aX + 1 :=
    u32_of_lt (by omega)
  have hYa : u32 (blockY (lts / CS) CS id + aY + 1) = blockY (lts / CS) CS id + aY + 1 :=
    u32_of_lt (by omega)
  have hl : (lts : ℚ) ≠ 0 := by
    have : 0 < lts := by
      rcases Nat.eq_zero_or_pos lts with h | h
      · rw [h, Nat.zero_div] at hbps
        exact absurd hbps (lt_irrefl 0)
      · exact h
    exact_mod_cast this.ne'
  simp only [quadTexture, hX1, hY1, hXa, hYa]
  push_cast
  refine ⟨?_, ?_, ?_, ?_⟩ <;> field_simp

/-! ### C30 -/

/-- C30 (counterexample): the crop `(0, 0, 50.5, 50)` of the example chunk (100 by 50,
content scale 1) lies inside the chunk, and `renderpart` writes one quad for it whose
texel span is `(endU - startU) * largeTextureSize = 50`, because `availXForTexture` is a
`uint32_t` and holds `50.5` as `50`, while `widthconsumed` is `50.5`: the quad is `50.5`
wide in object space. -/
theorem renderpart_truncates_texel_span :
    exampleChunk.Allocated exampleConsts 1024 ∧ exampleChunk.InAtlas exampleConsts 1024 ∧
    CropInside exampleChunk 0 0 (101 / 2) 50 ∧
    ∃ (g : PartGeometry) (q : Quad),
      renderpartGeometry exampleConsts 1024 exampleChunk 0 0 (101 / 2) 50 0 0 = some g ∧
      g.vertex_coords = q.vertexFloats ∧ g.texture_coords = q.textureFloats ∧
      q.endX = q.startX + (101 / 2) / exampleChunk.xContentScale ∧
      (q.endU - q.startU) * 1024 = 50 ∧
      (q.endU - q.startU) * 1024 ≠ 101 / 2 := by
  have hf : firstChunk exampleConsts 0 = 0 := by simp [firstChunk, f2u, u32]
  have hl : lastChunk exampleConsts 0 (101 / 2) = 1 := by
    have h : ⌊((0 : ℚ) + 101 / 2 + ((exampleConsts.CHUNKSIZE_REAL : ℕ) : ℚ) - 1)
        / ((exampleConsts.CHUNKSIZE_REAL : ℕ) : ℚ)⌋₊ = 1 := by
      rw [Nat.floor_eq_iff (by norm_num [exampleConsts])]
      norm_num [exampleConsts]
    unfold lastChunk f2u
    rw [h]
    rfl
  have hlv : lastChunk exampleConsts 0 50 = 1 := by
    have h : ⌊((0 : ℚ) + 50 + ((exampleConsts.CHUNKSIZE_REAL : ℕ) : ℚ) - 1)
        / ((exampleConsts.CHUNKSIZE_REAL : ℕ) : ℚ)⌋₊ = 1 := by
      rw [Nat.floor_eq_iff (by norm_num [exampleConsts])]
      norm_num [exampleConsts]
    unfold lastChunk f2u
    rw [h]
    rfl
  have ha : f2u ((101 : ℚ) / 2) = 50 := by
    have h : ⌊((101 : ℚ) / 2)⌋₊ = 50 := by
      rw [Nat.floor_eq_iff (by norm_num)]
      norm_num
    unfold f2u
    rw [h]
    rfl
  have hb : f2u (50 : ℚ) = 50 := f2u_natCast 50 (by norm_num)
  have hu0 : u32 0 = 0 := rfl
  have hu126 : u32 126 = 126 := rfl
  have hu1 : u32 4294967297 = 1 := rfl
  have hu11 : u32 1 = 1 := rfl
  have hca : chunksAcross exampleConsts 100 = 1 := by decide
  have htex : quadTexture 1024 128 10 0 0 50 50
      = (257 / 1024, 129 / 1024, 307 / 1024, 179 / 1024) := by
    simp only [quadTexture, blockX, blockY]
    norm_num [u32]
  refine ⟨by decide, by decide, by unfold CropInside; norm_num [exampleChunk], ?_⟩
  refine ⟨PartGeometry.mk 1 1
      (Quad.mk (257 / 1024) (129 / 1024) (307 / 1024) (179 / 1024) 0 0 (101 / 2) 50).vertexFloats
      (Quad.mk (257 / 1024) (129 / 1024) (307 / 1024) (179 / 1024) 0 0 (101 / 2)
        50).textureFloats,
    Quad.mk (257 / 1024) (129 / 1024) (307 / 1024) (179 / 1024) 0 0 (101 / 2) 50,
    ?_, rfl, rfl, ?_, ?_, ?_⟩
  · rw [renderpartGeometry_eq, hf, hl, hlv]
    simp [renderpartRow_eq, rowStart, rowHeightConsumed, renderpartColumn, exampleConsts,
      exampleChunk, hu0, hu126, hu1, hu11, ha, hb, Quad.vertexFloats, Quad.textureFloats,
      toInt32, htex]
    norm_num
  · norm_num [exampleChunk]
  · norm_num
  · norm_num

end SpanTheorems

section SpanTheorems2

/-- C30 (as amended): for a chunk as the atlas allocates it, with its blocks inside the large
texture, and every crop rectangle with non-negative size inside the chunk, `renderpart`
finishes, and for every quad it writes the sampled texels lie between the 1-texel inset of
the block of the quad and `CHUNKSIZE_REAL` texels after it, in both directions.  When the
right edge `cropleft + cropwidth` of the crop is a whole number, the texel span of the quad
equals the extent it consumes, `(endU - startU) * largeTextureSize = widthconsumed`, where
`widthconsumed` is the value with `endX = startX + widthconsumed / xContentScale`, so the
width of the quad is exactly its texel span divided by the content scale; when the bottom
edge `croptop + cropheight` is a whole number, the same holds for `heightconsumed`. -/
theorem renderpart_texel_span (cs : ChunkConsts) (lts : Nat) (chunk : TextureChunk)
    (cropleft croptop cropwidth cropheight tx ty : ℚ)
    (hA : chunk.Allocated cs lts) (hI : chunk.InAtlas cs lts)
    (hC : CropInside chunk cropleft croptop cropwidth cropheight) :
    ∃ (g : PartGeometry) (rows : List (List Quad)),
      renderpartGeometry cs lts chunk cropleft croptop cropwidth cropheight tx ty = some g ∧
      g.vertex_coords = rowsVertexFloats rows ∧
      g.texture_coords = rowsTextureFloats rows ∧
      ∀ row ∈ rows, ∀ q ∈ row, ∃ id ∈ chunk.chunks,
        ((blockX (lts / cs.CHUNKSIZE) cs.CHUNKSIZE id : ℕ) : ℚ) + 1 ≤ q.startU * (lts : ℚ) ∧
        q.endU * (lts : ℚ) ≤ ((blockX (lts / cs.CHUNKSIZE) cs.CHUNKSIZE id : ℕ) : ℚ) + 1
          + (cs.CHUNKSIZE_REAL : ℚ) ∧
        ((blockY (lts / cs.CHUNKSIZE) cs.CHUNKSIZE id : ℕ) : ℚ) + 1 ≤ q.startV * (lts : ℚ) ∧
        q.endV * (lts : ℚ) ≤ ((blockY (lts / cs.CHUNKSIZE) cs.CHUNKSIZE id : ℕ) : ℚ) + 1
          + (cs.CHUNKSIZE_REAL : ℚ) ∧
        ((∃ n : ℕ, cropleft + cropwidth = (n : ℚ)) →
          ∃ widthconsumed : ℚ,
            q.endX = q.startX + widthconsumed / chunk.xContentScale ∧
            (q.endU - q.startU) * (lts : ℚ) = widthconsumed ∧
            q.endX - q.startX = (q.endU - q.startU) * (lts : ℚ) / chunk.xContentScale) ∧
        ((∃ n : ℕ, croptop + cropheight = (n : ℚ)) →
          ∃ heightconsumed : ℚ,
            q.endY = q.startY + heightconsumed / chunk.yContentScale ∧
            (q.endV - q.startV) * (lts : ℚ) = heightconsumed ∧
            q.endY - q.startY = (q.endV - q.startV) * (lts : ℚ) / chunk.yContentScale) := by
  obtain ⟨rows, hg, _, _, hquads⟩ :=
    renderpartGeometry_quads cs lts chunk cropleft croptop cropwidth cropheight tx ty hA hC
  refine ⟨_, rows, hg, rfl, rfl, ?_⟩
  intro row hrow q hq
  obtain ⟨r, hr⟩ := List.mem_iff_getElem?.mp hrow
  obtain ⟨k, hk⟩ := List.mem_iff_getElem?.mp hq
  obtain ⟨id, hid, htex, hx, hy⟩ := hquads r row k q hr hk
  obtain ⟨hCR0, _, hbps, hW, hH, _, _⟩ := hA
  obtain ⟨hlts, hCS, hids⟩ := hI
  obtain ⟨hcl, hcw, hclw, hct, hch, hcth⟩ := hC
  obtain ⟨_, hamul, _⟩ := firstChunk_eq cs chunk.width cropleft hCR0 hW hcl (by linarith)
  obtain ⟨_, hcmul, _⟩ := firstChunk_eq cs chunk.height croptop hCR0 hH hct (by linarith)
  have hsU : 0 ≤ (if k = 0 then
      cropleft - ((firstChunk cs cropleft * cs.CHUNKSIZE_REAL : ℕ) : ℚ) else 0) := by
    split_ifs
    · linarith
    · exact le_refl 0
  have hsV : 0 ≤ (if r = 0 then
      croptop - ((firstChunk cs croptop * cs.CHUNKSIZE_REAL : ℕ) : ℚ) else 0) := by
    split_ifs
    · linarith
    · exact le_refl 0
  have haX : min (f2u (cropwidth
      + (cropleft - ((firstChunk cs cropleft * cs.CHUNKSIZE_REAL : ℕ) : ℚ)))
      - k * cs.CHUNKSIZE_REAL) cs.CHUNKSIZE_REAL ≤ cs.CHUNKSIZE_REAL := Nat.min_le_right _ _
  have haY : min (f2u (cropheight
      + (croptop - ((firstChunk cs croptop * cs.CHUNKSIZE_REAL : ℕ) : ℚ)))
      - r * cs.CHUNKSIZE_REAL) cs.CHUNKSIZE_REAL ≤ cs.CHUNKSIZE_REAL := Nat.min_le_right _ _
  generalize (if k = 0 then
      cropleft - ((firstChunk cs cropleft * cs.CHUNKSIZE_REAL : ℕ) : ℚ) else 0) = sU
    at htex hx hsU
  generalize (if r = 0 then
      croptop - ((firstChunk cs croptop * cs.CHUNKSIZE_REAL : ℕ) : ℚ) else 0) = sV
    at htex hy hsV
  generalize min (f2u (cropwidth
      + (cropleft - ((firstChunk cs cropleft * cs.CHUNKSIZE_REAL : ℕ) : ℚ)))
      - k * cs.CHUNKSIZE_REAL) cs.CHUNKSIZE_REAL = aX at htex hx haX
  generalize min (f2u (cropheight
      + (croptop - ((firstChunk cs croptop * cs.CHUNKSIZE_REAL : ℕ) : ℚ)))
      - r * cs.CHUNKSIZE_REAL) cs.CHUNKSIZE_REAL = aY at htex hy haY
  have hmem : id ∈ chunk.chunks := List.mem_iff_getElem?.mpr ⟨_, hid⟩
  obtain ⟨t1, t2, t3, t4⟩ := quadTexture_texels lts cs.CHUNKSIZE id sU sV aX aY hlts hbps
    (hids id hmem) (by omega) (by omega)
  have h1 : q.startU = (quadTexture lts cs.CHUNKSIZE id sU sV aX aY).1 :=
    congrArg Prod.fst htex
  have h2 : q.startV = (quadTexture lts cs.CHUNKSIZE id sU sV aX aY).2.1 :=
    congrArg (fun p => p.2.1) htex
  have h3 : q.endU = (quadTexture lts cs.CHUNKSIZE id sU sV aX aY).2.2.1 :=
    congrArg (fun p => p.2.2.1) htex
  have h4 : q.endV = (quadTexture lts cs.CHUNKSIZE id sU sV aX aY).2.2.2 :=
    congrArg (fun p => p.2.2.2) htex
  rw [← h1] at t1
  rw [← h2] at t2
  rw [← h3] at t3
  rw [← h4] at t4
  have haXq : (aX : ℚ) ≤ (cs.CHUNKSIZE_REAL : ℚ) := by exact_mod_cast haX
  have haYq : (aY : ℚ) ≤ (cs.CHUNKSIZE_REAL : ℚ) := by exact_mod_cast haY
  refine ⟨id, hmem, by rw [t1]; linarith, by rw [t3]; linarith, by rw [t2]; linarith,
    by rw [t4]; linarith, ?_, ?_⟩
  · intro hwhole
    have hspan : (q.endU - q.startU) * (lts : ℚ) = (aX : ℚ) - sU := by
      rw [sub_mul, t1, t3]
      ring
    refine ⟨(aX : ℚ) - sU, hx hwhole, hspan, ?_⟩
    rw [hspan, hx hwhole]
    ring
  · intro hwhole
    have hspan : (q.endV - q.startV) * (lts : ℚ) = (aY : ℚ) - sV := by
      rw [sub_mul, t2, t4]
      ring
    refine ⟨(aY : ℚ) - sV, hy hwhole, hspan, ?_⟩
    rw [hspan, hy hwhole]
    ring

/-- C30, evaluated: the whole of the example chunk (100 by 50, content scale 1) in a large
texture of side 1024. -/
theorem renderpart_texel_span_witness :
    exampleChunk.Allocated exampleConsts 1024 ∧ exampleChunk.InAtlas exampleConsts 1024 ∧
    CropInside exampleChunk 0 0 100 50 ∧
    ∃ (g : PartGeometry) (rows : List (List Quad)),
      renderpartGeometry exampleConsts 1024 exampleChunk 0 0 100 50 0 0 = some g ∧
      g.vertex_coords = rowsVertexFloats rows ∧
      ∀ row ∈ rows, ∀ q ∈ row,
        q.endX - q.startX = (q.endU - q.startU) * 1024 / exampleChunk.xContentScale ∧
        q.endY - q.startY = (q.endV - q.startV) * 1024 / exampleChunk.yContentScale := by
  have hA : exampleChunk.Allocated exampleConsts 1024 := by decide
  have hI : exampleChunk.InAtlas exampleConsts 1024 := by decide
  have hC : CropInside exampleChunk 0 0 100 50 := by
    unfold CropInside
    norm_num [exampleChunk]
  obtain ⟨g, rows, hg, hv, _, hall⟩ :=
    renderpart_texel_span exampleConsts 1024 exampleChunk 0 0 100 50 0 0 hA hI hC
  refine ⟨hA, hI, hC, g, rows, hg, hv, ?_⟩
  intro row hrow q hq
  obtain ⟨_, _, _, _, _, _, hx, hy⟩ := hall row hrow q hq
  obtain ⟨_, _, _, hx2⟩ := hx ⟨100, by norm_num⟩
  obtain ⟨_, _, _, hy2⟩ := hy ⟨50, by norm_num⟩
  exact ⟨by exact_mod_cast hx2, by exact_mod_cast hy2⟩

end SpanTheorems2

end Lightspark
